import Mathlib

/-!
# Deferred renderer orchestration (`Runtime/Rendering/Renderer.cpp`)

A shallow embedding of the scene collector (`Renderables_Acquire`, `Renderables_Sort`) and of the
frame orchestrator (`Render` and the passes it calls).  Renderer members are fields of the
`Renderer` record; every call made on the RHI device or pipeline is appended to a command log,
and every pass function records its own entry in a second log, so that the order of invocation
can be stated.

Conventions of the embedding:
* C++ `float` values that the control flow inspects (albedo alpha, colours) are exact rationals;
* resource identifiers are `unsigned int`, read modulo `2 ^ 32`;
* `std::sort` belongs to the C++ standard library and is a parameter constrained by the contract
  the standard gives it;
* the sort comparator dereferences a locked shader without a check; that dereference of a null
  pointer is the result `none`, which `Renderables_Sort` and `Renderables_Acquire` propagate;
* the pass functions are private and run only after `Render` has checked the device and the
  camera, on buckets filled by `Renderables_Acquire`; they are total functions that are exact
  under these preconditions.
-/

namespace Directus

/-! ## Math primitives -/

/-- Two-component vector (`Math::Vector2`). -/
structure Vector2 where
  x : ℚ
  y : ℚ
deriving DecidableEq

/-- Three-component vector (`Math::Vector3`). -/
structure Vector3 where
  x : ℚ
  y : ℚ
  z : ℚ
deriving DecidableEq

/-- Four-component vector (`Math::Vector4`), used for colours. -/
structure Vector4 where
  x : ℚ
  y : ℚ
  z : ℚ
  w : ℚ
deriving DecidableEq

/-- Axis-aligned bounding box given by its two extreme corners (`Math::BoundingBox`). -/
structure BoundingBox where
  min : Vector3
  max : Vector3
deriving DecidableEq

/-! ## World objects and their components -/

/-- Face culling modes named by the renderer. -/
inductive Cull_Mode where
  | Cull_None
  | Cull_Front
  | Cull_Back
deriving DecidableEq

/-- Compilation state of a shader; the renderer only ever tests for `Shader_Built`. -/
inductive Shader_State where
  | Shader_Built
  | Shader_NotBuilt
deriving DecidableEq

/-- Light kinds tested by the renderer. -/
inductive LightType where
  | LightType_Directional
  | LightType_Point
  | LightType_Spot
deriving DecidableEq

/-- Geometry model resource: its identifier and whether its GPU buffers exist. -/
structure Model where
  resourceID : Nat
  hasVertexBuffer : Bool
  hasIndexBuffer : Bool
deriving DecidableEq

/-- Shader variation resource referenced (weakly) by a material. -/
structure ShaderVariation where
  resourceID : Nat
  state : Shader_State
deriving DecidableEq

/-- Material resource.  The field `shader` is the result of `GetShader().lock()`, which is null
when the weak reference has expired. -/
structure Material where
  resourceID : Nat
  shader : Option ShaderVariation
  colorAlbedo : Vector4
  cullMode : Cull_Mode
deriving DecidableEq

/-- Renderable component.  The field `inViewFrustrum` is the answer of the active camera's
`IsInViewFrustrum(renderable)`. -/
structure Renderable where
  material : Option Material
  geometryModel : Option Model
  castShadows : Bool
  geometryIndexCount : Nat
  geometryIndexOffset : Nat
  geometryVertexOffset : Nat
  geometryBB : BoundingBox
  inViewFrustrum : Bool
deriving DecidableEq

/-- Light component.  The field `shadowMaps` lists, per cascade slot, whether
`ShadowMap_GetRenderTexture` yields a texture. -/
structure Light where
  lightType : LightType
  castShadows : Bool
  shadowMapCount : Nat
  shadowMaps : List Bool
deriving DecidableEq

/-- Skybox component; `hasTexture` tells whether `GetTexture()` is non-null. -/
structure Skybox where
  hasTexture : Bool
deriving DecidableEq

/-- Camera component. -/
structure Camera where
  clearColor : Vector4
  pickingRayOrigin : Vector3
  pickingRayEnd : Vector3
deriving DecidableEq

/-- Scene object.  The field `id` stands for the object's identity (its address).  The fields
`gizmoInViewFrustrum` and `gizmoTooSmall` are the outcomes of the two culling tests the gizmo pass
computes from the object's position and the active camera. -/
structure Actor where
  id : Nat
  renderable : Option Renderable
  light : Option Light
  skybox : Option Skybox
  camera : Option Camera
  gizmoInViewFrustrum : Bool
  gizmoTooSmall : Bool
deriving DecidableEq

/-- Reading of an `unsigned int` resource identifier. -/
def Model.Resource_GetID (m : Model) : Nat := m.resourceID % 2 ^ 32

/-- Reading of an `unsigned int` resource identifier. -/
def ShaderVariation.Resource_GetID (s : ShaderVariation) : Nat := s.resourceID % 2 ^ 32

/-- Reading of an `unsigned int` resource identifier. -/
def Material.Resource_GetID (m : Material) : Nat := m.resourceID % 2 ^ 32

/-- Answer of `Renderable::Material_Exists`. -/
def Renderable.Material_Exists (r : Renderable) : Bool := r.material.isSome

/-! ## Render buckets -/

/-- Bucket kinds used as keys of the member `m_actors`. -/
inductive RenderableType where
  | Renderable_ObjectOpaque
  | Renderable_ObjectTransparent
  | Renderable_Skybox
  | Renderable_Light
  | Renderable_Camera
deriving DecidableEq

/-- The member `m_actors`, a map from bucket kind to a vector of actors.  A key that is absent
from the map is `none`; a key that is present with an empty vector is `some []`. -/
structure ActorMap where
  objectOpaque : Option (List Actor)
  objectTransparent : Option (List Actor)
  skybox : Option (List Actor)
  light : Option (List Actor)
  camera : Option (List Actor)
deriving DecidableEq

/-- The map without any key (the state after `m_actors.clear()`). -/
def ActorMap.clear : ActorMap := ⟨none, none, none, none, none⟩

/-- Lookup of a key without inserting it. -/
def ActorMap.find (m : ActorMap) : RenderableType → Option (List Actor)
  | .Renderable_ObjectOpaque => m.objectOpaque
  | .Renderable_ObjectTransparent => m.objectTransparent
  | .Renderable_Skybox => m.skybox
  | .Renderable_Light => m.light
  | .Renderable_Camera => m.camera

/-- Assignment of the vector stored under a key. -/
def ActorMap.insert (m : ActorMap) (k : RenderableType) (v : List Actor) : ActorMap :=
  match k with
  | .Renderable_ObjectOpaque => { m with objectOpaque := some v }
  | .Renderable_ObjectTransparent => { m with objectTransparent := some v }
  | .Renderable_Skybox => { m with skybox := some v }
  | .Renderable_Light => { m with light := some v }
  | .Renderable_Camera => { m with camera := some v }

/-- Answer of `m_actors.empty()`: true exactly when the map holds no key. -/
def ActorMap.empty (m : ActorMap) : Bool :=
  m.objectOpaque.isNone && m.objectTransparent.isNone && m.skybox.isNone && m.light.isNone
    && m.camera.isNone

/-- The vector that `m_actors[k]` designates (empty when the key was absent). -/
def ActorMap.at (m : ActorMap) (k : RenderableType) : List Actor := (m.find k).getD []

/-- The map after an access `m_actors[k]`: `operator[]` inserts an absent key. -/
def ActorMap.touch (m : ActorMap) (k : RenderableType) : ActorMap := m.insert k (m.at k)

/-- The map after `m_actors[k].emplace_back(actor)`. -/
def ActorMap.emplace_back (m : ActorMap) (k : RenderableType) (actor : Actor) : ActorMap :=
  m.insert k (m.at k ++ [actor])

/-! ## Draw sort key and `Renderables_Sort` -/

/-- Conversion of an `unsigned int` to `unsigned long long` followed by a left shift, in 64-bit
unsigned arithmetic. -/
def shl64 (x n : Nat) : Nat := ((x % 2 ^ 64) <<< n) % 2 ^ 64

/-- The packed key computed by the comparator from the three resource identifiers. -/
def sortKey (keyModel keyShader keyMaterial : Nat) : Nat :=
  shl64 keyModel 48 ||| shl64 keyShader 32 ||| shl64 keyMaterial 16

/-- The comparator lambda passed to `std::sort`.  It answers `false` when a renderable, a
geometry model or a material is missing on either side; it dereferences the locked shader of both
materials without a check, which is `none` when one of them is null. -/
def Renderables_Sort.comparator (a b : Actor) : Option Bool :=
  match a.renderable, b.renderable with
  | some a_renderable, some b_renderable =>
    match a_renderable.geometryModel, b_renderable.geometryModel with
    | some a_geometryModel, some b_geometryModel =>
      match a_renderable.material, b_renderable.material with
      | some a_material, some b_material =>
        match a_material.shader, b_material.shader with
        | some a_shader, some b_shader =>
          let a_key := sortKey a_geometryModel.Resource_GetID a_shader.Resource_GetID
            a_material.Resource_GetID
          let b_key := sortKey b_geometryModel.Resource_GetID b_shader.Resource_GetID
            b_material.Resource_GetID
          some (decide (a_key < b_key))
        | _, _ => none
      | _, _ => some false
    | _, _ => some false
  | _, _ => some false

/-- Signature of `std::sort` over a vector of actors with a comparator that may fail. -/
abbrev StdSort := (Actor → Actor → Option Bool) → List Actor → Option (List Actor)

/-- The comparator is defined on all pairs of `l` and is a strict weak ordering there:
irreflexive, transitive, and with a transitive incomparability relation. -/
structure StrictWeakOn (comp : Actor → Actor → Option Bool) (l : List Actor) : Prop where
  defined : ∀ a ∈ l, ∀ b ∈ l, (comp a b).isSome = true
  irrefl : ∀ a ∈ l, comp a a = some false
  trans : ∀ a ∈ l, ∀ b ∈ l, ∀ c ∈ l,
    comp a b = some true → comp b c = some true → comp a c = some true
  incomp_trans : ∀ a ∈ l, ∀ b ∈ l, ∀ c ∈ l,
    comp a b = some false → comp b a = some false →
    comp b c = some false → comp c b = some false →
    comp a c = some false ∧ comp c a = some false

/-- What the C++ standard promises of `std::sort`, all of it for a comparator that is a strict
weak ordering on the range and only for such a comparator.  `returns`: the call completes.
`perm`: it leaves a permutation of the range.  `sorted`: no element of the result is ordered
before an earlier one.  Nothing is promised about the relative order of equivalent elements, and
nothing at all when the comparator is not a strict weak ordering on the range: the behaviour is
then undefined, and neither completion nor the content of the range is known. -/
structure StdSortContract (stdSort : StdSort) : Prop where
  returns : ∀ comp l, StrictWeakOn comp l → (stdSort comp l).isSome = true
  perm : ∀ comp l l', StrictWeakOn comp l → stdSort comp l = some l' → l'.Perm l
  sorted : ∀ comp l l', StrictWeakOn comp l → stdSort comp l = some l' →
    l'.Pairwise (fun a b => comp b a = some false)

/-- Body of `Renderer::Renderables_Sort`: vectors of at most two actors are returned untouched,
longer ones are handed to `std::sort` with the key comparator. -/
def Renderables_Sort (stdSort : StdSort) (renderables : List Actor) : Option (List Actor) :=
  if renderables.length ≤ 2 then some renderables
  else stdSort Renderables_Sort.comparator renderables

/-- Insertion of `x` into a sorted list, after every element that compares below it. -/
def insertSorted (comp : Actor → Actor → Option Bool) (x : Actor) :
    List Actor → Option (List Actor)
  | [] => some [x]
  | y :: ys =>
    match comp y x with
    | none => none
    | some true => (insertSorted comp x ys).map (fun t => y :: t)
    | some false => some (x :: y :: ys)

/-- Insertion sort, one admissible `std::sort` (it keeps equivalent elements in input order). -/
def insertionSort (comp : Actor → Actor → Option Bool) : List Actor → Option (List Actor)
  | [] => some []
  | x :: xs =>
    match insertionSort comp xs with
    | none => none
    | some t => insertSorted comp x t

/-- Insertion sort of the reversed range, another admissible `std::sort` (it reverses the input
order of equivalent elements). -/
def reverseInsertionSort (comp : Actor → Actor → Option Bool) (l : List Actor) :
    Option (List Actor) :=
  insertionSort comp l.reverse

/-- The call `Renderables_Sort(bucket)` stays within what `std::sort` is specified for: the
bucket has at most two actors, so that `std::sort` is not called, or the comparator is a strict
weak ordering on the bucket. -/
def SortDefined (bucket : List Actor) : Prop :=
  bucket.length ≤ 2 ∨ StrictWeakOn Renderables_Sort.comparator bucket

/-- Pixel formats; the pooled targets all use `Texture_Format_R16G16B16A16_FLOAT`. -/
inductive Texture_Format where
  | Texture_Format_R16G16B16A16_FLOAT
  | Texture_Format_Other (code : Nat)
deriving DecidableEq

/-- A render texture object; `id` is the identity of the object a `shared_ptr` designates. -/
structure RHI_RenderTexture where
  id : Nat
  width : Nat
  height : Nat
  format : Texture_Format
deriving DecidableEq

/-- The renderer members that hold a pooled render texture.  A pass parameter of type
`shared_ptr<RHI_RenderTexture>&` is the name of the member it is bound to. -/
inductive TexSlot where
  | Full_Light
  | Full_TAA_Current
  | Full_TAA_History
  | Full_FinalFrame
  | Half_Shadows
  | Half_SSDO
  | Half_Spare
  | Quarter_Blur1
  | Quarter_Blur2
deriving DecidableEq

/-- Channels of the G-buffer. -/
inductive GBuffer_Texture_Type where
  | GBuffer_Target_Unknown
  | GBuffer_Target_Albedo
  | GBuffer_Target_Normal
  | GBuffer_Target_Material
  | GBuffer_Target_Velocity
  | GBuffer_Target_Depth
deriving DecidableEq

/-- Material texture slots bound by the G-buffer pass. -/
inductive TextureType where
  | TextureType_Albedo
  | TextureType_Roughness
  | TextureType_Metallic
  | TextureType_Normal
  | TextureType_Height
  | TextureType_Occlusion
  | TextureType_Emission
  | TextureType_Mask
deriving DecidableEq

/-- What a `SetTexture` call binds as shader input. -/
inductive TextureRef where
  | renderTexture (t : RHI_RenderTexture)
  | gbuffer (t : GBuffer_Texture_Type)
  | shadowMap (index : Nat)
  | materialSlot (materialID : Nat) (type : TextureType)
  | texNoiseNormal
  | texWhite
  | texBlack
  | gizmoTexLightDirectional
  | gizmoTexLightPoint
  | gizmoTexLightSpot
  | skyboxTexture
  | fontTexture
  | null
deriving DecidableEq

/-- What a `SetRenderTarget` call binds as output. -/
inductive RenderTargetRef where
  | renderTexture (t : RHI_RenderTexture)
  | shadowMap (index : Nat)
deriving DecidableEq

/-- Depth-stencil view given to `SetRenderTarget`. -/
inductive DepthStencilRef where
  | none
  | ofShadowMap (index : Nat)
  | ofGBufferDepth
deriving DecidableEq

/-- Shaders owned by the renderer, and the per-material shader variation. -/
inductive ShaderRef where
  | shaderLight
  | shaderTransparent
  | shaderLightDepth
  | shaderFont
  | shaderSSDO
  | shaderShadowMapping
  | shaderLine
  | shaderTexture
  | shaderFXAA
  | shaderLuma
  | shaderSharpening
  | shaderChromaticAberration
  | shaderBlurBox
  | shaderBlurGaussian
  | shaderBlurBilateralGaussian
  | shaderBloom_Bright
  | shaderBloom_BlurBlend
  | shaderCorrection
  | shaderTAA
  | variation (resourceID : Nat)
deriving DecidableEq

/-- Samplers owned by the renderer. -/
inductive SamplerRef where
  | samplerPointClampAlways
  | samplerPointClampGreater
  | samplerBilinearClampGreater
  | samplerBilinearWrapGreater
  | samplerBilinearClampAlways
  | samplerAnisotropicWrapAlways
deriving DecidableEq

/-- Vertex and index buffers the passes bind. -/
inductive GeometryRef where
  | quad
  | grid
  | gizmoRectLight
  | font
  | lineVertexBuffer
  | model (resourceID : Nat)
deriving DecidableEq

/-- Viewports the passes bind. -/
inductive ViewportRef where
  | ofRenderTexture (t : RHI_RenderTexture)
  | ofShadowMap (index : Nat)
  | ofGBuffer (t : GBuffer_Texture_Type)
deriving DecidableEq

/-- Constant buffers the passes bind. -/
inductive ConstantBufferRef where
  | bufferGlobal
  | ofShader (s : ShaderRef)
  | perObject (shaderID : Nat)
deriving DecidableEq

/-- Primitive topologies named by the renderer. -/
inductive PrimitiveTopology_Mode where
  | PrimitiveTopology_TriangleList
  | PrimitiveTopology_LineList
deriving DecidableEq

/-- Orthographic view-projection handed to the lighting shader: unmodified, or multiplied by a
jitter translation. -/
inductive ProjectionRef where
  | viewProjection_Orthographic
  | jittered (translation : Vector3)
deriving DecidableEq

/-- A vertex of the line accumulator (`RHI_Vertex_PosCol`). -/
structure RHI_Vertex_PosCol where
  pos : Vector3
  color : Vector4
deriving DecidableEq

/-- One call on the RHI device, the RHI pipeline or a GPU resource, with the arguments that
identify what is bound or drawn. -/
inductive Cmd where
  | ClearBackBuffer (color : Vector4)
  | Present
  | EventBegin (name : String)
  | EventEnd
  | Set_AlphaBlendingEnabled (enable : Bool)
  | DrawIndexed (indexCount indexOffset vertexOffset : Nat)
  | Draw (vertexCount : Nat)
  | SetShader (s : ShaderRef)
  | SetVertexShader (s : ShaderRef)
  | SetPixelShader (s : ShaderRef)
  | SetInputLayout (s : ShaderRef)
  | SetPrimitiveTopology (t : PrimitiveTopology_Mode)
  | SetCullMode (c : Cull_Mode)
  | SetFillMode_Solid
  | SetState_pipelineLine
  | SetSampler (s : SamplerRef)
  | SetTexture (t : TextureRef)
  | SetRenderTarget (target : RenderTargetRef) (depthStencil : DepthStencilRef) (clear : Bool)
  | SetViewport (v : ViewportRef)
  | SetIndexBuffer (g : GeometryRef)
  | SetVertexBuffer (g : GeometryRef)
  | SetConstantBuffer (b : ConstantBufferRef) (slot : Nat)
  | GBuffer_SetAsRenderTarget
  | PipelineClear
  | Bind
  | UpdateGlobalBuffer (resolution : Option (Nat × Nat)) (blur_sigma : ℚ) (blur_direction : Vector2)
  | UpdateShaderBuffer (s : ShaderRef)
  | UpdateLightDepthBuffer (actorID cascade : Nat)
  | UpdateLightBuffer (projection : ProjectionRef) (ssr : Bool)
  | UpdatePerObjectBuffer (shaderID : Nat) (actorID : Nat)
  | CreateLineVertexBuffer (vertexCount : Nat)
  | UpdateLineVertexBuffer (vertices : List RHI_Vertex_PosCol)
  | FontSetText
  | CreateGizmoRectangle
  | CreateGBuffer (width height : Nat)
  | CreateQuad (width height : Nat)
  | CreateRenderTexture (t : RHI_RenderTexture)
deriving DecidableEq

/-- Functions of the renderer that `Render` calls, used to record the order of invocation. -/
inductive PassName where
  | Pass_DepthDirectionalLight
  | Pass_GBuffer
  | Pass_PreLight
  | Pass_ShadowMapping
  | Pass_SSDO
  | Pass_BlurBox
  | Pass_BlurGaussian
  | Pass_BlurBilateralGaussian
  | Pass_Light
  | Pass_Transparent
  | Pass_PostLight
  | Pass_TAA
  | Pass_Bloom
  | Pass_Correction
  | Pass_FXAA
  | Pass_Sharpening
  | Pass_ChromaticAberration
  | Pass_GBufferVisualize
  | Pass_Lines
  | Pass_Gizmos
  | Pass_PerformanceMetrics
deriving DecidableEq

/-! ## Renderer state -/

/-- Feature flags (`RenderMode`); each is one bit of the member `m_flags`. -/
inductive RenderMode where
  | Render_Albedo
  | Render_Normal
  | Render_Material
  | Render_Velocity
  | Render_Depth
  | Render_Physics
  | Render_AABB
  | Render_PickingRay
  | Render_SceneGrid
  | Render_PerformanceMetrics
  | Render_Light
  | Render_Bloom
  | Render_FXAA
  | Render_SSDO
  | Render_SSR
  | Render_TAA
  | Render_Correction
  | Render_Sharpening
  | Render_ChromaticAberration
deriving DecidableEq

/-- Position of the bit of a flag. -/
def RenderMode.bit : RenderMode → Nat
  | .Render_Albedo => 0
  | .Render_Normal => 1
  | .Render_Material => 2
  | .Render_Velocity => 3
  | .Render_Depth => 4
  | .Render_Physics => 5
  | .Render_AABB => 6
  | .Render_PickingRay => 7
  | .Render_SceneGrid => 8
  | .Render_PerformanceMetrics => 9
  | .Render_Light => 10
  | .Render_Bloom => 11
  | .Render_FXAA => 12
  | .Render_SSDO => 13
  | .Render_SSR => 14
  | .Render_TAA => 15
  | .Render_Correction => 16
  | .Render_Sharpening => 17
  | .Render_ChromaticAberration => 18

/-- The GPU device object; `initialized` is the answer of `IsInitialized()`. -/
structure RHI_Device where
  initialized : Bool
deriving DecidableEq

/-- The renderer: its members, the two settings it reads (`Settings::Get().Resolution_Get()`),
the profiler counter it increments, the log of RHI calls issued so far and the record of the
pass functions entered so far.  The field `renderTexturesCreated` counts the render-texture
objects created so far and gives each new object its identity. -/
structure Renderer where
  m_rhiDevice : Option RHI_Device
  m_camera : Option Camera
  m_actors : ActorMap
  m_flags : Nat
  m_frameNum : Nat
  m_isOddFrame : Bool
  m_isRendering : Bool
  m_shaderLightState : Shader_State
  m_renderTexFull_Light : RHI_RenderTexture
  m_renderTexFull_TAA_Current : RHI_RenderTexture
  m_renderTexFull_TAA_History : RHI_RenderTexture
  m_renderTexFull_FinalFrame : RHI_RenderTexture
  m_renderTexHalf_Shadows : RHI_RenderTexture
  m_renderTexHalf_SSDO : RHI_RenderTexture
  m_renderTexHalf_Spare : RHI_RenderTexture
  m_renderTexQuarter_Blur1 : RHI_RenderTexture
  m_renderTexQuarter_Blur2 : RHI_RenderTexture
  m_lineVertices : List RHI_Vertex_PosCol
  m_lineVertexCount : Nat
  m_quadIndexCount : Nat
  m_gridIndexCount : Nat
  m_fontIndexCount : Nat
  resolutionWidth : Nat
  resolutionHeight : Nat
  rendererMeshesRendered : Nat
  renderTexturesCreated : Nat
  log : List Cmd
  calls : List PassName
deriving DecidableEq

namespace Renderer

/-- Answer of `Flags_IsSet(flag)`, also written `m_flags & flag` in the source. -/
def Flags_IsSet (r : Renderer) (flag : RenderMode) : Bool := r.m_flags.testBit flag.bit

/-- Appends one RHI call to the log. -/
def emit (r : Renderer) (c : Cmd) : Renderer := { r with log := r.log ++ [c] }

/-- Appends several RHI calls to the log, in order. -/
def emits (r : Renderer) (cs : List Cmd) : Renderer := { r with log := r.log ++ cs }

/-- Records the entry into a pass function. -/
def enter (r : Renderer) (p : PassName) : Renderer := { r with calls := r.calls ++ [p] }

/-- The render texture a member currently designates. -/
def tex (r : Renderer) : TexSlot → RHI_RenderTexture
  | .Full_Light => r.m_renderTexFull_Light
  | .Full_TAA_Current => r.m_renderTexFull_TAA_Current
  | .Full_TAA_History => r.m_renderTexFull_TAA_History
  | .Full_FinalFrame => r.m_renderTexFull_FinalFrame
  | .Half_Shadows => r.m_renderTexHalf_Shadows
  | .Half_SSDO => r.m_renderTexHalf_SSDO
  | .Half_Spare => r.m_renderTexHalf_Spare
  | .Quarter_Blur1 => r.m_renderTexQuarter_Blur1
  | .Quarter_Blur2 => r.m_renderTexQuarter_Blur2

/-- Makes a member designate another render texture. -/
def setTex (r : Renderer) (slot : TexSlot) (t : RHI_RenderTexture) : Renderer :=
  match slot with
  | .Full_Light => { r with m_renderTexFull_Light := t }
  | .Full_TAA_Current => { r with m_renderTexFull_TAA_Current := t }
  | .Full_TAA_History => { r with m_renderTexFull_TAA_History := t }
  | .Full_FinalFrame => { r with m_renderTexFull_FinalFrame := t }
  | .Half_Shadows => { r with m_renderTexHalf_Shadows := t }
  | .Half_SSDO => { r with m_renderTexHalf_SSDO := t }
  | .Half_Spare => { r with m_renderTexHalf_Spare := t }
  | .Quarter_Blur1 => { r with m_renderTexQuarter_Blur1 := t }
  | .Quarter_Blur2 => { r with m_renderTexQuarter_Blur2 := t }

/-- The effect of `a.swap(b)` on two `shared_ptr` members. -/
def swapTex (r : Renderer) (a b : TexSlot) : Renderer :=
  (r.setTex a (r.tex b)).setTex b (r.tex a)

/-- The effect of an access `m_actors[k]` on the map. -/
def touch (r : Renderer) (k : RenderableType) : Renderer :=
  { r with m_actors := r.m_actors.touch k }

end Renderer

/-! ## Scene collector -/

/-- One iteration of the loop of `Renderables_Acquire` over the submitted actors, acting on the
bucket map and the active camera. -/
def Renderables_Acquire.step (st : ActorMap × Option Camera) (actorShared : Option Actor) :
    ActorMap × Option Camera :=
  match actorShared with
  | none => st
  | some actor =>
    let st1 : ActorMap × Option Camera :=
      match actor.renderable with
      | some renderable =>
        let isTransparent : Bool :=
          if !renderable.Material_Exists then false
          else match renderable.material with
            | some material => decide (material.colorAlbedo.w < 1)
            | none => false
        (st.1.emplace_back
          (if isTransparent then .Renderable_ObjectTransparent else .Renderable_ObjectOpaque)
          actor, st.2)
      | none => st
    let st2 : ActorMap × Option Camera :=
      match actor.light with
      | some _ => (st1.1.emplace_back .Renderable_Light actor, st1.2)
      | none => st1
    let st3 : ActorMap × Option Camera :=
      match actor.skybox with
      | some _ => (st2.1.emplace_back .Renderable_Skybox actor, st2.2)
      | none => st2
    match actor.camera with
    | some camera => (st3.1.emplace_back .Renderable_Camera actor, some camera)
    | none => st3

/-- Body of `Renderer::Renderables_Acquire`: clears the map and the camera, classifies every
submitted actor, then sorts the two object buckets in place. -/
def Renderables_Acquire (stdSort : StdSort) (r : Renderer) (actorsVec : List (Option Actor)) :
    Option Renderer :=
  let st := actorsVec.foldl Renderables_Acquire.step (ActorMap.clear, none)
  match Renderables_Sort stdSort (st.1.at .Renderable_ObjectOpaque) with
  | none => none
  | some sortedOpaque =>
    let m1 := st.1.insert .Renderable_ObjectOpaque sortedOpaque
    match Renderables_Sort stdSort (m1.at .Renderable_ObjectTransparent) with
    | none => none
    | some sortedTransparent =>
      some { r with
        m_actors := m1.insert .Renderable_ObjectTransparent sortedTransparent
        m_camera := st.2 }

/-! ## Helpers of the passes

The pass functions are private members that only `Render` calls, after it has checked the device
and the active camera; they are modelled under that precondition.  Profiling scopes
(`TIME_BLOCK_*`) have no effect on the modelled state. -/

namespace TAA_Sequence

/-- The loop of `Halton`, run for at most `fuel` iterations. -/
def Halton.loop (base : Nat) : Nat → Nat → ℚ → ℚ → ℚ
  | 0, _, _, r => r
  | fuel + 1, index, f, r =>
    if index > 0 then
      Halton.loop base fuel (index / base) (f / (base : ℚ))
        (r + f / (base : ℚ) * ((index % base : Nat) : ℚ))
    else r

/-- Body of `TAA_Sequence::Halton` for a non-negative index.  The loop divides the index by the
base at every iteration, so `index` iterations are enough for every base of at least two. -/
def Halton (index base : Nat) : ℚ := Halton.loop base index index 1 0

/-- Body of `TAA_Sequence::Halton2D`. -/
def Halton2D (index baseA baseB : Nat) : Vector2 := ⟨Halton index baseA, Halton index baseB⟩

end TAA_Sequence

namespace Renderer

/-- Body of `Renderer::SetGlobalBuffer`: rewrites the global constant buffer and binds it to
slot 0.  The default arguments are declared in `Renderer.h`, which is not part of the sources:
the resolution is `none` where a call leaves it to its default, and a call that leaves out the
blur sigma or direction passes zero. -/
def SetGlobalBuffer (r : Renderer) (resolution : Option (Nat × Nat)) (blur_sigma : ℚ)
    (blur_direction : Vector2) : Renderer :=
  r.emits [.UpdateGlobalBuffer resolution blur_sigma blur_direction,
    .SetConstantBuffer .bufferGlobal 0]

/-- The search loop of `GetLightDirectional` over the light bucket.  Every actor of the bucket
carries a light component (this is how `Renderables_Acquire` fills it), which the source
dereferences without a check. -/
def GetLightDirectional.find : List Actor → Option Light
  | [] => none
  | actor :: rest =>
    match actor.light with
    | some light =>
      if light.lightType = .LightType_Directional then some light
      else GetLightDirectional.find rest
    | none => GetLightDirectional.find rest

/-- Result of `Renderer::GetLightDirectional`. -/
def GetLightDirectional (r : Renderer) : Option Light :=
  GetLightDirectional.find (r.m_actors.at .Renderable_Light)

/-- Result of `Renderer::GetSkybox`. -/
def GetSkybox (r : Renderer) : Option Skybox :=
  match r.m_actors.at .Renderable_Skybox with
  | [] => none
  | skyboxActor :: _ => skyboxActor.skybox

/-- The texture `GetSkybox()->GetTexture()`. -/
def skyboxTextureRef (s : Skybox) : TextureRef :=
  if s.hasTexture then .skyboxTexture else .null

/-- The texture `light->ShadowMap_GetRenderTexture(i)`, null when the slot holds none. -/
def shadowMapRef (light : Light) (i : Nat) : TextureRef :=
  if light.shadowMaps.getD i false then .shadowMap i else .null

/-- Body of the four-argument `Renderer::AddLine`. -/
def AddLine (r : Renderer) (from_ to_ : Vector3) (colorFrom colorTo : Vector4) : Renderer :=
  { r with m_lineVertices := r.m_lineVertices ++ [⟨from_, colorFrom⟩, ⟨to_, colorTo⟩] }

/-- Modelled from the spec: the three-argument overload of `AddLine` is declared in `Renderer.h`,
which is not part of the sources; it gives both end points the same colour. -/
def AddLine3 (r : Renderer) (from_ to_ : Vector3) (color : Vector4) : Renderer :=
  r.AddLine from_ to_ color color

/-- Body of `Renderer::AddBoundigBox`. -/
def AddBoundigBox (r : Renderer) (box : BoundingBox) (color : Vector4) : Renderer :=
  let boundPoint1 := box.min
  let boundPoint2 := box.max
  let boundPoint3 : Vector3 := ⟨boundPoint1.x, boundPoint1.y, boundPoint2.z⟩
  let boundPoint4 : Vector3 := ⟨boundPoint1.x, boundPoint2.y, boundPoint1.z⟩
  let boundPoint5 : Vector3 := ⟨boundPoint2.x, boundPoint1.y, boundPoint1.z⟩
  let boundPoint6 : Vector3 := ⟨boundPoint1.x, boundPoint2.y, boundPoint2.z⟩
  let boundPoint7 : Vector3 := ⟨boundPoint2.x, boundPoint1.y, boundPoint2.z⟩
  let boundPoint8 : Vector3 := ⟨boundPoint2.x, boundPoint2.y, boundPoint1.z⟩
  let r := r.AddLine3 boundPoint6 boundPoint2 color
  let r := r.AddLine3 boundPoint2 boundPoint8 color
  let r := r.AddLine3 boundPoint8 boundPoint4 color
  let r := r.AddLine3 boundPoint4 boundPoint6 color
  let r := r.AddLine3 boundPoint3 boundPoint7 color
  let r := r.AddLine3 boundPoint7 boundPoint5 color
  let r := r.AddLine3 boundPoint5 boundPoint1 color
  let r := r.AddLine3 boundPoint1 boundPoint3 color
  let r := r.AddLine3 boundPoint6 boundPoint3 color
  let r := r.AddLine3 boundPoint2 boundPoint7 color
  let r := r.AddLine3 boundPoint8 boundPoint5 color
  r.AddLine3 boundPoint4 boundPoint1 color

/-! ## Geometry passes -/

/-- One iteration of the actor loop of `Pass_DepthDirectionalLight` for cascade `i`; the second
component is the local `currentlyBoundGeometry`.  `UpdateLightDepthBuffer actor.id i` is the
call `m_shaderLightDepth->UpdateBuffer(&buffer)` with the buffer built from the transform of
`actor`, the view of the light and the projection of cascade `i`. -/
def Pass_DepthDirectionalLight.actorStep (i : Nat) (st : Renderer × Nat) (actor : Actor) :
    Renderer × Nat :=
  match actor.renderable with
  | none => st
  | some renderable =>
    match renderable.material with
    | none => st
    | some material =>
      match renderable.geometryModel with
      | none => st
      | some geometry =>
        if !geometry.hasVertexBuffer || !geometry.hasIndexBuffer then st
        else if !renderable.castShadows then st
        else if material.colorAlbedo.w < 1 then st
        else
          let st1 : Renderer × Nat :=
            if st.2 ≠ geometry.Resource_GetID then
              (st.1.emits [.SetIndexBuffer (.model geometry.Resource_GetID),
                .SetVertexBuffer (.model geometry.Resource_GetID)], geometry.Resource_GetID)
            else st
          (st1.1.emits [.UpdateLightDepthBuffer actor.id i,
            .SetConstantBuffer (.ofShader .shaderLightDepth) 0,
            .Bind,
            .DrawIndexed renderable.geometryIndexCount renderable.geometryIndexOffset
              renderable.geometryVertexOffset], st1.2)

/-- One iteration of the cascade loop of `Pass_DepthDirectionalLight`. -/
def Pass_DepthDirectionalLight.cascadeStep (light : Light) (actors : List Actor)
    (st : Renderer × Nat) (i : Nat) : Renderer × Nat :=
  let st1 : Renderer × Nat :=
    if light.shadowMaps.getD i false then
      (st.1.emits [.SetRenderTarget (.shadowMap i) (.ofShadowMap i) true,
        .SetViewport (.ofShadowMap i)], st.2)
    else st
  actors.foldl (Pass_DepthDirectionalLight.actorStep i) st1

/-- Body of `Renderer::Pass_DepthDirectionalLight`. -/
def Pass_DepthDirectionalLight (r : Renderer) (light : Option Light) : Renderer :=
  let r := r.enter .Pass_DepthDirectionalLight
  match light with
  | none => r
  | some light =>
    if !light.castShadows then r
    else
      let actors := r.m_actors.at .Renderable_ObjectOpaque
      let r := r.touch .Renderable_ObjectOpaque
      if actors.isEmpty then r
      else
        let r := r.emits [.EventBegin "Pass_DepthDirectionalLight",
          .SetShader .shaderLightDepth,
          .SetPrimitiveTopology .PrimitiveTopology_TriangleList]
        let st := (List.range light.shadowMapCount).foldl
          (Pass_DepthDirectionalLight.cascadeStep light actors) (r, 0)
        st.1.emit .EventEnd

/-- The locals of `Pass_GBuffer` that cache the bindings of the previous draw. -/
structure GBufferCache where
  vertexShaderBound : Bool
  currentlyBoundGeometry : Nat
  currentlyBoundShader : Nat
  currentlyBoundMaterial : Nat
deriving DecidableEq

/-- The eight `SetTexture` calls that bind the texture slots of a material. -/
def materialTextureCmds (materialID : Nat) : List Cmd :=
  [.SetTexture (.materialSlot materialID .TextureType_Albedo),
   .SetTexture (.materialSlot materialID .TextureType_Roughness),
   .SetTexture (.materialSlot materialID .TextureType_Metallic),
   .SetTexture (.materialSlot materialID .TextureType_Normal),
   .SetTexture (.materialSlot materialID .TextureType_Height),
   .SetTexture (.materialSlot materialID .TextureType_Occlusion),
   .SetTexture (.materialSlot materialID .TextureType_Emission),
   .SetTexture (.materialSlot materialID .TextureType_Mask)]

/-- The block "Bind geometry" of `Pass_GBuffer`. -/
def Pass_GBuffer.bindGeometry (st : Renderer × GBufferCache) (model : Model) :
    Renderer × GBufferCache :=
  if st.2.currentlyBoundGeometry ≠ model.Resource_GetID then
    (st.1.emits [.SetIndexBuffer (.model model.Resource_GetID),
      .SetVertexBuffer (.model model.Resource_GetID)],
     { st.2 with currentlyBoundGeometry := model.Resource_GetID })
  else st

/-- The block "Bind shader" of `Pass_GBuffer`. -/
def Pass_GBuffer.bindShader (st : Renderer × GBufferCache) (shader : ShaderVariation) :
    Renderer × GBufferCache :=
  if st.2.currentlyBoundShader ≠ shader.Resource_GetID then
    let st1 : Renderer × GBufferCache :=
      if !st.2.vertexShaderBound then
        (st.1.emit (.SetVertexShader (.variation shader.Resource_GetID)),
         { st.2 with vertexShaderBound := true })
      else st
    (st1.1.emit (.SetPixelShader (.variation shader.Resource_GetID)),
     { st1.2 with currentlyBoundShader := shader.Resource_GetID })
  else st

/-- The block "Bind textures" of `Pass_GBuffer`. -/
def Pass_GBuffer.bindMaterial (st : Renderer × GBufferCache) (material : Material) :
    Renderer × GBufferCache :=
  if st.2.currentlyBoundMaterial ≠ material.Resource_GetID then
    (st.1.emits (materialTextureCmds material.Resource_GetID),
     { st.2 with currentlyBoundMaterial := material.Resource_GetID })
  else st

/-- The draw that ends an iteration of `Pass_GBuffer`: per-object buffer, bind, indexed draw,
and the profiler counter. -/
def Pass_GBuffer.draw (r : Renderer) (actor : Actor) (renderable : Renderable)
    (shader : ShaderVariation) : Renderer :=
  let r := r.emits [.UpdatePerObjectBuffer shader.Resource_GetID actor.id,
    .SetConstantBuffer (.perObject shader.Resource_GetID) 1,
    .Bind,
    .DrawIndexed renderable.geometryIndexCount renderable.geometryIndexOffset
      renderable.geometryVertexOffset]
  { r with rendererMeshesRendered := r.rendererMeshesRendered + 1 }

/-- One iteration of the actor loop of `Pass_GBuffer`. -/
def Pass_GBuffer.actorStep (st : Renderer × GBufferCache) (actor : Actor) :
    Renderer × GBufferCache :=
  match actor.renderable with
  | none => st
  | some renderable =>
    match renderable.material with
    | none => st
    | some material =>
      match material.shader with
      | none => st
      | some shader =>
        if shader.state ≠ .Shader_Built then st
        else
          match renderable.geometryModel with
          | none => st
          | some model =>
            if !model.hasVertexBuffer || !model.hasIndexBuffer then st
            else if !renderable.inViewFrustrum then st
            else
              let st : Renderer × GBufferCache :=
                (st.1.emit (.SetCullMode material.cullMode), st.2)
              let st := Pass_GBuffer.bindGeometry st model
              let st := Pass_GBuffer.bindShader st shader
              let st := Pass_GBuffer.bindMaterial st material
              (Pass_GBuffer.draw st.1 actor renderable shader, st.2)

/-- Body of `Renderer::Pass_GBuffer`. -/
def Pass_GBuffer (r : Renderer) : Renderer :=
  let r := r.enter .Pass_GBuffer
  match r.m_rhiDevice with
  | none => r
  | some _ =>
    let actors := r.m_actors.at .Renderable_ObjectOpaque
    let r := r.touch .Renderable_ObjectOpaque
    if actors.isEmpty then r
    else
      let r := r.emits [.EventBegin "Pass_GBuffer",
        .GBuffer_SetAsRenderTarget,
        .SetSampler .samplerAnisotropicWrapAlways,
        .SetFillMode_Solid,
        .SetPrimitiveTopology .PrimitiveTopology_TriangleList]
      let r := r.SetGlobalBuffer none 0 ⟨0, 0⟩
      let st := actors.foldl Pass_GBuffer.actorStep (r, ⟨false, 0, 0, 0⟩)
      st.1.emit .EventEnd

/-! ## Pre-light passes and blur filters -/

/-- Body of `Renderer::Pass_ShadowMapping`. -/
def Pass_ShadowMapping (r : Renderer) (texOut : TexSlot) (inDirectionalLight : Option Light) :
    Renderer :=
  let r := r.enter .Pass_ShadowMapping
  match inDirectionalLight with
  | none => r
  | some light =>
    r.emits [.EventBegin "Pass_Shadowing",
      .SetRenderTarget (.renderTexture (r.tex texOut)) .none false,
      .SetViewport (.ofRenderTexture (r.tex texOut)),
      .SetShader .shaderShadowMapping,
      .SetTexture (.gbuffer .GBuffer_Target_Normal),
      .SetTexture (.gbuffer .GBuffer_Target_Depth),
      .SetTexture (shadowMapRef light 0),
      .SetTexture (shadowMapRef light 1),
      .SetTexture (shadowMapRef light 2),
      .SetSampler .samplerPointClampGreater,
      .SetSampler .samplerBilinearClampGreater,
      .UpdateShaderBuffer .shaderShadowMapping,
      .SetConstantBuffer (.ofShader .shaderShadowMapping) 0,
      .Bind,
      .DrawIndexed r.m_quadIndexCount 0 0,
      .EventEnd]

/-- Body of `Renderer::Pass_SSDO`. -/
def Pass_SSDO (r : Renderer) (texOut : TexSlot) : Renderer :=
  let r := r.enter .Pass_SSDO
  r.emits [.EventBegin "Pass_SSDO",
    .SetRenderTarget (.renderTexture (r.tex texOut)) .none false,
    .SetViewport (.ofRenderTexture (r.tex texOut)),
    .SetShader .shaderSSDO,
    .SetTexture (.renderTexture r.m_renderTexFull_FinalFrame),
    .SetTexture (.gbuffer .GBuffer_Target_Normal),
    .SetTexture (.gbuffer .GBuffer_Target_Depth),
    .SetTexture .texNoiseNormal,
    .SetSampler .samplerBilinearClampGreater,
    .SetSampler .samplerBilinearWrapGreater,
    .UpdateShaderBuffer .shaderSSDO,
    .SetConstantBuffer (.ofShader .shaderSSDO) 0,
    .Bind,
    .DrawIndexed r.m_quadIndexCount 0 0,
    .EventEnd]

/-- Body of `Renderer::Pass_BlurBox`. -/
def Pass_BlurBox (r : Renderer) (texIn texOut : TexSlot) (sigma : ℚ) : Renderer :=
  let r := r.enter .Pass_BlurBox
  let r := r.emit (.EventBegin "Pass_Blur")
  let r := r.SetGlobalBuffer (some ((r.tex texIn).width, (r.tex texIn).height)) sigma ⟨0, 0⟩
  r.emits [.SetRenderTarget (.renderTexture (r.tex texOut)) .none false,
    .SetViewport (.ofRenderTexture (r.tex texOut)),
    .SetShader .shaderBlurBox,
    .SetTexture (.renderTexture (r.tex texIn)),
    .SetSampler .samplerBilinearClampAlways,
    .Bind,
    .DrawIndexed r.m_quadIndexCount 0 0,
    .EventEnd]

/-- The guard shared by the two Gaussian blurs: the textures differ in width, height or
format. -/
def blurMismatch (a b : RHI_RenderTexture) : Bool :=
  a.width != b.width || a.height != b.height || a.format != b.format

/-- Body of `Renderer::Pass_BlurGaussian`. -/
def Pass_BlurGaussian (r : Renderer) (texIn texOut : TexSlot) (sigma : ℚ) : Renderer :=
  let r := r.enter .Pass_BlurGaussian
  if blurMismatch (r.tex texIn) (r.tex texOut) then r
  else
    let r := r.emits [.EventBegin "Pass_BlurGaussian",
      .SetViewport (.ofRenderTexture (r.tex texIn))]
    let r := r.SetGlobalBuffer (some ((r.tex texIn).width, (r.tex texIn).height)) sigma ⟨1, 0⟩
    let r := r.emits [.SetRenderTarget (.renderTexture (r.tex texOut)) .none false,
      .SetShader .shaderBlurGaussian,
      .SetTexture (.renderTexture (r.tex texIn)),
      .Bind,
      .DrawIndexed r.m_quadIndexCount 0 0]
    let r := r.SetGlobalBuffer (some ((r.tex texIn).width, (r.tex texIn).height)) sigma ⟨0, 1⟩
    let r := r.emits [.SetRenderTarget (.renderTexture (r.tex texIn)) .none false,
      .SetPixelShader .shaderBlurGaussian,
      .SetTexture (.renderTexture (r.tex texOut)),
      .Bind,
      .DrawIndexed r.m_quadIndexCount 0 0]
    let r := r.swapTex texIn texOut
    r.emit .EventEnd

/-- Body of `Renderer::Pass_BlurBilateralGaussian`. -/
def Pass_BlurBilateralGaussian (r : Renderer) (texIn texOut : TexSlot) (sigma pixelStride : ℚ) :
    Renderer :=
  let r := r.enter .Pass_BlurBilateralGaussian
  if blurMismatch (r.tex texIn) (r.tex texOut) then r
  else
    let r := r.emits [.EventBegin "Pass_BlurBilateralGaussian",
      .SetViewport (.ofRenderTexture (r.tex texIn))]
    let r := r.SetGlobalBuffer (some ((r.tex texIn).width, (r.tex texIn).height)) sigma
      ⟨pixelStride, 0⟩
    let r := r.emits [.SetRenderTarget (.renderTexture (r.tex texOut)) .none false,
      .SetShader .shaderBlurBilateralGaussian,
      .SetTexture (.renderTexture (r.tex texIn)),
      .SetTexture (.gbuffer .GBuffer_Target_Depth),
      .Bind,
      .DrawIndexed r.m_quadIndexCount 0 0]
    let r := r.SetGlobalBuffer (some ((r.tex texIn).width, (r.tex texIn).height)) sigma
      ⟨0, pixelStride⟩
    let r := r.emits [.SetRenderTarget (.renderTexture (r.tex texIn)) .none false,
      .SetPixelShader .shaderBlurBilateralGaussian,
      .SetTexture (.renderTexture (r.tex texOut)),
      .SetTexture (.gbuffer .GBuffer_Target_Depth),
      .Bind,
      .DrawIndexed r.m_quadIndexCount 0 0]
    let r := r.swapTex texIn texOut
    r.emit .EventEnd

/-- Body of `Renderer::Pass_PreLight`. -/
def Pass_PreLight (r : Renderer) (texIn_Spare texOut_Shadows texOut_SSAO : TexSlot) : Renderer :=
  let r := r.enter .Pass_PreLight
  let r := r.emits [.EventBegin "Pass_PreLight",
    .SetIndexBuffer .quad,
    .SetVertexBuffer .quad,
    .SetPrimitiveTopology .PrimitiveTopology_TriangleList,
    .SetCullMode .Cull_Back]
  let lightDir := r.GetLightDirectional
  let r := r.touch .Renderable_Light
  let r :=
    match lightDir with
    | some _ =>
      let r := r.Pass_ShadowMapping texIn_Spare r.GetLightDirectional
      r.Pass_BlurBilateralGaussian texIn_Spare texOut_Shadows 1 1
    | none => r
  let r :=
    if r.Flags_IsSet .Render_SSDO then
      let r := r.Pass_SSDO texIn_Spare
      r.Pass_BlurBilateralGaussian texIn_Spare texOut_SSAO 3 2
    else r
  r.emit .EventEnd

/-! ## Lighting resolve and transparency -/

/-- Body of `Renderer::Pass_Light`. -/
def Pass_Light (r : Renderer) (texShadows texSSDO texOut : TexSlot) : Renderer :=
  let r := r.enter .Pass_Light
  if r.m_shaderLightState ≠ .Shader_Built then r
  else
    let r := r.emit (.EventBegin "Pass_Light")
    let m_projectionJittered : ProjectionRef :=
      if r.Flags_IsSet .Render_TAA then
        let samples := 16
        let index := r.m_frameNum % samples
        let halton := TAA_Sequence.Halton2D index 2 3
        let jitter : Vector2 := ⟨halton.x * 2 - 1, halton.y * 2 - 1⟩
        let jitter : Vector2 :=
          ⟨jitter.x / ((r.tex texOut).width : ℚ), jitter.y / ((r.tex texOut).height : ℚ)⟩
        .jittered ⟨jitter.x, -jitter.y, 0⟩
      else .viewProjection_Orthographic
    let r := r.emit (.UpdateLightBuffer m_projectionJittered (r.Flags_IsSet .Render_SSR))
    let skybox := r.GetSkybox
    let r := r.touch .Renderable_Light
    let r := r.touch .Renderable_Skybox
    r.emits [.SetRenderTarget (.renderTexture (r.tex texOut)) .none false,
      .SetViewport (.ofRenderTexture (r.tex texOut)),
      .SetShader .shaderLight,
      .SetTexture (.gbuffer .GBuffer_Target_Albedo),
      .SetTexture (.gbuffer .GBuffer_Target_Normal),
      .SetTexture (.gbuffer .GBuffer_Target_Depth),
      .SetTexture (.gbuffer .GBuffer_Target_Material),
      .SetTexture (.renderTexture (r.tex texShadows)),
      .SetTexture (if r.Flags_IsSet .Render_SSDO then .renderTexture (r.tex texSSDO)
        else .texBlack),
      .SetTexture (.renderTexture r.m_renderTexFull_FinalFrame),
      .SetTexture (match skybox with
        | some s => skyboxTextureRef s
        | none => .texWhite),
      .SetSampler .samplerBilinearClampAlways,
      .SetSampler .samplerPointClampGreater,
      .SetConstantBuffer (.ofShader .shaderLight) 0,
      .Bind,
      .DrawIndexed r.m_quadIndexCount 0 0,
      .EventEnd]

/-- One iteration of the actor loop of `Pass_Transparent`. -/
def Pass_Transparent.actorStep (r : Renderer) (actor : Actor) : Renderer :=
  match actor.renderable with
  | none => r
  | some renderable =>
    match renderable.material with
    | none => r
    | some material =>
      match renderable.geometryModel with
      | none => r
      | some model =>
        if !model.hasVertexBuffer || !model.hasIndexBuffer then r
        else if !renderable.inViewFrustrum then r
        else
          let r := r.emits [.SetCullMode material.cullMode,
            .SetIndexBuffer (.model model.Resource_GetID),
            .SetVertexBuffer (.model model.Resource_GetID),
            .UpdateShaderBuffer .shaderTransparent,
            .SetConstantBuffer (.ofShader .shaderTransparent) 0,
            .Bind,
            .DrawIndexed renderable.geometryIndexCount renderable.geometryIndexOffset
              renderable.geometryVertexOffset]
          { r with rendererMeshesRendered := r.rendererMeshesRendered + 1 }

/-- Body of `Renderer::Pass_Transparent`. -/
def Pass_Transparent (r : Renderer) (texOut : TexSlot) : Renderer :=
  let r := r.enter .Pass_Transparent
  let lightDir := r.GetLightDirectional
  let r := r.touch .Renderable_Light
  match lightDir with
  | none => r
  | some _ =>
    let actors_transparent := r.m_actors.at .Renderable_ObjectTransparent
    let r := r.touch .Renderable_ObjectTransparent
    if actors_transparent.isEmpty then r
    else
      let skybox := r.GetSkybox
      let r := r.touch .Renderable_Skybox
      let r := r.emits [.EventBegin "Pass_Transparent",
        .Set_AlphaBlendingEnabled true,
        .SetShader .shaderTransparent,
        .SetRenderTarget (.renderTexture (r.tex texOut)) .ofGBufferDepth false,
        .SetTexture (.gbuffer .GBuffer_Target_Depth),
        .SetTexture (match skybox with
          | some s => skyboxTextureRef s
          | none => .null),
        .SetSampler .samplerBilinearClampGreater]
      let r := actors_transparent.foldl Pass_Transparent.actorStep r
      r.emits [.Set_AlphaBlendingEnabled false, .EventEnd]

/-! ## Post-process chain -/

/-- Body of `Renderer::Pass_TAA`. -/
def Pass_TAA (r : Renderer) (texIn texOut : TexSlot) : Renderer :=
  let r := r.enter .Pass_TAA
  let r := r.emit (.EventBegin "Pass_TAA")
  let r := r.SetGlobalBuffer
    (some (r.m_renderTexFull_TAA_Current.width, r.m_renderTexFull_TAA_Current.height)) 0 ⟨0, 0⟩
  let r := r.emits [.SetRenderTarget (.renderTexture r.m_renderTexFull_TAA_Current) .none false,
    .SetViewport (.ofRenderTexture r.m_renderTexFull_TAA_Current),
    .SetShader .shaderTAA,
    .SetSampler .samplerBilinearClampAlways,
    .SetTexture (.renderTexture r.m_renderTexFull_TAA_History),
    .SetTexture (.renderTexture (r.tex texIn)),
    .Bind,
    .DrawIndexed r.m_quadIndexCount 0 0]
  let r := r.SetGlobalBuffer (some ((r.tex texOut).width, (r.tex texOut).height)) 0 ⟨0, 0⟩
  let r := r.emits [.SetRenderTarget (.renderTexture (r.tex texOut)) .none false,
    .SetViewport (.ofRenderTexture (r.tex texOut)),
    .SetPixelShader .shaderTexture,
    .SetSampler .samplerPointClampGreater,
    .SetTexture (.renderTexture r.m_renderTexFull_TAA_Current),
    .Bind,
    .DrawIndexed r.m_quadIndexCount 0 0]
  let r := r.swapTex .Full_TAA_Current .Full_TAA_History
  r.emit .EventEnd

/-- Body of `Renderer::Pass_Bloom`. -/
def Pass_Bloom (r : Renderer) (texIn texOut : TexSlot) : Renderer :=
  let r := r.enter .Pass_Bloom
  let r := r.emits [.EventBegin "Pass_Bloom",
    .SetPrimitiveTopology .PrimitiveTopology_TriangleList,
    .SetCullMode .Cull_Back,
    .SetSampler .samplerBilinearClampAlways]
  let r := r.SetGlobalBuffer (some ((r.tex texOut).width, (r.tex texOut).height)) 0 ⟨0, 0⟩
  let r := r.emits [.SetRenderTarget (.renderTexture r.m_renderTexQuarter_Blur1) .none false,
    .SetViewport (.ofRenderTexture r.m_renderTexQuarter_Blur1),
    .SetShader .shaderBloom_Bright,
    .SetTexture (.renderTexture (r.tex texIn)),
    .Bind,
    .DrawIndexed r.m_quadIndexCount 0 0]
  let r := r.Pass_BlurGaussian .Quarter_Blur1 .Quarter_Blur2 2
  let r := r.SetGlobalBuffer (some ((r.tex texOut).width, (r.tex texOut).height)) 0 ⟨0, 0⟩
  r.emits [.SetRenderTarget (.renderTexture (r.tex texOut)) .none false,
    .SetViewport (.ofRenderTexture (r.tex texOut)),
    .SetPixelShader .shaderBloom_BlurBlend,
    .SetTexture (.renderTexture (r.tex texIn)),
    .SetTexture (.renderTexture r.m_renderTexQuarter_Blur2),
    .Bind,
    .DrawIndexed r.m_quadIndexCount 0 0,
    .EventEnd]

/-- The commands shared by the three single-draw stages (`Pass_Correction`, `Pass_Sharpening`,
`Pass_ChromaticAberration`), which differ in the event name, the sampler and the pixel shader. -/
def singleDrawStage (r : Renderer) (name : String) (sampler : SamplerRef) (shader : ShaderRef)
    (texIn texOut : TexSlot) : Renderer :=
  r.emits [.EventBegin name,
    .SetPrimitiveTopology .PrimitiveTopology_TriangleList,
    .SetCullMode .Cull_Back,
    .SetSampler sampler,
    .SetRenderTarget (.renderTexture (r.tex texOut)) .none false,
    .SetViewport (.ofRenderTexture (r.tex texOut)),
    .SetPixelShader shader,
    .SetTexture (.renderTexture (r.tex texIn)),
    .Bind,
    .DrawIndexed r.m_quadIndexCount 0 0,
    .EventEnd]

/-- Body of `Renderer::Pass_Correction`. -/
def Pass_Correction (r : Renderer) (texIn texOut : TexSlot) : Renderer :=
  (r.enter .Pass_Correction).singleDrawStage "Pass_Correction" .samplerPointClampAlways
    .shaderCorrection texIn texOut

/-- Body of `Renderer::Pass_FXAA`. -/
def Pass_FXAA (r : Renderer) (texIn texOut : TexSlot) : Renderer :=
  let r := r.enter .Pass_FXAA
  let r := r.emits [.EventBegin "Pass_FXAA",
    .SetPrimitiveTopology .PrimitiveTopology_TriangleList,
    .SetCullMode .Cull_Back,
    .SetSampler .samplerBilinearClampAlways]
  let r := r.SetGlobalBuffer (some ((r.tex texIn).width, (r.tex texIn).height)) 0 ⟨0, 0⟩
  let r := r.emits [.SetRenderTarget (.renderTexture (r.tex texOut)) .none false,
    .SetViewport (.ofRenderTexture (r.tex texOut)),
    .SetPixelShader .shaderLuma,
    .SetTexture (.renderTexture (r.tex texIn)),
    .Bind,
    .DrawIndexed r.m_quadIndexCount 0 0,
    .SetRenderTarget (.renderTexture (r.tex texIn)) .none false,
    .SetViewport (.ofRenderTexture (r.tex texIn)),
    .SetPixelShader .shaderFXAA,
    .SetTexture (.renderTexture (r.tex texOut)),
    .Bind,
    .DrawIndexed r.m_quadIndexCount 0 0]
  let r := r.swapTex texIn texOut
  r.emit .EventEnd

/-- Body of `Renderer::Pass_ChromaticAberration`. -/
def Pass_ChromaticAberration (r : Renderer) (texIn texOut : TexSlot) : Renderer :=
  (r.enter .Pass_ChromaticAberration).singleDrawStage "Pass_ChromaticAberration"
    .samplerBilinearClampAlways .shaderChromaticAberration texIn texOut

/-- Body of `Renderer::Pass_Sharpening`. -/
def Pass_Sharpening (r : Renderer) (texIn texOut : TexSlot) : Renderer :=
  (r.enter .Pass_Sharpening).singleDrawStage "Pass_Sharpening" .samplerBilinearClampAlways
    .shaderSharpening texIn texOut

/-- One flag-gated block of `Pass_PostLight`: when the flag is set, `SwapTargets()` exchanges
the two members the parameters are bound to and the stage runs; otherwise nothing happens. -/
def Pass_PostLight.stage (r : Renderer) (flag : RenderMode) (texIn texOut : TexSlot)
    (pass : Renderer → TexSlot → TexSlot → Renderer) : Renderer :=
  if r.Flags_IsSet flag then pass (r.swapTex texOut texIn) texIn texOut else r

/-- Body of `Renderer::Pass_PostLight`. -/
def Pass_PostLight (r : Renderer) (texIn texOut : TexSlot) : Renderer :=
  let r := r.enter .Pass_PostLight
  let r := r.emits [.EventBegin "Pass_PostLight",
    .SetPrimitiveTopology .PrimitiveTopology_TriangleList,
    .SetCullMode .Cull_Back,
    .SetVertexBuffer .quad,
    .SetIndexBuffer .quad,
    .SetShader .shaderBloom_Bright]
  let r := r.SetGlobalBuffer (some ((r.tex texIn).width, (r.tex texIn).height)) 0 ⟨0, 0⟩
  let r := r.swapTex texOut texIn
  let r := Pass_PostLight.stage r .Render_TAA texIn texOut Pass_TAA
  let r := Pass_PostLight.stage r .Render_Bloom texIn texOut Pass_Bloom
  let r := Pass_PostLight.stage r .Render_Correction texIn texOut Pass_Correction
  let r := Pass_PostLight.stage r .Render_FXAA texIn texOut Pass_FXAA
  let r := Pass_PostLight.stage r .Render_Sharpening texIn texOut Pass_Sharpening
  let r := Pass_PostLight.stage r .Render_ChromaticAberration texIn texOut
    Pass_ChromaticAberration
  r.emit .EventEnd

/-! ## Debug overlay -/

/-- The channel `Pass_GBufferVisualize` selects from the flags; a later test overrides an
earlier one. -/
def Pass_GBufferVisualize.texType (r : Renderer) : GBuffer_Texture_Type :=
  let texType : GBuffer_Texture_Type := .GBuffer_Target_Unknown
  let texType := if r.Flags_IsSet .Render_Albedo then .GBuffer_Target_Albedo else texType
  let texType := if r.Flags_IsSet .Render_Normal then .GBuffer_Target_Normal else texType
  let texType := if r.Flags_IsSet .Render_Material then .GBuffer_Target_Material else texType
  let texType := if r.Flags_IsSet .Render_Velocity then .GBuffer_Target_Velocity else texType
  if r.Flags_IsSet .Render_Depth then .GBuffer_Target_Depth else texType

/-- Body of `Renderer::Pass_GBufferVisualize`. -/
def Pass_GBufferVisualize (r : Renderer) (texOut : TexSlot) : Renderer :=
  let r := r.enter .Pass_GBufferVisualize
  let texType := Pass_GBufferVisualize.texType r
  if texType ≠ .GBuffer_Target_Unknown then
    let r := r.emit (.EventBegin "Pass_GBufferVisualize")
    let r := r.SetGlobalBuffer (some ((r.tex texOut).width, (r.tex texOut).height)) 0 ⟨0, 0⟩
    r.emits [.SetRenderTarget (.renderTexture (r.tex texOut)) .none false,
      .PipelineClear,
      .SetVertexBuffer .quad,
      .SetIndexBuffer .quad,
      .SetPrimitiveTopology .PrimitiveTopology_TriangleList,
      .SetFillMode_Solid,
      .SetCullMode .Cull_Back,
      .SetInputLayout .shaderTexture,
      .SetShader .shaderTexture,
      .SetViewport (.ofGBuffer texType),
      .SetTexture (.gbuffer texType),
      .SetSampler .samplerBilinearClampAlways,
      .Bind,
      .DrawIndexed r.m_quadIndexCount 0 0,
      .EventEnd]
  else r

/-- One iteration of the two bounding-box loops of `Pass_Lines`. -/
def Pass_Lines.boxStep (r : Renderer) (actor : Actor) : Renderer :=
  match actor.renderable with
  | some renderable => r.AddBoundigBox renderable.geometryBB ⟨41 / 100, 86 / 100, 1, 1⟩
  | none => r

/-- The block of `Pass_Lines` that queues the picking ray. -/
def Pass_Lines.pickingRay (r : Renderer) : Renderer :=
  match r.m_camera with
  | some camera => r.AddLine3 camera.pickingRayOrigin camera.pickingRayEnd ⟨0, 1, 0, 1⟩
  | none => r

/-- The block of `Pass_Lines` that queues the bounding boxes of the two object buckets. -/
def Pass_Lines.boundingBoxes (r : Renderer) : Renderer :=
  let r := (r.m_actors.at .Renderable_ObjectOpaque).foldl Pass_Lines.boxStep
    (r.touch .Renderable_ObjectOpaque)
  (r.m_actors.at .Renderable_ObjectTransparent).foldl Pass_Lines.boxStep
    (r.touch .Renderable_ObjectTransparent)

/-- The block of `Pass_Lines` that flushes the queued vertices: the GPU buffer is recreated when
it is too small, filled, drawn, and the accumulator is cleared. -/
def Pass_Lines.flush (r : Renderer) : Renderer :=
  let lineVertexBufferSize := r.m_lineVertices.length % 2 ^ 32
  if lineVertexBufferSize ≠ 0 then
    let r :=
      if lineVertexBufferSize > r.m_lineVertexCount then
        { r.emit (.CreateLineVertexBuffer lineVertexBufferSize) with
          m_lineVertexCount := lineVertexBufferSize }
      else r
    let r := r.emits [.UpdateLineVertexBuffer (r.m_lineVertices.take lineVertexBufferSize),
      .SetVertexBuffer .lineVertexBuffer,
      .UpdateShaderBuffer .shaderLine,
      .Bind,
      .Draw lineVertexBufferSize]
    { r with m_lineVertices := [] }
  else r

/-- The block of `Pass_Lines` that draws the grid. -/
def Pass_Lines.grid (r : Renderer) : Renderer :=
  r.emits [.SetIndexBuffer .grid,
    .SetVertexBuffer .grid,
    .UpdateShaderBuffer .shaderLine,
    .Bind,
    .DrawIndexed r.m_gridIndexCount 0 0]

/-- Body of `Renderer::Pass_Lines`. -/
def Pass_Lines (r : Renderer) (texOut : TexSlot) : Renderer :=
  let r := r.enter .Pass_Lines
  let drawPickingRay := r.Flags_IsSet .Render_PickingRay
  let drawAABBs := r.Flags_IsSet .Render_AABB
  let drawGrid := r.Flags_IsSet .Render_SceneGrid
  let draw := drawPickingRay || drawAABBs || drawGrid
  if !draw then r
  else
    let r := r.emits [.EventBegin "Pass_Lines",
      .SetState_pipelineLine,
      .Set_AlphaBlendingEnabled true,
      .SetRenderTarget (.renderTexture (r.tex texOut)) .ofGBufferDepth false,
      .SetTexture (.gbuffer .GBuffer_Target_Depth)]
    let r := if drawPickingRay then Pass_Lines.pickingRay r else r
    let r := if drawAABBs then Pass_Lines.boundingBoxes r else r
    let r := Pass_Lines.flush r
    let r := if drawGrid then Pass_Lines.grid r else r
    r.emits [.Set_AlphaBlendingEnabled false, .EventEnd]

/-- One iteration of the light loop of `Pass_Gizmos`.  Every actor of the light bucket carries a
light component, which the source dereferences without a check. -/
def Pass_Gizmos.lightStep (texOut : TexSlot) (r : Renderer) (actor : Actor) : Renderer :=
  if !actor.gizmoInViewFrustrum then r
  else if actor.gizmoTooSmall then r
  else
    match actor.light with
    | none => r
    | some light =>
      let lightTex : TextureRef :=
        match light.lightType with
        | .LightType_Directional => .gizmoTexLightDirectional
        | .LightType_Point => .gizmoTexLightPoint
        | .LightType_Spot => .gizmoTexLightSpot
      let r := r.emit .CreateGizmoRectangle
      let r := r.SetGlobalBuffer (some ((r.tex texOut).width, (r.tex texOut).height)) 0 ⟨0, 0⟩
      r.emits [.SetTexture lightTex,
        .SetIndexBuffer .gizmoRectLight,
        .SetVertexBuffer .gizmoRectLight,
        .Bind,
        .Set_AlphaBlendingEnabled true,
        .DrawIndexed r.m_quadIndexCount 0 0,
        .Set_AlphaBlendingEnabled false]

/-- Body of `Renderer::Pass_Gizmos`. -/
def Pass_Gizmos (r : Renderer) (texOut : TexSlot) : Renderer :=
  let r := r.enter .Pass_Gizmos
  let draw := r.Flags_IsSet .Render_Light
  if !draw then r
  else
    let r := r.emit (.EventBegin "Pass_Gizmos")
    let lights := r.m_actors.at .Renderable_Light
    let r := r.touch .Renderable_Light
    let r :=
      if lights.length ≠ 0 then
        let r := r.emits [.EventBegin "Lights",
          .SetPrimitiveTopology .PrimitiveTopology_TriangleList,
          .SetShader .shaderTexture,
          .SetSampler .samplerBilinearClampAlways]
        let r := lights.foldl (Pass_Gizmos.lightStep texOut) r
        r.emit .EventEnd
      else r
    r.emit .EventEnd

/-- Body of `Renderer::Pass_PerformanceMetrics`. -/
def Pass_PerformanceMetrics (r : Renderer) (texOut : TexSlot) : Renderer :=
  let r := r.enter .Pass_PerformanceMetrics
  let draw := r.Flags_IsSet .Render_PerformanceMetrics
  if !draw then r
  else
    r.emits [.EventBegin "Pass_PerformanceMetrics",
      .FontSetText,
      .Set_AlphaBlendingEnabled true,
      .SetPrimitiveTopology .PrimitiveTopology_TriangleList,
      .SetCullMode .Cull_Back,
      .SetFillMode_Solid,
      .SetIndexBuffer .font,
      .SetVertexBuffer .font,
      .SetRenderTarget (.renderTexture (r.tex texOut)) .none false,
      .SetTexture .fontTexture,
      .SetSampler .samplerBilinearClampAlways,
      .SetShader .shaderFont,
      .UpdateShaderBuffer .shaderFont,
      .SetConstantBuffer (.ofShader .shaderFont) 0,
      .Bind,
      .DrawIndexed r.m_fontIndexCount 0 0,
      .Set_AlphaBlendingEnabled false,
      .EventEnd]

/-! ## Frame orchestrator -/

/-- The bookkeeping `Render` does before the first pass: `m_isRendering` is raised,
`Profiler::Get().Reset()` zeroes the rendered-mesh counter, the frame counter (an unsigned
64-bit integer) is incremented and its parity recorded. -/
def Render.beginFrame (r : Renderer) : Renderer :=
  let r := { r with m_isRendering := true }
  let r := { r with rendererMeshesRendered := 0 }
  let r := { r with m_frameNum := (r.m_frameNum + 1) % 2 ^ 64 }
  { r with m_isOddFrame := decide (r.m_frameNum % 2 = 1) }

/-- The pass calls of `Render`, in source order. -/
def Render.passes (r : Renderer) : Renderer :=
  let light := r.GetLightDirectional
  let r := r.touch .Renderable_Light
  let r := r.Pass_DepthDirectionalLight light
  let r := r.Pass_GBuffer
  let r := r.Pass_PreLight .Half_Spare .Half_Shadows .Half_SSDO
  let r := r.Pass_Light .Half_Shadows .Half_SSDO .Full_Light
  let r := r.Pass_Transparent .Full_Light
  let r := r.Pass_PostLight .Full_Light .Full_FinalFrame
  let r := r.Pass_GBufferVisualize .Full_FinalFrame
  let r := r.Pass_Lines .Full_FinalFrame
  let r := r.Pass_Gizmos .Full_FinalFrame
  r.Pass_PerformanceMetrics .Full_FinalFrame

/-- Body of `Renderer::Render`. -/
def Render (r : Renderer) : Renderer :=
  match r.m_rhiDevice with
  | none => r
  | some device =>
    if !device.initialized then r
    else
      match r.m_camera with
      | none => r.emit (.ClearBackBuffer ⟨0, 0, 0, 1⟩)
      | some camera =>
        if r.m_actors.empty then
          let r := r.emit (.ClearBackBuffer camera.clearColor)
          let r := r.emit .Present
          { r with m_isRendering := false }
        else
          let r := Render.beginFrame r
          let r := Render.passes r
          { r with m_isRendering := false }

end Renderer

/-! ## Render target pool -/

namespace Renderer

/-- One `make_unique<RHI_RenderTexture>` of `CreateRenderTextures`: a new texture object of the
given size replaces the one the member designated. -/
def createRenderTexture (r : Renderer) (slot : TexSlot) (width height : Nat) : Renderer :=
  let t : RHI_RenderTexture :=
    ⟨r.renderTexturesCreated, width, height, .Texture_Format_R16G16B16A16_FLOAT⟩
  let r := r.emit (.CreateRenderTexture t)
  let r := r.setTex slot t
  { r with renderTexturesCreated := r.renderTexturesCreated + 1 }

/-- Body of `Renderer::CreateRenderTextures`: the G-buffer, the full-screen quad and the nine
pooled render textures are created anew. -/
def CreateRenderTextures (r : Renderer) (width height : Nat) : Renderer :=
  let r := r.emits [.CreateGBuffer width height, .CreateQuad width height]
  let r := r.createRenderTexture .Full_Light width height
  let r := r.createRenderTexture .Full_TAA_Current width height
  let r := r.createRenderTexture .Full_TAA_History width height
  let r := r.createRenderTexture .Full_FinalFrame width height
  let r := r.createRenderTexture .Half_Shadows (width / 2) (height / 2)
  let r := r.createRenderTexture .Half_SSDO (width / 2) (height / 2)
  let r := r.createRenderTexture .Half_Spare (width / 2) (height / 2)
  let r := r.createRenderTexture .Quarter_Blur1 (width / 4) (height / 4)
  r.createRenderTexture .Quarter_Blur2 (width / 4) (height / 4)

/-- Body of `Renderer::SetResolution` for arguments of type `unsigned int`.  The settings keep
the two numbers the renderer gives them as single-precision floats, which is exact for every
dimension below `2 ^ 24`; the fields `resolutionWidth` and `resolutionHeight` hold them
exactly.  The two log messages are not modelled. -/
def SetResolution (r : Renderer) (width height : Nat) : Renderer :=
  if width = 0 ∨ height = 0 then r
  else if r.resolutionWidth = width ∧ r.resolutionHeight = height then r
  else
    let width := width - (if width % 2 ≠ 0 then 1 else 0)
    let height := height - (if height % 2 ≠ 0 then 1 else 0)
    let r := { r with resolutionWidth := width, resolutionHeight := height }
    r.CreateRenderTextures width height

end Renderer

/-! ## Observation of the command log

The GPU abstraction is outside the sources, so what a draw renders into and what it reads is
read off the order of the calls the renderer makes: every pass sets its render target and its
input textures, binds, and draws. -/

/-- What one draw call renders into and reads: the render target of the latest
`SetRenderTarget` before it (`none` when there is none, or when the G-buffer was made the
target after it), and the textures given to `SetTexture` since the draw before it. -/
structure DrawRecord where
  target : Option RenderTargetRef
  textures : List TextureRef
deriving DecidableEq

/-- Lists the draws of a command sequence, given the render target and the textures set before
the sequence starts. -/
def draws.go (target : Option RenderTargetRef) (textures : List TextureRef) :
    List Cmd → List DrawRecord
  | [] => []
  | .SetRenderTarget t _ _ :: cs => draws.go (some t) textures cs
  | .GBuffer_SetAsRenderTarget :: cs => draws.go none textures cs
  | .SetTexture t :: cs => draws.go target (textures ++ [t]) cs
  | .DrawIndexed _ _ _ :: cs => ⟨target, textures⟩ :: draws.go target [] cs
  | .Draw _ :: cs => ⟨target, textures⟩ :: draws.go target [] cs
  | _ :: cs => draws.go target textures cs

/-- The draws of a command sequence before which nothing is set. -/
def draws (cs : List Cmd) : List DrawRecord := draws.go none [] cs

/-- The commands appended to the log between the renderer states `r` and `r'`. -/
def Renderer.issued (r r' : Renderer) : List Cmd := r'.log.drop r.log.length

/-! ## Specification-side notions and sample data -/

/-- The key the comparator computes for an actor, defined when the actor has a renderable, a
geometry model, a material and a live shader. -/
def Actor.sortKey? (a : Actor) : Option Nat :=
  match a.renderable with
  | none => none
  | some renderable =>
    match renderable.geometryModel, renderable.material with
    | some model, some material =>
      match material.shader with
      | some shader =>
        some (sortKey model.Resource_GetID shader.Resource_GetID material.Resource_GetID)
      | none => none
    | _, _ => none

/-- The actor has a renderable, a geometry model, a material and a live shader. -/
def Actor.sortable (a : Actor) : Bool := a.sortKey?.isSome

/-- The composite key of a sortable actor (zero for the others). -/
def Actor.compositeKey (a : Actor) : Nat := a.sortKey?.getD 0

/-- The comparator can be applied to the actor without dereferencing a null shader: if it has a
renderable with a geometry model and a material, the material's shader is live. -/
def Actor.shaderDerefSafe (a : Actor) : Bool :=
  match a.renderable with
  | none => true
  | some renderable =>
    match renderable.geometryModel, renderable.material with
    | some _, some material => material.shader.isSome
    | _, _ => true

/-- Stability of a rearrangement `l'` of `l`: for every key, the actors carrying that key appear
in `l'` in the same order as in `l`. -/
def StableRearrangement (l l' : List Actor) : Prop :=
  ∀ k : Nat, l'.filter (fun a => a.compositeKey == k) = l.filter (fun a => a.compositeKey == k)

/-- Lexicographic order on triples (model, shader, material) of identifiers. -/
def lexLess (a b : Nat × Nat × Nat) : Prop :=
  a.1 < b.1 ∨ (a.1 = b.1 ∧ (a.2.1 < b.2.1 ∨ (a.2.1 = b.2.1 ∧ a.2.2 < b.2.2)))

/-- A material with a built shader and the given albedo alpha. -/
def sampleMaterial (materialID shaderID : Nat) (alpha : ℚ) : Material :=
  ⟨materialID, some ⟨shaderID, .Shader_Built⟩, ⟨1, 1, 1, alpha⟩, .Cull_Back⟩

/-- A visible, shadow-casting renderable with complete geometry. -/
def sampleRenderable (modelID shaderID materialID : Nat) (alpha : ℚ) : Renderable :=
  ⟨some (sampleMaterial materialID shaderID alpha), some ⟨modelID, true, true⟩, true, 36, 0, 0,
    ⟨⟨0, 0, 0⟩, ⟨1, 1, 1⟩⟩, true⟩

/-- An actor that only carries a renderable. -/
def sampleObject (id modelID shaderID materialID : Nat) (alpha : ℚ) : Actor :=
  ⟨id, some (sampleRenderable modelID shaderID materialID alpha), none, none, none, false, false⟩

/-- A camera with a blue clear colour. -/
def sampleCamera : Camera := ⟨⟨0, 0, 1, 1⟩, ⟨0, 0, 0⟩, ⟨0, 0, 1⟩⟩

/-- An actor that only carries the sample camera. -/
def sampleCameraActor (id : Nat) : Actor :=
  ⟨id, none, none, none, some sampleCamera, false, false⟩

/-- A render texture of the pool format. -/
def sampleTexture (id width height : Nat) : RHI_RenderTexture :=
  ⟨id, width, height, .Texture_Format_R16G16B16A16_FLOAT⟩

/-- A renderer as left by the constructor and `Initialize` at resolution 1920 x 1080, except
that no flag is set: initialized device, no camera, no bucket. -/
def sampleRenderer : Renderer where
  m_rhiDevice := some ⟨true⟩
  m_camera := none
  m_actors := ActorMap.clear
  m_flags := 0
  m_frameNum := 0
  m_isOddFrame := false
  m_isRendering := false
  m_shaderLightState := .Shader_Built
  m_renderTexFull_Light := sampleTexture 1 1920 1080
  m_renderTexFull_TAA_Current := sampleTexture 2 1920 1080
  m_renderTexFull_TAA_History := sampleTexture 3 1920 1080
  m_renderTexFull_FinalFrame := sampleTexture 4 1920 1080
  m_renderTexHalf_Shadows := sampleTexture 5 960 540
  m_renderTexHalf_SSDO := sampleTexture 6 960 540
  m_renderTexHalf_Spare := sampleTexture 7 960 540
  m_renderTexQuarter_Blur1 := sampleTexture 8 480 270
  m_renderTexQuarter_Blur2 := sampleTexture 9 480 270
  m_lineVertices := []
  m_lineVertexCount := 0
  m_quadIndexCount := 6
  m_gridIndexCount := 0
  m_fontIndexCount := 0
  resolutionWidth := 1920
  resolutionHeight := 1080
  rendererMeshesRendered := 0
  renderTexturesCreated := 10
  log := []
  calls := []

/-- Three distinct opaque objects that share model, shader and material. -/
def sampleEqualKeys : List Actor :=
  [sampleObject 1 7 7 7 1, sampleObject 2 7 7 7 1, sampleObject 3 7 7 7 1]

/-- Three opaque objects with decreasing model identifiers. -/
def sampleDecreasing : List Actor :=
  [sampleObject 1 3 1 1 1, sampleObject 2 2 1 1 1, sampleObject 3 1 1 1 1]

/-- The actor has a renderable whose material exists and has an albedo alpha below one. -/
def Actor.isTransparent (a : Actor) : Bool :=
  match a.renderable with
  | none => false
  | some renderable =>
    match renderable.material with
    | none => false
    | some material => decide (material.colorAlbedo.w < 1)

/-- The bucket kinds an actor is to be collected under, by its components. -/
def Actor.belongsTo (a : Actor) : RenderableType → Bool
  | .Renderable_ObjectOpaque => a.renderable.isSome && !a.isTransparent
  | .Renderable_ObjectTransparent => a.isTransparent
  | .Renderable_Skybox => a.skybox.isSome
  | .Renderable_Light => a.light.isSome
  | .Renderable_Camera => a.camera.isSome

/-- The camera component of the last actor of the snapshot that has one. -/
def lastCamera : List (Option Actor) → Option Camera
  | [] => none
  | actorShared :: rest =>
    match lastCamera rest with
    | some camera => some camera
    | none => actorShared.bind Actor.camera

/-- The non-null actors of a snapshot that are to be collected under a bucket kind, in snapshot
order. -/
def collected (actorsVec : List (Option Actor)) (k : RenderableType) : List Actor :=
  (actorsVec.filterMap id).filter (fun a => a.belongsTo k)

/-- A snapshot with an opaque object, a null entry, a half-transparent object and a camera. -/
def sampleSnapshot : List (Option Actor) :=
  [some (sampleObject 1 1 1 1 1), none, some (sampleObject 2 1 1 2 (1 / 2)),
    some (sampleCameraActor 3)]

/-- A snapshot with one opaque object and no camera. -/
def sampleSnapshotNoCamera : List (Option Actor) := [some (sampleObject 4 2 1 1 1)]

/-- The sample renderer after it has acquired `sampleSnapshot`. -/
def sampleAcquired : Renderer :=
  { sampleRenderer with
    m_actors := ⟨some [sampleObject 1 1 1 1 1], some [sampleObject 2 1 1 2 (1 / 2)], none, none,
      some [sampleCameraActor 3]⟩
    m_camera := some sampleCamera }

/-- The sample renderer without a GPU device. -/
def sampleNoDevice : Renderer := { sampleRenderer with m_rhiDevice := none }

/-- The sample renderer with a device that is not initialized. -/
def sampleUninitialized : Renderer := { sampleRenderer with m_rhiDevice := some ⟨false⟩ }

/-- A snapshot that holds a camera and nothing else. -/
def sampleCameraOnly : List (Option Actor) := [some (sampleCameraActor 3)]

/-- The sample renderer after it has acquired `sampleCameraOnly`: the two object keys are in the
map with empty vectors, the camera bucket holds the camera's actor. -/
def sampleCameraOnlyAcquired : Renderer :=
  { sampleRenderer with
    m_actors := ⟨some [], some [], none, none, some [sampleCameraActor 3]⟩
    m_camera := some sampleCamera }

/-- The flags the constructor sets: physics, scene grid, light, bloom, FXAA, SSDO, SSR and
correction. -/
def constructorFlags : Nat :=
  2 ^ RenderMode.Render_Physics.bit + 2 ^ RenderMode.Render_SceneGrid.bit
    + 2 ^ RenderMode.Render_Light.bit + 2 ^ RenderMode.Render_Bloom.bit
    + 2 ^ RenderMode.Render_FXAA.bit + 2 ^ RenderMode.Render_SSDO.bit
    + 2 ^ RenderMode.Render_SSR.bit + 2 ^ RenderMode.Render_Correction.bit

/-- The sample renderer after acquiring `sampleSnapshot`, with the constructor's flags. -/
def sampleFrame : Renderer := { sampleAcquired with m_flags := constructorFlags }

/-- The ten passes `Render` calls directly, in the order of the calls. -/
def framePasses : List PassName :=
  [.Pass_DepthDirectionalLight, .Pass_GBuffer, .Pass_PreLight, .Pass_Light, .Pass_Transparent,
    .Pass_PostLight, .Pass_GBufferVisualize, .Pass_Lines, .Pass_Gizmos, .Pass_PerformanceMetrics]

/-- Relation between the renderer before and after a piece of a frame: the pass functions in
`entered` were entered, in that order, and neither the flags nor the content of any bucket
changed. -/
def Renderer.Frame (r r' : Renderer) (entered : List PassName) : Prop :=
  r'.calls = r.calls ++ entered ∧ r'.m_flags = r.m_flags ∧
    ∀ k, r'.m_actors.at k = r.m_actors.at k

/-- The radical inverse of `n` in base `b`: the digits `d₀, d₁, ...` of `n` in base `b`, least
significant first, read as the digits after the point, `d₀ / b + d₁ / b ^ 2 + ...`. -/
def radicalInverse (b n : Nat) : ℚ :=
  (Nat.digits b n).foldr (fun (d : Nat) (acc : ℚ) => ((d : ℚ) + acc) / (b : ℚ)) 0

/-- Relation between the renderer before and after a piece of a frame that does not run the
temporal resolve: the commands issued so far are still the beginning of the log, and the
current and the history handle of the temporal resolve designate the targets they designated. -/
def Renderer.Keeps (r r' : Renderer) : Prop :=
  r.log <+: r'.log ∧ r'.tex .Full_TAA_Current = r.tex .Full_TAA_Current ∧
    r'.tex .Full_TAA_History = r.tex .Full_TAA_History

/-- The sample renderer after acquiring `sampleSnapshot`, with TAA as the only flag. -/
def sampleTemporal : Renderer :=
  { sampleAcquired with m_flags := 2 ^ RenderMode.Render_TAA.bit }

/-- The six flag-gated stages of the post-process chain with their flags, in the order of the
chain. -/
def postProcessStages : List (RenderMode × PassName) :=
  [(.Render_TAA, .Pass_TAA), (.Render_Bloom, .Pass_Bloom),
    (.Render_Correction, .Pass_Correction), (.Render_FXAA, .Pass_FXAA),
    (.Render_Sharpening, .Pass_Sharpening),
    (.Render_ChromaticAberration, .Pass_ChromaticAberration)]

/-- The stages of the post-process chain whose flag is set, in the order of the chain. -/
def enabledStages (r : Renderer) : List PassName :=
  (postProcessStages.filter (fun s => r.Flags_IsSet s.1)).map Prod.snd

/-- The name of the event a post-process stage opens with. -/
def stageMarker : PassName → String
  | .Pass_TAA => "Pass_TAA"
  | .Pass_Bloom => "Pass_Bloom"
  | .Pass_Correction => "Pass_Correction"
  | .Pass_FXAA => "Pass_FXAA"
  | .Pass_Sharpening => "Pass_Sharpening"
  | .Pass_ChromaticAberration => "Pass_ChromaticAberration"
  | _ => ""

/-- A command sequence is a run of the post-process stage `stage` from the target `input` to
the target `result`: it opens with the event of the stage and closes with an event end, its
first draw reads `input`, and its last draw renders into `result`. -/
def StageRun (stage : PassName) (input result : RHI_RenderTexture) (cs : List Cmd) : Prop :=
  cs.head? = some (.EventBegin (stageMarker stage)) ∧ cs.getLast? = some .EventEnd ∧
    (∃ d, (draws cs).head? = some d ∧ .renderTexture input ∈ d.textures) ∧
    (∃ d, (draws cs).getLast? = some d ∧ d.target = some (.renderTexture result))

/-- A command sequence is a chain of runs of the given stages, in order, that starts from the
target `current` and ends with the result in the target `final`: every stage reads the result
of the stage before it, the first one reads `current`, and without any stage `final` is
`current`. -/
def PostChain : List PassName → RHI_RenderTexture → List Cmd → RHI_RenderTexture → Prop
  | [], current, cs, final => cs = [] ∧ final = current
  | stage :: rest, current, cs, final =>
    ∃ seg result tail, cs = seg ++ tail ∧ StageRun stage current result seg ∧
      PostChain rest result tail final

/-- A corner of a box, named by the choice between the minimum (`false`) and the maximum
(`true`) in each of the three coordinates. -/
abbrev Corner := Bool × Bool × Bool

/-- The point at a corner of an axis-aligned box. -/
def BoundingBox.corner (box : BoundingBox) (c : Corner) : Vector3 :=
  ⟨if c.1 then box.max.x else box.min.x, if c.2.1 then box.max.y else box.min.y,
    if c.2.2 then box.max.z else box.min.z⟩

/-- Two corners are the ends of an edge of the box: they make a different choice in exactly one
coordinate. -/
def Corner.adjacent (c d : Corner) : Bool :=
  (if c.1 = d.1 then 0 else 1) + (if c.2.1 = d.2.1 then 0 else 1)
    + (if c.2.2 = d.2.2 then 0 else 1) = 1

/-- The number of coordinates in which two points differ. -/
def Vector3.differing (a b : Vector3) : Nat :=
  (if a.x = b.x then 0 else 1) + (if a.y = b.y then 0 else 1) + (if a.z = b.z then 0 else 1)

/-- The line segments a vertex sequence stands for: consecutive vertices, two by two. -/
def segments : List RHI_Vertex_PosCol → List (RHI_Vertex_PosCol × RHI_Vertex_PosCol)
  | a :: b :: rest => (a, b) :: segments rest
  | _ => []

/-- Two segments join the same two points, in either direction. -/
def sameSegment (s t : RHI_Vertex_PosCol × RHI_Vertex_PosCol) : Prop :=
  (s.1.pos = t.1.pos ∧ s.2.pos = t.2.pos) ∨ (s.1.pos = t.2.pos ∧ s.2.pos = t.1.pos)

/-- A box with corners `(0, 0, 0)` and `(1, 2, 3)`. -/
def sampleBox : BoundingBox := ⟨⟨0, 0, 0⟩, ⟨1, 2, 3⟩⟩

/-- The numbers of vertices a command sequence copies into the line vertex buffer, one for
every flush. -/
def flushedCounts : List Cmd → List Nat
  | [] => []
  | .UpdateLineVertexBuffer vertices :: cs => vertices.length :: flushedCounts cs
  | _ :: cs => flushedCounts cs

/-- A run of invocations of `Pass_Lines`.  Between two invocations the renderer may change in
any way that keeps `m_lineVertexCount`, which no other function writes.  The list holds the
vertex counts flushed during the run, oldest first. -/
inductive LinesRun : Renderer → Renderer → List Nat → Prop
  | start (r : Renderer) : LinesRun r r []
  | invoke {r q : Renderer} {flushed : List Nat} (q' : Renderer) (texOut : TexSlot) :
      LinesRun r q flushed → q'.m_lineVertexCount = q.m_lineVertexCount →
      LinesRun r (q'.Pass_Lines texOut)
        (flushed ++ flushedCounts (q'.issued (q'.Pass_Lines texOut)))


/-- The sample renderer with the constructor's flags after `AddLine` was called once between
two frames: two vertices are queued. -/
def sampleQueuedGrid : Renderer := sampleFrame.AddLine3 ⟨0, 0, 0⟩ ⟨1, 1, 1⟩ ⟨1, 0, 0, 1⟩

/-- The sample renderer with two queued vertices and only the physics flag set, one of the
flags the constructor sets. -/
def sampleQueued : Renderer :=
  ({ sampleAcquired with m_flags := 2 ^ RenderMode.Render_Physics.bit }).AddLine3
    ⟨0, 0, 0⟩ ⟨1, 1, 1⟩ ⟨1, 0, 0, 1⟩

/-- Relation between two renderer states with the same queued line vertices. -/
def Renderer.Queue (r r' : Renderer) : Prop := r'.m_lineVertices = r.m_lineVertices

/-- The command is a draw call. -/
def Cmd.isDraw : Cmd → Bool
  | .DrawIndexed _ _ _ => true
  | .Draw _ => true
  | _ => false

/-- The indexed draw of an actor's renderable: index count, index offset and vertex offset of
its geometry. -/
def Actor.drawIndexed (a : Actor) : Cmd :=
  match a.renderable with
  | some renderable =>
    .DrawIndexed renderable.geometryIndexCount renderable.geometryIndexOffset
      renderable.geometryVertexOffset
  | none => .DrawIndexed 0 0 0

/-- The command rewrites the per-object constant buffer of a shader. -/
def Cmd.isUpdatePerObjectBuffer : Cmd → Bool
  | .UpdatePerObjectBuffer _ _ => true
  | _ => false

/-- The actor is drawn into the G-buffer in the words of the specification: it has a renderable
and a material, a shader in the built state, geometry with a vertex and an index buffer, and it
lies inside the view frustum of the camera. -/
def Actor.isGBufferDrawn (a : Actor) : Bool :=
  match a.renderable with
  | none => false
  | some renderable =>
    match renderable.material with
    | none => false
    | some material =>
      match material.shader, renderable.geometryModel with
      | some shader, some model =>
        decide (shader.state = .Shader_Built) && model.hasVertexBuffer && model.hasIndexBuffer
          && renderable.inViewFrustrum
      | _, _ => false

/-- Resource identifier of the geometry model of the actor's renderable, 0 when there is
none. -/
def Actor.modelID (a : Actor) : Nat :=
  match a.renderable with
  | some renderable =>
    match renderable.geometryModel with
    | some model => model.Resource_GetID
    | none => 0
  | none => 0

/-- Resource identifier of the material of the actor's renderable, 0 when there is none. -/
def Actor.materialID (a : Actor) : Nat :=
  match a.renderable with
  | some renderable =>
    match renderable.material with
    | some material => material.Resource_GetID
    | none => 0
  | none => 0

/-- Resource identifier of the shader of the actor's material, 0 when there is none. -/
def Actor.shaderID (a : Actor) : Nat :=
  match a.renderable with
  | some renderable =>
    match renderable.material with
    | some material =>
      match material.shader with
      | some shader => shader.Resource_GetID
      | none => 0
    | none => 0
  | none => 0

/-- The two commands that identify the draw of an actor in the G-buffer pass: the update of
the per-object buffer with the actor's transform, and the indexed draw of its geometry. -/
def Actor.objectDraw (a : Actor) : List Cmd :=
  [.UpdatePerObjectBuffer a.shaderID a.id, a.drawIndexed]

/-- An opaque bucket with a visible object, an object outside the view frustum, an object whose
shader is not built, and a second visible object. -/
def sampleOpaque : List Actor :=
  [sampleObject 1 7 1 1 1,
    { sampleObject 2 8 1 1 1 with
      renderable := some { sampleRenderable 8 1 1 1 with inViewFrustrum := false } },
    { sampleObject 3 9 2 2 1 with
      renderable := some { sampleRenderable 9 2 2 1 with
        material := some ⟨2, some ⟨2, .Shader_NotBuilt⟩, ⟨1, 1, 1, 1⟩, .Cull_Back⟩ } },
    sampleObject 4 9 1 3 1]

/-- The sample renderer with `sampleOpaque` as its opaque bucket. -/
def sampleOpaqueScene : Renderer :=
  { sampleRenderer with
    m_actors := ⟨some sampleOpaque, some [], none, none, none⟩
    m_camera := some sampleCamera }

/-- Cull mode of the material of the actor's renderable. -/
def Actor.cullMode (a : Actor) : Cull_Mode :=
  match a.renderable with
  | some renderable =>
    match renderable.material with
    | some material => material.cullMode
    | none => .Cull_Back
  | none => .Cull_Back

namespace Renderer

/-- The commands one iteration of the loop of `Pass_GBuffer` issues for an actor it draws, as a
function of the cached identifiers the iteration starts with. -/
def GBufferCache.cmds (c : GBufferCache) (a : Actor) : List Cmd :=
  [.SetCullMode a.cullMode]
    ++ (if c.currentlyBoundGeometry ≠ a.modelID then
        [.SetIndexBuffer (.model a.modelID), .SetVertexBuffer (.model a.modelID)] else [])
    ++ (if c.currentlyBoundShader ≠ a.shaderID then
        (if c.vertexShaderBound = false then [.SetVertexShader (.variation a.shaderID)] else [])
          ++ [.SetPixelShader (.variation a.shaderID)] else [])
    ++ (if c.currentlyBoundMaterial ≠ a.materialID then materialTextureCmds a.materialID
        else [])
    ++ [.UpdatePerObjectBuffer a.shaderID a.id, .SetConstantBuffer (.perObject a.shaderID) 1,
      .Bind, a.drawIndexed]

/-- The cached identifiers after an iteration that draws the actor. -/
def GBufferCache.next (c : GBufferCache) (a : Actor) : GBufferCache :=
  ⟨c.vertexShaderBound || decide (c.currentlyBoundShader ≠ a.shaderID), a.modelID, a.shaderID,
    a.materialID⟩

/-- The commands the loop of `Pass_GBuffer` issues over a bucket, as a function of the cached
identifiers it starts with. -/
def GBufferCache.run (c : GBufferCache) : List Actor → List Cmd
  | [] => []
  | a :: l => if a.isGBufferDrawn then c.cmds a ++ (c.next a).run l else c.run l

end Renderer

/-- The bindings of the pipeline that the cache of `Pass_GBuffer` is about: index and vertex
buffer, pixel shader, and the texture of each material slot. -/
structure Bindings where
  indexBuffer : Option GeometryRef
  vertexBuffer : Option GeometryRef
  pixelShader : Option ShaderRef
  materialTexture : TextureType → Option TextureRef

/-- The effect of one command on the bindings. -/
def Bindings.step (b : Bindings) : Cmd → Bindings
  | .SetIndexBuffer g => { b with indexBuffer := some g }
  | .SetVertexBuffer g => { b with vertexBuffer := some g }
  | .SetPixelShader s => { b with pixelShader := some s }
  | .SetShader s => { b with pixelShader := some s }
  | .SetTexture (.materialSlot materialID type) =>
    { b with materialTexture :=
        Function.update b.materialTexture type (some (.materialSlot materialID type)) }
  | _ => b

/-- The bindings after a command sequence. -/
def Bindings.run (b : Bindings) (cs : List Cmd) : Bindings := cs.foldl Bindings.step b

/-- The bindings in force at each draw of a command sequence, in order. -/
def boundAtDraws (b : Bindings) : List Cmd → List Bindings
  | [] => []
  | c :: cs => if c.isDraw then b :: boundAtDraws b cs else boundAtDraws (b.step c) cs

/-- The bindings are the ones the cached identifiers stand for; the identifier 0 stands for
nothing. -/
def Bindings.Agrees (b : Bindings) (c : Renderer.GBufferCache) : Prop :=
  (c.currentlyBoundGeometry ≠ 0 →
      b.indexBuffer = some (.model c.currentlyBoundGeometry) ∧
      b.vertexBuffer = some (.model c.currentlyBoundGeometry)) ∧
    (c.currentlyBoundShader ≠ 0 → b.pixelShader = some (.variation c.currentlyBoundShader)) ∧
    (c.currentlyBoundMaterial ≠ 0 →
      b.materialTexture = fun type => some (.materialSlot c.currentlyBoundMaterial type))

/-- The bindings that belong to an actor: the buffers of its geometry model, the pixel shader
of its material's shader, and the textures of its material. -/
def Actor.bindings (a : Actor) : Bindings :=
  ⟨some (.model a.modelID), some (.model a.modelID), some (.variation a.shaderID),
    fun type => some (.materialSlot a.materialID type)⟩

/-- Specification side: the commands of an iteration that binds geometry, pixel shader and
material textures before the draw, whatever was bound before. -/
def Actor.rebindCmds (a : Actor) : List Cmd :=
  [.SetCullMode a.cullMode, .SetIndexBuffer (.model a.modelID),
    .SetVertexBuffer (.model a.modelID), .SetPixelShader (.variation a.shaderID)]
    ++ Renderer.materialTextureCmds a.materialID
    ++ [.UpdatePerObjectBuffer a.shaderID a.id, .SetConstantBuffer (.perObject a.shaderID) 1,
      .Bind, a.drawIndexed]

/-- Specification side: the commands of a G-buffer loop that rebinds before every draw. -/
def rebindingPass (bucket : List Actor) : List Cmd :=
  (bucket.filter Actor.isGBufferDrawn).flatMap Actor.rebindCmds

/-- The command binds an index or a vertex buffer. -/
def Cmd.isGeometryBinding : Cmd → Bool
  | .SetIndexBuffer _ => true
  | .SetVertexBuffer _ => true
  | _ => false

/-- The command binds a pixel shader. -/
def Cmd.isSetPixelShader : Cmd → Bool
  | .SetPixelShader _ => true
  | _ => false

/-- The command binds a texture. -/
def Cmd.isSetTexture : Cmd → Bool
  | .SetTexture _ => true
  | _ => false

/-- The identifiers for which a binding is issued anew, given the identifier bound before and
the identifiers of the successive draws: each one that differs from the one before it. -/
def reissuedFrom (previous : Nat) : List Nat → List Nat
  | [] => []
  | id :: ids =>
    if previous ≠ id then id :: reissuedFrom id ids else reissuedFrom id ids

/-- Bindings with nothing bound. -/
def Bindings.unbound : Bindings := ⟨none, none, none, fun _ => none⟩

namespace Renderer

end Renderer

/-- A snapshot with one valid, visible object whose geometry model has the resource identifier
0, and a camera. -/
def sampleZeroModelSnapshot : List (Option Actor) :=
  [some (sampleObject 1 0 1 1 1), some (sampleCameraActor 2)]

/-- The sample renderer after it has acquired `sampleZeroModelSnapshot`. -/
def sampleZeroModel : Renderer :=
  { sampleRenderer with
    m_actors := ⟨some [sampleObject 1 0 1 1 1], some [], none, none, some [sampleCameraActor 2]⟩
    m_camera := some sampleCamera }

/-- An opaque bucket of valid, visible objects: two that share model, shader and material, a
third with another model and material, and a fourth with another shader. -/
def sampleSorted : List Actor :=
  [sampleObject 1 7 1 1 1, sampleObject 2 7 1 1 1, sampleObject 3 8 1 2 1,
    sampleObject 4 8 2 2 1]

/-- The sample renderer with `sampleSorted` as its opaque bucket. -/
def sampleSortedScene : Renderer :=
  { sampleRenderer with
    m_actors := ⟨some sampleSorted, some [], none, none, none⟩
    m_camera := some sampleCamera }

/-- What the command log determines of the pipeline at a point of a frame: whether alpha
blending is enabled, the names of the events that are open (innermost first), the render target
of the latest `SetRenderTarget` (`none` after the G-buffer was made the target), and the
textures given to `SetTexture` since the latest draw. -/
structure PipelineView where
  blend : Bool
  events : List String
  target : Option RenderTargetRef
  textures : List TextureRef
deriving DecidableEq

/-- The effect of one command on the view. -/
def PipelineView.step (v : PipelineView) : Cmd → PipelineView
  | .Set_AlphaBlendingEnabled enable => { v with blend := enable }
  | .EventBegin name => { v with events := name :: v.events }
  | .EventEnd => { v with events := v.events.tail }
  | .SetRenderTarget t _ _ => { v with target := some t }
  | .GBuffer_SetAsRenderTarget => { v with target := none }
  | .SetTexture t => { v with textures := v.textures ++ [t] }
  | .DrawIndexed _ _ _ => { v with textures := [] }
  | .Draw _ => { v with textures := [] }
  | _ => v

/-- The view after a command sequence. -/
def PipelineView.run (v : PipelineView) (cs : List Cmd) : PipelineView :=
  cs.foldl PipelineView.step v

/-- The event names under which the four passes that blend run. -/
def blendingPasses : List String :=
  ["Pass_Transparent", "Pass_Lines", "Pass_Gizmos", "Pass_PerformanceMetrics"]

/-- The outermost open event is that of a pass that blends. -/
def insideBlendingPass (events : List String) : Bool :=
  match events.getLast? with
  | some name => decide (name ∈ blendingPasses)
  | none => false

/-- No render texture is among the textures set since the latest draw. -/
def PipelineView.Clean (v : PipelineView) : Prop :=
  ∀ t, TextureRef.renderTexture t ∉ v.textures

/-- The command respects the blending discipline in the view it is issued in: blending is
enabled only inside one of the four passes that blend, and a draw is issued under enabled
blending only inside one of them. -/
def PipelineView.BlendAdmits (v : PipelineView) (c : Cmd) : Prop :=
  (c = .Set_AlphaBlendingEnabled true → insideBlendingPass v.events = true) ∧
    (c.isDraw = true → v.blend = true → insideBlendingPass v.events = true)

/-- The command respects the target discipline in the view it is issued in: a draw does not
render into a render texture that is among its input textures. -/
def PipelineView.TargetAdmits (v : PipelineView) (c : Cmd) : Prop :=
  c.isDraw = true → ∀ t, v.target = some (.renderTexture t) →
    TextureRef.renderTexture t ∉ v.textures

/-- Every command of a sequence satisfies a discipline in the view it is issued in. -/
def AllAdmit (P : PipelineView → Cmd → Prop) (v : PipelineView) : List Cmd → Prop
  | [] => True
  | c :: cs => P v c ∧ AllAdmit P (v.step c) cs

/-- The blending flag after a command sequence. -/
def blendAfter (b : Bool) (cs : List Cmd) : Bool :=
  cs.foldl (fun b c => match c with
    | .Set_AlphaBlendingEnabled enable => enable
    | _ => b) b

/-- The open events after a command sequence. -/
def eventsAfter (es : List String) (cs : List Cmd) : List String :=
  cs.foldl (fun es c => match c with
    | .EventBegin name => name :: es
    | .EventEnd => es.tail
    | _ => es) es

/-- The render target after a command sequence. -/
def targetAfter (target : Option RenderTargetRef) (cs : List Cmd) : Option RenderTargetRef :=
  cs.foldl (fun target c => match c with
    | .SetRenderTarget t _ _ => some t
    | .GBuffer_SetAsRenderTarget => none
    | _ => target) target

/-- The textures set since the latest draw, after a command sequence. -/
def pendingAfter (textures : List TextureRef) (cs : List Cmd) : List TextureRef :=
  cs.foldl (fun textures c => match c with
    | .SetTexture t => textures ++ [t]
    | .DrawIndexed _ _ _ => []
    | .Draw _ => []
    | _ => textures) textures

/-- Evaluates the blending discipline over a command sequence entered with the blending flag
`b` under the open events `es`. -/
def blendOk (b : Bool) (es : List String) : List Cmd → Bool
  | [] => true
  | .Set_AlphaBlendingEnabled enable :: cs =>
    (!enable || insideBlendingPass es) && blendOk enable es cs
  | .EventBegin name :: cs => blendOk b (name :: es) cs
  | .EventEnd :: cs => blendOk b es.tail cs
  | .DrawIndexed _ _ _ :: cs => (!b || insideBlendingPass es) && blendOk b es cs
  | .Draw _ :: cs => (!b || insideBlendingPass es) && blendOk b es cs
  | _ :: cs => blendOk b es cs

/-- The target discipline over a command sequence entered with a render target and with
textures set since the latest draw. -/
def targetOk (target : Option RenderTargetRef) (textures : List TextureRef) : List Cmd → Prop
  | [] => True
  | .SetRenderTarget t _ _ :: cs => targetOk (some t) textures cs
  | .GBuffer_SetAsRenderTarget :: cs => targetOk none textures cs
  | .SetTexture t :: cs => targetOk target (textures ++ [t]) cs
  | .DrawIndexed _ _ _ :: cs =>
    (∀ t, target = some (.renderTexture t) → TextureRef.renderTexture t ∉ textures)
      ∧ targetOk target [] cs
  | .Draw _ :: cs =>
    (∀ t, target = some (.renderTexture t) → TextureRef.renderTexture t ∉ textures)
      ∧ targetOk target [] cs
  | _ :: cs => targetOk target textures cs

/-- No render texture is in the list. -/
def NoRenderTexture (textures : List TextureRef) : Prop :=
  ∀ t, TextureRef.renderTexture t ∉ textures

namespace Renderer

/-- The nine pooled members designate pairwise distinct render textures. -/
def PoolDistinct (r : Renderer) : Prop := Function.Injective r.tex

/-- The pooled members of `r'` designate the render textures of `r`, permuted. -/
def PoolPerm (r r' : Renderer) : Prop :=
  ∃ σ : Equiv.Perm TexSlot, ∀ s, r'.tex s = r.tex (σ s)

/-- Relation between the renderer before and after a piece of a frame that is entered with the
blending flag `b` under the open events `es` and left with `b'` under `es'`: the log is
extended, the pooled members are permuted, the new commands respect the blending discipline,
and, when the pooled members designate distinct textures and no render texture is pending as
input, they respect the target discipline and leave no render texture pending. -/
def Sound (r r' : Renderer) (b : Bool) (es : List String) (b' : Bool) (es' : List String) :
    Prop :=
  r.log <+: r'.log ∧ r.PoolPerm r' ∧ b' = blendAfter b (r.issued r') ∧
    es' = eventsAfter es (r.issued r') ∧ blendOk b es (r.issued r') = true ∧
    (r.PoolDistinct → ∀ (target : Option RenderTargetRef) (textures : List TextureRef),
      NoRenderTexture textures →
        targetOk target textures (r.issued r') ∧
        NoRenderTexture (pendingAfter textures (r.issued r')))

end Renderer

theorem StrictWeakOn.asymm {comp : Actor → Actor → Option Bool} {l : List Actor}
    (h : StrictWeakOn comp l) {a b : Actor} (ha : a ∈ l) (hb : b ∈ l)
    (hab : comp a b = some true) : comp b a = some false := by
  have hd := h.defined b hb a ha
  cases hba : comp b a with
  | none => simp [hba] at hd
  | some u =>
    cases u with
    | false => rfl
    | true =>
      have h1 := h.trans a ha b hb a ha hab hba
      have h2 := h.irrefl a ha
      rw [h1] at h2
      cases h2

theorem StrictWeakOn.negTrans {comp : Actor → Actor → Option Bool} {l : List Actor}
    (h : StrictWeakOn comp l) {a b c : Actor} (ha : a ∈ l) (hb : b ∈ l) (hc : c ∈ l)
    (hab : comp a b = some false) (hbc : comp b c = some false) : comp a c = some false := by
  have hd := h.defined a ha c hc
  cases hac : comp a c with
  | none => simp [hac] at hd
  | some v =>
    cases v with
    | false => rfl
    | true =>
      have hba : comp b a = some false := by
        have hd' := h.defined b hb a ha
        cases hba : comp b a with
        | none => simp [hba] at hd'
        | some u =>
          cases u with
          | false => rfl
          | true =>
            have := h.trans b hb a ha c hc hba hac
            rw [this] at hbc
            cases hbc
      have hcb : comp c b = some false := by
        have hd' := h.defined c hc b hb
        cases hcb : comp c b with
        | none => simp [hcb] at hd'
        | some u =>
          cases u with
          | false => rfl
          | true =>
            have := h.trans a ha c hc b hb hac hcb
            rw [this] at hab
            cases hab
      have := (h.incomp_trans a ha b hb c hc hab hba hbc hcb).1
      rw [this] at hac
      cases hac

theorem StrictWeakOn.of_perm {comp : Actor → Actor → Option Bool} {l l' : List Actor}
    (h : StrictWeakOn comp l) (hp : l'.Perm l) : StrictWeakOn comp l' where
  defined := fun a ha b hb => h.defined a (hp.mem_iff.1 ha) b (hp.mem_iff.1 hb)
  irrefl := fun a ha => h.irrefl a (hp.mem_iff.1 ha)
  trans := fun a ha b hb c hc =>
    h.trans a (hp.mem_iff.1 ha) b (hp.mem_iff.1 hb) c (hp.mem_iff.1 hc)
  incomp_trans := fun a ha b hb c hc =>
    h.incomp_trans a (hp.mem_iff.1 ha) b (hp.mem_iff.1 hb) c (hp.mem_iff.1 hc)

theorem insertSorted_perm (comp : Actor → Actor → Option Bool) (x : Actor) :
    ∀ (t t' : List Actor), insertSorted comp x t = some t' → t'.Perm (x :: t) := by
  intro t
  induction t with
  | nil =>
    intro t' h
    simp [insertSorted] at h
    subst h
    exact List.Perm.refl _
  | cons y ys ih =>
    intro t' h
    unfold insertSorted at h
    cases hc : comp y x with
    | none => simp [hc] at h
    | some u =>
      cases u with
      | false =>
        simp [hc] at h
        subst h
        exact List.Perm.refl _
      | true =>
        simp only [hc, Option.map_eq_some'] at h
        obtain ⟨t'', ht'', rfl⟩ := h
        exact ((ih t'' ht'').cons y).trans (List.Perm.swap x y ys)

theorem insertionSort_perm (comp : Actor → Actor → Option Bool) :
    ∀ (l t : List Actor), insertionSort comp l = some t → t.Perm l := by
  intro l
  induction l with
  | nil =>
    intro t h
    simp [insertionSort] at h
    subst h
    exact List.Perm.refl _
  | cons x xs ih =>
    intro t h
    unfold insertionSort at h
    cases hs : insertionSort comp xs with
    | none => simp [hs] at h
    | some t0 =>
      simp only [hs] at h
      exact (insertSorted_perm comp x t0 t h).trans ((ih t0 hs).cons x)

theorem insertSorted_isSome (comp : Actor → Actor → Option Bool) (x : Actor) :
    ∀ (t : List Actor), (∀ y ∈ t, (comp y x).isSome = true) →
      (insertSorted comp x t).isSome = true := by
  intro t
  induction t with
  | nil => intro _; simp [insertSorted]
  | cons y ys ih =>
    intro h
    unfold insertSorted
    have hy := h y (List.mem_cons_self _ _)
    cases hc : comp y x with
    | none => simp [hc] at hy
    | some u =>
      cases u with
      | false => simp
      | true =>
        have := ih (fun z hz => h z (List.mem_cons_of_mem _ hz))
        simpa using this

theorem insertionSort_isSome (comp : Actor → Actor → Option Bool) :
    ∀ (l : List Actor), (∀ a ∈ l, ∀ b ∈ l, (comp a b).isSome = true) →
      (insertionSort comp l).isSome = true := by
  intro l
  induction l with
  | nil => intro _; simp [insertionSort]
  | cons x xs ih =>
    intro h
    unfold insertionSort
    have hxs := ih (fun a ha b hb => h a (List.mem_cons_of_mem _ ha) b (List.mem_cons_of_mem _ hb))
    cases hs : insertionSort comp xs with
    | none => simp [hs] at hxs
    | some t0 =>
      simp only
      apply insertSorted_isSome
      intro y hy
      have hy' : y ∈ xs := (insertionSort_perm comp xs t0 hs).mem_iff.1 hy
      exact h y (List.mem_cons_of_mem _ hy') x (List.mem_cons_self _ _)

theorem insertSorted_sorted {comp : Actor → Actor → Option Bool} {l : List Actor}
    (h : StrictWeakOn comp l) {x : Actor} (hx : x ∈ l) :
    ∀ (t t' : List Actor), (∀ y ∈ t, y ∈ l) →
      t.Pairwise (fun a b => comp b a = some false) →
      insertSorted comp x t = some t' →
      t'.Pairwise (fun a b => comp b a = some false) := by
  intro t
  induction t with
  | nil =>
    intro t' _ _ he
    simp [insertSorted] at he
    subst he
    exact List.pairwise_singleton _ _
  | cons y ys ih =>
    intro t' hmem hs he
    have hy : y ∈ l := hmem y (List.mem_cons_self _ _)
    have hys : ∀ z ∈ ys, z ∈ l := fun z hz => hmem z (List.mem_cons_of_mem _ hz)
    rw [List.pairwise_cons] at hs
    unfold insertSorted at he
    cases hc : comp y x with
    | none => simp [hc] at he
    | some u =>
      cases u with
      | false =>
        simp [hc] at he
        subst he
        refine List.pairwise_cons.2 ⟨?_, List.pairwise_cons.2 hs⟩
        intro z hz
        rcases List.mem_cons.1 hz with rfl | hz'
        · exact hc
        · exact h.negTrans (hys z hz') hy hx (hs.1 z hz') hc
      | true =>
        simp only [hc, Option.map_eq_some'] at he
        obtain ⟨t'', ht'', rfl⟩ := he
        refine List.pairwise_cons.2 ⟨?_, ih t'' hys hs.2 ht''⟩
        intro z hz
        have hz' := (insertSorted_perm comp x ys t'' ht'').mem_iff.1 hz
        rcases List.mem_cons.1 hz' with rfl | hz''
        · exact h.asymm hy hx hc
        · exact hs.1 z hz''

theorem insertionSort_sorted {comp : Actor → Actor → Option Bool} {l : List Actor}
    (h : StrictWeakOn comp l) :
    ∀ (l' t : List Actor), (∀ a ∈ l', a ∈ l) → insertionSort comp l' = some t →
      t.Pairwise (fun a b => comp b a = some false) := by
  intro l'
  induction l' with
  | nil =>
    intro t _ he
    simp [insertionSort] at he
    subst he
    exact List.Pairwise.nil
  | cons x xs ih =>
    intro t hmem he
    unfold insertionSort at he
    cases hs : insertionSort comp xs with
    | none => simp [hs] at he
    | some t0 =>
      simp only [hs] at he
      have hxs : ∀ a ∈ xs, a ∈ l := fun a ha => hmem a (List.mem_cons_of_mem _ ha)
      refine insertSorted_sorted h (hmem x (List.mem_cons_self _ _)) t0 t ?_ (ih t0 hxs hs) he
      intro y hy
      exact hxs y ((insertionSort_perm comp xs t0 hs).mem_iff.1 hy)

/-- Insertion sort meets the contract of `std::sort`. -/
theorem insertionSort_contract : StdSortContract insertionSort where
  returns := fun comp l h => insertionSort_isSome comp l h.defined
  perm := fun comp l l' _ h => insertionSort_perm comp l l' h
  sorted := fun _ l l' hsw h => insertionSort_sorted hsw l l' (fun _ ha => ha) h

/-- Insertion sort of the reversed range meets the contract of `std::sort` as well. -/
theorem reverseInsertionSort_contract : StdSortContract reverseInsertionSort where
  returns := fun comp l h =>
    insertionSort_isSome comp l.reverse
      (fun a ha b hb => h.defined a (List.mem_reverse.1 ha) b (List.mem_reverse.1 hb))
  perm := fun comp l l' _ h =>
    (insertionSort_perm comp l.reverse l' h).trans (List.reverse_perm l)
  sorted := fun _ l l' hsw h =>
    insertionSort_sorted hsw l.reverse l' (fun _ ha => List.mem_reverse.1 ha) h

/-! ## `Renderables_Sort` -/

theorem comparator_of_sortKey {a b : Actor} {ka kb : Nat} (ha : a.sortKey? = some ka)
    (hb : b.sortKey? = some kb) : Renderables_Sort.comparator a b = some (decide (ka < kb)) := by
  unfold Actor.sortKey? at ha hb
  unfold Renderables_Sort.comparator
  cases hra : a.renderable with
  | none => simp [hra] at ha
  | some ra =>
    cases hrb : b.renderable with
    | none => simp [hrb] at hb
    | some rb =>
      simp only [hra, hrb] at ha hb ⊢
      cases hma : ra.geometryModel <;> cases hta : ra.material <;> simp [hma, hta] at ha
      cases hmb : rb.geometryModel <;> cases htb : rb.material <;> simp [hmb, htb] at hb
      rename_i ma ta mb tb
      cases hsa : ta.shader <;> simp [hsa] at ha
      cases hsb : tb.shader <;> simp [hsb] at hb
      subst ha hb
      simp [hma, hmb, hta, htb, hsa, hsb]

theorem sortKey?_of_sortable {a : Actor} (h : a.sortable = true) :
    a.sortKey? = some a.compositeKey := by
  unfold Actor.sortable at h
  unfold Actor.compositeKey
  cases hk : a.sortKey? with
  | none => simp [hk] at h
  | some k => rfl

theorem comparator_strictWeakOn {l : List Actor} (hv : ∀ a ∈ l, a.sortable = true) :
    StrictWeakOn Renderables_Sort.comparator l where
  defined := by
    intro a ha b hb
    rw [comparator_of_sortKey (sortKey?_of_sortable (hv a ha)) (sortKey?_of_sortable (hv b hb))]
    rfl
  irrefl := by
    intro a ha
    rw [comparator_of_sortKey (sortKey?_of_sortable (hv a ha)) (sortKey?_of_sortable (hv a ha))]
    simp
  trans := by
    intro a ha b hb c hc
    rw [comparator_of_sortKey (sortKey?_of_sortable (hv a ha)) (sortKey?_of_sortable (hv b hb)),
      comparator_of_sortKey (sortKey?_of_sortable (hv b hb)) (sortKey?_of_sortable (hv c hc)),
      comparator_of_sortKey (sortKey?_of_sortable (hv a ha)) (sortKey?_of_sortable (hv c hc))]
    simp only [Option.some.injEq, decide_eq_true_eq]
    omega
  incomp_trans := by
    intro a ha b hb c hc
    rw [comparator_of_sortKey (sortKey?_of_sortable (hv a ha)) (sortKey?_of_sortable (hv b hb)),
      comparator_of_sortKey (sortKey?_of_sortable (hv b hb)) (sortKey?_of_sortable (hv a ha)),
      comparator_of_sortKey (sortKey?_of_sortable (hv b hb)) (sortKey?_of_sortable (hv c hc)),
      comparator_of_sortKey (sortKey?_of_sortable (hv c hc)) (sortKey?_of_sortable (hv b hb)),
      comparator_of_sortKey (sortKey?_of_sortable (hv a ha)) (sortKey?_of_sortable (hv c hc)),
      comparator_of_sortKey (sortKey?_of_sortable (hv c hc)) (sortKey?_of_sortable (hv a ha))]
    simp only [Option.some.injEq, decide_eq_false_iff_not]
    omega

/-- What every admissible `std::sort` does to a bucket of more than two sortable actors: the
call completes with a permutation of the bucket whose composite keys never decrease. -/
theorem Renderables_Sort_sorted_perm_aux (stdSort : StdSort) (hS : StdSortContract stdSort)
    (l : List Actor) (hN : 2 < l.length) (hv : ∀ a ∈ l, a.sortable = true) :
    ∃ l', Renderables_Sort stdSort l = some l' ∧ l'.Perm l ∧
      l'.Pairwise (fun a b => a.compositeKey ≤ b.compositeKey) := by
  have hsw := comparator_strictWeakOn hv
  have hret := hS.returns Renderables_Sort.comparator l hsw
  cases hres : stdSort Renderables_Sort.comparator l with
  | none => simp [hres] at hret
  | some l' =>
    have hperm := hS.perm _ l l' hsw hres
    have hsorted := hS.sorted _ l l' hsw hres
    refine ⟨l', ?_, hperm, ?_⟩
    · unfold Renderables_Sort
      rw [if_neg (by omega), hres]
    · refine List.Pairwise.imp_of_mem ?_ hsorted
      intro a b ha hb hcomp
      have ha' := hv a (hperm.mem_iff.1 ha)
      have hb' := hv b (hperm.mem_iff.1 hb)
      rw [comparator_of_sortKey (sortKey?_of_sortable hb') (sortKey?_of_sortable ha')] at hcomp
      simp only [Option.some.injEq, decide_eq_false_iff_not] at hcomp
      omega

/-- C2: a bucket of at most two actors comes back from `Renderables_Sort` unchanged, same
elements in the same order, whatever the actors are and whatever `std::sort` would do. -/
theorem Renderables_Sort_small_is_identity (stdSort : StdSort) (renderables : List Actor)
    (hN : renderables.length ≤ 2) : Renderables_Sort stdSort renderables = some renderables := by
  unfold Renderables_Sort
  rw [if_pos hN]

theorem Renderables_Sort_small_is_identity_witness :
    [sampleObject 1 9 1 1 1, sampleObject 2 3 1 1 1].length ≤ 2 ∧
      Renderables_Sort reverseInsertionSort [sampleObject 1 9 1 1 1, sampleObject 2 3 1 1 1] =
        some [sampleObject 1 9 1 1 1, sampleObject 2 3 1 1 1] :=
  ⟨by decide, Renderables_Sort_small_is_identity reverseInsertionSort
    [sampleObject 1 9 1 1 1, sampleObject 2 3 1 1 1] (by decide)⟩

/-- C3: for a bucket of more than two actors that all have a renderable, a geometry model, a
material and a live shader, `Renderables_Sort` completes (under every `std::sort` that meets the
contract) with a permutation of the input whose composite (model, shader, material) keys are
non-decreasing. -/
theorem Renderables_Sort_sorted_perm (stdSort : StdSort) (hS : StdSortContract stdSort)
    (l : List Actor) (hN : 2 < l.length) (hv : ∀ a ∈ l, a.sortable = true) :
    ∃ l', Renderables_Sort stdSort l = some l' ∧ l'.Perm l ∧
      l'.Pairwise (fun a b => a.compositeKey ≤ b.compositeKey) :=
  Renderables_Sort_sorted_perm_aux stdSort hS l hN hv

theorem Renderables_Sort_sorted_perm_witness :
    StdSortContract insertionSort ∧ 2 < sampleDecreasing.length ∧
      (∀ a ∈ sampleDecreasing, a.sortable = true) ∧
      ∃ l', Renderables_Sort insertionSort sampleDecreasing = some l' ∧
        l'.Perm sampleDecreasing ∧ l'.Pairwise (fun a b => a.compositeKey ≤ b.compositeKey) :=
  ⟨insertionSort_contract, by decide, by decide,
    Renderables_Sort_sorted_perm insertionSort insertionSort_contract sampleDecreasing
      (by decide) (by decide)⟩

/-- C4, refuted as stated: an admissible `std::sort` (insertion sort of the reversed range)
returns three distinct actors of equal composite key in reversed order, so the relative order of
equal-key actors is not preserved. -/
theorem Renderables_Sort_not_stable :
    StdSortContract reverseInsertionSort ∧ 2 < sampleEqualKeys.length ∧
      (∀ a ∈ sampleEqualKeys, a.sortable = true) ∧
      Renderables_Sort reverseInsertionSort sampleEqualKeys = some sampleEqualKeys.reverse ∧
      ¬ StableRearrangement sampleEqualKeys sampleEqualKeys.reverse := by
  refine ⟨reverseInsertionSort_contract, by decide, by decide, by decide, ?_⟩
  intro h
  exact absurd (h (sampleObject 1 7 7 7 1).compositeKey) (by decide)

/-- C4, amended: for a bucket of more than two sortable actors the sequence of composite keys of
the result does not depend on which admissible `std::sort` is used (it is the input's keys in
non-decreasing order), so any two admissible results differ at most in the order of actors that
carry equal keys; that order itself is not guaranteed. -/
theorem Renderables_Sort_keys_determined (stdSort₁ stdSort₂ : StdSort)
    (h₁ : StdSortContract stdSort₁) (h₂ : StdSortContract stdSort₂)
    (l : List Actor) (hN : 2 < l.length) (hv : ∀ a ∈ l, a.sortable = true) :
    ∃ l₁ l₂, Renderables_Sort stdSort₁ l = some l₁ ∧ Renderables_Sort stdSort₂ l = some l₂ ∧
      l₁.Perm l₂ ∧ l₁.map Actor.compositeKey = l₂.map Actor.compositeKey := by
  obtain ⟨l₁, e₁, p₁, s₁⟩ := Renderables_Sort_sorted_perm_aux stdSort₁ h₁ l hN hv
  obtain ⟨l₂, e₂, p₂, s₂⟩ := Renderables_Sort_sorted_perm_aux stdSort₂ h₂ l hN hv
  refine ⟨l₁, l₂, e₁, e₂, p₁.trans p₂.symm, ?_⟩
  have hp : (l₁.map Actor.compositeKey).Perm (l₂.map Actor.compositeKey) :=
    (p₁.trans p₂.symm).map _
  have hs₁ : (l₁.map Actor.compositeKey).Sorted (· ≤ ·) := List.pairwise_map.2 s₁
  have hs₂ : (l₂.map Actor.compositeKey).Sorted (· ≤ ·) := List.pairwise_map.2 s₂
  exact List.eq_of_perm_of_sorted hp hs₁ hs₂

theorem Renderables_Sort_keys_determined_witness :
    StdSortContract insertionSort ∧ StdSortContract reverseInsertionSort ∧
      2 < sampleEqualKeys.length ∧ (∀ a ∈ sampleEqualKeys, a.sortable = true) ∧
      ∃ l₁ l₂, Renderables_Sort insertionSort sampleEqualKeys = some l₁ ∧
        Renderables_Sort reverseInsertionSort sampleEqualKeys = some l₂ ∧
        l₁.Perm l₂ ∧ l₁.map Actor.compositeKey = l₂.map Actor.compositeKey :=
  ⟨insertionSort_contract, reverseInsertionSort_contract, by decide, by decide,
    Renderables_Sort_keys_determined insertionSort reverseInsertionSort insertionSort_contract
      reverseInsertionSort_contract sampleEqualKeys (by decide) (by decide)⟩

/-- C5, the failing input: the identifiers are 32 bits wide but the key gives each of them a
16-bit field, so the shifted shader identifier spills into the model field.  The triple
(0, 65536, 0) is lexicographically below (1, 0, 0), yet both pack to the same key, so the
comparator does not order the first before the second. -/
theorem sortKey_not_lexicographic :
    lexLess (0, 65536, 0) (1, 0, 0) ∧ sortKey 0 65536 0 = 281474976710656 ∧
      sortKey 1 0 0 = 281474976710656 ∧ ¬ (sortKey 0 65536 0 < sortKey 1 0 0) ∧
      Renderables_Sort.comparator (sampleObject 1 0 65536 0 1) (sampleObject 2 1 0 0 1)
        = some false := by
  refine ⟨Or.inl (by decide), by decide, by decide, by decide, by decide⟩

theorem sortKey_eq_of_small {m s t : Nat} (hm : m < 2 ^ 16) (hs : s < 2 ^ 16)
    (ht : t < 2 ^ 16) : sortKey m s t = m * 2 ^ 48 + s * 2 ^ 32 + t * 2 ^ 16 := by
  unfold sortKey shl64
  simp only [Nat.shiftLeft_eq]
  have e1 : m % 2 ^ 64 * 2 ^ 48 % 2 ^ 64 = 2 ^ 48 * m := by omega
  have e2 : s % 2 ^ 64 * 2 ^ 32 % 2 ^ 64 = 2 ^ 32 * s := by omega
  have e3 : t % 2 ^ 64 * 2 ^ 16 % 2 ^ 64 = 2 ^ 16 * t := by omega
  rw [e1, e2, e3]
  have h1 : 2 ^ 48 * m ||| 2 ^ 32 * s = 2 ^ 48 * m + 2 ^ 32 * s :=
    (Nat.mul_add_lt_is_or (by omega) m).symm
  have h2 : 2 ^ 48 * m + 2 ^ 32 * s = 2 ^ 32 * (2 ^ 16 * m + s) := by omega
  have h3 : 2 ^ 32 * (2 ^ 16 * m + s) ||| 2 ^ 16 * t = 2 ^ 32 * (2 ^ 16 * m + s) + 2 ^ 16 * t :=
    (Nat.mul_add_lt_is_or (by omega) _).symm
  rw [h1, h2, h3]
  omega

/-- Where the packing does work: when all six identifiers are below `2 ^ 16` the key order is
the lexicographic order of the triples. -/
theorem sortKey_lexicographic_of_small {m s t m' s' t' : Nat} (hm : m < 2 ^ 16)
    (hs : s < 2 ^ 16) (ht : t < 2 ^ 16) (hm' : m' < 2 ^ 16) (hs' : s' < 2 ^ 16)
    (ht' : t' < 2 ^ 16) :
    sortKey m s t < sortKey m' s' t' ↔ lexLess (m, s, t) (m', s', t') := by
  rw [sortKey_eq_of_small hm hs ht, sortKey_eq_of_small hm' hs' ht']
  unfold lexLess
  simp only
  omega

/-! ## `Renderables_Acquire` -/

theorem ActorMap.at_insert (m : ActorMap) (k k' : RenderableType) (v : List Actor) :
    (m.insert k v).at k' = if k' = k then v else m.at k' := by
  cases k <;> cases k' <;> simp [ActorMap.insert, ActorMap.at, ActorMap.find]

theorem ActorMap.at_emplace_back (m : ActorMap) (k k' : RenderableType) (a : Actor) :
    (m.emplace_back k a).at k' = if k' = k then m.at k ++ [a] else m.at k' := by
  unfold ActorMap.emplace_back
  rw [ActorMap.at_insert]

theorem ActorMap.at_clear (k : RenderableType) : ActorMap.clear.at k = [] := by
  cases k <;> rfl

theorem ActorMap.at_touch (m : ActorMap) (k k' : RenderableType) :
    (m.touch k).at k' = m.at k' := by
  unfold ActorMap.touch
  rw [ActorMap.at_insert]
  split
  · next h => rw [h]
  · rfl

theorem Renderables_Acquire.step_at (st : ActorMap × Option Camera) (a : Actor)
    (k : RenderableType) :
    (Renderables_Acquire.step st (some a)).1.at k =
      st.1.at k ++ (if a.belongsTo k then [a] else []) := by
  unfold Renderables_Acquire.step
  cases hr : a.renderable with
  | none =>
    cases hl : a.light <;> cases hs : a.skybox <;> cases hc : a.camera <;> cases k <;>
      simp [ActorMap.at_emplace_back, Actor.belongsTo, Actor.isTransparent, hr, hl, hs, hc]
  | some rd =>
    cases hm : rd.material with
    | none =>
      cases hl : a.light <;> cases hs : a.skybox <;> cases hc : a.camera <;> cases k <;>
        simp [ActorMap.at_emplace_back, Actor.belongsTo, Actor.isTransparent, hr, hl, hs, hc,
          hm, Renderable.Material_Exists]
    | some mat =>
      by_cases hw : mat.colorAlbedo.w < 1 <;>
      cases hl : a.light <;> cases hs : a.skybox <;> cases hc : a.camera <;> cases k <;>
        simp [ActorMap.at_emplace_back, Actor.belongsTo, Actor.isTransparent, hr, hl, hs, hc,
          hm, hw, Renderable.Material_Exists]

theorem Renderables_Acquire.step_camera (st : ActorMap × Option Camera) (a : Actor) :
    (Renderables_Acquire.step st (some a)).2 =
      match a.camera with
      | some c => some c
      | none => st.2 := by
  unfold Renderables_Acquire.step
  cases hr : a.renderable <;> cases hl : a.light <;> cases hs : a.skybox <;>
    cases hc : a.camera <;> simp [hr, hl, hs, hc]

theorem Renderables_Acquire.fold_at (actorsVec : List (Option Actor)) :
    ∀ (st : ActorMap × Option Camera) (k : RenderableType),
      (actorsVec.foldl Renderables_Acquire.step st).1.at k = st.1.at k ++ collected actorsVec k := by
  induction actorsVec with
  | nil => intro st k; simp [collected]
  | cons x xs ih =>
    intro st k
    rw [List.foldl_cons, ih]
    cases x with
    | none => simp [Renderables_Acquire.step, collected]
    | some a =>
      rw [Renderables_Acquire.step_at]
      by_cases hb : a.belongsTo k = true <;> simp [collected, hb]

theorem lastCamera_cons (x : Option Actor) (xs : List (Option Actor)) :
    lastCamera (x :: xs) =
      match lastCamera xs with
      | some camera => some camera
      | none => x.bind Actor.camera := rfl

theorem Renderables_Acquire.fold_camera (actorsVec : List (Option Actor)) :
    ∀ (st : ActorMap × Option Camera),
      (actorsVec.foldl Renderables_Acquire.step st).2 =
        match lastCamera actorsVec with
        | some c => some c
        | none => st.2 := by
  induction actorsVec with
  | nil => intro st; simp [lastCamera]
  | cons x xs ih =>
    intro st
    rw [List.foldl_cons, ih, lastCamera_cons]
    cases hl : lastCamera xs with
    | some c => simp
    | none =>
      cases x with
      | none => simp [Renderables_Acquire.step]
      | some a =>
        simp only [Renderables_Acquire.step_camera, Option.bind]

theorem Renderables_Sort_perm {stdSort : StdSort} (hS : StdSortContract stdSort)
    {l l' : List Actor} (hdef : SortDefined l) (h : Renderables_Sort stdSort l = some l') :
    l'.Perm l := by
  unfold Renderables_Sort at h
  split at h
  · simp only [Option.some.injEq] at h
    subst h
    exact List.Perm.refl _
  · rename_i hlen
    rcases hdef with hsmall | hsw
    · exact absurd hsmall hlen
    · exact hS.perm _ _ _ hsw h

/-- What a completed `Renderables_Acquire` leaves behind, whatever `std::sort` does: the two
object buckets are what `Renderables_Sort` made of the collected actors, the other buckets are
the collected actors in snapshot order, the camera is the last one of the snapshot, and the keys
of the two object buckets are in the map. -/
theorem Renderables_Acquire_unsorted {stdSort : StdSort} {r r' : Renderer}
    {actorsVec : List (Option Actor)}
    (h : Renderables_Acquire stdSort r actorsVec = some r') :
    Renderables_Sort stdSort (collected actorsVec .Renderable_ObjectOpaque)
        = some (r'.m_actors.at .Renderable_ObjectOpaque) ∧
      Renderables_Sort stdSort (collected actorsVec .Renderable_ObjectTransparent)
        = some (r'.m_actors.at .Renderable_ObjectTransparent) ∧
      r'.m_actors.at .Renderable_Light = collected actorsVec .Renderable_Light ∧
      r'.m_actors.at .Renderable_Skybox = collected actorsVec .Renderable_Skybox ∧
      r'.m_actors.at .Renderable_Camera = collected actorsVec .Renderable_Camera ∧
      r'.m_camera = lastCamera actorsVec ∧
      r'.m_actors.objectOpaque.isSome = true ∧ r'.m_actors.objectTransparent.isSome = true := by
  unfold Renderables_Acquire at h
  simp only at h
  cases h1 : Renderables_Sort stdSort
      ((actorsVec.foldl Renderables_Acquire.step (ActorMap.clear, none)).1.at
        .Renderable_ObjectOpaque) with
  | none => simp [h1] at h
  | some l1 =>
    simp only [h1] at h
    cases h2 : Renderables_Sort stdSort
        (((actorsVec.foldl Renderables_Acquire.step (ActorMap.clear, none)).1.insert
          .Renderable_ObjectOpaque l1).at .Renderable_ObjectTransparent) with
    | none => simp [h2] at h
    | some l2 =>
      simp only [h2, Option.some.injEq] at h
      subst h
      rw [Renderables_Acquire.fold_at, ActorMap.at_clear, List.nil_append] at h1
      rw [ActorMap.at_insert, if_neg (by decide), Renderables_Acquire.fold_at, ActorMap.at_clear,
        List.nil_append] at h2
      refine ⟨?_, ?_, ?_, ?_, ?_, ?_, ?_, ?_⟩
      · rw [h1]; simp [ActorMap.at_insert]
      · rw [h2]; simp [ActorMap.at_insert]
      · simp [ActorMap.at_insert, Renderables_Acquire.fold_at, ActorMap.at_clear]
      · simp [ActorMap.at_insert, Renderables_Acquire.fold_at, ActorMap.at_clear]
      · simp [ActorMap.at_insert, Renderables_Acquire.fold_at, ActorMap.at_clear]
      · simp [Renderables_Acquire.fold_camera]
        cases lastCamera actorsVec <;> rfl
      · simp [ActorMap.insert]
      · simp [ActorMap.insert]

/-- Where both calls of `Renderables_Sort` are specified, every `std::sort` that meets the
standard's contract leaves in each object bucket a permutation of the collected actors. -/
theorem Renderables_Acquire_result {stdSort : StdSort} (hS : StdSortContract stdSort)
    {r r' : Renderer} {actorsVec : List (Option Actor)}
    (hO : SortDefined (collected actorsVec .Renderable_ObjectOpaque))
    (hT : SortDefined (collected actorsVec .Renderable_ObjectTransparent))
    (h : Renderables_Acquire stdSort r actorsVec = some r') :
    (r'.m_actors.at .Renderable_ObjectOpaque).Perm
        (collected actorsVec .Renderable_ObjectOpaque) ∧
      (r'.m_actors.at .Renderable_ObjectTransparent).Perm
        (collected actorsVec .Renderable_ObjectTransparent) := by
  obtain ⟨s1, s2, -⟩ := Renderables_Acquire_unsorted h
  exact ⟨Renderables_Sort_perm hS hO s1, Renderables_Sort_perm hS hT s2⟩

theorem count_filterMap_id (actorsVec : List (Option Actor)) (a : Actor) :
    (actorsVec.filterMap id).count a = actorsVec.count (some a) := by
  induction actorsVec with
  | nil => rfl
  | cons x xs ih =>
    cases x with
    | none => simp [List.filterMap_cons, ih]
    | some b =>
      by_cases hb : b = a
      · subst hb
        simp [List.filterMap_cons, ih]
      · have hb' : ¬ (some b = some a) := fun h => hb (Option.some.inj h)
        simp [List.filterMap_cons, ih, List.count_cons, hb, hb']

theorem count_collected (actorsVec : List (Option Actor)) (k : RenderableType) (a : Actor) :
    (collected actorsVec k).count a = if a.belongsTo k = true then actorsVec.count (some a) else 0 := by
  unfold collected
  split
  · next h => rw [List.count_filter (by simpa using h), count_filterMap_id]
  · next h =>
    apply List.count_eq_zero.2
    intro hm
    exact h (by simpa using (List.mem_filter.1 hm).2)

theorem mem_collected {actorsVec : List (Option Actor)} {k : RenderableType} {a : Actor}
    (h : a ∈ collected actorsVec k) : some a ∈ actorsVec := by
  unfold collected at h
  have := (List.mem_filter.1 h).1
  simpa using this

theorem comparator_isSome_of_safe {a b : Actor} (ha : a.shaderDerefSafe = true)
    (hb : b.shaderDerefSafe = true) : (Renderables_Sort.comparator a b).isSome = true := by
  unfold Actor.shaderDerefSafe at ha hb
  unfold Renderables_Sort.comparator
  cases hra : a.renderable with
  | none => simp
  | some ra =>
    cases hrb : b.renderable with
    | none => simp
    | some rb =>
      simp only [hra, hrb] at ha hb ⊢
      cases hma : ra.geometryModel <;> cases hta : ra.material <;>
        cases hmb : rb.geometryModel <;> cases htb : rb.material <;>
        simp [hma, hta, hmb, htb] at ha hb ⊢
      rename_i ma ta mb tb
      cases hsa : ta.shader <;> simp [hsa] at ha
      cases hsb : tb.shader <;> simp [hsb] at hb
      simp

theorem Renderables_Sort_isSome {stdSort : StdSort} (hS : StdSortContract stdSort)
    {l : List Actor} (hdef : SortDefined l) : (Renderables_Sort stdSort l).isSome = true := by
  unfold Renderables_Sort
  split
  · rfl
  · rename_i hlen
    rcases hdef with hsmall | hsw
    · exact absurd hsmall hlen
    · exact hS.returns _ _ hsw

/-- Where both calls of `Renderables_Sort` are specified, `Renderables_Acquire` completes with
every `std::sort` that meets the standard's contract. -/
theorem Renderables_Acquire_isSome {stdSort : StdSort} (hS : StdSortContract stdSort)
    (r : Renderer) {actorsVec : List (Option Actor)}
    (hO : SortDefined (collected actorsVec .Renderable_ObjectOpaque))
    (hT : SortDefined (collected actorsVec .Renderable_ObjectTransparent)) :
    (Renderables_Acquire stdSort r actorsVec).isSome = true := by
  unfold Renderables_Acquire
  simp only
  have h1 := Renderables_Sort_isSome hS
    (l := (actorsVec.foldl Renderables_Acquire.step (ActorMap.clear, none)).1.at
      .Renderable_ObjectOpaque)
    (by rw [Renderables_Acquire.fold_at, ActorMap.at_clear, List.nil_append]; exact hO)
  cases e1 : Renderables_Sort stdSort
      ((actorsVec.foldl Renderables_Acquire.step (ActorMap.clear, none)).1.at
        .Renderable_ObjectOpaque) with
  | none => simp [e1] at h1
  | some l1 =>
    simp only
    have h2 := Renderables_Sort_isSome hS
      (l := ((actorsVec.foldl Renderables_Acquire.step (ActorMap.clear, none)).1.insert
        .Renderable_ObjectOpaque l1).at .Renderable_ObjectTransparent)
      (by
        rw [ActorMap.at_insert, if_neg (by decide), Renderables_Acquire.fold_at,
          ActorMap.at_clear, List.nil_append]
        exact hT)
    cases e2 : Renderables_Sort stdSort
        (((actorsVec.foldl Renderables_Acquire.step (ActorMap.clear, none)).1.insert
          .Renderable_ObjectOpaque l1).at .Renderable_ObjectTransparent) with
    | none => simp [e2] at h2
    | some l2 => rfl

/-- A snapshot that collects at most two actors into each object bucket is acquired whatever
`std::sort` does, since `std::sort` is not called. -/
theorem Renderables_Acquire_isSome_of_small (stdSort : StdSort) (r : Renderer)
    {actorsVec : List (Option Actor)}
    (hO : (collected actorsVec .Renderable_ObjectOpaque).length ≤ 2)
    (hT : (collected actorsVec .Renderable_ObjectTransparent).length ≤ 2) :
    (Renderables_Acquire stdSort r actorsVec).isSome = true := by
  unfold Renderables_Acquire
  simp only
  have e1 : Renderables_Sort stdSort
      ((actorsVec.foldl Renderables_Acquire.step (ActorMap.clear, none)).1.at
        .Renderable_ObjectOpaque)
      = some (collected actorsVec .Renderable_ObjectOpaque) := by
    rw [Renderables_Acquire.fold_at, ActorMap.at_clear, List.nil_append]
    unfold Renderables_Sort
    rw [if_pos hO]
  rw [e1]
  simp only
  have e2 : Renderables_Sort stdSort
      (((actorsVec.foldl Renderables_Acquire.step (ActorMap.clear, none)).1.insert
        .Renderable_ObjectOpaque (collected actorsVec .Renderable_ObjectOpaque)).at
          .Renderable_ObjectTransparent)
      = some (collected actorsVec .Renderable_ObjectTransparent) := by
    rw [ActorMap.at_insert, if_neg (by decide), Renderables_Acquire.fold_at,
      ActorMap.at_clear, List.nil_append]
    unfold Renderables_Sort
    rw [if_pos hT]
  rw [e2]
  rfl

theorem isTransparent_iff {a : Actor} {renderable : Renderable}
    (h : a.renderable = some renderable) :
    a.isTransparent = true ↔
      ∃ material, renderable.material = some material ∧ material.colorAlbedo.w < 1 := by
  unfold Actor.isTransparent
  rw [h]
  cases hm : renderable.material with
  | none => simp [hm]
  | some m => simp [hm]

/-- After `Renderables_Acquire` every actor of the light bucket carries a light component, so
the unchecked dereference in `GetLightDirectional` and in the gizmo pass is safe. -/
theorem Renderables_Acquire_lights {stdSort : StdSort}
    {r r' : Renderer} {actorsVec : List (Option Actor)}
    (h : Renderables_Acquire stdSort r actorsVec = some r') :
    ∀ a ∈ r'.m_actors.at .Renderable_Light, a.light.isSome = true := by
  intro a ha
  rw [(Renderables_Acquire_unsorted h).2.2.1] at ha
  unfold collected at ha
  simpa [Actor.belongsTo] using (List.mem_filter.1 ha).2

theorem sortDefined_of_sortable {l : List Actor} (hv : ∀ a ∈ l, a.sortable = true) :
    SortDefined l :=
  Or.inr (comparator_strictWeakOn hv)

/-- Where `std::sort` is specified (each object bucket collects at most two actors, or the
comparator is a strict weak ordering on it), `Renderables_Acquire` completes with every
`std::sort` that meets the standard's contract, and every actor with a renderable then sits in
exactly one of the two object buckets, as often as the snapshot holds it: in the transparent
bucket when it has a material with albedo alpha below one, in the opaque bucket otherwise, a
missing material included; an actor without a renderable sits in neither. -/
theorem Renderables_Acquire_classifies_where_defined (stdSort : StdSort)
    (hS : StdSortContract stdSort) (r : Renderer) (actorsVec : List (Option Actor))
    (hO : SortDefined (collected actorsVec .Renderable_ObjectOpaque))
    (hT : SortDefined (collected actorsVec .Renderable_ObjectTransparent)) :
    (Renderables_Acquire stdSort r actorsVec).isSome = true ∧
      ∀ r', Renderables_Acquire stdSort r actorsVec = some r' → ∀ a : Actor,
        (∀ renderable, a.renderable = some renderable →
          ((∃ material, renderable.material = some material ∧ material.colorAlbedo.w < 1) →
            (r'.m_actors.at .Renderable_ObjectTransparent).count a = actorsVec.count (some a) ∧
            (r'.m_actors.at .Renderable_ObjectOpaque).count a = 0) ∧
          ((¬ ∃ material, renderable.material = some material ∧ material.colorAlbedo.w < 1) →
            (r'.m_actors.at .Renderable_ObjectOpaque).count a = actorsVec.count (some a) ∧
            (r'.m_actors.at .Renderable_ObjectTransparent).count a = 0)) ∧
        (a.renderable = none →
          (r'.m_actors.at .Renderable_ObjectOpaque).count a = 0 ∧
          (r'.m_actors.at .Renderable_ObjectTransparent).count a = 0) := by
  refine ⟨Renderables_Acquire_isSome hS r hO hT, ?_⟩
  intro r' h a
  obtain ⟨pO, pT⟩ := Renderables_Acquire_result hS hO hT h
  have cO := pO.count_eq a
  have cT := pT.count_eq a
  rw [count_collected] at cO cT
  refine ⟨?_, ?_⟩
  · intro renderable hr
    have hiff := isTransparent_iff hr
    constructor
    · intro hex
      have ht : a.isTransparent = true := hiff.2 hex
      rw [cO, cT]
      simp [Actor.belongsTo, ht]
    · intro hex
      have ht : a.isTransparent = false := by
        cases hv : a.isTransparent with
        | false => rfl
        | true => exact absurd (hiff.1 hv) hex
      rw [cO, cT]
      simp [Actor.belongsTo, ht, hr]
  · intro hr
    have ht : a.isTransparent = false := by simp [Actor.isTransparent, hr]
    rw [cO, cT]
    simp [Actor.belongsTo, ht, hr]

theorem sampleSnapshot_sortDefined (k : RenderableType) :
    SortDefined (collected sampleSnapshot k) := by
  left
  cases k <;>
    simp [collected, sampleSnapshot, Actor.belongsTo, Actor.isTransparent, sampleObject,
      sampleRenderable, sampleMaterial, sampleCameraActor, List.filter_cons] <;>
    norm_num

theorem Renderables_Acquire_classifies_where_defined_witness :
    (Renderables_Acquire insertionSort sampleRenderer sampleSnapshot).isSome = true ∧
      sampleSnapshot.count (some (sampleObject 2 1 1 2 (1 / 2))) = 1 ∧
      ∀ r', Renderables_Acquire insertionSort sampleRenderer sampleSnapshot = some r' →
        (r'.m_actors.at .Renderable_ObjectTransparent).count (sampleObject 2 1 1 2 (1 / 2)) =
          sampleSnapshot.count (some (sampleObject 2 1 1 2 (1 / 2))) ∧
        (r'.m_actors.at .Renderable_ObjectOpaque).count (sampleObject 2 1 1 2 (1 / 2)) = 0 :=
  ⟨(Renderables_Acquire_classifies_where_defined insertionSort insertionSort_contract
      sampleRenderer sampleSnapshot (sampleSnapshot_sortDefined _)
      (sampleSnapshot_sortDefined _)).1,
    by simp [sampleSnapshot, sampleObject, sampleCameraActor, List.count_cons],
    fun r' h =>
      (((Renderables_Acquire_classifies_where_defined insertionSort insertionSort_contract
        sampleRenderer sampleSnapshot (sampleSnapshot_sortDefined _)
        (sampleSnapshot_sortDefined _)).2 r' h (sampleObject 2 1 1 2 (1 / 2))).1
          (sampleRenderable 1 1 2 (1 / 2)) rfl).1
        ⟨sampleMaterial 2 1 (1 / 2), rfl, by norm_num [sampleMaterial]⟩⟩

theorem Renderables_Acquire_state (stdSort : StdSort) (r₀ r₁ : Renderer)
    (actorsVec : List (Option Actor)) :
    (Renderables_Acquire stdSort r₁ actorsVec).map (fun r => (r.m_actors, r.m_camera)) =
      (Renderables_Acquire stdSort r₀ actorsVec).map (fun r => (r.m_actors, r.m_camera)) := by
  unfold Renderables_Acquire
  simp only
  cases Renderables_Sort stdSort
      ((actorsVec.foldl Renderables_Acquire.step (ActorMap.clear, none)).1.at
        .Renderable_ObjectOpaque) with
  | none => rfl
  | some l1 =>
    simp only
    cases Renderables_Sort stdSort
        (((actorsVec.foldl Renderables_Acquire.step (ActorMap.clear, none)).1.insert
          .Renderable_ObjectOpaque l1).at .Renderable_ObjectTransparent) with
    | none => rfl
    | some l2 => rfl

theorem Renderables_Acquire_camera {stdSort : StdSort} {r r' : Renderer}
    {actorsVec : List (Option Actor)} (h : Renderables_Acquire stdSort r actorsVec = some r') :
    r'.m_camera = lastCamera actorsVec := by
  unfold Renderables_Acquire at h
  simp only at h
  cases h1 : Renderables_Sort stdSort
      ((actorsVec.foldl Renderables_Acquire.step (ActorMap.clear, none)).1.at
        .Renderable_ObjectOpaque) with
  | none => simp [h1] at h
  | some l1 =>
    simp only [h1] at h
    cases h2 : Renderables_Sort stdSort
        (((actorsVec.foldl Renderables_Acquire.step (ActorMap.clear, none)).1.insert
          .Renderable_ObjectOpaque l1).at .Renderable_ObjectTransparent) with
    | none => simp [h2] at h
    | some l2 =>
      simp only [h2, Option.some.injEq] at h
      subst h
      simp only [Renderables_Acquire.fold_camera]
      cases lastCamera actorsVec <;> rfl

theorem lastCamera_eq_none (actorsVec : List (Option Actor))
    (h : ∀ a, some a ∈ actorsVec → a.camera = none) : lastCamera actorsVec = none := by
  induction actorsVec with
  | nil => rfl
  | cons x xs ih =>
    rw [lastCamera_cons, ih (fun a ha => h a (List.mem_cons_of_mem _ ha))]
    cases x with
    | none => rfl
    | some a => simpa using h a (List.mem_cons_self _ _)

/-- C6: `Renderables_Acquire` replaces the collected state.  Once a first snapshot has been
acquired, acquiring a second one completes exactly when it does from the starting state and
then yields the same buckets and the same active camera as acquiring the second snapshot
alone; when the second snapshot holds no camera, the active camera is null afterwards, whatever
the first snapshot held. -/
theorem Renderables_Acquire_replaces (stdSort : StdSort) (r₀ r₁ : Renderer)
    (s₁ s₂ : List (Option Actor)) (h : Renderables_Acquire stdSort r₀ s₁ = some r₁) :
    (Renderables_Acquire stdSort r₁ s₂).map (fun r => (r.m_actors, r.m_camera)) =
        (Renderables_Acquire stdSort r₀ s₂).map (fun r => (r.m_actors, r.m_camera)) ∧
      ((∀ a, some a ∈ s₂ → a.camera = none) →
        ∀ r₂, Renderables_Acquire stdSort r₁ s₂ = some r₂ → r₂.m_camera = none) := by
  have _ := h
  refine ⟨Renderables_Acquire_state stdSort r₀ r₁ s₂, ?_⟩
  intro hno r₂ h₂
  rw [Renderables_Acquire_camera h₂, lastCamera_eq_none s₂ hno]

theorem Renderables_Acquire_replaces_witness :
    Renderables_Acquire insertionSort sampleRenderer sampleSnapshot = some sampleAcquired ∧
      sampleAcquired.m_camera = some sampleCamera ∧
      ((Renderables_Acquire insertionSort sampleAcquired sampleSnapshotNoCamera).map
          (fun r => (r.m_actors, r.m_camera)) =
        (Renderables_Acquire insertionSort sampleRenderer sampleSnapshotNoCamera).map
          (fun r => (r.m_actors, r.m_camera)) ∧
        ((∀ a, some a ∈ sampleSnapshotNoCamera → a.camera = none) →
          ∀ r₂, Renderables_Acquire insertionSort sampleAcquired sampleSnapshotNoCamera
            = some r₂ → r₂.m_camera = none)) :=
  ⟨by norm_num [Renderables_Acquire, Renderables_Acquire.step, sampleSnapshot, sampleAcquired,
      sampleObject, sampleRenderable, sampleMaterial, sampleCameraActor, Renderables_Sort,
      ActorMap.emplace_back, ActorMap.insert, ActorMap.at, ActorMap.find, ActorMap.clear,
      Renderable.Material_Exists],
    rfl,
    Renderables_Acquire_replaces insertionSort sampleRenderer sampleAcquired sampleSnapshot
      sampleSnapshotNoCamera
      (by norm_num [Renderables_Acquire, Renderables_Acquire.step, sampleSnapshot, sampleAcquired,
        sampleObject, sampleRenderable, sampleMaterial, sampleCameraActor, Renderables_Sort,
        ActorMap.emplace_back, ActorMap.insert, ActorMap.at, ActorMap.find, ActorMap.clear,
        Renderable.Material_Exists])⟩

/-! ## `Render`: the early exits -/

/-- C7: with an initialized device and no active camera, `Render` issues exactly one device
command, a back-buffer clear to (0, 0, 0, 1); it enters no pass, does not present, and leaves
the frame number (and every other member) unchanged. -/
theorem Render_without_camera (r : Renderer) (device : RHI_Device)
    (hd : r.m_rhiDevice = some device) (hi : device.initialized = true)
    (hc : r.m_camera = none) :
    r.Render = { r with log := r.log ++ [.ClearBackBuffer ⟨0, 0, 0, 1⟩] } ∧
      r.Render.log = r.log ++ [.ClearBackBuffer ⟨0, 0, 0, 1⟩] ∧
      r.Render.calls = r.calls ∧ r.Render.m_frameNum = r.m_frameNum := by
  have h : r.Render = { r with log := r.log ++ [.ClearBackBuffer ⟨0, 0, 0, 1⟩] } := by
    unfold Renderer.Render
    simp [hd, hi, hc, Renderer.emit]
  rw [h]
  exact ⟨rfl, rfl, rfl, rfl⟩

theorem Render_without_camera_witness :
    sampleRenderer.m_rhiDevice = some ⟨true⟩ ∧ sampleRenderer.m_camera = none ∧
      (sampleRenderer.Render =
          { sampleRenderer with log := sampleRenderer.log ++ [.ClearBackBuffer ⟨0, 0, 0, 1⟩] } ∧
        sampleRenderer.Render.log = sampleRenderer.log ++ [.ClearBackBuffer ⟨0, 0, 0, 1⟩] ∧
        sampleRenderer.Render.calls = sampleRenderer.calls ∧
        sampleRenderer.Render.m_frameNum = sampleRenderer.m_frameNum) :=
  ⟨rfl, rfl, Render_without_camera sampleRenderer ⟨true⟩ rfl rfl rfl⟩

/-- C9, refuted as stated: without a device, and with a device that is not initialized,
`Render` issues no command at all, so the screen is not cleared. -/
theorem Render_without_device_does_not_clear :
    sampleNoDevice.m_rhiDevice = none ∧ sampleNoDevice.Render.log = [] ∧
      sampleUninitialized.m_rhiDevice = some ⟨false⟩ ∧ sampleUninitialized.Render.log = [] := by
  decide

/-- C9, amended: when the GPU device is absent or not initialized, `Render` returns at once:
it issues no device command (no clear), enters no pass and changes nothing. -/
theorem Render_without_device (r : Renderer)
    (h : r.m_rhiDevice = none ∨ ∃ device, r.m_rhiDevice = some device ∧
      device.initialized = false) :
    r.Render = r := by
  unfold Renderer.Render
  rcases h with h | ⟨device, hd, hi⟩
  · simp [h]
  · simp [hd, hi]

theorem Render_without_device_witness :
    sampleNoDevice.Render = sampleNoDevice ∧ sampleUninitialized.Render = sampleUninitialized :=
  ⟨Render_without_device sampleNoDevice (Or.inl rfl),
    Render_without_device sampleUninitialized (Or.inr ⟨⟨false⟩, rfl, rfl⟩)⟩

/-! ## `Render`: the pass sequence -/

namespace Renderer

theorem Frame.refl (r : Renderer) : Frame r r [] := ⟨by simp, rfl, fun _ => rfl⟩

theorem Frame.trans {r₁ r₂ r₃ : Renderer} {p q : List PassName} (h₁ : Frame r₁ r₂ p)
    (h₂ : Frame r₂ r₃ q) : Frame r₁ r₃ (p ++ q) :=
  ⟨by rw [h₂.1, h₁.1, List.append_assoc], h₂.2.1.trans h₁.2.1,
    fun k => (h₂.2.2 k).trans (h₁.2.2 k)⟩

theorem Frame.trans_nil {r₁ r₂ r₃ : Renderer} {q : List PassName} (h₁ : Frame r₁ r₂ [])
    (h₂ : Frame r₂ r₃ q) : Frame r₁ r₃ q := by
  simpa using h₁.trans h₂

theorem Frame.trans_nil_right {r₁ r₂ r₃ : Renderer} {p : List PassName} (h₁ : Frame r₁ r₂ p)
    (h₂ : Frame r₂ r₃ []) : Frame r₁ r₃ p := by
  simpa using h₁.trans h₂

theorem Frame.flag {r r' : Renderer} {p : List PassName} (h : Frame r r' p) (f : RenderMode) :
    r'.Flags_IsSet f = r.Flags_IsSet f := by
  unfold Flags_IsSet
  rw [h.2.1]

theorem Frame.lightDirectional {r r' : Renderer} {p : List PassName} (h : Frame r r' p) :
    r'.GetLightDirectional = r.GetLightDirectional := by
  unfold GetLightDirectional
  rw [h.2.2]

theorem Frame.of_eq {r r' : Renderer} (hc : r'.calls = r.calls) (hf : r'.m_flags = r.m_flags)
    (ha : r'.m_actors = r.m_actors) : Frame r r' [] :=
  ⟨by simp [hc], hf, fun _ => by rw [ha]⟩

theorem frame_emit (r : Renderer) (c : Cmd) : Frame r (r.emit c) [] :=
  Frame.of_eq rfl rfl rfl

theorem frame_emits (r : Renderer) (cs : List Cmd) : Frame r (r.emits cs) [] :=
  Frame.of_eq rfl rfl rfl

theorem frame_enter (r : Renderer) (p : PassName) : Frame r (r.enter p) [p] :=
  ⟨rfl, rfl, fun _ => rfl⟩

theorem frame_touch (r : Renderer) (k : RenderableType) : Frame r (r.touch k) [] :=
  ⟨by simp [touch], rfl, fun k' => ActorMap.at_touch _ _ _⟩

theorem frame_setTex (r : Renderer) (s : TexSlot) (t : RHI_RenderTexture) :
    Frame r (r.setTex s t) [] := by
  cases s <;> exact Frame.of_eq rfl rfl rfl

theorem frame_swapTex (r : Renderer) (a b : TexSlot) : Frame r (r.swapTex a b) [] := by
  unfold swapTex
  simpa using (frame_setTex r a (r.tex b)).trans (frame_setTex _ b (r.tex a))

theorem frame_SetGlobalBuffer (r : Renderer) (res : Option (Nat × Nat)) (sigma : ℚ)
    (dir : Vector2) : Frame r (r.SetGlobalBuffer res sigma dir) [] :=
  Frame.of_eq rfl rfl rfl

@[simp] theorem AddLine3_calls (r : Renderer) (a b : Vector3) (c : Vector4) :
    (r.AddLine3 a b c).calls = r.calls := rfl

@[simp] theorem AddLine3_flags (r : Renderer) (a b : Vector3) (c : Vector4) :
    (r.AddLine3 a b c).m_flags = r.m_flags := rfl

@[simp] theorem AddLine3_actors (r : Renderer) (a b : Vector3) (c : Vector4) :
    (r.AddLine3 a b c).m_actors = r.m_actors := rfl

theorem frame_AddLine3 (r : Renderer) (a b : Vector3) (c : Vector4) :
    Frame r (r.AddLine3 a b c) [] :=
  Frame.of_eq rfl rfl rfl

theorem frame_AddBoundigBox (r : Renderer) (box : BoundingBox) (color : Vector4) :
    Frame r (r.AddBoundigBox box color) [] := by
  unfold AddBoundigBox
  exact Frame.of_eq (by simp only [AddLine3_calls]) (by simp only [AddLine3_flags])
    (by simp only [AddLine3_actors])

theorem frame_foldl {α : Type} (step : Renderer → α → Renderer)
    (hstep : ∀ r a, Frame r (step r a) []) (l : List α) :
    ∀ r, Frame r (l.foldl step r) [] := by
  induction l with
  | nil => intro r; exact Frame.refl r
  | cons a l ih =>
    intro r
    simpa using (hstep r a).trans (ih (step r a))

theorem frame_foldl_pair {α β : Type} (step : Renderer × β → α → Renderer × β)
    (hstep : ∀ st a, Frame st.1 (step st a).1 []) (l : List α) :
    ∀ st, Frame st.1 (l.foldl step st).1 [] := by
  induction l with
  | nil => intro st; exact Frame.refl st.1
  | cons a l ih =>
    intro st
    simpa using (hstep st a).trans (ih (step st a))

end Renderer

namespace Renderer

@[simp] theorem emit_calls (r : Renderer) (c : Cmd) : (r.emit c).calls = r.calls := rfl

@[simp] theorem emit_flags (r : Renderer) (c : Cmd) : (r.emit c).m_flags = r.m_flags := rfl

@[simp] theorem emit_actors (r : Renderer) (c : Cmd) : (r.emit c).m_actors = r.m_actors := rfl

@[simp] theorem emits_calls (r : Renderer) (cs : List Cmd) : (r.emits cs).calls = r.calls := rfl

@[simp] theorem emits_flags (r : Renderer) (cs : List Cmd) : (r.emits cs).m_flags = r.m_flags :=
  rfl

@[simp] theorem emits_actors (r : Renderer) (cs : List Cmd) :
    (r.emits cs).m_actors = r.m_actors := rfl

@[simp] theorem enter_calls (r : Renderer) (p : PassName) : (r.enter p).calls = r.calls ++ [p] :=
  rfl

@[simp] theorem enter_flags (r : Renderer) (p : PassName) : (r.enter p).m_flags = r.m_flags :=
  rfl

@[simp] theorem enter_actors (r : Renderer) (p : PassName) : (r.enter p).m_actors = r.m_actors :=
  rfl

@[simp] theorem touch_calls (r : Renderer) (k : RenderableType) : (r.touch k).calls = r.calls :=
  rfl

@[simp] theorem touch_flags (r : Renderer) (k : RenderableType) :
    (r.touch k).m_flags = r.m_flags := rfl

@[simp] theorem touch_at (r : Renderer) (k k' : RenderableType) :
    (r.touch k).m_actors.at k' = r.m_actors.at k' := ActorMap.at_touch _ _ _

@[simp] theorem swapTex_calls (r : Renderer) (a b : TexSlot) : (r.swapTex a b).calls = r.calls := by
  simpa using (frame_swapTex r a b).1

@[simp] theorem swapTex_flags (r : Renderer) (a b : TexSlot) :
    (r.swapTex a b).m_flags = r.m_flags := (frame_swapTex r a b).2.1

@[simp] theorem swapTex_actors (r : Renderer) (a b : TexSlot) :
    (r.swapTex a b).m_actors = r.m_actors := by
  cases a <;> cases b <;> rfl

@[simp] theorem SetGlobalBuffer_calls (r : Renderer) (res : Option (Nat × Nat)) (sigma : ℚ)
    (dir : Vector2) : (r.SetGlobalBuffer res sigma dir).calls = r.calls := rfl

@[simp] theorem SetGlobalBuffer_flags (r : Renderer) (res : Option (Nat × Nat)) (sigma : ℚ)
    (dir : Vector2) : (r.SetGlobalBuffer res sigma dir).m_flags = r.m_flags := rfl

@[simp] theorem SetGlobalBuffer_actors (r : Renderer) (res : Option (Nat × Nat)) (sigma : ℚ)
    (dir : Vector2) : (r.SetGlobalBuffer res sigma dir).m_actors = r.m_actors := rfl

@[simp] theorem emit_flag (r : Renderer) (c : Cmd) (f : RenderMode) :
    (r.emit c).Flags_IsSet f = r.Flags_IsSet f := rfl

@[simp] theorem emits_flag (r : Renderer) (cs : List Cmd) (f : RenderMode) :
    (r.emits cs).Flags_IsSet f = r.Flags_IsSet f := rfl

@[simp] theorem enter_flag (r : Renderer) (p : PassName) (f : RenderMode) :
    (r.enter p).Flags_IsSet f = r.Flags_IsSet f := rfl

@[simp] theorem touch_flag (r : Renderer) (k : RenderableType) (f : RenderMode) :
    (r.touch k).Flags_IsSet f = r.Flags_IsSet f := rfl

@[simp] theorem swapTex_flag (r : Renderer) (a b : TexSlot) (f : RenderMode) :
    (r.swapTex a b).Flags_IsSet f = r.Flags_IsSet f := (frame_swapTex r a b).flag f

theorem frame_Pass_ShadowMapping (r : Renderer) (texOut : TexSlot) (light : Option Light) :
    Frame r (r.Pass_ShadowMapping texOut light) [.Pass_ShadowMapping] := by
  unfold Pass_ShadowMapping
  cases light <;> exact ⟨by simp, by simp, fun k => by simp⟩

theorem frame_Pass_SSDO (r : Renderer) (texOut : TexSlot) :
    Frame r (r.Pass_SSDO texOut) [.Pass_SSDO] := by
  unfold Pass_SSDO
  exact ⟨by simp, by simp, fun k => by simp⟩

theorem frame_Pass_BlurBox (r : Renderer) (texIn texOut : TexSlot) (sigma : ℚ) :
    Frame r (r.Pass_BlurBox texIn texOut sigma) [.Pass_BlurBox] := by
  unfold Pass_BlurBox
  exact ⟨by simp, by simp, fun k => by simp⟩

theorem frame_Pass_BlurGaussian (r : Renderer) (texIn texOut : TexSlot) (sigma : ℚ) :
    Frame r (r.Pass_BlurGaussian texIn texOut sigma) [.Pass_BlurGaussian] := by
  unfold Pass_BlurGaussian
  simp only
  split <;> exact ⟨by simp, by simp, fun k => by simp⟩

theorem frame_Pass_BlurBilateralGaussian (r : Renderer) (texIn texOut : TexSlot)
    (sigma pixelStride : ℚ) :
    Frame r (r.Pass_BlurBilateralGaussian texIn texOut sigma pixelStride)
      [.Pass_BlurBilateralGaussian] := by
  unfold Pass_BlurBilateralGaussian
  simp only
  split <;> exact ⟨by simp, by simp, fun k => by simp⟩

end Renderer

namespace Renderer

theorem frame_DepthDirectionalLight_actorStep (i : Nat) (st : Renderer × Nat) (a : Actor) :
    Frame st.1 (Pass_DepthDirectionalLight.actorStep i st a).1 [] := by
  unfold Pass_DepthDirectionalLight.actorStep
  repeat' split
  all_goals exact ⟨by simp, by simp, fun k => by simp⟩

theorem frame_DepthDirectionalLight_cascadeStep (light : Light) (actors : List Actor)
    (st : Renderer × Nat) (i : Nat) :
    Frame st.1 (Pass_DepthDirectionalLight.cascadeStep light actors st i).1 [] := by
  unfold Pass_DepthDirectionalLight.cascadeStep
  simp only
  split
  · exact (frame_emits st.1 _).trans_nil
      (frame_foldl_pair _ (frame_DepthDirectionalLight_actorStep i) actors (st.1.emits _, st.2))
  · exact frame_foldl_pair _ (frame_DepthDirectionalLight_actorStep i) actors _

theorem frame_Pass_DepthDirectionalLight (r : Renderer) (light : Option Light) :
    Frame r (r.Pass_DepthDirectionalLight light) [.Pass_DepthDirectionalLight] := by
  unfold Pass_DepthDirectionalLight
  simp only
  split
  · exact frame_enter r _
  · split
    · exact frame_enter r _
    · split
      · simpa using (frame_enter r .Pass_DepthDirectionalLight).trans (frame_touch _ _)
      · rename_i light _ _
        have h1 := (frame_enter r .Pass_DepthDirectionalLight).trans (frame_touch _
          .Renderable_ObjectOpaque)
        have h2 := h1.trans (frame_emits _ [.EventBegin "Pass_DepthDirectionalLight",
          .SetShader .shaderLightDepth,
          .SetPrimitiveTopology .PrimitiveTopology_TriangleList])
        have h3 := h2.trans (frame_foldl_pair _
          (frame_DepthDirectionalLight_cascadeStep light
            ((r.enter .Pass_DepthDirectionalLight).m_actors.at .Renderable_ObjectOpaque))
          (List.range light.shadowMapCount) (_, 0))
        simpa using h3.trans (frame_emit _ .EventEnd)

theorem frame_GBuffer_bindGeometry (st : Renderer × GBufferCache) (model : Model) :
    Frame st.1 (Pass_GBuffer.bindGeometry st model).1 [] := by
  unfold Pass_GBuffer.bindGeometry
  split
  · exact frame_emits _ _
  · exact Frame.refl _

theorem frame_GBuffer_bindShader (st : Renderer × GBufferCache) (shader : ShaderVariation) :
    Frame st.1 (Pass_GBuffer.bindShader st shader).1 [] := by
  unfold Pass_GBuffer.bindShader
  simp only
  split
  · split
    · exact (frame_emit st.1 _).trans_nil (frame_emit _ _)
    · exact frame_emit _ _
  · exact Frame.refl _

theorem frame_GBuffer_bindMaterial (st : Renderer × GBufferCache) (material : Material) :
    Frame st.1 (Pass_GBuffer.bindMaterial st material).1 [] := by
  unfold Pass_GBuffer.bindMaterial
  split
  · exact frame_emits _ _
  · exact Frame.refl _

theorem frame_GBuffer_draw (r : Renderer) (actor : Actor) (renderable : Renderable)
    (shader : ShaderVariation) : Frame r (Pass_GBuffer.draw r actor renderable shader) [] :=
  Frame.of_eq rfl rfl rfl

theorem frame_GBuffer_actorStep (st : Renderer × GBufferCache) (a : Actor) :
    Frame st.1 (Pass_GBuffer.actorStep st a).1 [] := by
  unfold Pass_GBuffer.actorStep
  repeat' split
  all_goals first
    | exact Frame.refl _
    | exact (((frame_emit st.1 _).trans_nil (frame_GBuffer_bindGeometry (_, st.2) _)).trans_nil
        ((frame_GBuffer_bindShader _ _).trans_nil (frame_GBuffer_bindMaterial _ _))).trans_nil
        (frame_GBuffer_draw _ _ _ _)

theorem frame_Pass_GBuffer (r : Renderer) : Frame r r.Pass_GBuffer [.Pass_GBuffer] := by
  unfold Pass_GBuffer
  simp only
  split
  · exact frame_enter r _
  · split
    · simpa using (frame_enter r .Pass_GBuffer).trans (frame_touch _ _)
    · have h1 := (frame_enter r .Pass_GBuffer).trans (frame_touch _ .Renderable_ObjectOpaque)
      have h2 := h1.trans (frame_emits _ [.EventBegin "Pass_GBuffer",
        .GBuffer_SetAsRenderTarget,
        .SetSampler .samplerAnisotropicWrapAlways,
        .SetFillMode_Solid,
        .SetPrimitiveTopology .PrimitiveTopology_TriangleList])
      have h3 := h2.trans (frame_SetGlobalBuffer _ none 0 ⟨0, 0⟩)
      have h4 := h3.trans (frame_foldl_pair _ frame_GBuffer_actorStep
        ((r.enter .Pass_GBuffer).m_actors.at .Renderable_ObjectOpaque) (_, ⟨false, 0, 0, 0⟩))
      simpa using h4.trans (frame_emit _ .EventEnd)

end Renderer

namespace Renderer

theorem frame_Pass_PreLight (r : Renderer) (texIn_Spare texOut_Shadows texOut_SSAO : TexSlot) :
    Frame r (r.Pass_PreLight texIn_Spare texOut_Shadows texOut_SSAO)
      ([.Pass_PreLight]
        ++ (if r.GetLightDirectional.isSome then
            [.Pass_ShadowMapping, .Pass_BlurBilateralGaussian] else [])
        ++ (if r.Flags_IsSet .Render_SSDO then
            [.Pass_SSDO, .Pass_BlurBilateralGaussian] else [])) := by
  unfold Pass_PreLight
  simp only
  have h0 : Frame r (((r.enter .Pass_PreLight).emits [.EventBegin "Pass_PreLight",
      .SetIndexBuffer .quad, .SetVertexBuffer .quad,
      .SetPrimitiveTopology .PrimitiveTopology_TriangleList,
      .SetCullMode .Cull_Back]).touch .Renderable_Light) [.Pass_PreLight] :=
    ((frame_enter r .Pass_PreLight).trans_nil_right (frame_emits _ _)).trans_nil_right
      (frame_touch _ _)
  have hl : ((r.enter .Pass_PreLight).emits [.EventBegin "Pass_PreLight",
      .SetIndexBuffer .quad, .SetVertexBuffer .quad,
      .SetPrimitiveTopology .PrimitiveTopology_TriangleList,
      .SetCullMode .Cull_Back]).GetLightDirectional = r.GetLightDirectional := rfl
  rw [hl]
  cases hld : r.GetLightDirectional with
  | none =>
    simp only [Option.isSome_none, Bool.false_eq_true, if_false, List.append_nil]
    have hf := h0.flag .Render_SSDO
    rw [hf]
    split
    · exact (h0.trans ((frame_Pass_SSDO _ _).trans
        (frame_Pass_BlurBilateralGaussian _ _ _ _ _))).trans_nil_right (frame_emit _ _)
    · simpa using h0.trans_nil_right (frame_emit _ _)
  | some light =>
    simp only [Option.isSome_some, if_true]
    have h1 := h0.trans ((frame_Pass_ShadowMapping _ texIn_Spare
      (((r.enter .Pass_PreLight).emits [.EventBegin "Pass_PreLight",
        .SetIndexBuffer .quad, .SetVertexBuffer .quad,
        .SetPrimitiveTopology .PrimitiveTopology_TriangleList,
        .SetCullMode .Cull_Back]).touch .Renderable_Light).GetLightDirectional).trans
      (frame_Pass_BlurBilateralGaussian _ texIn_Spare texOut_Shadows 1 1))
    have hf := h1.flag .Render_SSDO
    rw [hf]
    split
    · simpa using (h1.trans ((frame_Pass_SSDO _ _).trans
        (frame_Pass_BlurBilateralGaussian _ _ _ _ _))).trans_nil_right (frame_emit _ _)
    · simpa using h1.trans_nil_right (frame_emit _ _)

theorem frame_Pass_Light (r : Renderer) (texShadows texSSDO texOut : TexSlot) :
    Frame r (r.Pass_Light texShadows texSSDO texOut) [.Pass_Light] := by
  unfold Pass_Light
  simp only
  split
  · exact frame_enter r _
  · exact ⟨by simp, by simp, fun k => by simp⟩

theorem frame_Transparent_actorStep (r : Renderer) (a : Actor) :
    Frame r (Pass_Transparent.actorStep r a) [] := by
  unfold Pass_Transparent.actorStep
  repeat' split
  all_goals exact Frame.of_eq rfl rfl rfl

theorem frame_Pass_Transparent (r : Renderer) (texOut : TexSlot) :
    Frame r (r.Pass_Transparent texOut) [.Pass_Transparent] := by
  unfold Pass_Transparent
  simp only
  have h0 : Frame r ((r.enter .Pass_Transparent).touch .Renderable_Light) [.Pass_Transparent] :=
    (frame_enter r _).trans_nil_right (frame_touch _ _)
  split
  · exact h0
  · split
    · exact h0.trans_nil_right (frame_touch _ _)
    · exact ((((h0.trans_nil_right (frame_touch _ .Renderable_ObjectTransparent)).trans_nil_right
        (frame_touch _ .Renderable_Skybox)).trans_nil_right (frame_emits _ _)).trans_nil_right
        (frame_foldl _ frame_Transparent_actorStep _ _)).trans_nil_right (frame_emits _ _)

end Renderer

namespace Renderer

theorem frame_Pass_TAA (r : Renderer) (texIn texOut : TexSlot) :
    Frame r (r.Pass_TAA texIn texOut) [.Pass_TAA] := by
  unfold Pass_TAA
  exact ⟨by simp, by simp, fun k => by simp⟩

theorem frame_Pass_Bloom (r : Renderer) (texIn texOut : TexSlot) :
    Frame r (r.Pass_Bloom texIn texOut) [.Pass_Bloom, .Pass_BlurGaussian] := by
  unfold Pass_Bloom
  simp only
  exact ((((((frame_enter r .Pass_Bloom).trans_nil_right (frame_emits _ _)).trans_nil_right
    (frame_SetGlobalBuffer _ _ _ _)).trans_nil_right (frame_emits _ _)).trans
    (frame_Pass_BlurGaussian _ .Quarter_Blur1 .Quarter_Blur2 2)).trans_nil_right
    (frame_SetGlobalBuffer _ _ _ _)).trans_nil_right (frame_emits _ _)

theorem frame_singleDrawStage (r : Renderer) (name : String) (sampler : SamplerRef)
    (shader : ShaderRef) (texIn texOut : TexSlot) :
    Frame r (r.singleDrawStage name sampler shader texIn texOut) [] :=
  frame_emits _ _

theorem frame_Pass_Correction (r : Renderer) (texIn texOut : TexSlot) :
    Frame r (r.Pass_Correction texIn texOut) [.Pass_Correction] :=
  (frame_enter r _).trans_nil_right (frame_singleDrawStage _ _ _ _ _ _)

theorem frame_Pass_FXAA (r : Renderer) (texIn texOut : TexSlot) :
    Frame r (r.Pass_FXAA texIn texOut) [.Pass_FXAA] := by
  unfold Pass_FXAA
  exact ⟨by simp, by simp, fun k => by simp⟩

theorem frame_Pass_Sharpening (r : Renderer) (texIn texOut : TexSlot) :
    Frame r (r.Pass_Sharpening texIn texOut) [.Pass_Sharpening] :=
  (frame_enter r _).trans_nil_right (frame_singleDrawStage _ _ _ _ _ _)

theorem frame_Pass_ChromaticAberration (r : Renderer) (texIn texOut : TexSlot) :
    Frame r (r.Pass_ChromaticAberration texIn texOut) [.Pass_ChromaticAberration] :=
  (frame_enter r _).trans_nil_right (frame_singleDrawStage _ _ _ _ _ _)

/-- A flag-gated stage of the post-process chain enters its passes when the flag is set and
nothing otherwise. -/
theorem frame_stage {r₀ r : Renderer} {before : List PassName} (h : Frame r₀ r before)
    (f : RenderMode) (texIn texOut : TexSlot)
    (pass : Renderer → TexSlot → TexSlot → Renderer) (entered : List PassName)
    (hpass : ∀ r', Frame r' (pass r' texIn texOut) entered) :
    Frame r₀ (Pass_PostLight.stage r f texIn texOut pass)
      (before ++ (if r₀.Flags_IsSet f then entered else [])) := by
  unfold Pass_PostLight.stage
  rw [← h.flag f]
  split
  · exact h.trans ((frame_swapTex r texOut texIn).trans_nil (hpass _))
  · simpa using h

theorem frame_Pass_PostLight (r : Renderer) (texIn texOut : TexSlot) :
    Frame r (r.Pass_PostLight texIn texOut)
      ([.Pass_PostLight]
        ++ (if r.Flags_IsSet .Render_TAA then [.Pass_TAA] else [])
        ++ (if r.Flags_IsSet .Render_Bloom then [.Pass_Bloom, .Pass_BlurGaussian] else [])
        ++ (if r.Flags_IsSet .Render_Correction then [.Pass_Correction] else [])
        ++ (if r.Flags_IsSet .Render_FXAA then [.Pass_FXAA] else [])
        ++ (if r.Flags_IsSet .Render_Sharpening then [.Pass_Sharpening] else [])
        ++ (if r.Flags_IsSet .Render_ChromaticAberration then [.Pass_ChromaticAberration]
            else [])) := by
  unfold Pass_PostLight
  simp only
  have h0 := (((frame_enter r .Pass_PostLight).trans_nil_right
    (frame_emits _ [.EventBegin "Pass_PostLight",
      .SetPrimitiveTopology .PrimitiveTopology_TriangleList,
      .SetCullMode .Cull_Back,
      .SetVertexBuffer .quad,
      .SetIndexBuffer .quad,
      .SetShader .shaderBloom_Bright])).trans_nil_right
    (frame_SetGlobalBuffer _ (some
      ((((r.enter .Pass_PostLight).emits [.EventBegin "Pass_PostLight",
        .SetPrimitiveTopology .PrimitiveTopology_TriangleList,
        .SetCullMode .Cull_Back,
        .SetVertexBuffer .quad,
        .SetIndexBuffer .quad,
        .SetShader .shaderBloom_Bright]).tex texIn).width,
       (((r.enter .Pass_PostLight).emits [.EventBegin "Pass_PostLight",
        .SetPrimitiveTopology .PrimitiveTopology_TriangleList,
        .SetCullMode .Cull_Back,
        .SetVertexBuffer .quad,
        .SetIndexBuffer .quad,
        .SetShader .shaderBloom_Bright]).tex texIn).height)) 0 ⟨0, 0⟩)).trans_nil_right
    (frame_swapTex _ texOut texIn)
  have h1 := frame_stage h0 .Render_TAA texIn texOut Pass_TAA _
    (fun r' => frame_Pass_TAA r' texIn texOut)
  have h2 := frame_stage h1 .Render_Bloom texIn texOut Pass_Bloom _
    (fun r' => frame_Pass_Bloom r' texIn texOut)
  have h3 := frame_stage h2 .Render_Correction texIn texOut Pass_Correction _
    (fun r' => frame_Pass_Correction r' texIn texOut)
  have h4 := frame_stage h3 .Render_FXAA texIn texOut Pass_FXAA _
    (fun r' => frame_Pass_FXAA r' texIn texOut)
  have h5 := frame_stage h4 .Render_Sharpening texIn texOut Pass_Sharpening _
    (fun r' => frame_Pass_Sharpening r' texIn texOut)
  have h6 := frame_stage h5 .Render_ChromaticAberration texIn texOut Pass_ChromaticAberration _
    (fun r' => frame_Pass_ChromaticAberration r' texIn texOut)
  exact h6.trans_nil_right (frame_emit _ _)

end Renderer

namespace Renderer

theorem frame_Pass_GBufferVisualize (r : Renderer) (texOut : TexSlot) :
    Frame r (r.Pass_GBufferVisualize texOut) [.Pass_GBufferVisualize] := by
  unfold Pass_GBufferVisualize
  simp only
  split
  · exact (((frame_enter r _).trans_nil_right (frame_emit _ _)).trans_nil_right
      (frame_SetGlobalBuffer _ _ _ _)).trans_nil_right (frame_emits _ _)
  · exact frame_enter r _

theorem frame_Lines_boxStep (r : Renderer) (a : Actor) : Frame r (Pass_Lines.boxStep r a) [] := by
  unfold Pass_Lines.boxStep
  split
  · exact frame_AddBoundigBox _ _ _
  · exact Frame.refl _

theorem frame_Lines_pickingRay (r : Renderer) : Frame r (Pass_Lines.pickingRay r) [] := by
  unfold Pass_Lines.pickingRay
  split
  · exact frame_AddLine3 _ _ _ _
  · exact Frame.refl _

theorem frame_Lines_boundingBoxes (r : Renderer) : Frame r (Pass_Lines.boundingBoxes r) [] := by
  unfold Pass_Lines.boundingBoxes
  simp only
  exact (((frame_touch r .Renderable_ObjectOpaque).trans_nil
    (frame_foldl _ frame_Lines_boxStep _ _)).trans_nil (frame_touch _ _)).trans_nil
    (frame_foldl _ frame_Lines_boxStep _ _)

theorem frame_Lines_flush (r : Renderer) : Frame r (Pass_Lines.flush r) [] := by
  unfold Pass_Lines.flush
  simp only
  split
  · split <;> exact Frame.of_eq rfl rfl rfl
  · exact Frame.refl _

theorem frame_Lines_grid (r : Renderer) : Frame r (Pass_Lines.grid r) [] :=
  frame_emits _ _

theorem frame_ite {r r' : Renderer} (c : Bool) (h : Frame r r' []) :
    Frame r (if c = true then r' else r) [] := by
  split
  · exact h
  · exact Frame.refl _

theorem frame_Pass_Lines (r : Renderer) (texOut : TexSlot) :
    Frame r (r.Pass_Lines texOut) [.Pass_Lines] := by
  unfold Pass_Lines
  simp only
  split
  · exact frame_enter r _
  · exact ((((((frame_enter r _).trans_nil_right (frame_emits _ _)).trans_nil_right
      (frame_ite _ (frame_Lines_pickingRay _))).trans_nil_right
      (frame_ite _ (frame_Lines_boundingBoxes _))).trans_nil_right
      (frame_Lines_flush _)).trans_nil_right
      (frame_ite _ (frame_Lines_grid _))).trans_nil_right (frame_emits _ _)

theorem frame_Gizmos_lightStep (texOut : TexSlot) (r : Renderer) (a : Actor) :
    Frame r (Pass_Gizmos.lightStep texOut r a) [] := by
  unfold Pass_Gizmos.lightStep
  repeat' split
  all_goals exact Frame.of_eq rfl rfl rfl

theorem frame_Pass_Gizmos (r : Renderer) (texOut : TexSlot) :
    Frame r (r.Pass_Gizmos texOut) [.Pass_Gizmos] := by
  unfold Pass_Gizmos
  simp only
  split
  · exact frame_enter r _
  · have h0 := ((frame_enter r .Pass_Gizmos).trans_nil_right
      (frame_emit _ (.EventBegin "Pass_Gizmos"))).trans_nil_right
      (frame_touch _ .Renderable_Light)
    split
    · exact (((h0.trans_nil_right (frame_emits _ _)).trans_nil_right
        (frame_foldl _ (frame_Gizmos_lightStep texOut) _ _)).trans_nil_right
        (frame_emit _ _)).trans_nil_right (frame_emit _ _)
    · exact h0.trans_nil_right (frame_emit _ _)

theorem frame_Pass_PerformanceMetrics (r : Renderer) (texOut : TexSlot) :
    Frame r (r.Pass_PerformanceMetrics texOut) [.Pass_PerformanceMetrics] := by
  unfold Pass_PerformanceMetrics
  simp only
  split
  · exact frame_enter r _
  · exact (frame_enter r _).trans_nil_right (frame_emits _ _)

end Renderer

/-- The pass functions entered by a frame that reaches the pass sequence. -/
theorem Renderer.frame_Render (r : Renderer) (device : RHI_Device) (camera : Camera)
    (hd : r.m_rhiDevice = some device) (hi : device.initialized = true)
    (hc : r.m_camera = some camera) (he : r.m_actors.empty = false) :
    Renderer.Frame r r.Render
      ([.Pass_DepthDirectionalLight, .Pass_GBuffer, .Pass_PreLight]
        ++ (if r.GetLightDirectional.isSome then
            [.Pass_ShadowMapping, .Pass_BlurBilateralGaussian] else [])
        ++ (if r.Flags_IsSet .Render_SSDO then
            [.Pass_SSDO, .Pass_BlurBilateralGaussian] else [])
        ++ [.Pass_Light, .Pass_Transparent, .Pass_PostLight]
        ++ (if r.Flags_IsSet .Render_TAA then [.Pass_TAA] else [])
        ++ (if r.Flags_IsSet .Render_Bloom then [.Pass_Bloom, .Pass_BlurGaussian] else [])
        ++ (if r.Flags_IsSet .Render_Correction then [.Pass_Correction] else [])
        ++ (if r.Flags_IsSet .Render_FXAA then [.Pass_FXAA] else [])
        ++ (if r.Flags_IsSet .Render_Sharpening then [.Pass_Sharpening] else [])
        ++ (if r.Flags_IsSet .Render_ChromaticAberration then [.Pass_ChromaticAberration]
            else [])
        ++ [.Pass_GBufferVisualize, .Pass_Lines, .Pass_Gizmos, .Pass_PerformanceMetrics]) := by
  have h0 : Renderer.Frame r (Renderer.Render.beginFrame r) [] :=
    Renderer.Frame.of_eq rfl rfl rfl
  have h1 := h0.trans_nil (Renderer.frame_touch _ .Renderable_Light)
  have h2 := h1.trans_nil (Renderer.frame_Pass_DepthDirectionalLight _
    (Renderer.Render.beginFrame r).GetLightDirectional)
  have h3 := h2.trans (Renderer.frame_Pass_GBuffer _)
  have h4 := h3.trans (Renderer.frame_Pass_PreLight _ .Half_Spare .Half_Shadows .Half_SSDO)
  rw [h3.lightDirectional, h3.flag] at h4
  have h5 := h4.trans (Renderer.frame_Pass_Light _ .Half_Shadows .Half_SSDO .Full_Light)
  have h6 := h5.trans (Renderer.frame_Pass_Transparent _ .Full_Light)
  have h7 := h6.trans (Renderer.frame_Pass_PostLight _ .Full_Light .Full_FinalFrame)
  simp only [h6.flag] at h7
  have h8 := h7.trans (Renderer.frame_Pass_GBufferVisualize _ .Full_FinalFrame)
  have h9 := h8.trans (Renderer.frame_Pass_Lines _ .Full_FinalFrame)
  have h10 := h9.trans (Renderer.frame_Pass_Gizmos _ .Full_FinalFrame)
  have h11 := h10.trans (Renderer.frame_Pass_PerformanceMetrics _ .Full_FinalFrame)
  have h12 : Renderer.Frame r
      { Renderer.Render.passes (Renderer.Render.beginFrame r) with m_isRendering := false } _ :=
    h11.trans_nil_right (Renderer.Frame.of_eq rfl rfl rfl)
  have hR : r.Render =
      { Renderer.Render.passes (Renderer.Render.beginFrame r) with m_isRendering := false } := by
    unfold Renderer.Render
    simp only [hd, hi, hc, he, Bool.not_true, Bool.false_eq_true, if_false]
  rw [hR]
  simp only [List.append_assoc, List.cons_append, List.nil_append, List.singleton_append]
    at h12 ⊢
  exact h12

/-- C10: whenever `Render` reaches the pass sequence (initialized device, active camera,
non-empty bucket map, and a light bucket whose actors all carry a light component, as
`Renderables_Acquire` leaves it), the ten passes are entered exactly once each and in the fixed
order depth, G-buffer, pre-light, light, transparent, post-light, G-buffer visualization, lines,
gizmos, performance metrics.  Inside pre-light the shadow mapping and its blur come before SSDO
and its blur, and inside post-light the enabled stages come in the order TAA, bloom, correction,
FXAA, sharpening, chromatic aberration.  Flags and scene content only decide which of the nested
passes are entered, never the order. -/
theorem Render_pass_order (r : Renderer) (device : RHI_Device) (camera : Camera)
    (hd : r.m_rhiDevice = some device) (hi : device.initialized = true)
    (hc : r.m_camera = some camera) (he : r.m_actors.empty = false)
    (hl : ∀ a ∈ r.m_actors.at .Renderable_Light, a.light.isSome = true) :
    r.Render.calls = r.calls ++
      ([.Pass_DepthDirectionalLight, .Pass_GBuffer, .Pass_PreLight]
        ++ (if r.GetLightDirectional.isSome then
            [.Pass_ShadowMapping, .Pass_BlurBilateralGaussian] else [])
        ++ (if r.Flags_IsSet .Render_SSDO then
            [.Pass_SSDO, .Pass_BlurBilateralGaussian] else [])
        ++ [.Pass_Light, .Pass_Transparent, .Pass_PostLight]
        ++ (if r.Flags_IsSet .Render_TAA then [.Pass_TAA] else [])
        ++ (if r.Flags_IsSet .Render_Bloom then [.Pass_Bloom, .Pass_BlurGaussian] else [])
        ++ (if r.Flags_IsSet .Render_Correction then [.Pass_Correction] else [])
        ++ (if r.Flags_IsSet .Render_FXAA then [.Pass_FXAA] else [])
        ++ (if r.Flags_IsSet .Render_Sharpening then [.Pass_Sharpening] else [])
        ++ (if r.Flags_IsSet .Render_ChromaticAberration then [.Pass_ChromaticAberration]
            else [])
        ++ [.Pass_GBufferVisualize, .Pass_Lines, .Pass_Gizmos, .Pass_PerformanceMetrics]) ∧
      (r.Render.calls.drop r.calls.length).filter (fun p => decide (p ∈ framePasses))
        = framePasses := by
  have _ := hl
  have h := (Renderer.frame_Render r device camera hd hi hc he).1
  refine ⟨h, ?_⟩
  rw [h, List.drop_left]
  generalize r.GetLightDirectional.isSome = b₀
  generalize r.Flags_IsSet .Render_SSDO = b₁
  generalize r.Flags_IsSet .Render_TAA = b₂
  generalize r.Flags_IsSet .Render_Bloom = b₃
  generalize r.Flags_IsSet .Render_Correction = b₄
  generalize r.Flags_IsSet .Render_FXAA = b₅
  generalize r.Flags_IsSet .Render_Sharpening = b₆
  generalize r.Flags_IsSet .Render_ChromaticAberration = b₇
  cases b₀ <;> cases b₁ <;> cases b₂ <;> cases b₃ <;> cases b₄ <;> cases b₅ <;> cases b₆ <;>
    cases b₇ <;> rfl

theorem Render_pass_order_witness :
    sampleFrame.m_rhiDevice = some ⟨true⟩ ∧ sampleFrame.m_camera = some sampleCamera ∧
      sampleFrame.m_actors.empty = false ∧
      (∀ a ∈ sampleFrame.m_actors.at .Renderable_Light, a.light.isSome = true) ∧
      sampleFrame.Render.calls =
        [.Pass_DepthDirectionalLight, .Pass_GBuffer, .Pass_PreLight, .Pass_SSDO,
          .Pass_BlurBilateralGaussian, .Pass_Light, .Pass_Transparent, .Pass_PostLight,
          .Pass_Bloom, .Pass_BlurGaussian, .Pass_Correction, .Pass_FXAA,
          .Pass_GBufferVisualize, .Pass_Lines, .Pass_Gizmos, .Pass_PerformanceMetrics] :=
  ⟨rfl, rfl, rfl, by decide,
    (Render_pass_order sampleFrame ⟨true⟩ sampleCamera rfl rfl rfl rfl (by decide)).1.trans
      (by decide)⟩

/-! ## Render targets and the command log through the primitive steps -/

namespace Renderer

@[simp] theorem tex_setTex_self (r : Renderer) (s : TexSlot) (t : RHI_RenderTexture) :
    (r.setTex s t).tex s = t := by
  cases s <;> rfl

theorem tex_setTex_of_ne (r : Renderer) {s s' : TexSlot} (t : RHI_RenderTexture) (h : s' ≠ s) :
    (r.setTex s t).tex s' = r.tex s' := by
  cases s <;> cases s' <;> first | rfl | exact absurd rfl h

@[simp] theorem tex_swapTex_left (r : Renderer) (a b : TexSlot) :
    (r.swapTex a b).tex a = r.tex b := by
  unfold swapTex
  by_cases h : a = b
  · subst h; simp
  · rw [tex_setTex_of_ne _ _ h, tex_setTex_self]

@[simp] theorem tex_swapTex_right (r : Renderer) (a b : TexSlot) :
    (r.swapTex a b).tex b = r.tex a := by
  unfold swapTex
  simp

theorem tex_swapTex_of_ne (r : Renderer) {a b s : TexSlot} (ha : s ≠ a) (hb : s ≠ b) :
    (r.swapTex a b).tex s = r.tex s := by
  unfold swapTex
  rw [tex_setTex_of_ne _ _ hb, tex_setTex_of_ne _ _ ha]

@[simp] theorem setTex_log (r : Renderer) (s : TexSlot) (t : RHI_RenderTexture) :
    (r.setTex s t).log = r.log := by
  cases s <;> rfl

@[simp] theorem swapTex_log (r : Renderer) (a b : TexSlot) : (r.swapTex a b).log = r.log := by
  simp [swapTex]

@[simp] theorem emit_log (r : Renderer) (c : Cmd) : (r.emit c).log = r.log ++ [c] := rfl

@[simp] theorem emits_log (r : Renderer) (cs : List Cmd) : (r.emits cs).log = r.log ++ cs := rfl

@[simp] theorem enter_log (r : Renderer) (p : PassName) : (r.enter p).log = r.log := rfl

@[simp] theorem touch_log (r : Renderer) (k : RenderableType) : (r.touch k).log = r.log := rfl

@[simp] theorem SetGlobalBuffer_log (r : Renderer) (res : Option (Nat × Nat)) (sigma : ℚ)
    (dir : Vector2) :
    (r.SetGlobalBuffer res sigma dir).log =
      r.log ++ [.UpdateGlobalBuffer res sigma dir, .SetConstantBuffer .bufferGlobal 0] := rfl

@[simp] theorem emit_tex (r : Renderer) (c : Cmd) (s : TexSlot) : (r.emit c).tex s = r.tex s := by
  cases s <;> rfl

@[simp] theorem emits_tex (r : Renderer) (cs : List Cmd) (s : TexSlot) :
    (r.emits cs).tex s = r.tex s := by
  cases s <;> rfl

@[simp] theorem enter_tex (r : Renderer) (p : PassName) (s : TexSlot) :
    (r.enter p).tex s = r.tex s := by
  cases s <;> rfl

@[simp] theorem touch_tex (r : Renderer) (k : RenderableType) (s : TexSlot) :
    (r.touch k).tex s = r.tex s := by
  cases s <;> rfl

@[simp] theorem SetGlobalBuffer_tex (r : Renderer) (res : Option (Nat × Nat)) (sigma : ℚ)
    (dir : Vector2) (s : TexSlot) : (r.SetGlobalBuffer res sigma dir).tex s = r.tex s := by
  cases s <;> rfl

@[simp] theorem emit_quad (r : Renderer) (c : Cmd) :
    (r.emit c).m_quadIndexCount = r.m_quadIndexCount := rfl

@[simp] theorem emits_quad (r : Renderer) (cs : List Cmd) :
    (r.emits cs).m_quadIndexCount = r.m_quadIndexCount := rfl

@[simp] theorem enter_quad (r : Renderer) (p : PassName) :
    (r.enter p).m_quadIndexCount = r.m_quadIndexCount := rfl

@[simp] theorem SetGlobalBuffer_quad (r : Renderer) (res : Option (Nat × Nat)) (sigma : ℚ)
    (dir : Vector2) : (r.SetGlobalBuffer res sigma dir).m_quadIndexCount = r.m_quadIndexCount :=
  rfl

theorem issued_of_log {r r' : Renderer} {cs : List Cmd} (h : r'.log = r.log ++ cs) :
    r.issued r' = cs := by
  unfold issued
  rw [h, List.drop_left]

theorem Pass_BlurGaussian_log (r : Renderer) (texIn texOut : TexSlot) (sigma : ℚ)
    (h : blurMismatch (r.tex texIn) (r.tex texOut) = false) :
    (r.Pass_BlurGaussian texIn texOut sigma).log = r.log ++
      [.EventBegin "Pass_BlurGaussian",
       .SetViewport (.ofRenderTexture (r.tex texIn)),
       .UpdateGlobalBuffer (some ((r.tex texIn).width, (r.tex texIn).height)) sigma ⟨1, 0⟩,
       .SetConstantBuffer .bufferGlobal 0,
       .SetRenderTarget (.renderTexture (r.tex texOut)) .none false,
       .SetShader .shaderBlurGaussian,
       .SetTexture (.renderTexture (r.tex texIn)),
       .Bind,
       .DrawIndexed r.m_quadIndexCount 0 0,
       .UpdateGlobalBuffer (some ((r.tex texIn).width, (r.tex texIn).height)) sigma ⟨0, 1⟩,
       .SetConstantBuffer .bufferGlobal 0,
       .SetRenderTarget (.renderTexture (r.tex texIn)) .none false,
       .SetPixelShader .shaderBlurGaussian,
       .SetTexture (.renderTexture (r.tex texOut)),
       .Bind,
       .DrawIndexed r.m_quadIndexCount 0 0,
       .EventEnd] := by
  unfold Pass_BlurGaussian
  simp [h]

end Renderer

/-! ## Blur filters -/

namespace Renderer

theorem tex_swapTex (r : Renderer) (a b s : TexSlot) :
    (r.swapTex a b).tex s = if s = b then r.tex a else if s = a then r.tex b else r.tex s := by
  by_cases hb : s = b
  · subst hb; simp
  · by_cases ha : s = a
    · subst ha; simp [hb]
    · simp [hb, ha, tex_swapTex_of_ne r ha hb]

theorem blurMismatch_eq_false_iff (a b : RHI_RenderTexture) :
    blurMismatch a b = false ↔ a.width = b.width ∧ a.height = b.height ∧ a.format = b.format := by
  simp [blurMismatch, and_assoc]

theorem blurMismatch_eq_true_iff (a b : RHI_RenderTexture) :
    blurMismatch a b = true ↔ a.width ≠ b.width ∨ a.height ≠ b.height ∨ a.format ≠ b.format := by
  simp [blurMismatch, or_assoc]

theorem Pass_BlurBilateralGaussian_log (r : Renderer) (texIn texOut : TexSlot)
    (sigma pixelStride : ℚ) (h : blurMismatch (r.tex texIn) (r.tex texOut) = false) :
    (r.Pass_BlurBilateralGaussian texIn texOut sigma pixelStride).log = r.log ++
      [.EventBegin "Pass_BlurBilateralGaussian",
       .SetViewport (.ofRenderTexture (r.tex texIn)),
       .UpdateGlobalBuffer (some ((r.tex texIn).width, (r.tex texIn).height)) sigma
         ⟨pixelStride, 0⟩,
       .SetConstantBuffer .bufferGlobal 0,
       .SetRenderTarget (.renderTexture (r.tex texOut)) .none false,
       .SetShader .shaderBlurBilateralGaussian,
       .SetTexture (.renderTexture (r.tex texIn)),
       .SetTexture (.gbuffer .GBuffer_Target_Depth),
       .Bind,
       .DrawIndexed r.m_quadIndexCount 0 0,
       .UpdateGlobalBuffer (some ((r.tex texIn).width, (r.tex texIn).height)) sigma
         ⟨0, pixelStride⟩,
       .SetConstantBuffer .bufferGlobal 0,
       .SetRenderTarget (.renderTexture (r.tex texIn)) .none false,
       .SetPixelShader .shaderBlurBilateralGaussian,
       .SetTexture (.renderTexture (r.tex texOut)),
       .SetTexture (.gbuffer .GBuffer_Target_Depth),
       .Bind,
       .DrawIndexed r.m_quadIndexCount 0 0,
       .EventEnd] := by
  unfold Pass_BlurBilateralGaussian
  simp [h]

theorem Pass_BlurBox_log (r : Renderer) (texIn texOut : TexSlot) (sigma : ℚ) :
    (r.Pass_BlurBox texIn texOut sigma).log = r.log ++
      [.EventBegin "Pass_Blur",
       .UpdateGlobalBuffer (some ((r.tex texIn).width, (r.tex texIn).height)) sigma ⟨0, 0⟩,
       .SetConstantBuffer .bufferGlobal 0,
       .SetRenderTarget (.renderTexture (r.tex texOut)) .none false,
       .SetViewport (.ofRenderTexture (r.tex texOut)),
       .SetShader .shaderBlurBox,
       .SetTexture (.renderTexture (r.tex texIn)),
       .SetSampler .samplerBilinearClampAlways,
       .Bind,
       .DrawIndexed r.m_quadIndexCount 0 0,
       .EventEnd] := by
  unfold Pass_BlurBox
  simp

theorem Pass_BlurBox_tex (r : Renderer) (texIn texOut : TexSlot) (sigma : ℚ) (s : TexSlot) :
    (r.Pass_BlurBox texIn texOut sigma).tex s = r.tex s := by
  unfold Pass_BlurBox
  simp

theorem Pass_BlurGaussian_tex (r : Renderer) (texIn texOut : TexSlot) (sigma : ℚ)
    (h : blurMismatch (r.tex texIn) (r.tex texOut) = false) (s : TexSlot) :
    (r.Pass_BlurGaussian texIn texOut sigma).tex s = (r.swapTex texIn texOut).tex s := by
  unfold Pass_BlurGaussian
  simp [h, tex_swapTex]

theorem Pass_BlurBilateralGaussian_tex (r : Renderer) (texIn texOut : TexSlot)
    (sigma pixelStride : ℚ) (h : blurMismatch (r.tex texIn) (r.tex texOut) = false)
    (s : TexSlot) :
    (r.Pass_BlurBilateralGaussian texIn texOut sigma pixelStride).tex s
      = (r.swapTex texIn texOut).tex s := by
  unfold Pass_BlurBilateralGaussian
  simp [h, tex_swapTex]

theorem Pass_BlurGaussian_of_mismatch (r : Renderer) (texIn texOut : TexSlot) (sigma : ℚ)
    (h : blurMismatch (r.tex texIn) (r.tex texOut) = true) :
    r.Pass_BlurGaussian texIn texOut sigma = r.enter .Pass_BlurGaussian := by
  unfold Pass_BlurGaussian
  simp [h]

theorem Pass_BlurBilateralGaussian_of_mismatch (r : Renderer) (texIn texOut : TexSlot)
    (sigma pixelStride : ℚ) (h : blurMismatch (r.tex texIn) (r.tex texOut) = true) :
    r.Pass_BlurBilateralGaussian texIn texOut sigma pixelStride
      = r.enter .Pass_BlurBilateralGaussian := by
  unfold Pass_BlurBilateralGaussian
  simp [h]

theorem issued_self_of_log {r r' : Renderer} (h : r'.log = r.log) : r.issued r' = [] := by
  unfold issued
  rw [h, List.drop_length]

end Renderer

/-- C12, refuted as stated: on the sample renderer the two quarter-resolution targets match in
width, height and format, and after `Pass_BlurGaussian(Quarter_Blur1, Quarter_Blur2, 2)` the
caller's output member `Quarter_Blur2` designates the target that was passed as input, not the
one that was passed as output. -/
theorem Pass_BlurGaussian_output_is_input_target :
    (sampleRenderer.tex .Quarter_Blur1).width = (sampleRenderer.tex .Quarter_Blur2).width ∧
    (sampleRenderer.tex .Quarter_Blur1).height = (sampleRenderer.tex .Quarter_Blur2).height ∧
    (sampleRenderer.tex .Quarter_Blur1).format = (sampleRenderer.tex .Quarter_Blur2).format ∧
    (sampleRenderer.Pass_BlurGaussian .Quarter_Blur1 .Quarter_Blur2 2).tex .Quarter_Blur2
      = sampleRenderer.tex .Quarter_Blur1 ∧
    (sampleRenderer.Pass_BlurGaussian .Quarter_Blur1 .Quarter_Blur2 2).tex .Quarter_Blur2
      ≠ sampleRenderer.tex .Quarter_Blur2 := by
  decide

/-- C12, amended: for targets that match in width, height and format, `Pass_BlurGaussian`
exchanges the caller's two handles: afterwards the reference passed as `texOut` designates the
target that was passed as `texIn`, and the reference passed as `texIn` designates the target
that was passed as `texOut`. -/
theorem Pass_BlurGaussian_exchanges_handles (r : Renderer) (texIn texOut : TexSlot) (sigma : ℚ)
    (hw : (r.tex texIn).width = (r.tex texOut).width)
    (hh : (r.tex texIn).height = (r.tex texOut).height)
    (hf : (r.tex texIn).format = (r.tex texOut).format) :
    (r.Pass_BlurGaussian texIn texOut sigma).tex texOut = r.tex texIn ∧
    (r.Pass_BlurGaussian texIn texOut sigma).tex texIn = r.tex texOut := by
  have h := (Renderer.blurMismatch_eq_false_iff _ _).2 ⟨hw, hh, hf⟩
  simp [Renderer.Pass_BlurGaussian_tex r texIn texOut sigma h]

theorem Pass_BlurGaussian_exchanges_handles_witness :
    (sampleRenderer.Pass_BlurGaussian .Quarter_Blur1 .Quarter_Blur2 2).tex .Quarter_Blur2
      = sampleRenderer.tex .Quarter_Blur1 ∧
    (sampleRenderer.Pass_BlurGaussian .Quarter_Blur1 .Quarter_Blur2 2).tex .Quarter_Blur1
      = sampleRenderer.tex .Quarter_Blur2 :=
  Pass_BlurGaussian_exchanges_handles sampleRenderer .Quarter_Blur1 .Quarter_Blur2 2
    (by decide) (by decide) (by decide)

/-- C13: for each blur variant called on targets that match in width, height and format, the
draws the call issues are the blur passes only (one for the box blur, the horizontal and the
vertical one for the two Gaussian blurs), and the target of the last of them is the one the
caller's `texOut` reference designates on return. -/
theorem blur_output_designates_last_draw (r : Renderer) (texIn texOut : TexSlot)
    (sigma pixelStride : ℚ)
    (hw : (r.tex texIn).width = (r.tex texOut).width)
    (hh : (r.tex texIn).height = (r.tex texOut).height)
    (hf : (r.tex texIn).format = (r.tex texOut).format) :
    draws (r.issued (r.Pass_BlurBox texIn texOut sigma)) =
      [⟨some (.renderTexture ((r.Pass_BlurBox texIn texOut sigma).tex texOut)),
        [.renderTexture (r.tex texIn)]⟩] ∧
    draws (r.issued (r.Pass_BlurGaussian texIn texOut sigma)) =
      [⟨some (.renderTexture (r.tex texOut)), [.renderTexture (r.tex texIn)]⟩,
       ⟨some (.renderTexture ((r.Pass_BlurGaussian texIn texOut sigma).tex texOut)),
        [.renderTexture (r.tex texOut)]⟩] ∧
    draws (r.issued (r.Pass_BlurBilateralGaussian texIn texOut sigma pixelStride)) =
      [⟨some (.renderTexture (r.tex texOut)),
        [.renderTexture (r.tex texIn), .gbuffer .GBuffer_Target_Depth]⟩,
       ⟨some (.renderTexture
          ((r.Pass_BlurBilateralGaussian texIn texOut sigma pixelStride).tex texOut)),
        [.renderTexture (r.tex texOut), .gbuffer .GBuffer_Target_Depth]⟩] := by
  have h := (Renderer.blurMismatch_eq_false_iff _ _).2 ⟨hw, hh, hf⟩
  rw [Renderer.issued_of_log (Renderer.Pass_BlurBox_log r texIn texOut sigma),
    Renderer.issued_of_log (Renderer.Pass_BlurGaussian_log r texIn texOut sigma h),
    Renderer.issued_of_log
      (Renderer.Pass_BlurBilateralGaussian_log r texIn texOut sigma pixelStride h),
    Renderer.Pass_BlurBox_tex, Renderer.Pass_BlurGaussian_tex r texIn texOut sigma h,
    Renderer.Pass_BlurBilateralGaussian_tex r texIn texOut sigma pixelStride h]
  simp [draws, draws.go]

theorem blur_output_designates_last_draw_witness :
    draws (sampleRenderer.issued (sampleRenderer.Pass_BlurBox .Quarter_Blur1 .Quarter_Blur2 2)) =
      [⟨some (.renderTexture
          ((sampleRenderer.Pass_BlurBox .Quarter_Blur1 .Quarter_Blur2 2).tex .Quarter_Blur2)),
        [.renderTexture (sampleRenderer.tex .Quarter_Blur1)]⟩] ∧
    draws (sampleRenderer.issued
        (sampleRenderer.Pass_BlurGaussian .Quarter_Blur1 .Quarter_Blur2 2)) =
      [⟨some (.renderTexture (sampleRenderer.tex .Quarter_Blur2)),
        [.renderTexture (sampleRenderer.tex .Quarter_Blur1)]⟩,
       ⟨some (.renderTexture
          ((sampleRenderer.Pass_BlurGaussian .Quarter_Blur1 .Quarter_Blur2 2).tex
            .Quarter_Blur2)),
        [.renderTexture (sampleRenderer.tex .Quarter_Blur2)]⟩] ∧
    draws (sampleRenderer.issued
        (sampleRenderer.Pass_BlurBilateralGaussian .Quarter_Blur1 .Quarter_Blur2 2 1)) =
      [⟨some (.renderTexture (sampleRenderer.tex .Quarter_Blur2)),
        [.renderTexture (sampleRenderer.tex .Quarter_Blur1), .gbuffer .GBuffer_Target_Depth]⟩,
       ⟨some (.renderTexture
          ((sampleRenderer.Pass_BlurBilateralGaussian .Quarter_Blur1 .Quarter_Blur2 2 1).tex
            .Quarter_Blur2)),
        [.renderTexture (sampleRenderer.tex .Quarter_Blur2), .gbuffer .GBuffer_Target_Depth]⟩] :=
  blur_output_designates_last_draw sampleRenderer .Quarter_Blur1 .Quarter_Blur2 2 1
    (by decide) (by decide) (by decide)

/-- C14: when the two targets of `Pass_BlurGaussian` or `Pass_BlurBilateralGaussian` differ in
width, height or format, the call returns at its guard: it issues no command at all and every
render-target handle designates what it designated before.  When the three properties match,
the call issues two draws and exchanges the caller's two handles. -/
theorem blur_guard_is_atomic (r : Renderer) (texIn texOut : TexSlot) (sigma pixelStride : ℚ) :
    (((r.tex texIn).width ≠ (r.tex texOut).width ∨ (r.tex texIn).height ≠ (r.tex texOut).height
        ∨ (r.tex texIn).format ≠ (r.tex texOut).format) →
      (r.issued (r.Pass_BlurGaussian texIn texOut sigma) = [] ∧
        ∀ s, (r.Pass_BlurGaussian texIn texOut sigma).tex s = r.tex s) ∧
      (r.issued (r.Pass_BlurBilateralGaussian texIn texOut sigma pixelStride) = [] ∧
        ∀ s, (r.Pass_BlurBilateralGaussian texIn texOut sigma pixelStride).tex s = r.tex s)) ∧
    (((r.tex texIn).width = (r.tex texOut).width ∧ (r.tex texIn).height = (r.tex texOut).height
        ∧ (r.tex texIn).format = (r.tex texOut).format) →
      ((draws (r.issued (r.Pass_BlurGaussian texIn texOut sigma))).length = 2 ∧
        (r.Pass_BlurGaussian texIn texOut sigma).tex texIn = r.tex texOut ∧
        (r.Pass_BlurGaussian texIn texOut sigma).tex texOut = r.tex texIn) ∧
      ((draws (r.issued (r.Pass_BlurBilateralGaussian texIn texOut sigma pixelStride))).length
          = 2 ∧
        (r.Pass_BlurBilateralGaussian texIn texOut sigma pixelStride).tex texIn
          = r.tex texOut ∧
        (r.Pass_BlurBilateralGaussian texIn texOut sigma pixelStride).tex texOut
          = r.tex texIn)) := by
  constructor
  · intro hne
    have h := (Renderer.blurMismatch_eq_true_iff _ _).2 hne
    rw [Renderer.Pass_BlurGaussian_of_mismatch r texIn texOut sigma h,
      Renderer.Pass_BlurBilateralGaussian_of_mismatch r texIn texOut sigma pixelStride h]
    exact ⟨⟨Renderer.issued_self_of_log rfl, fun s => by simp⟩,
      ⟨Renderer.issued_self_of_log rfl, fun s => by simp⟩⟩
  · intro heq
    have h := (Renderer.blurMismatch_eq_false_iff _ _).2 heq
    rw [Renderer.issued_of_log (Renderer.Pass_BlurGaussian_log r texIn texOut sigma h),
      Renderer.issued_of_log
        (Renderer.Pass_BlurBilateralGaussian_log r texIn texOut sigma pixelStride h)]
    simp [draws, draws.go, Renderer.Pass_BlurGaussian_tex r texIn texOut sigma h,
      Renderer.Pass_BlurBilateralGaussian_tex r texIn texOut sigma pixelStride h]

theorem blur_guard_is_atomic_witness :
    (sampleRenderer.issued (sampleRenderer.Pass_BlurGaussian .Half_Spare .Quarter_Blur1 2) = [] ∧
        ∀ s, (sampleRenderer.Pass_BlurGaussian .Half_Spare .Quarter_Blur1 2).tex s
          = sampleRenderer.tex s) ∧
    (draws (sampleRenderer.issued
        (sampleRenderer.Pass_BlurBilateralGaussian .Quarter_Blur1 .Quarter_Blur2 2 1))).length
      = 2 :=
  ⟨((blur_guard_is_atomic sampleRenderer .Half_Spare .Quarter_Blur1 2 1).1
      (Or.inl (by decide))).1,
    ((blur_guard_is_atomic sampleRenderer .Quarter_Blur1 .Quarter_Blur2 2 1).2
      ⟨by decide, by decide, by decide⟩).2.1⟩

/-! ## Resolution changes -/

namespace Renderer

@[simp] theorem setTex_resolutionWidth (r : Renderer) (s : TexSlot) (t : RHI_RenderTexture) :
    (r.setTex s t).resolutionWidth = r.resolutionWidth := by
  cases s <;> rfl

@[simp] theorem setTex_resolutionHeight (r : Renderer) (s : TexSlot) (t : RHI_RenderTexture) :
    (r.setTex s t).resolutionHeight = r.resolutionHeight := by
  cases s <;> rfl

@[simp] theorem setTex_renderTexturesCreated (r : Renderer) (s : TexSlot)
    (t : RHI_RenderTexture) : (r.setTex s t).renderTexturesCreated = r.renderTexturesCreated := by
  cases s <;> rfl

@[simp] theorem createRenderTexture_resolutionWidth (r : Renderer) (s : TexSlot) (w h : Nat) :
    (r.createRenderTexture s w h).resolutionWidth = r.resolutionWidth := by
  simp [createRenderTexture, emit]

@[simp] theorem createRenderTexture_resolutionHeight (r : Renderer) (s : TexSlot) (w h : Nat) :
    (r.createRenderTexture s w h).resolutionHeight = r.resolutionHeight := by
  simp [createRenderTexture, emit]

@[simp] theorem createRenderTexture_renderTexturesCreated (r : Renderer) (s : TexSlot)
    (w h : Nat) :
    (r.createRenderTexture s w h).renderTexturesCreated = r.renderTexturesCreated + 1 := by
  simp [createRenderTexture, emit]

@[simp] theorem createRenderTexture_log (r : Renderer) (s : TexSlot) (w h : Nat) :
    (r.createRenderTexture s w h).log = r.log ++
      [.CreateRenderTexture
        ⟨r.renderTexturesCreated, w, h, .Texture_Format_R16G16B16A16_FLOAT⟩] := by
  simp [createRenderTexture, emit]

theorem createRenderTexture_tex (r : Renderer) (s s' : TexSlot) (w h : Nat) :
    (r.createRenderTexture s w h).tex s' =
      if s' = s then ⟨r.renderTexturesCreated, w, h, .Texture_Format_R16G16B16A16_FLOAT⟩
      else r.tex s' := by
  unfold createRenderTexture
  by_cases hs : s' = s
  · subst hs
    cases s' <;> simp [emit, setTex, tex]
  · simp only [hs, if_false]
    cases s <;> cases s' <;> first | exact absurd rfl hs | rfl

theorem CreateRenderTextures_resolution (r : Renderer) (w h : Nat) :
    (r.CreateRenderTextures w h).resolutionWidth = r.resolutionWidth ∧
    (r.CreateRenderTextures w h).resolutionHeight = r.resolutionHeight := by
  simp [CreateRenderTextures, emits]

theorem CreateRenderTextures_log (r : Renderer) (w h : Nat) :
    (r.CreateRenderTextures w h).log = r.log ++
      [.CreateGBuffer w h, .CreateQuad w h,
       .CreateRenderTexture ⟨r.renderTexturesCreated, w, h, .Texture_Format_R16G16B16A16_FLOAT⟩,
       .CreateRenderTexture
         ⟨r.renderTexturesCreated + 1, w, h, .Texture_Format_R16G16B16A16_FLOAT⟩,
       .CreateRenderTexture
         ⟨r.renderTexturesCreated + 2, w, h, .Texture_Format_R16G16B16A16_FLOAT⟩,
       .CreateRenderTexture
         ⟨r.renderTexturesCreated + 3, w, h, .Texture_Format_R16G16B16A16_FLOAT⟩,
       .CreateRenderTexture
         ⟨r.renderTexturesCreated + 4, w / 2, h / 2, .Texture_Format_R16G16B16A16_FLOAT⟩,
       .CreateRenderTexture
         ⟨r.renderTexturesCreated + 5, w / 2, h / 2, .Texture_Format_R16G16B16A16_FLOAT⟩,
       .CreateRenderTexture
         ⟨r.renderTexturesCreated + 6, w / 2, h / 2, .Texture_Format_R16G16B16A16_FLOAT⟩,
       .CreateRenderTexture
         ⟨r.renderTexturesCreated + 7, w / 4, h / 4, .Texture_Format_R16G16B16A16_FLOAT⟩,
       .CreateRenderTexture
         ⟨r.renderTexturesCreated + 8, w / 4, h / 4, .Texture_Format_R16G16B16A16_FLOAT⟩] := by
  simp [CreateRenderTextures, emits]

theorem SetResolution_of_zero (r : Renderer) (w h : Nat) (hz : w = 0 ∨ h = 0) :
    r.SetResolution w h = r := by
  simp [SetResolution, hz]

theorem SetResolution_of_same (r : Renderer) (w h : Nat)
    (hs : r.resolutionWidth = w ∧ r.resolutionHeight = h) : r.SetResolution w h = r := by
  unfold SetResolution
  simp [hs]

theorem SetResolution_of_new (r : Renderer) (w h : Nat) (hw : w ≠ 0) (hh : h ≠ 0)
    (hs : ¬(r.resolutionWidth = w ∧ r.resolutionHeight = h)) :
    r.SetResolution w h =
      ({ r with
          resolutionWidth := w - (if w % 2 ≠ 0 then 1 else 0)
          resolutionHeight := h - (if h % 2 ≠ 0 then 1 else 0) } : Renderer).CreateRenderTextures
        (w - (if w % 2 ≠ 0 then 1 else 0)) (h - (if h % 2 ≠ 0 then 1 else 0)) := by
  unfold SetResolution
  rw [if_neg (by simp [hw, hh]), if_neg hs]

theorem SetResolution_stored (r : Renderer) (w h : Nat) (hw : w ≠ 0) (hh : h ≠ 0)
    (hs : ¬(r.resolutionWidth = w ∧ r.resolutionHeight = h)) :
    (r.SetResolution w h).resolutionWidth = w - (if w % 2 ≠ 0 then 1 else 0) ∧
    (r.SetResolution w h).resolutionHeight = h - (if h % 2 ≠ 0 then 1 else 0) := by
  rw [SetResolution_of_new r w h hw hh hs]
  exact CreateRenderTextures_resolution _ _ _

/-- For requests of at least two pixels in each direction `SetResolution` keeps a positive even
resolution positive and even. -/
theorem SetResolution_positive_even (r : Renderer) (w h : Nat) (hw : 2 ≤ w) (hh : 2 ≤ h)
    (hrw : 0 < r.resolutionWidth ∧ r.resolutionWidth % 2 = 0)
    (hrh : 0 < r.resolutionHeight ∧ r.resolutionHeight % 2 = 0) :
    (0 < (r.SetResolution w h).resolutionWidth ∧ (r.SetResolution w h).resolutionWidth % 2 = 0) ∧
    (0 < (r.SetResolution w h).resolutionHeight ∧
      (r.SetResolution w h).resolutionHeight % 2 = 0) := by
  by_cases hs : r.resolutionWidth = w ∧ r.resolutionHeight = h
  · rw [SetResolution_of_same r w h hs]
    exact ⟨hrw, hrh⟩
  · obtain ⟨h1, h2⟩ := SetResolution_stored r w h (by omega) (by omega) hs
    rw [h1, h2]
    constructor <;> constructor <;> split_ifs <;> omega

end Renderer

/-- C15: `SetResolution` with a zero width or a zero height returns at its first guard: the
renderer, and with it the stored resolution, every render-target handle and the command log,
is what it was before the call. -/
theorem SetResolution_zero_is_ignored (r : Renderer) (width height : Nat)
    (hz : width = 0 ∨ height = 0) :
    r.SetResolution width height = r ∧
    (r.SetResolution width height).resolutionWidth = r.resolutionWidth ∧
    (r.SetResolution width height).resolutionHeight = r.resolutionHeight ∧
    r.issued (r.SetResolution width height) = [] := by
  rw [Renderer.SetResolution_of_zero r width height hz]
  exact ⟨rfl, rfl, rfl, Renderer.issued_self_of_log rfl⟩

theorem SetResolution_zero_is_ignored_witness :
    sampleRenderer.SetResolution 0 720 = sampleRenderer ∧
    (sampleRenderer.SetResolution 0 720).resolutionWidth = sampleRenderer.resolutionWidth ∧
    (sampleRenderer.SetResolution 0 720).resolutionHeight = sampleRenderer.resolutionHeight ∧
    sampleRenderer.issued (sampleRenderer.SetResolution 0 720) = [] :=
  SetResolution_zero_is_ignored sampleRenderer 0 720 (Or.inl rfl)

/-- C16: for even positive `w` and `h` and every renderer state, a second `SetResolution(w, h)`
right after a first one changes nothing.  The first call changes nothing either when `(w, h)`
is the stored resolution; otherwise it stores `(w, h)` and issues exactly the commands of one
`CreateRenderTextures(w, h)`: one G-buffer, one quad and one new texture for each of the nine
pooled targets. -/
theorem SetResolution_idempotent (r : Renderer) (w h : Nat) (hw : 0 < w) (hh : 0 < h)
    (hwe : w % 2 = 0) (hhe : h % 2 = 0) :
    (r.SetResolution w h).SetResolution w h = r.SetResolution w h ∧
    ((r.resolutionWidth = w ∧ r.resolutionHeight = h) → r.SetResolution w h = r) ∧
    (¬(r.resolutionWidth = w ∧ r.resolutionHeight = h) →
      (r.SetResolution w h).resolutionWidth = w ∧
      (r.SetResolution w h).resolutionHeight = h ∧
      r.issued (r.SetResolution w h) =
        [.CreateGBuffer w h, .CreateQuad w h,
         .CreateRenderTexture ((r.SetResolution w h).tex .Full_Light),
         .CreateRenderTexture ((r.SetResolution w h).tex .Full_TAA_Current),
         .CreateRenderTexture ((r.SetResolution w h).tex .Full_TAA_History),
         .CreateRenderTexture ((r.SetResolution w h).tex .Full_FinalFrame),
         .CreateRenderTexture ((r.SetResolution w h).tex .Half_Shadows),
         .CreateRenderTexture ((r.SetResolution w h).tex .Half_SSDO),
         .CreateRenderTexture ((r.SetResolution w h).tex .Half_Spare),
         .CreateRenderTexture ((r.SetResolution w h).tex .Quarter_Blur1),
         .CreateRenderTexture ((r.SetResolution w h).tex .Quarter_Blur2)]) := by
  have hw0 : w ≠ 0 := by omega
  have hh0 : h ≠ 0 := by omega
  have hstored : (r.SetResolution w h).resolutionWidth = w ∧
      (r.SetResolution w h).resolutionHeight = h := by
    by_cases hs : r.resolutionWidth = w ∧ r.resolutionHeight = h
    · rw [Renderer.SetResolution_of_same r w h hs]; exact hs
    · have := Renderer.SetResolution_stored r w h hw0 hh0 hs
      simpa [hwe, hhe] using this
  refine ⟨Renderer.SetResolution_of_same _ w h hstored, Renderer.SetResolution_of_same r w h,
    fun hs => ⟨hstored.1, hstored.2, ?_⟩⟩
  rw [Renderer.SetResolution_of_new r w h hw0 hh0 hs]
  simp only [hwe, hhe, ne_eq, not_true_eq_false, if_false, Nat.sub_zero]
  rw [@Renderer.issued_of_log r
    (({ r with resolutionWidth := w, resolutionHeight := h } : Renderer).CreateRenderTextures
      w h) _ (Renderer.CreateRenderTextures_log _ w h)]
  simp [Renderer.CreateRenderTextures, Renderer.createRenderTexture_tex, Renderer.emits]

theorem SetResolution_idempotent_witness :
    (sampleRenderer.SetResolution 1280 720).SetResolution 1280 720
      = sampleRenderer.SetResolution 1280 720 ∧
    (sampleRenderer.SetResolution 1280 720).resolutionWidth = 1280 :=
  ⟨(SetResolution_idempotent sampleRenderer 1280 720 (by decide) (by decide) (by decide)
      (by decide)).1,
    ((SetResolution_idempotent sampleRenderer 1280 720 (by decide) (by decide) (by decide)
      (by decide)).2.2 (by decide)).1⟩

/-- C17, the failing input: from every stored resolution with an even width, `SetResolution(1,
h)` with `h > 0` passes the zero test, is not the stored resolution, and rounds the width down
to zero: the stored width is then `0`, not positive, and `CreateRenderTextures` is called with
width `0`. -/
theorem SetResolution_one_stores_zero (r : Renderer) (h : Nat) (hh : 0 < h)
    (hrw : r.resolutionWidth % 2 = 0) :
    (r.SetResolution 1 h).resolutionWidth = 0 ∧
    (r.issued (r.SetResolution 1 h)).head? =
      some (.CreateGBuffer 0 (h - (if h % 2 ≠ 0 then 1 else 0))) := by
  have hs : ¬(r.resolutionWidth = 1 ∧ r.resolutionHeight = h) := by
    intro hc
    omega
  refine ⟨by simpa using (Renderer.SetResolution_stored r 1 h (by omega) (by omega) hs).1, ?_⟩
  rw [Renderer.SetResolution_of_new r 1 h (by omega) (by omega) hs]
  rw [@Renderer.issued_of_log r
    (({ r with
        resolutionWidth := 1 - (if 1 % 2 ≠ 0 then 1 else 0)
        resolutionHeight := h - (if h % 2 ≠ 0 then 1 else 0) } : Renderer).CreateRenderTextures
      (1 - (if 1 % 2 ≠ 0 then 1 else 0)) (h - (if h % 2 ≠ 0 then 1 else 0))) _
    (Renderer.CreateRenderTextures_log _ _ _)]
  simp

theorem SetResolution_one_stores_zero_witness :
    (sampleRenderer.SetResolution 1 1080).resolutionWidth = 0 ∧
    (sampleRenderer.issued (sampleRenderer.SetResolution 1 1080)).head? =
      some (.CreateGBuffer 0 (1080 - (if 1080 % 2 ≠ 0 then 1 else 0))) :=
  SetResolution_one_stores_zero sampleRenderer 1080 (by decide) (by decide)

/-! ## Temporal jitter -/

theorem radicalInverse_zero (b : Nat) : radicalInverse b 0 = 0 := by
  simp [radicalInverse]

theorem radicalInverse_step (b n : Nat) (hb : 2 ≤ b) (hn : 0 < n) :
    radicalInverse b n = (((n % b : Nat) : ℚ) + radicalInverse b (n / b)) / (b : ℚ) := by
  unfold radicalInverse
  rw [Nat.digits_def' (by omega) hn]
  rfl

namespace TAA_Sequence

theorem Halton.loop_eq (base : Nat) (hb : 2 ≤ base) :
    ∀ (fuel index : Nat) (f r : ℚ), index ≤ fuel →
      Halton.loop base fuel index f r = r + f * radicalInverse base index := by
  have hb0 : (base : ℚ) ≠ 0 := by exact_mod_cast (by omega : base ≠ 0)
  intro fuel
  induction fuel with
  | zero =>
    intro index f r h
    have : index = 0 := by omega
    subst this
    simp [Halton.loop, radicalInverse_zero]
  | succ fuel ih =>
    intro index f r h
    unfold Halton.loop
    by_cases hi : index > 0
    · rw [if_pos hi]
      have hdiv : index / base ≤ fuel := by
        have : index / base < index := Nat.div_lt_self hi (by omega)
        omega
      rw [ih _ _ _ hdiv, radicalInverse_step base index hb hi]
      field_simp
      ring
    · rw [if_neg hi]
      have : index = 0 := by omega
      subst this
      simp [radicalInverse_zero]

/-- The loop of `Halton` ends within `index` iterations and returns the radical inverse of the
index. -/
theorem Halton_eq_radicalInverse (index base : Nat) (hb : 2 ≤ base) :
    Halton index base = radicalInverse base index := by
  unfold Halton
  rw [Halton.loop_eq base hb index index 1 0 le_rfl]
  simp

/-- The first sixteen points of the base-two sequence are the sixteenths in bit-reversed
order. -/
theorem Halton_two_table (i : Nat) (hi : i < 16) :
    Halton i 2 =
      (([0, 8, 4, 12, 2, 10, 6, 14, 1, 9, 5, 13, 3, 11, 7, 15].getD i 0 : Nat) : ℚ) / 16 := by
  interval_cases i <;> norm_num [Halton, Halton.loop]

theorem Halton_two_injective (i j : Nat) (hi : i < 16) (hj : j < 16)
    (h : Halton i 2 = Halton j 2) : i = j := by
  rw [Halton_two_table i hi, Halton_two_table j hj] at h
  have h16 : (16 : ℚ) ≠ 0 := by norm_num
  have h2 := (div_left_inj' h16).1 h
  have h3 : [0, 8, 4, 12, 2, 10, 6, 14, 1, 9, 5, 13, 3, 11, 7, 15].getD i 0
      = [0, 8, 4, 12, 2, 10, 6, 14, 1, 9, 5, 13, 3, 11, 7, 15].getD j 0 := by
    exact_mod_cast h2
  have key : ∀ a < 16, ∀ b < 16,
      [0, 8, 4, 12, 2, 10, 6, 14, 1, 9, 5, 13, 3, 11, 7, 15].getD a 0
        = [0, 8, 4, 12, 2, 10, 6, 14, 1, 9, 5, 13, 3, 11, 7, 15].getD b 0 → a = b := by
    decide
  exact key i hi j hj h3

end TAA_Sequence

/-- Sample values of the radical inverse: 6 is `110` in base two and 5 is `12` in base three. -/
theorem radicalInverse_samples :
    radicalInverse 2 6 = 3 / 8 ∧ radicalInverse 3 5 = 7 / 9 ∧
      TAA_Sequence.Halton2D 5 2 3 = ⟨5 / 8, 7 / 9⟩ := by
  refine ⟨?_, ?_, ?_⟩
  · norm_num [radicalInverse]
  · norm_num [radicalInverse]
  · norm_num [TAA_Sequence.Halton2D, TAA_Sequence.Halton, TAA_Sequence.Halton.loop]

/-- C18: for the indices 0 to 15, `Halton2D(index, 2, 3)` is the pair of the radical inverses
of the index in the bases two and three, and two of these indices give the same point exactly
when they are the same index: the sixteen points are pairwise distinct, and an index always
gives the same point. -/
theorem Halton2D_distinct_radical_inverses (i j : Nat) (hi : i < 16) (hj : j < 16) :
    TAA_Sequence.Halton2D i 2 3 = ⟨radicalInverse 2 i, radicalInverse 3 i⟩ ∧
    (TAA_Sequence.Halton2D i 2 3 = TAA_Sequence.Halton2D j 2 3 ↔ i = j) := by
  constructor
  · simp [TAA_Sequence.Halton2D, TAA_Sequence.Halton_eq_radicalInverse]
  · constructor
    · intro h
      have hx : TAA_Sequence.Halton i 2 = TAA_Sequence.Halton j 2 := by
        simpa [TAA_Sequence.Halton2D] using congrArg Vector2.x h
      exact TAA_Sequence.Halton_two_injective i j hi hj hx
    · intro h
      rw [h]

theorem Halton2D_distinct_radical_inverses_witness :
    TAA_Sequence.Halton2D 5 2 3 = ⟨radicalInverse 2 5, radicalInverse 3 5⟩ ∧
    (TAA_Sequence.Halton2D 5 2 3 = TAA_Sequence.Halton2D 9 2 3 ↔ 5 = 9) :=
  Halton2D_distinct_radical_inverses 5 9 (by decide) (by decide)

namespace Renderer

theorem Keeps.same (r : Renderer) : Keeps r r := ⟨List.prefix_refl _, rfl, rfl⟩

theorem Keeps.step {r₁ r₂ r₃ : Renderer} (h₁ : Keeps r₁ r₂) (h₂ : Keeps r₂ r₃) : Keeps r₁ r₃ :=
  ⟨h₁.1.trans h₂.1, h₂.2.1.trans h₁.2.1, h₂.2.2.trans h₁.2.2⟩

theorem Keeps.of_log_eq {r r' : Renderer} (hl : r'.log = r.log)
    (hc : r'.tex .Full_TAA_Current = r.tex .Full_TAA_Current)
    (hh : r'.tex .Full_TAA_History = r.tex .Full_TAA_History) : Keeps r r' :=
  ⟨by rw [hl], hc, hh⟩

theorem keeps_emit (r : Renderer) (c : Cmd) : Keeps r (r.emit c) :=
  ⟨List.prefix_append _ _, rfl, rfl⟩

theorem keeps_emits (r : Renderer) (cs : List Cmd) : Keeps r (r.emits cs) :=
  ⟨List.prefix_append _ _, rfl, rfl⟩

theorem keeps_enter (r : Renderer) (p : PassName) : Keeps r (r.enter p) :=
  Keeps.of_log_eq rfl rfl rfl

theorem keeps_touch (r : Renderer) (k : RenderableType) : Keeps r (r.touch k) :=
  Keeps.of_log_eq rfl rfl rfl

theorem keeps_SetGlobalBuffer (r : Renderer) (res : Option (Nat × Nat)) (sigma : ℚ)
    (dir : Vector2) : Keeps r (r.SetGlobalBuffer res sigma dir) :=
  ⟨List.prefix_append _ _, rfl, rfl⟩

theorem keeps_swapTex (r : Renderer) (a b : TexSlot)
    (ha : a ≠ .Full_TAA_Current ∧ a ≠ .Full_TAA_History)
    (hb : b ≠ .Full_TAA_Current ∧ b ≠ .Full_TAA_History) : Keeps r (r.swapTex a b) :=
  ⟨by simp, tex_swapTex_of_ne r (Ne.symm ha.1) (Ne.symm hb.1),
    tex_swapTex_of_ne r (Ne.symm ha.2) (Ne.symm hb.2)⟩

theorem keeps_AddLine3 (r : Renderer) (a b : Vector3) (c : Vector4) :
    Keeps r (r.AddLine3 a b c) :=
  Keeps.of_log_eq rfl rfl rfl

@[simp] theorem AddLine3_log (r : Renderer) (a b : Vector3) (c : Vector4) :
    (r.AddLine3 a b c).log = r.log := rfl

@[simp] theorem AddLine3_tex (r : Renderer) (a b : Vector3) (c : Vector4) (s : TexSlot) :
    (r.AddLine3 a b c).tex s = r.tex s := by
  cases s <;> rfl

theorem keeps_AddBoundigBox (r : Renderer) (box : BoundingBox) (color : Vector4) :
    Keeps r (r.AddBoundigBox box color) := by
  unfold AddBoundigBox
  exact Keeps.of_log_eq (by simp only [AddLine3_log]) (by simp only [AddLine3_tex])
    (by simp only [AddLine3_tex])

theorem keeps_foldl {α : Type} (step : Renderer → α → Renderer)
    (hstep : ∀ r a, Keeps r (step r a)) (l : List α) :
    ∀ r, Keeps r (l.foldl step r) := by
  induction l with
  | nil => intro r; exact Keeps.same r
  | cons a l ih =>
    intro r
    exact (hstep r a).step (ih (step r a))

theorem keeps_foldl_pair {α β : Type} (step : Renderer × β → α → Renderer × β)
    (hstep : ∀ st a, Keeps st.1 (step st a).1) (l : List α) :
    ∀ st, Keeps st.1 (l.foldl step st).1 := by
  induction l with
  | nil => intro st; exact Keeps.same st.1
  | cons a l ih =>
    intro st
    exact (hstep st a).step (ih (step st a))

theorem keeps_ite {r r' : Renderer} (c : Bool) (h : Keeps r r') :
    Keeps r (if c = true then r' else r) := by
  split
  · exact h
  · exact Keeps.same _

theorem keeps_Pass_ShadowMapping (r : Renderer) (texOut : TexSlot) (light : Option Light) :
    Keeps r (r.Pass_ShadowMapping texOut light) := by
  unfold Pass_ShadowMapping
  cases light
  · exact keeps_enter _ _
  · exact (keeps_enter _ _).step (keeps_emits _ _)

theorem keeps_Pass_SSDO (r : Renderer) (texOut : TexSlot) : Keeps r (r.Pass_SSDO texOut) := by
  unfold Pass_SSDO
  exact (keeps_enter _ _).step (keeps_emits _ _)

theorem keeps_Pass_BlurGaussian (r : Renderer) (texIn texOut : TexSlot) (sigma : ℚ)
    (ha : texIn ≠ .Full_TAA_Current ∧ texIn ≠ .Full_TAA_History)
    (hb : texOut ≠ .Full_TAA_Current ∧ texOut ≠ .Full_TAA_History) :
    Keeps r (r.Pass_BlurGaussian texIn texOut sigma) := by
  unfold Pass_BlurGaussian
  simp only
  split
  · exact keeps_enter _ _
  · exact (((((((keeps_enter r _).step (keeps_emits _ _)).step
      (keeps_SetGlobalBuffer _ _ _ _)).step (keeps_emits _ _)).step
      (keeps_SetGlobalBuffer _ _ _ _)).step (keeps_emits _ _)).step
      (keeps_swapTex _ _ _ ha hb)).step (keeps_emit _ _)

theorem keeps_Pass_BlurBilateralGaussian (r : Renderer) (texIn texOut : TexSlot)
    (sigma pixelStride : ℚ)
    (ha : texIn ≠ .Full_TAA_Current ∧ texIn ≠ .Full_TAA_History)
    (hb : texOut ≠ .Full_TAA_Current ∧ texOut ≠ .Full_TAA_History) :
    Keeps r (r.Pass_BlurBilateralGaussian texIn texOut sigma pixelStride) := by
  unfold Pass_BlurBilateralGaussian
  simp only
  split
  · exact keeps_enter _ _
  · exact (((((((keeps_enter r _).step (keeps_emits _ _)).step
      (keeps_SetGlobalBuffer _ _ _ _)).step (keeps_emits _ _)).step
      (keeps_SetGlobalBuffer _ _ _ _)).step (keeps_emits _ _)).step
      (keeps_swapTex _ _ _ ha hb)).step (keeps_emit _ _)

theorem keeps_DepthDirectionalLight_actorStep (i : Nat) (st : Renderer × Nat) (a : Actor) :
    Keeps st.1 (Pass_DepthDirectionalLight.actorStep i st a).1 := by
  unfold Pass_DepthDirectionalLight.actorStep
  repeat' split
  all_goals first
    | exact Keeps.same _
    | exact keeps_emits _ _
    | exact (keeps_emits _ _).step (keeps_emits _ _)

theorem keeps_DepthDirectionalLight_cascadeStep (light : Light) (actors : List Actor)
    (st : Renderer × Nat) (i : Nat) :
    Keeps st.1 (Pass_DepthDirectionalLight.cascadeStep light actors st i).1 := by
  unfold Pass_DepthDirectionalLight.cascadeStep
  simp only
  split
  · exact (keeps_emits st.1 _).step
      (keeps_foldl_pair _ (keeps_DepthDirectionalLight_actorStep i) actors (st.1.emits _, st.2))
  · exact keeps_foldl_pair _ (keeps_DepthDirectionalLight_actorStep i) actors _

theorem keeps_Pass_DepthDirectionalLight (r : Renderer) (light : Option Light) :
    Keeps r (r.Pass_DepthDirectionalLight light) := by
  unfold Pass_DepthDirectionalLight
  simp only
  split
  · exact keeps_enter r _
  · split
    · exact keeps_enter r _
    · split
      · exact (keeps_enter r .Pass_DepthDirectionalLight).step (keeps_touch _ _)
      · rename_i light _ _
        have h1 := (keeps_enter r .Pass_DepthDirectionalLight).step (keeps_touch _
          .Renderable_ObjectOpaque)
        have h2 := h1.step (keeps_emits _ [.EventBegin "Pass_DepthDirectionalLight",
          .SetShader .shaderLightDepth,
          .SetPrimitiveTopology .PrimitiveTopology_TriangleList])
        have h3 := h2.step (keeps_foldl_pair _
          (keeps_DepthDirectionalLight_cascadeStep light
            ((r.enter .Pass_DepthDirectionalLight).m_actors.at .Renderable_ObjectOpaque))
          (List.range light.shadowMapCount) (_, 0))
        exact h3.step (keeps_emit _ .EventEnd)

theorem keeps_GBuffer_bindGeometry (st : Renderer × GBufferCache) (model : Model) :
    Keeps st.1 (Pass_GBuffer.bindGeometry st model).1 := by
  unfold Pass_GBuffer.bindGeometry
  split
  · exact keeps_emits _ _
  · exact Keeps.same _

theorem keeps_GBuffer_bindShader (st : Renderer × GBufferCache) (shader : ShaderVariation) :
    Keeps st.1 (Pass_GBuffer.bindShader st shader).1 := by
  unfold Pass_GBuffer.bindShader
  simp only
  split
  · split
    · exact (keeps_emit st.1 _).step (keeps_emit _ _)
    · exact keeps_emit _ _
  · exact Keeps.same _

theorem keeps_GBuffer_bindMaterial (st : Renderer × GBufferCache) (material : Material) :
    Keeps st.1 (Pass_GBuffer.bindMaterial st material).1 := by
  unfold Pass_GBuffer.bindMaterial
  split
  · exact keeps_emits _ _
  · exact Keeps.same _

theorem keeps_GBuffer_draw (r : Renderer) (actor : Actor) (renderable : Renderable)
    (shader : ShaderVariation) : Keeps r (Pass_GBuffer.draw r actor renderable shader) :=
  ⟨List.prefix_append _ _, rfl, rfl⟩

theorem keeps_GBuffer_actorStep (st : Renderer × GBufferCache) (a : Actor) :
    Keeps st.1 (Pass_GBuffer.actorStep st a).1 := by
  unfold Pass_GBuffer.actorStep
  repeat' split
  all_goals first
    | exact Keeps.same _
    | exact (((keeps_emit st.1 _).step (keeps_GBuffer_bindGeometry (_, st.2) _)).step
        ((keeps_GBuffer_bindShader _ _).step (keeps_GBuffer_bindMaterial _ _))).step
        (keeps_GBuffer_draw _ _ _ _)

theorem keeps_Pass_GBuffer (r : Renderer) : Keeps r r.Pass_GBuffer := by
  unfold Pass_GBuffer
  simp only
  split
  · exact keeps_enter r _
  · split
    · exact (keeps_enter r .Pass_GBuffer).step (keeps_touch _ _)
    · have h1 := (keeps_enter r .Pass_GBuffer).step (keeps_touch _ .Renderable_ObjectOpaque)
      have h2 := h1.step (keeps_emits _ [.EventBegin "Pass_GBuffer",
        .GBuffer_SetAsRenderTarget,
        .SetSampler .samplerAnisotropicWrapAlways,
        .SetFillMode_Solid,
        .SetPrimitiveTopology .PrimitiveTopology_TriangleList])
      have h3 := h2.step (keeps_SetGlobalBuffer _ none 0 ⟨0, 0⟩)
      have h4 := h3.step (keeps_foldl_pair _ keeps_GBuffer_actorStep
        ((r.enter .Pass_GBuffer).m_actors.at .Renderable_ObjectOpaque) (_, ⟨false, 0, 0, 0⟩))
      exact h4.step (keeps_emit _ .EventEnd)

theorem keeps_Pass_PreLight (r : Renderer) :
    Keeps r (r.Pass_PreLight .Half_Spare .Half_Shadows .Half_SSDO) := by
  unfold Pass_PreLight
  simp only
  have h0 : Keeps r (((r.enter .Pass_PreLight).emits [.EventBegin "Pass_PreLight",
      .SetIndexBuffer .quad, .SetVertexBuffer .quad,
      .SetPrimitiveTopology .PrimitiveTopology_TriangleList,
      .SetCullMode .Cull_Back]).touch .Renderable_Light) :=
    ((keeps_enter r .Pass_PreLight).step (keeps_emits _ _)).step (keeps_touch _ _)
  have hs : ∀ q : Renderer, Keeps q (q.Pass_BlurBilateralGaussian .Half_Spare .Half_Shadows 1 1) :=
    fun q => keeps_Pass_BlurBilateralGaussian q .Half_Spare .Half_Shadows 1 1
      ⟨by decide, by decide⟩ ⟨by decide, by decide⟩
  have ho : ∀ q : Renderer, Keeps q (q.Pass_BlurBilateralGaussian .Half_Spare .Half_SSDO 3 2) :=
    fun q => keeps_Pass_BlurBilateralGaussian q .Half_Spare .Half_SSDO 3 2
      ⟨by decide, by decide⟩ ⟨by decide, by decide⟩
  have hl : ((r.enter .Pass_PreLight).emits [.EventBegin "Pass_PreLight",
      .SetIndexBuffer .quad, .SetVertexBuffer .quad,
      .SetPrimitiveTopology .PrimitiveTopology_TriangleList,
      .SetCullMode .Cull_Back]).GetLightDirectional = r.GetLightDirectional := rfl
  rw [hl]
  cases r.GetLightDirectional with
  | none =>
    simp only
    split
    · exact (h0.step ((keeps_Pass_SSDO _ _).step (ho _))).step (keeps_emit _ _)
    · exact h0.step (keeps_emit _ _)
  | some light =>
    simp only
    have h1 := (h0.step (keeps_Pass_ShadowMapping _ .Half_Spare
      (((r.enter .Pass_PreLight).emits [.EventBegin "Pass_PreLight",
        .SetIndexBuffer .quad, .SetVertexBuffer .quad,
        .SetPrimitiveTopology .PrimitiveTopology_TriangleList,
        .SetCullMode .Cull_Back]).touch .Renderable_Light).GetLightDirectional)).step (hs _)
    split
    · exact (h1.step ((keeps_Pass_SSDO _ _).step (ho _))).step (keeps_emit _ _)
    · exact h1.step (keeps_emit _ _)

theorem keeps_Pass_Light (r : Renderer) (texShadows texSSDO texOut : TexSlot) :
    Keeps r (r.Pass_Light texShadows texSSDO texOut) := by
  unfold Pass_Light
  simp only
  split
  · exact keeps_enter r _
  · exact ((((keeps_enter r _).step (keeps_emit _ _)).step (keeps_emit _ _)).step
      ((keeps_touch _ _).step (keeps_touch _ _))).step (keeps_emits _ _)

theorem keeps_Transparent_actorStep (r : Renderer) (a : Actor) :
    Keeps r (Pass_Transparent.actorStep r a) := by
  unfold Pass_Transparent.actorStep
  repeat' split
  all_goals first
    | exact Keeps.same _
    | exact ⟨List.prefix_append _ _, rfl, rfl⟩

theorem keeps_Pass_Transparent (r : Renderer) (texOut : TexSlot) :
    Keeps r (r.Pass_Transparent texOut) := by
  unfold Pass_Transparent
  simp only
  have h0 : Keeps r ((r.enter .Pass_Transparent).touch .Renderable_Light) :=
    (keeps_enter r _).step (keeps_touch _ _)
  split
  · exact h0
  · split
    · exact h0.step (keeps_touch _ _)
    · exact ((((h0.step (keeps_touch _ .Renderable_ObjectTransparent)).step
        (keeps_touch _ .Renderable_Skybox)).step (keeps_emits _ _)).step
        (keeps_foldl _ keeps_Transparent_actorStep _ _)).step (keeps_emits _ _)

theorem keeps_Pass_Bloom (r : Renderer) (texIn texOut : TexSlot) :
    Keeps r (r.Pass_Bloom texIn texOut) := by
  unfold Pass_Bloom
  simp only
  exact ((((((keeps_enter r .Pass_Bloom).step (keeps_emits _ _)).step
    (keeps_SetGlobalBuffer _ _ _ _)).step (keeps_emits _ _)).step
    (keeps_Pass_BlurGaussian _ .Quarter_Blur1 .Quarter_Blur2 2 ⟨by decide, by decide⟩
      ⟨by decide, by decide⟩)).step
    (keeps_SetGlobalBuffer _ _ _ _)).step (keeps_emits _ _)

theorem keeps_singleDrawStage (r : Renderer) (name : String) (sampler : SamplerRef)
    (shader : ShaderRef) (texIn texOut : TexSlot) :
    Keeps r (r.singleDrawStage name sampler shader texIn texOut) :=
  keeps_emits _ _

theorem keeps_Pass_Correction (r : Renderer) (texIn texOut : TexSlot) :
    Keeps r (r.Pass_Correction texIn texOut) :=
  (keeps_enter r _).step (keeps_singleDrawStage _ _ _ _ _ _)

theorem keeps_Pass_FXAA (r : Renderer) (texIn texOut : TexSlot)
    (ha : texIn ≠ .Full_TAA_Current ∧ texIn ≠ .Full_TAA_History)
    (hb : texOut ≠ .Full_TAA_Current ∧ texOut ≠ .Full_TAA_History) :
    Keeps r (r.Pass_FXAA texIn texOut) := by
  unfold Pass_FXAA
  exact (((((keeps_enter r _).step (keeps_emits _ _)).step
    (keeps_SetGlobalBuffer _ _ _ _)).step (keeps_emits _ _)).step
    (keeps_swapTex _ _ _ ha hb)).step (keeps_emit _ _)

theorem keeps_Pass_Sharpening (r : Renderer) (texIn texOut : TexSlot) :
    Keeps r (r.Pass_Sharpening texIn texOut) :=
  (keeps_enter r _).step (keeps_singleDrawStage _ _ _ _ _ _)

theorem keeps_Pass_ChromaticAberration (r : Renderer) (texIn texOut : TexSlot) :
    Keeps r (r.Pass_ChromaticAberration texIn texOut) :=
  (keeps_enter r _).step (keeps_singleDrawStage _ _ _ _ _ _)

theorem keeps_Pass_GBufferVisualize (r : Renderer) (texOut : TexSlot) :
    Keeps r (r.Pass_GBufferVisualize texOut) := by
  unfold Pass_GBufferVisualize
  simp only
  split
  · exact (((keeps_enter r _).step (keeps_emit _ _)).step
      (keeps_SetGlobalBuffer _ _ _ _)).step (keeps_emits _ _)
  · exact keeps_enter r _

theorem keeps_Lines_boxStep (r : Renderer) (a : Actor) : Keeps r (Pass_Lines.boxStep r a) := by
  unfold Pass_Lines.boxStep
  split
  · exact keeps_AddBoundigBox _ _ _
  · exact Keeps.same _

theorem keeps_Lines_pickingRay (r : Renderer) : Keeps r (Pass_Lines.pickingRay r) := by
  unfold Pass_Lines.pickingRay
  split
  · exact keeps_AddLine3 _ _ _ _
  · exact Keeps.same _

theorem keeps_Lines_boundingBoxes (r : Renderer) : Keeps r (Pass_Lines.boundingBoxes r) := by
  unfold Pass_Lines.boundingBoxes
  simp only
  exact (((keeps_touch r .Renderable_ObjectOpaque).step
    (keeps_foldl _ keeps_Lines_boxStep _ _)).step (keeps_touch _ _)).step
    (keeps_foldl _ keeps_Lines_boxStep _ _)

theorem keeps_Lines_flush (r : Renderer) : Keeps r (Pass_Lines.flush r) := by
  unfold Pass_Lines.flush
  simp only
  split
  · split
    · exact ⟨(List.prefix_append _ _).trans (List.prefix_append _ _), rfl, rfl⟩
    · exact ⟨List.prefix_append _ _, rfl, rfl⟩
  · exact Keeps.same _

theorem keeps_Lines_grid (r : Renderer) : Keeps r (Pass_Lines.grid r) :=
  keeps_emits _ _

theorem keeps_Pass_Lines (r : Renderer) (texOut : TexSlot) :
    Keeps r (r.Pass_Lines texOut) := by
  unfold Pass_Lines
  simp only
  split
  · exact keeps_enter r _
  · exact ((((((keeps_enter r _).step (keeps_emits _ _)).step
      (keeps_ite _ (keeps_Lines_pickingRay _))).step
      (keeps_ite _ (keeps_Lines_boundingBoxes _))).step
      (keeps_Lines_flush _)).step
      (keeps_ite _ (keeps_Lines_grid _))).step (keeps_emits _ _)

theorem keeps_Gizmos_lightStep (texOut : TexSlot) (r : Renderer) (a : Actor) :
    Keeps r (Pass_Gizmos.lightStep texOut r a) := by
  unfold Pass_Gizmos.lightStep
  repeat' split
  all_goals first
    | exact Keeps.same _
    | exact ((keeps_emit _ _).step (keeps_SetGlobalBuffer _ _ _ _)).step (keeps_emits _ _)

theorem keeps_Pass_Gizmos (r : Renderer) (texOut : TexSlot) :
    Keeps r (r.Pass_Gizmos texOut) := by
  unfold Pass_Gizmos
  simp only
  split
  · exact keeps_enter r _
  · have h0 := ((keeps_enter r .Pass_Gizmos).step
      (keeps_emit _ (.EventBegin "Pass_Gizmos"))).step
      (keeps_touch _ .Renderable_Light)
    split
    · exact (((h0.step (keeps_emits _ _)).step
        (keeps_foldl _ (keeps_Gizmos_lightStep texOut) _ _)).step
        (keeps_emit _ _)).step (keeps_emit _ _)
    · exact h0.step (keeps_emit _ _)

theorem keeps_Pass_PerformanceMetrics (r : Renderer) (texOut : TexSlot) :
    Keeps r (r.Pass_PerformanceMetrics texOut) := by
  unfold Pass_PerformanceMetrics
  simp only
  split
  · exact keeps_enter r _
  · exact (keeps_enter r _).step (keeps_emits _ _)

theorem log_prefix_Pass_TAA (r : Renderer) (texIn texOut : TexSlot) :
    r.log <+: (r.Pass_TAA texIn texOut).log := by
  unfold Pass_TAA
  simp

end Renderer

/-! ## Temporal resolve -/

namespace Renderer

theorem log_eq_append_issued {r r' : Renderer} (h : r.log <+: r'.log) :
    r'.log = r.log ++ r.issued r' := by
  obtain ⟨t, ht⟩ := h
  unfold issued
  rw [← ht, List.drop_left]

theorem issued_append {r₁ r₂ r₃ : Renderer} (h₁ : r₁.log <+: r₂.log) (h₂ : r₂.log <+: r₃.log) :
    r₁.issued r₃ = r₁.issued r₂ ++ r₂.issued r₃ := by
  apply issued_of_log
  rw [log_eq_append_issued h₂, log_eq_append_issued h₁, List.append_assoc]

theorem field_TAA_Current (r : Renderer) :
    r.m_renderTexFull_TAA_Current = r.tex .Full_TAA_Current := rfl

theorem field_TAA_History (r : Renderer) :
    r.m_renderTexFull_TAA_History = r.tex .Full_TAA_History := rfl

theorem field_FinalFrame (r : Renderer) :
    r.m_renderTexFull_FinalFrame = r.tex .Full_FinalFrame := rfl

theorem field_Quarter_Blur1 (r : Renderer) :
    r.m_renderTexQuarter_Blur1 = r.tex .Quarter_Blur1 := rfl

theorem field_Quarter_Blur2 (r : Renderer) :
    r.m_renderTexQuarter_Blur2 = r.tex .Quarter_Blur2 := rfl

theorem Pass_TAA_log (r : Renderer) (texIn texOut : TexSlot) :
    (r.Pass_TAA texIn texOut).log = r.log ++
      [.EventBegin "Pass_TAA",
       .UpdateGlobalBuffer (some ((r.tex .Full_TAA_Current).width,
         (r.tex .Full_TAA_Current).height)) 0 ⟨0, 0⟩,
       .SetConstantBuffer .bufferGlobal 0,
       .SetRenderTarget (.renderTexture (r.tex .Full_TAA_Current)) .none false,
       .SetViewport (.ofRenderTexture (r.tex .Full_TAA_Current)),
       .SetShader .shaderTAA,
       .SetSampler .samplerBilinearClampAlways,
       .SetTexture (.renderTexture (r.tex .Full_TAA_History)),
       .SetTexture (.renderTexture (r.tex texIn)),
       .Bind,
       .DrawIndexed r.m_quadIndexCount 0 0,
       .UpdateGlobalBuffer (some ((r.tex texOut).width, (r.tex texOut).height)) 0 ⟨0, 0⟩,
       .SetConstantBuffer .bufferGlobal 0,
       .SetRenderTarget (.renderTexture (r.tex texOut)) .none false,
       .SetViewport (.ofRenderTexture (r.tex texOut)),
       .SetPixelShader .shaderTexture,
       .SetSampler .samplerPointClampGreater,
       .SetTexture (.renderTexture (r.tex .Full_TAA_Current)),
       .Bind,
       .DrawIndexed r.m_quadIndexCount 0 0,
       .EventEnd] := by
  unfold Pass_TAA
  simp [field_TAA_Current, field_TAA_History]

theorem Pass_TAA_tex (r : Renderer) (texIn texOut s : TexSlot) :
    (r.Pass_TAA texIn texOut).tex s = (r.swapTex .Full_TAA_Current .Full_TAA_History).tex s := by
  unfold Pass_TAA
  simp [tex_swapTex, field_TAA_Current, field_TAA_History]

theorem keeps_stage (q : Renderer) (f : RenderMode)
    (pass : Renderer → TexSlot → TexSlot → Renderer)
    (hpass : ∀ q', Keeps q' (pass q' .Full_Light .Full_FinalFrame)) :
    Keeps q (Pass_PostLight.stage q f .Full_Light .Full_FinalFrame pass) := by
  unfold Pass_PostLight.stage
  split
  · exact (keeps_swapTex q .Full_FinalFrame .Full_Light ⟨by decide, by decide⟩
      ⟨by decide, by decide⟩).step (hpass _)
  · exact Keeps.same _

/-- The post-process chain up to its first stage keeps the log and the two handles of the
temporal resolve, and so does everything after the block of the temporal resolve. -/
theorem Pass_PostLight_around_TAA (r : Renderer) :
    ∃ p : Renderer, Keeps r p ∧ p.m_flags = r.m_flags ∧
      Keeps (Pass_PostLight.stage p .Render_TAA .Full_Light .Full_FinalFrame Pass_TAA)
        (r.Pass_PostLight .Full_Light .Full_FinalFrame) := by
  refine ⟨(((r.enter .Pass_PostLight).emits [.EventBegin "Pass_PostLight",
      .SetPrimitiveTopology .PrimitiveTopology_TriangleList,
      .SetCullMode .Cull_Back,
      .SetVertexBuffer .quad,
      .SetIndexBuffer .quad,
      .SetShader .shaderBloom_Bright]).SetGlobalBuffer
        (some ((r.tex .Full_Light).width, (r.tex .Full_Light).height)) 0 ⟨0, 0⟩).swapTex
      .Full_FinalFrame .Full_Light, ?_, ?_, ?_⟩
  · exact (((keeps_enter r _).step (keeps_emits _ _)).step
      (keeps_SetGlobalBuffer _ _ _ _)).step
      (keeps_swapTex _ .Full_FinalFrame .Full_Light ⟨by decide, by decide⟩
        ⟨by decide, by decide⟩)
  · simp
  · have h1 := keeps_stage (Pass_PostLight.stage
      ((((r.enter .Pass_PostLight).emits [.EventBegin "Pass_PostLight",
        .SetPrimitiveTopology .PrimitiveTopology_TriangleList,
        .SetCullMode .Cull_Back,
        .SetVertexBuffer .quad,
        .SetIndexBuffer .quad,
        .SetShader .shaderBloom_Bright]).SetGlobalBuffer
          (some ((r.tex .Full_Light).width, (r.tex .Full_Light).height)) 0 ⟨0, 0⟩).swapTex
        .Full_FinalFrame .Full_Light) .Render_TAA .Full_Light .Full_FinalFrame Pass_TAA)
      .Render_Bloom Pass_Bloom (fun q => keeps_Pass_Bloom q _ _)
    have h2 := h1.step (keeps_stage _ .Render_Correction Pass_Correction
      (fun q => keeps_Pass_Correction q _ _))
    have h3 := h2.step (keeps_stage _ .Render_FXAA Pass_FXAA
      (fun q => keeps_Pass_FXAA q _ _ ⟨by decide, by decide⟩ ⟨by decide, by decide⟩))
    have h4 := h3.step (keeps_stage _ .Render_Sharpening Pass_Sharpening
      (fun q => keeps_Pass_Sharpening q _ _))
    have h5 := h4.step (keeps_stage _ .Render_ChromaticAberration Pass_ChromaticAberration
      (fun q => keeps_Pass_ChromaticAberration q _ _))
    exact h5.step (keeps_emit _ .EventEnd)

/-- A frame that reaches the pass sequence, cut around the block of the temporal resolve. -/
theorem Render_around_TAA (r : Renderer) (device : RHI_Device) (camera : Camera)
    (hd : r.m_rhiDevice = some device) (hi : device.initialized = true)
    (hc : r.m_camera = some camera) (he : r.m_actors.empty = false) :
    ∃ p : Renderer, Keeps r p ∧ p.m_flags = r.m_flags ∧
      Keeps (Pass_PostLight.stage p .Render_TAA .Full_Light .Full_FinalFrame Pass_TAA)
        r.Render := by
  have hR : r.Render =
      { Render.passes (Render.beginFrame r) with m_isRendering := false } := by
    unfold Render
    simp only [hd, hi, hc, he, Bool.not_true, Bool.false_eq_true, if_false]
  have k0 : Keeps r (Render.beginFrame r) := Keeps.of_log_eq rfl rfl rfl
  have f0 : Frame r (Render.beginFrame r) [] := Frame.of_eq rfl rfl rfl
  have k1 := k0.step (keeps_touch _ .Renderable_Light)
  have f1 := f0.trans_nil (frame_touch _ .Renderable_Light)
  have k2 := k1.step (keeps_Pass_DepthDirectionalLight _
    (Render.beginFrame r).GetLightDirectional)
  have f2 := f1.trans_nil (frame_Pass_DepthDirectionalLight _
    (Render.beginFrame r).GetLightDirectional)
  have k3 := k2.step (keeps_Pass_GBuffer _)
  have f3 := f2.trans (frame_Pass_GBuffer _)
  have k4 := k3.step (keeps_Pass_PreLight _)
  have f4 := f3.trans (frame_Pass_PreLight _ .Half_Spare .Half_Shadows .Half_SSDO)
  have k5 := k4.step (keeps_Pass_Light _ .Half_Shadows .Half_SSDO .Full_Light)
  have f5 := f4.trans (frame_Pass_Light _ .Half_Shadows .Half_SSDO .Full_Light)
  have k6 := k5.step (keeps_Pass_Transparent _ .Full_Light)
  have f6 := f5.trans (frame_Pass_Transparent _ .Full_Light)
  obtain ⟨p, hp1, hp2, hp3⟩ := Pass_PostLight_around_TAA
    ((((((Render.beginFrame r).touch .Renderable_Light).Pass_DepthDirectionalLight
      (Render.beginFrame r).GetLightDirectional).Pass_GBuffer.Pass_PreLight .Half_Spare
      .Half_Shadows .Half_SSDO).Pass_Light .Half_Shadows .Half_SSDO .Full_Light).Pass_Transparent
      .Full_Light)
  refine ⟨p, k6.step hp1, hp2.trans f6.2.1, ?_⟩
  rw [hR]
  have k7 := hp3.step (keeps_Pass_GBufferVisualize _ .Full_FinalFrame)
  have k8 := k7.step (keeps_Pass_Lines _ .Full_FinalFrame)
  have k9 := k8.step (keeps_Pass_Gizmos _ .Full_FinalFrame)
  have k10 := k9.step (keeps_Pass_PerformanceMetrics _ .Full_FinalFrame)
  exact k10.step (Keeps.of_log_eq rfl rfl rfl)

end Renderer

/-- C20: in a frame that reaches the pass sequence with TAA enabled, the log of the frame
contains the commands of one `Pass_TAA` whose resolve draw renders into the target the current
handle designated when the frame began and reads the target the history handle designated;
after the frame the history handle designates that resolved target and the current handle the
former history target.  In a frame with TAA disabled both handles designate what they
designated before. -/
theorem Render_history_swap (r : Renderer) (device : RHI_Device) (camera : Camera)
    (hd : r.m_rhiDevice = some device) (hi : device.initialized = true)
    (hc : r.m_camera = some camera) (he : r.m_actors.empty = false) :
    (r.Flags_IsSet .Render_TAA = true →
      r.Render.tex .Full_TAA_History = r.tex .Full_TAA_Current ∧
      r.Render.tex .Full_TAA_Current = r.tex .Full_TAA_History ∧
      ∃ (q : Renderer) (before after : List Cmd),
        r.issued r.Render
          = before ++ q.issued (q.Pass_TAA .Full_Light .Full_FinalFrame) ++ after ∧
        (draws (q.issued (q.Pass_TAA .Full_Light .Full_FinalFrame))).head? =
          some ⟨some (.renderTexture (r.tex .Full_TAA_Current)),
            [.renderTexture (r.tex .Full_TAA_History), .renderTexture (q.tex .Full_Light)]⟩) ∧
    (r.Flags_IsSet .Render_TAA = false →
      r.Render.tex .Full_TAA_Current = r.tex .Full_TAA_Current ∧
      r.Render.tex .Full_TAA_History = r.tex .Full_TAA_History) := by
  obtain ⟨p, hp1, hp2, hp3⟩ := Renderer.Render_around_TAA r device camera hd hi hc he
  have hflag : p.Flags_IsSet .Render_TAA = r.Flags_IsSet .Render_TAA := by
    unfold Renderer.Flags_IsSet
    rw [hp2]
  unfold Renderer.Pass_PostLight.stage at hp3
  rw [hflag] at hp3
  constructor
  · intro hT
    rw [if_pos hT] at hp3
    have hq : Renderer.Keeps r (p.swapTex .Full_FinalFrame .Full_Light) :=
      hp1.step (Renderer.keeps_swapTex p .Full_FinalFrame .Full_Light ⟨by decide, by decide⟩
        ⟨by decide, by decide⟩)
    have hpre := Renderer.log_prefix_Pass_TAA (p.swapTex .Full_FinalFrame .Full_Light)
      .Full_Light .Full_FinalFrame
    refine ⟨?_, ?_, p.swapTex .Full_FinalFrame .Full_Light, r.issued
      (p.swapTex .Full_FinalFrame .Full_Light),
      ((p.swapTex .Full_FinalFrame .Full_Light).Pass_TAA .Full_Light .Full_FinalFrame).issued
        r.Render, ?_, ?_⟩
    · rw [hp3.2.2, Renderer.Pass_TAA_tex, Renderer.tex_swapTex_right, hq.2.1]
    · rw [hp3.2.1, Renderer.Pass_TAA_tex, Renderer.tex_swapTex_left, hq.2.2]
    · rw [Renderer.issued_append (hq.1.trans hpre) hp3.1, Renderer.issued_append hq.1 hpre]
    · rw [Renderer.issued_of_log (Renderer.Pass_TAA_log _ .Full_Light .Full_FinalFrame),
        hq.2.1, hq.2.2]
      simp [draws, draws.go]
  · intro hT
    have hT' : ¬(r.Flags_IsSet .Render_TAA = true) := by simp [hT]
    rw [if_neg hT'] at hp3
    exact ⟨(hp1.step hp3).2.1, (hp1.step hp3).2.2⟩

theorem Render_history_swap_witness :
    (sampleTemporal.Render.tex .Full_TAA_History = sampleTemporal.tex .Full_TAA_Current ∧
      sampleTemporal.Render.tex .Full_TAA_Current = sampleTemporal.tex .Full_TAA_History) ∧
    (sampleFrame.Render.tex .Full_TAA_Current = sampleFrame.tex .Full_TAA_Current ∧
      sampleFrame.Render.tex .Full_TAA_History = sampleFrame.tex .Full_TAA_History) :=
  ⟨⟨((Render_history_swap sampleTemporal ⟨true⟩ sampleCamera rfl rfl rfl rfl).1
        (by decide)).1,
      ((Render_history_swap sampleTemporal ⟨true⟩ sampleCamera rfl rfl rfl rfl).1
        (by decide)).2.1⟩,
    (Render_history_swap sampleFrame ⟨true⟩ sampleCamera rfl rfl rfl rfl).2 (by decide)⟩

/-! ## Post-process chain -/

theorem PostChain.append {xs ys : List PassName} {a b c : RHI_RenderTexture}
    {c₁ c₂ : List Cmd} (h₁ : PostChain xs a c₁ b) (h₂ : PostChain ys b c₂ c) :
    PostChain (xs ++ ys) a (c₁ ++ c₂) c := by
  induction xs generalizing a c₁ with
  | nil =>
    obtain ⟨hc, hb⟩ := h₁
    subst hc
    subst hb
    simpa using h₂
  | cons s xs ih =>
    obtain ⟨seg, result, tail, hc, hrun, hrest⟩ := h₁
    exact ⟨seg, result, tail ++ c₂, by rw [hc, List.append_assoc], hrun, ih hrest⟩

theorem PostChain.single {s : PassName} {a b : RHI_RenderTexture} {seg : List Cmd}
    (h : StageRun s a b seg) : PostChain [s] a seg b :=
  ⟨seg, b, [], by simp, h, rfl, rfl⟩

namespace Renderer

theorem stageRun_Pass_TAA (q : Renderer) :
    StageRun .Pass_TAA (q.tex .Full_FinalFrame)
      (((q.swapTex .Full_FinalFrame .Full_Light).Pass_TAA .Full_Light .Full_FinalFrame).tex
        .Full_FinalFrame)
      (q.issued ((q.swapTex .Full_FinalFrame .Full_Light).Pass_TAA .Full_Light
        .Full_FinalFrame)) := by
  rw [issued_of_log ((Pass_TAA_log (q.swapTex .Full_FinalFrame .Full_Light) .Full_Light
    .Full_FinalFrame).trans (by rw [swapTex_log]))]
  simp [StageRun, stageMarker, draws, draws.go, Pass_TAA_tex, tex_swapTex]

theorem stageRun_singleDrawStage (q : Renderer) (n : PassName) (sampler : SamplerRef)
    (shader : ShaderRef) :
    StageRun n (q.tex .Full_FinalFrame)
      ((((q.swapTex .Full_FinalFrame .Full_Light).enter n).singleDrawStage (stageMarker n)
        sampler shader .Full_Light .Full_FinalFrame).tex .Full_FinalFrame)
      (q.issued (((q.swapTex .Full_FinalFrame .Full_Light).enter n).singleDrawStage
        (stageMarker n) sampler shader .Full_Light .Full_FinalFrame)) := by
  unfold singleDrawStage
  rw [issued_of_log ((emits_log _ _).trans (by rw [enter_log, swapTex_log]))]
  simp [StageRun, draws, draws.go, tex_swapTex]

theorem stageRun_Pass_FXAA (q : Renderer) :
    StageRun .Pass_FXAA (q.tex .Full_FinalFrame)
      (((q.swapTex .Full_FinalFrame .Full_Light).Pass_FXAA .Full_Light .Full_FinalFrame).tex
        .Full_FinalFrame)
      (q.issued ((q.swapTex .Full_FinalFrame .Full_Light).Pass_FXAA .Full_Light
        .Full_FinalFrame)) := by
  unfold Pass_FXAA issued
  simp [StageRun, stageMarker, draws, draws.go, tex_swapTex]

theorem stageRun_Pass_Bloom (q : Renderer) :
    StageRun .Pass_Bloom (q.tex .Full_FinalFrame)
      (((q.swapTex .Full_FinalFrame .Full_Light).Pass_Bloom .Full_Light .Full_FinalFrame).tex
        .Full_FinalFrame)
      (q.issued ((q.swapTex .Full_FinalFrame .Full_Light).Pass_Bloom .Full_Light
        .Full_FinalFrame)) := by
  unfold Pass_Bloom Pass_BlurGaussian issued
  by_cases h : blurMismatch (q.tex .Quarter_Blur1) (q.tex .Quarter_Blur2) = true
  · simp [StageRun, stageMarker, draws, draws.go, tex_swapTex, h, field_Quarter_Blur1,
      field_Quarter_Blur2]
  · simp [StageRun, stageMarker, draws, draws.go, tex_swapTex, h, field_Quarter_Blur1,
      field_Quarter_Blur2]

/-- One flag-gated block of the post-process chain extends a chain of stage runs by the run
of its stage when the flag is set, and leaves it as it is otherwise. -/
theorem postChain_stage {r₀ q : Renderer} {stages : List PassName} {lit : RHI_RenderTexture}
    (hpre : r₀.log <+: q.log)
    (hch : PostChain stages lit (r₀.issued q) (q.tex .Full_FinalFrame))
    (f : RenderMode) (n : PassName) (pass : Renderer → TexSlot → TexSlot → Renderer)
    (hlog : ∀ q' : Renderer, q'.log <+: (pass q' .Full_Light .Full_FinalFrame).log)
    (hflags : ∀ q' : Renderer, (pass q' .Full_Light .Full_FinalFrame).m_flags = q'.m_flags)
    (hrun : ∀ q' : Renderer, StageRun n (q'.tex .Full_FinalFrame)
      ((pass (q'.swapTex .Full_FinalFrame .Full_Light) .Full_Light .Full_FinalFrame).tex
        .Full_FinalFrame)
      (q'.issued (pass (q'.swapTex .Full_FinalFrame .Full_Light) .Full_Light
        .Full_FinalFrame))) :
    r₀.log <+: (Pass_PostLight.stage q f .Full_Light .Full_FinalFrame pass).log ∧
    (Pass_PostLight.stage q f .Full_Light .Full_FinalFrame pass).m_flags = q.m_flags ∧
    PostChain (stages ++ if q.Flags_IsSet f then [n] else []) lit
      (r₀.issued (Pass_PostLight.stage q f .Full_Light .Full_FinalFrame pass))
      ((Pass_PostLight.stage q f .Full_Light .Full_FinalFrame pass).tex .Full_FinalFrame) := by
  unfold Pass_PostLight.stage
  split
  · have hq : q.log <+: (pass (q.swapTex .Full_FinalFrame .Full_Light) .Full_Light
        .Full_FinalFrame).log := by
      have := hlog (q.swapTex .Full_FinalFrame .Full_Light)
      rwa [swapTex_log] at this
    refine ⟨hpre.trans hq, ?_, ?_⟩
    · rw [hflags, swapTex_flags]
    · rw [issued_append hpre hq]
      exact hch.append (PostChain.single (hrun q))
  · refine ⟨hpre, rfl, ?_⟩
    simpa using hch

/-- The state of `Pass_PostLight` when its first flag is tested: only set-up commands were
issued, none of them a draw, and the final-frame handle designates the lit image. -/
theorem Pass_PostLight_setup (r : Renderer) :
    ∃ p : Renderer, r.log <+: p.log ∧ draws (r.issued p) = [] ∧ p.m_flags = r.m_flags ∧
      p.tex .Full_FinalFrame = r.tex .Full_Light ∧
      r.Pass_PostLight .Full_Light .Full_FinalFrame =
        (Pass_PostLight.stage (Pass_PostLight.stage (Pass_PostLight.stage
          (Pass_PostLight.stage (Pass_PostLight.stage (Pass_PostLight.stage p
            .Render_TAA .Full_Light .Full_FinalFrame Pass_TAA)
            .Render_Bloom .Full_Light .Full_FinalFrame Pass_Bloom)
            .Render_Correction .Full_Light .Full_FinalFrame Pass_Correction)
            .Render_FXAA .Full_Light .Full_FinalFrame Pass_FXAA)
            .Render_Sharpening .Full_Light .Full_FinalFrame Pass_Sharpening)
            .Render_ChromaticAberration .Full_Light .Full_FinalFrame
            Pass_ChromaticAberration).emit .EventEnd := by
  refine ⟨(((r.enter .Pass_PostLight).emits [.EventBegin "Pass_PostLight",
      .SetPrimitiveTopology .PrimitiveTopology_TriangleList,
      .SetCullMode .Cull_Back,
      .SetVertexBuffer .quad,
      .SetIndexBuffer .quad,
      .SetShader .shaderBloom_Bright]).SetGlobalBuffer
        (some ((r.tex .Full_Light).width, (r.tex .Full_Light).height)) 0 ⟨0, 0⟩).swapTex
      .Full_FinalFrame .Full_Light, ?_, ?_, ?_, ?_, ?_⟩
  · simp
  · unfold issued
    simp [draws, draws.go]
  · simp
  · simp
  · rfl

theorem enabledStages_eq (r : Renderer) :
    enabledStages r =
      (if r.Flags_IsSet .Render_TAA then [.Pass_TAA] else [])
        ++ (if r.Flags_IsSet .Render_Bloom then [.Pass_Bloom] else [])
        ++ (if r.Flags_IsSet .Render_Correction then [.Pass_Correction] else [])
        ++ (if r.Flags_IsSet .Render_FXAA then [.Pass_FXAA] else [])
        ++ (if r.Flags_IsSet .Render_Sharpening then [.Pass_Sharpening] else [])
        ++ (if r.Flags_IsSet .Render_ChromaticAberration then [.Pass_ChromaticAberration]
            else []) := by
  unfold enabledStages postProcessStages
  simp only [List.filter_cons, List.filter_nil]
  generalize r.Flags_IsSet .Render_TAA = b₁
  generalize r.Flags_IsSet .Render_Bloom = b₂
  generalize r.Flags_IsSet .Render_Correction = b₃
  generalize r.Flags_IsSet .Render_FXAA = b₄
  generalize r.Flags_IsSet .Render_Sharpening = b₅
  generalize r.Flags_IsSet .Render_ChromaticAberration = b₆
  cases b₁ <;> cases b₂ <;> cases b₃ <;> cases b₄ <;> cases b₅ <;> cases b₆ <;> rfl

end Renderer

/-- C11: for every setting of the six post-process flags, the pass functions `Pass_PostLight`
enters (the Gaussian blur nested in the bloom stage apart) are the enabled stages in the order
TAA, bloom, correction, FXAA, sharpening, chromatic aberration; the commands it issues are a
set-up without any draw, then one run per enabled stage in that order, then the closing event;
the first run reads the lit image, every later run reads the target the last draw of the run
before it rendered into, and on return the final-frame handle designates the target of the last
draw of the last run, or the lit image when no stage is enabled. -/
theorem Pass_PostLight_chain (r : Renderer) :
    (((r.Pass_PostLight .Full_Light .Full_FinalFrame).calls.drop r.calls.length).filter
        (fun p => decide (p ≠ .Pass_BlurGaussian))
      = .Pass_PostLight :: enabledStages r) ∧
    ∃ setup cmds : List Cmd,
      r.issued (r.Pass_PostLight .Full_Light .Full_FinalFrame)
        = setup ++ cmds ++ [.EventEnd] ∧
      draws setup = [] ∧
      PostChain (enabledStages r) (r.tex .Full_Light) cmds
        ((r.Pass_PostLight .Full_Light .Full_FinalFrame).tex .Full_FinalFrame) := by
  constructor
  · rw [(Renderer.frame_Pass_PostLight r .Full_Light .Full_FinalFrame).1, List.drop_left,
      Renderer.enabledStages_eq]
    generalize r.Flags_IsSet .Render_TAA = b₁
    generalize r.Flags_IsSet .Render_Bloom = b₂
    generalize r.Flags_IsSet .Render_Correction = b₃
    generalize r.Flags_IsSet .Render_FXAA = b₄
    generalize r.Flags_IsSet .Render_Sharpening = b₅
    generalize r.Flags_IsSet .Render_ChromaticAberration = b₆
    cases b₁ <;> cases b₂ <;> cases b₃ <;> cases b₄ <;> cases b₅ <;> cases b₆ <;> rfl
  · obtain ⟨p, hp, hsetup, hpf, hpt, hshape⟩ := Renderer.Pass_PostLight_setup r
    have hflag : ∀ {q : Renderer} (f : RenderMode), q.m_flags = r.m_flags →
        q.Flags_IsSet f = r.Flags_IsSet f := by
      intro q f hq
      unfold Renderer.Flags_IsSet
      rw [hq]
    have h0 : PostChain [] (r.tex .Full_Light) (p.issued p) (p.tex .Full_FinalFrame) :=
      ⟨Renderer.issued_self_of_log rfl, hpt⟩
    obtain ⟨l1, f1, c1⟩ := Renderer.postChain_stage (List.prefix_refl _) h0 .Render_TAA
      .Pass_TAA Renderer.Pass_TAA (fun q => Renderer.log_prefix_Pass_TAA q _ _)
      (fun q => (Renderer.frame_Pass_TAA q _ _).2.1) Renderer.stageRun_Pass_TAA
    obtain ⟨l2, f2, c2⟩ := Renderer.postChain_stage l1 c1 .Render_Bloom
      .Pass_Bloom Renderer.Pass_Bloom (fun q => (Renderer.keeps_Pass_Bloom q _ _).1)
      (fun q => (Renderer.frame_Pass_Bloom q _ _).2.1) Renderer.stageRun_Pass_Bloom
    obtain ⟨l3, f3, c3⟩ := Renderer.postChain_stage l2 c2 .Render_Correction
      .Pass_Correction Renderer.Pass_Correction
      (fun q => (Renderer.keeps_Pass_Correction q _ _).1)
      (fun q => (Renderer.frame_Pass_Correction q _ _).2.1)
      (fun q => Renderer.stageRun_singleDrawStage q .Pass_Correction _ _)
    obtain ⟨l4, f4, c4⟩ := Renderer.postChain_stage l3 c3 .Render_FXAA
      .Pass_FXAA Renderer.Pass_FXAA
      (fun q => (Renderer.keeps_Pass_FXAA q _ _ ⟨by decide, by decide⟩
        ⟨by decide, by decide⟩).1)
      (fun q => (Renderer.frame_Pass_FXAA q _ _).2.1) Renderer.stageRun_Pass_FXAA
    obtain ⟨l5, f5, c5⟩ := Renderer.postChain_stage l4 c4 .Render_Sharpening
      .Pass_Sharpening Renderer.Pass_Sharpening
      (fun q => (Renderer.keeps_Pass_Sharpening q _ _).1)
      (fun q => (Renderer.frame_Pass_Sharpening q _ _).2.1)
      (fun q => Renderer.stageRun_singleDrawStage q .Pass_Sharpening _ _)
    obtain ⟨l6, f6, c6⟩ := Renderer.postChain_stage l5 c5 .Render_ChromaticAberration
      .Pass_ChromaticAberration Renderer.Pass_ChromaticAberration
      (fun q => (Renderer.keeps_Pass_ChromaticAberration q _ _).1)
      (fun q => (Renderer.frame_Pass_ChromaticAberration q _ _).2.1)
      (fun q => Renderer.stageRun_singleDrawStage q .Pass_ChromaticAberration _ _)
    rw [hflag _ (f5.trans (f4.trans (f3.trans (f2.trans (f1.trans hpf))))),
      hflag _ (f4.trans (f3.trans (f2.trans (f1.trans hpf)))),
      hflag _ (f3.trans (f2.trans (f1.trans hpf))),
      hflag _ (f2.trans (f1.trans hpf)), hflag _ (f1.trans hpf), hflag _ hpf,
      List.nil_append, ← Renderer.enabledStages_eq] at c6
    rw [hshape]
    refine ⟨r.issued p, _, ?_, hsetup, c6⟩
    have hE : ∀ q : Renderer, q.issued (q.emit .EventEnd) = [.EventEnd] :=
      fun q => Renderer.issued_of_log rfl
    rw [Renderer.issued_append (hp.trans l6) (List.prefix_append _ _),
      Renderer.issued_append hp l6, hE]

/-! ## Debug lines -/

theorem AddBoundigBox_vertices (r : Renderer) (box : BoundingBox) (color : Vector4) :
    (r.AddBoundigBox box color).m_lineVertices = r.m_lineVertices ++
      [⟨box.corner (false, true, true), color⟩, ⟨box.corner (true, true, true), color⟩,
       ⟨box.corner (true, true, true), color⟩, ⟨box.corner (true, true, false), color⟩,
       ⟨box.corner (true, true, false), color⟩, ⟨box.corner (false, true, false), color⟩,
       ⟨box.corner (false, true, false), color⟩, ⟨box.corner (false, true, true), color⟩,
       ⟨box.corner (false, false, true), color⟩, ⟨box.corner (true, false, true), color⟩,
       ⟨box.corner (true, false, true), color⟩, ⟨box.corner (true, false, false), color⟩,
       ⟨box.corner (true, false, false), color⟩, ⟨box.corner (false, false, false), color⟩,
       ⟨box.corner (false, false, false), color⟩, ⟨box.corner (false, false, true), color⟩,
       ⟨box.corner (false, true, true), color⟩, ⟨box.corner (false, false, true), color⟩,
       ⟨box.corner (true, true, true), color⟩, ⟨box.corner (true, false, true), color⟩,
       ⟨box.corner (true, true, false), color⟩, ⟨box.corner (true, false, false), color⟩,
       ⟨box.corner (false, true, false), color⟩, ⟨box.corner (false, false, false), color⟩] := by
  simp [Renderer.AddBoundigBox, Renderer.AddLine3, Renderer.AddLine, BoundingBox.corner]

/-- C25: `AddBoundigBox` leaves the queued vertices in place and appends 24 vertices, all of the
given colour, that pair up into 12 segments.  Every segment joins two corners of the box that
make a different choice between minimum and maximum in exactly one coordinate, and every such
pair of corners is joined by one of the segments: the segments are the 12 edges of the box.
When minimum and maximum differ in all three coordinates, the two ends of every segment differ
in exactly one coordinate and no two of the 12 segments join the same two points. -/
theorem AddBoundigBox_edges (r : Renderer) (box : BoundingBox) (color : Vector4) :
    ∃ new : List RHI_Vertex_PosCol,
      (r.AddBoundigBox box color).m_lineVertices = r.m_lineVertices ++ new ∧
      new.length = 24 ∧ (segments new).length = 12 ∧
      (∀ v ∈ new, v.color = color) ∧
      (∀ s ∈ segments new, ∃ c d : Corner, c.adjacent d = true ∧
        s.1.pos = box.corner c ∧ s.2.pos = box.corner d) ∧
      (∀ c d : Corner, c.adjacent d = true → ∃ s ∈ segments new,
        (s.1.pos = box.corner c ∧ s.2.pos = box.corner d) ∨
          (s.1.pos = box.corner d ∧ s.2.pos = box.corner c)) ∧
      (box.min.x ≠ box.max.x → box.min.y ≠ box.max.y → box.min.z ≠ box.max.z →
        (∀ s ∈ segments new, s.1.pos.differing s.2.pos = 1) ∧
          (segments new).Pairwise (fun s t => ¬sameSegment s t)) := by
  refine ⟨_, AddBoundigBox_vertices r box color, rfl, rfl, ?_, ?_, ?_, ?_⟩
  · intro v hv
    simp only [List.mem_cons, List.mem_singleton, List.not_mem_nil, or_false] at hv
    rcases hv with h | h | h | h | h | h | h | h | h | h | h | h | h | h | h | h | h | h | h | h
      | h | h | h | h <;> rw [h]
  · intro s hs
    simp only [segments, List.mem_cons, List.mem_singleton, List.not_mem_nil, or_false] at hs
    rcases hs with h | h | h | h | h | h | h | h | h | h | h | h <;> subst h <;>
      exact ⟨_, _, by decide, rfl, rfl⟩
  · rintro ⟨a, b, c⟩ ⟨d, e, f⟩ h
    cases a <;> cases b <;> cases c <;> cases d <;> cases e <;> cases f <;>
      first
        | exact absurd h (by decide)
        | simp [segments]
  · intro hx hy hz
    have hx' := Ne.symm hx
    have hy' := Ne.symm hy
    have hz' := Ne.symm hz
    constructor
    · intro s hs
      simp only [segments, List.mem_cons, List.mem_singleton, List.not_mem_nil, or_false] at hs
      rcases hs with h | h | h | h | h | h | h | h | h | h | h | h <;> subst h <;>
        simp [Vector3.differing, BoundingBox.corner, hx, hy, hz, hx', hy', hz']
    · simp [segments, sameSegment, BoundingBox.corner, hx, hy, hz, hx', hy', hz']

theorem AddBoundigBox_edges_witness :
    ∃ new : List RHI_Vertex_PosCol,
      (sampleRenderer.AddBoundigBox sampleBox ⟨0, 1, 0, 1⟩).m_lineVertices
        = sampleRenderer.m_lineVertices ++ new ∧
      new.length = 24 ∧ (segments new).length = 12 ∧
      (∀ s ∈ segments new, s.1.pos.differing s.2.pos = 1) ∧
      (segments new).Pairwise (fun s t => ¬sameSegment s t) := by
  obtain ⟨new, h1, h2, h3, _, _, _, h7⟩ :=
    AddBoundigBox_edges sampleRenderer sampleBox ⟨0, 1, 0, 1⟩
  exact ⟨new, h1, h2, h3,
    h7 (by norm_num [sampleBox]) (by norm_num [sampleBox]) (by norm_num [sampleBox])⟩

/-! ## Capacity of the line vertex buffer -/

namespace Renderer

@[simp] theorem AddBoundigBox_log (r : Renderer) (box : BoundingBox) (color : Vector4) :
    (r.AddBoundigBox box color).log = r.log := by
  unfold AddBoundigBox
  simp only [AddLine3_log]

@[simp] theorem AddLine3_lineVertexCount (r : Renderer) (a b : Vector3) (c : Vector4) :
    (r.AddLine3 a b c).m_lineVertexCount = r.m_lineVertexCount := rfl

@[simp] theorem AddBoundigBox_lineVertexCount (r : Renderer) (box : BoundingBox)
    (color : Vector4) : (r.AddBoundigBox box color).m_lineVertexCount = r.m_lineVertexCount := by
  unfold AddBoundigBox
  simp only [AddLine3_lineVertexCount]

@[simp] theorem touch_lineVertexCount (r : Renderer) (k : RenderableType) :
    (r.touch k).m_lineVertexCount = r.m_lineVertexCount := rfl

theorem boxStep_log (r : Renderer) (a : Actor) : (Pass_Lines.boxStep r a).log = r.log := by
  unfold Pass_Lines.boxStep
  split <;> simp

theorem boxStep_lineVertexCount (r : Renderer) (a : Actor) :
    (Pass_Lines.boxStep r a).m_lineVertexCount = r.m_lineVertexCount := by
  unfold Pass_Lines.boxStep
  split <;> simp

theorem foldl_boxStep_log (l : List Actor) (r : Renderer) :
    (l.foldl Pass_Lines.boxStep r).log = r.log := by
  induction l generalizing r with
  | nil => rfl
  | cons a l ih => rw [List.foldl_cons, ih, boxStep_log]

theorem foldl_boxStep_lineVertexCount (l : List Actor) (r : Renderer) :
    (l.foldl Pass_Lines.boxStep r).m_lineVertexCount = r.m_lineVertexCount := by
  induction l generalizing r with
  | nil => rfl
  | cons a l ih => rw [List.foldl_cons, ih, boxStep_lineVertexCount]

theorem boundingBoxes_log (r : Renderer) : (Pass_Lines.boundingBoxes r).log = r.log := by
  unfold Pass_Lines.boundingBoxes
  simp only [foldl_boxStep_log, touch_log]

theorem boundingBoxes_lineVertexCount (r : Renderer) :
    (Pass_Lines.boundingBoxes r).m_lineVertexCount = r.m_lineVertexCount := by
  unfold Pass_Lines.boundingBoxes
  simp only [foldl_boxStep_lineVertexCount, touch_lineVertexCount]

theorem pickingRay_log (r : Renderer) : (Pass_Lines.pickingRay r).log = r.log := by
  unfold Pass_Lines.pickingRay
  split <;> rfl

theorem pickingRay_lineVertexCount (r : Renderer) :
    (Pass_Lines.pickingRay r).m_lineVertexCount = r.m_lineVertexCount := by
  unfold Pass_Lines.pickingRay
  split <;> rfl

/-- What the flush block of `Pass_Lines` does to the capacity and which commands it issues. -/
theorem flush_capacity (r : Renderer) :
    r.m_lineVertexCount ≤ (Pass_Lines.flush r).m_lineVertexCount ∧
    (∀ n, .CreateLineVertexBuffer n ∈ r.issued (Pass_Lines.flush r) →
      r.m_lineVertexCount < n ∧ flushedCounts (r.issued (Pass_Lines.flush r)) = [n]) ∧
    (∀ n ∈ flushedCounts (r.issued (Pass_Lines.flush r)),
      n ≤ (Pass_Lines.flush r).m_lineVertexCount) ∧
    r.log <+: (Pass_Lines.flush r).log := by
  unfold Pass_Lines.flush issued
  simp only
  have hlen : (r.m_lineVertices.take (r.m_lineVertices.length % 2 ^ 32)).length
      = r.m_lineVertices.length % 2 ^ 32 :=
    List.length_take_of_le (Nat.mod_le _ _)
  split
  · split
    · rename_i h1 h2
      simp [emit, emits, flushedCounts, hlen]
      omega
    · rename_i h1 h2
      simp [emit, emits, flushedCounts, hlen]
      omega
  · simp [flushedCounts]

theorem flushedCounts_append (a b : List Cmd) :
    flushedCounts (a ++ b) = flushedCounts a ++ flushedCounts b := by
  induction a with
  | nil => rfl
  | cons c a ih => cases c <;> simp [flushedCounts, ih]

/-- An invocation of `Pass_Lines` either returns at once or runs the flush block once, from a
state with the capacity the pass was entered with; the commands around the flush block neither
create nor fill the line vertex buffer. -/
theorem Pass_Lines_around_flush (r : Renderer) (texOut : TexSlot) :
    (r.issued (r.Pass_Lines texOut) = [] ∧
      (r.Pass_Lines texOut).m_lineVertexCount = r.m_lineVertexCount) ∨
    ∃ (q : Renderer) (pre post : List Cmd),
      q.m_lineVertexCount = r.m_lineVertexCount ∧
      (r.Pass_Lines texOut).m_lineVertexCount = (Pass_Lines.flush q).m_lineVertexCount ∧
      r.issued (r.Pass_Lines texOut) = pre ++ q.issued (Pass_Lines.flush q) ++ post ∧
      flushedCounts pre = [] ∧ flushedCounts post = [] ∧
      (∀ n, Cmd.CreateLineVertexBuffer n ∉ pre) ∧
      (∀ n, Cmd.CreateLineVertexBuffer n ∉ post) := by
  unfold Pass_Lines
  simp only
  split
  · exact Or.inl ⟨issued_self_of_log rfl, rfl⟩
  · right
    generalize hq1 : (r.enter .Pass_Lines).emits [.EventBegin "Pass_Lines",
      .SetState_pipelineLine,
      .Set_AlphaBlendingEnabled true,
      .SetRenderTarget (.renderTexture ((r.enter .Pass_Lines).tex texOut)) .ofGBufferDepth false,
      .SetTexture (.gbuffer .GBuffer_Target_Depth)] = q1
    have hq1log : q1.log = r.log ++ [.EventBegin "Pass_Lines",
        .SetState_pipelineLine,
        .Set_AlphaBlendingEnabled true,
        .SetRenderTarget (.renderTexture (r.tex texOut)) .ofGBufferDepth false,
        .SetTexture (.gbuffer .GBuffer_Target_Depth)] := by
      rw [← hq1]; simp
    have hq1cap : q1.m_lineVertexCount = r.m_lineVertexCount := by rw [← hq1]; rfl
    generalize hq2 : (if (r.enter .Pass_Lines).Flags_IsSet .Render_PickingRay = true then
      Pass_Lines.pickingRay q1 else q1) = q2
    have hq2log : q2.log = q1.log := by
      rw [← hq2]; split
      · exact pickingRay_log _
      · rfl
    have hq2cap : q2.m_lineVertexCount = q1.m_lineVertexCount := by
      rw [← hq2]; split
      · exact pickingRay_lineVertexCount _
      · rfl
    generalize hq3 : (if (r.enter .Pass_Lines).Flags_IsSet .Render_AABB = true then
      Pass_Lines.boundingBoxes q2 else q2) = q3
    have hq3log : q3.log = q2.log := by
      rw [← hq3]; split
      · exact boundingBoxes_log _
      · rfl
    have hq3cap : q3.m_lineVertexCount = q2.m_lineVertexCount := by
      rw [← hq3]; split
      · exact boundingBoxes_lineVertexCount _
      · rfl
    obtain ⟨-, -, -, hpre⟩ := flush_capacity q3
    have hflog := log_eq_append_issued hpre
    refine ⟨q3, [.EventBegin "Pass_Lines",
        .SetState_pipelineLine,
        .Set_AlphaBlendingEnabled true,
        .SetRenderTarget (.renderTexture (r.tex texOut)) .ofGBufferDepth false,
        .SetTexture (.gbuffer .GBuffer_Target_Depth)],
      (if (r.enter .Pass_Lines).Flags_IsSet .Render_SceneGrid = true then
        [.SetIndexBuffer .grid, .SetVertexBuffer .grid, .UpdateShaderBuffer .shaderLine,
          .Bind, .DrawIndexed (Pass_Lines.flush q3).m_gridIndexCount 0 0] else [])
        ++ [.Set_AlphaBlendingEnabled false, .EventEnd],
      by rw [hq3cap, hq2cap, hq1cap], ?_, ?_, rfl, ?_, by simp, ?_⟩
    · split <;> rfl
    · apply issued_of_log
      split
      · simp [Pass_Lines.grid, hflog, hq3log, hq2log, hq1log]
      · simp [hflog, hq3log, hq2log, hq1log]
    · split <;> rfl
    · intro n
      split <;> simp

end Renderer

/-- C27: an invocation of `Pass_Lines` never lowers the recorded capacity `m_lineVertexCount`;
it creates the line vertex buffer only for a vertex count above the capacity it found, and
that count is the one it flushes; and every vertex count it flushes is at most the capacity it
leaves.  Hence along every run of invocations the capacity never decreases and is at least
every vertex count flushed so far. -/
theorem Pass_Lines_capacity_grows (r r' : Renderer) (flushed : List Nat)
    (hrun : LinesRun r r' flushed) :
    (∀ (q : Renderer) (texOut : TexSlot),
      q.m_lineVertexCount ≤ (q.Pass_Lines texOut).m_lineVertexCount ∧
      (∀ n, .CreateLineVertexBuffer n ∈ q.issued (q.Pass_Lines texOut) →
        q.m_lineVertexCount < n ∧ flushedCounts (q.issued (q.Pass_Lines texOut)) = [n]) ∧
      (∀ n ∈ flushedCounts (q.issued (q.Pass_Lines texOut)),
        n ≤ (q.Pass_Lines texOut).m_lineVertexCount)) ∧
    r.m_lineVertexCount ≤ r'.m_lineVertexCount ∧
    ∀ n ∈ flushed, n ≤ r'.m_lineVertexCount := by
  have hone : ∀ (q : Renderer) (texOut : TexSlot),
      q.m_lineVertexCount ≤ (q.Pass_Lines texOut).m_lineVertexCount ∧
      (∀ n, .CreateLineVertexBuffer n ∈ q.issued (q.Pass_Lines texOut) →
        q.m_lineVertexCount < n ∧ flushedCounts (q.issued (q.Pass_Lines texOut)) = [n]) ∧
      (∀ n ∈ flushedCounts (q.issued (q.Pass_Lines texOut)),
        n ≤ (q.Pass_Lines texOut).m_lineVertexCount) := by
    intro q texOut
    rcases Renderer.Pass_Lines_around_flush q texOut with ⟨h1, h2⟩ | ⟨p, pre, post, hp, hcap,
      hiss, hpre, hpost, hcpre, hcpost⟩
    · rw [h1, h2]
      exact ⟨le_rfl, fun n hn => absurd hn (List.not_mem_nil _),
        fun n hn => absurd hn (List.not_mem_nil _)⟩
    · obtain ⟨f1, f2, f3, -⟩ := Renderer.flush_capacity p
      have hfc : flushedCounts (q.issued (q.Pass_Lines texOut))
          = flushedCounts (p.issued (Renderer.Pass_Lines.flush p)) := by
        rw [hiss, Renderer.flushedCounts_append, Renderer.flushedCounts_append, hpre, hpost]
        simp
      rw [hfc, hcap, ← hp]
      refine ⟨f1, fun n hn => ?_, f3⟩
      rw [hiss] at hn
      simp only [List.mem_append] at hn
      rcases hn with (hn | hn) | hn
      · exact absurd hn (hcpre n)
      · exact f2 n hn
      · exact absurd hn (hcpost n)
  refine ⟨hone, ?_⟩
  induction hrun with
  | start => exact ⟨le_rfl, fun n hn => absurd hn (List.not_mem_nil _)⟩
  | invoke q' texOut _ hcap ih =>
    obtain ⟨h1, -, h3⟩ := hone q' texOut
    refine ⟨ih.1.trans (hcap ▸ h1), fun n hn => ?_⟩
    rcases List.mem_append.1 hn with hn | hn
    · exact (ih.2 n hn).trans (hcap ▸ h1)
    · exact h3 n hn

theorem Pass_Lines_capacity_grows_witness :
    (sampleQueuedGrid.Pass_Lines .Full_FinalFrame).m_lineVertexCount = 2 ∧
    sampleQueuedGrid.m_lineVertexCount
      ≤ (sampleQueuedGrid.Pass_Lines .Full_FinalFrame).m_lineVertexCount ∧
    ∀ n ∈ [] ++ flushedCounts (sampleQueuedGrid.issued
        (sampleQueuedGrid.Pass_Lines .Full_FinalFrame)),
      n ≤ (sampleQueuedGrid.Pass_Lines .Full_FinalFrame).m_lineVertexCount :=
  ⟨by decide, (Pass_Lines_capacity_grows _ _ _
    (LinesRun.invoke sampleQueuedGrid .Full_FinalFrame (LinesRun.start sampleQueuedGrid)
      rfl)).2⟩

/-! ## The line accumulator outside `Pass_Lines` -/

namespace Renderer

theorem Queue.hold (r : Renderer) : Queue r r := rfl

theorem Queue.next {r₁ r₂ r₃ : Renderer} (h₁ : Queue r₁ r₂) (h₂ : Queue r₂ r₃) : Queue r₁ r₃ :=
  Eq.trans h₂ h₁

theorem queue_emit (r : Renderer) (c : Cmd) : Queue r (r.emit c) :=
  rfl

theorem queue_emits (r : Renderer) (cs : List Cmd) : Queue r (r.emits cs) :=
  rfl

theorem queue_enter (r : Renderer) (p : PassName) : Queue r (r.enter p) :=
  rfl

theorem queue_touch (r : Renderer) (k : RenderableType) : Queue r (r.touch k) :=
  rfl

theorem queue_SetGlobalBuffer (r : Renderer) (res : Option (Nat × Nat)) (sigma : ℚ)
    (dir : Vector2) : Queue r (r.SetGlobalBuffer res sigma dir) :=
  rfl

theorem queue_setTex (r : Renderer) (a : TexSlot) (t : RHI_RenderTexture) :
    Queue r (r.setTex a t) := by
  cases a <;> rfl

theorem queue_swapTex (r : Renderer) (a b : TexSlot) : Queue r (r.swapTex a b) :=
  (queue_setTex _ _ _).next (queue_setTex _ _ _)

theorem queue_foldl {α : Type} (step : Renderer → α → Renderer)
    (hstep : ∀ r a, Queue r (step r a)) (l : List α) :
    ∀ r, Queue r (l.foldl step r) := by
  induction l with
  | nil => intro r; exact Queue.hold r
  | cons a l ih =>
    intro r
    exact (hstep r a).next (ih (step r a))

theorem queue_foldl_pair {α β : Type} (step : Renderer × β → α → Renderer × β)
    (hstep : ∀ st a, Queue st.1 (step st a).1) (l : List α) :
    ∀ st, Queue st.1 (l.foldl step st).1 := by
  induction l with
  | nil => intro st; exact Queue.hold st.1
  | cons a l ih =>
    intro st
    exact (hstep st a).next (ih (step st a))

theorem queue_ite {r r' : Renderer} (c : Bool) (h : Queue r r') :
    Queue r (if c = true then r' else r) := by
  split
  · exact h
  · exact Queue.hold _

theorem queue_Pass_ShadowMapping (r : Renderer) (texOut : TexSlot) (light : Option Light) :
    Queue r (r.Pass_ShadowMapping texOut light) := by
  unfold Pass_ShadowMapping
  cases light
  · exact queue_enter _ _
  · exact (queue_enter _ _).next (queue_emits _ _)

theorem queue_Pass_SSDO (r : Renderer) (texOut : TexSlot) : Queue r (r.Pass_SSDO texOut) := by
  unfold Pass_SSDO
  exact (queue_enter _ _).next (queue_emits _ _)

theorem queue_Pass_BlurGaussian (r : Renderer) (texIn texOut : TexSlot) (sigma : ℚ) :
    Queue r (r.Pass_BlurGaussian texIn texOut sigma) := by
  unfold Pass_BlurGaussian
  simp only
  split
  · exact queue_enter _ _
  · exact (((((((queue_enter r _).next (queue_emits _ _)).next
      (queue_SetGlobalBuffer _ _ _ _)).next (queue_emits _ _)).next
      (queue_SetGlobalBuffer _ _ _ _)).next (queue_emits _ _)).next
      (queue_swapTex _ _ _)).next (queue_emit _ _)

theorem queue_Pass_BlurBilateralGaussian (r : Renderer) (texIn texOut : TexSlot)
    (sigma pixelStride : ℚ) :
    Queue r (r.Pass_BlurBilateralGaussian texIn texOut sigma pixelStride) := by
  unfold Pass_BlurBilateralGaussian
  simp only
  split
  · exact queue_enter _ _
  · exact (((((((queue_enter r _).next (queue_emits _ _)).next
      (queue_SetGlobalBuffer _ _ _ _)).next (queue_emits _ _)).next
      (queue_SetGlobalBuffer _ _ _ _)).next (queue_emits _ _)).next
      (queue_swapTex _ _ _)).next (queue_emit _ _)

theorem queue_DepthDirectionalLight_actorStep (i : Nat) (st : Renderer × Nat) (a : Actor) :
    Queue st.1 (Pass_DepthDirectionalLight.actorStep i st a).1 := by
  unfold Pass_DepthDirectionalLight.actorStep
  repeat' split
  all_goals exact Queue.hold _

theorem queue_DepthDirectionalLight_cascadeStep (light : Light) (actors : List Actor)
    (st : Renderer × Nat) (i : Nat) :
    Queue st.1 (Pass_DepthDirectionalLight.cascadeStep light actors st i).1 := by
  unfold Pass_DepthDirectionalLight.cascadeStep
  simp only
  split
  · exact (queue_emits st.1 _).next
      (queue_foldl_pair _ (queue_DepthDirectionalLight_actorStep i) actors (st.1.emits _, st.2))
  · exact queue_foldl_pair _ (queue_DepthDirectionalLight_actorStep i) actors _

theorem queue_Pass_DepthDirectionalLight (r : Renderer) (light : Option Light) :
    Queue r (r.Pass_DepthDirectionalLight light) := by
  unfold Pass_DepthDirectionalLight
  simp only
  split
  · exact queue_enter r _
  · split
    · exact queue_enter r _
    · split
      · exact (queue_enter r .Pass_DepthDirectionalLight).next (queue_touch _ _)
      · rename_i light _ _
        have h1 := (queue_enter r .Pass_DepthDirectionalLight).next (queue_touch _
          .Renderable_ObjectOpaque)
        have h2 := h1.next (queue_emits _ [.EventBegin "Pass_DepthDirectionalLight",
          .SetShader .shaderLightDepth,
          .SetPrimitiveTopology .PrimitiveTopology_TriangleList])
        have h3 := h2.next (queue_foldl_pair _
          (queue_DepthDirectionalLight_cascadeStep light
            ((r.enter .Pass_DepthDirectionalLight).m_actors.at .Renderable_ObjectOpaque))
          (List.range light.shadowMapCount) (_, 0))
        exact h3.next (queue_emit _ .EventEnd)

theorem queue_GBuffer_bindGeometry (st : Renderer × GBufferCache) (model : Model) :
    Queue st.1 (Pass_GBuffer.bindGeometry st model).1 := by
  unfold Pass_GBuffer.bindGeometry
  split
  · exact queue_emits _ _
  · exact Queue.hold _

theorem queue_GBuffer_bindShader (st : Renderer × GBufferCache) (shader : ShaderVariation) :
    Queue st.1 (Pass_GBuffer.bindShader st shader).1 := by
  unfold Pass_GBuffer.bindShader
  simp only
  split
  · split
    · exact (queue_emit st.1 _).next (queue_emit _ _)
    · exact queue_emit _ _
  · exact Queue.hold _

theorem queue_GBuffer_bindMaterial (st : Renderer × GBufferCache) (material : Material) :
    Queue st.1 (Pass_GBuffer.bindMaterial st material).1 := by
  unfold Pass_GBuffer.bindMaterial
  split
  · exact queue_emits _ _
  · exact Queue.hold _

theorem queue_GBuffer_draw (r : Renderer) (actor : Actor) (renderable : Renderable)
    (shader : ShaderVariation) : Queue r (Pass_GBuffer.draw r actor renderable shader) :=
  rfl

theorem queue_GBuffer_actorStep (st : Renderer × GBufferCache) (a : Actor) :
    Queue st.1 (Pass_GBuffer.actorStep st a).1 := by
  unfold Pass_GBuffer.actorStep
  repeat' split
  all_goals first
    | exact Queue.hold _
    | exact (((queue_emit st.1 _).next (queue_GBuffer_bindGeometry (_, st.2) _)).next
        ((queue_GBuffer_bindShader _ _).next (queue_GBuffer_bindMaterial _ _))).next
        (queue_GBuffer_draw _ _ _ _)

theorem queue_Pass_GBuffer (r : Renderer) : Queue r r.Pass_GBuffer := by
  unfold Pass_GBuffer
  simp only
  split
  · exact queue_enter r _
  · split
    · exact (queue_enter r .Pass_GBuffer).next (queue_touch _ _)
    · have h1 := (queue_enter r .Pass_GBuffer).next (queue_touch _ .Renderable_ObjectOpaque)
      have h2 := h1.next (queue_emits _ [.EventBegin "Pass_GBuffer",
        .GBuffer_SetAsRenderTarget,
        .SetSampler .samplerAnisotropicWrapAlways,
        .SetFillMode_Solid,
        .SetPrimitiveTopology .PrimitiveTopology_TriangleList])
      have h3 := h2.next (queue_SetGlobalBuffer _ none 0 ⟨0, 0⟩)
      have h4 := h3.next (queue_foldl_pair _ queue_GBuffer_actorStep
        ((r.enter .Pass_GBuffer).m_actors.at .Renderable_ObjectOpaque) (_, ⟨false, 0, 0, 0⟩))
      exact h4.next (queue_emit _ .EventEnd)

theorem queue_Pass_PreLight (r : Renderer) :
    Queue r (r.Pass_PreLight .Half_Spare .Half_Shadows .Half_SSDO) := by
  unfold Pass_PreLight
  simp only
  have h0 : Queue r (((r.enter .Pass_PreLight).emits [.EventBegin "Pass_PreLight",
      .SetIndexBuffer .quad, .SetVertexBuffer .quad,
      .SetPrimitiveTopology .PrimitiveTopology_TriangleList,
      .SetCullMode .Cull_Back]).touch .Renderable_Light) :=
    ((queue_enter r .Pass_PreLight).next (queue_emits _ _)).next (queue_touch _ _)
  have hs : ∀ q : Renderer, Queue q (q.Pass_BlurBilateralGaussian .Half_Spare .Half_Shadows 1 1) :=
    fun q => queue_Pass_BlurBilateralGaussian q .Half_Spare .Half_Shadows 1 1
  have ho : ∀ q : Renderer, Queue q (q.Pass_BlurBilateralGaussian .Half_Spare .Half_SSDO 3 2) :=
    fun q => queue_Pass_BlurBilateralGaussian q .Half_Spare .Half_SSDO 3 2
  have hl : ((r.enter .Pass_PreLight).emits [.EventBegin "Pass_PreLight",
      .SetIndexBuffer .quad, .SetVertexBuffer .quad,
      .SetPrimitiveTopology .PrimitiveTopology_TriangleList,
      .SetCullMode .Cull_Back]).GetLightDirectional = r.GetLightDirectional := rfl
  rw [hl]
  cases r.GetLightDirectional with
  | none =>
    simp only
    split
    · exact (h0.next ((queue_Pass_SSDO _ _).next (ho _))).next (queue_emit _ _)
    · exact h0.next (queue_emit _ _)
  | some light =>
    simp only
    have h1 := (h0.next (queue_Pass_ShadowMapping _ .Half_Spare
      (((r.enter .Pass_PreLight).emits [.EventBegin "Pass_PreLight",
        .SetIndexBuffer .quad, .SetVertexBuffer .quad,
        .SetPrimitiveTopology .PrimitiveTopology_TriangleList,
        .SetCullMode .Cull_Back]).touch .Renderable_Light).GetLightDirectional)).next (hs _)
    split
    · exact (h1.next ((queue_Pass_SSDO _ _).next (ho _))).next (queue_emit _ _)
    · exact h1.next (queue_emit _ _)

theorem queue_Pass_Light (r : Renderer) (texShadows texSSDO texOut : TexSlot) :
    Queue r (r.Pass_Light texShadows texSSDO texOut) := by
  unfold Pass_Light
  simp only
  split
  · exact queue_enter r _
  · exact ((((queue_enter r _).next (queue_emit _ _)).next (queue_emit _ _)).next
      ((queue_touch _ _).next (queue_touch _ _))).next (queue_emits _ _)

theorem queue_Transparent_actorStep (r : Renderer) (a : Actor) :
    Queue r (Pass_Transparent.actorStep r a) := by
  unfold Pass_Transparent.actorStep
  repeat' split
  all_goals exact Queue.hold _

theorem queue_Pass_Transparent (r : Renderer) (texOut : TexSlot) :
    Queue r (r.Pass_Transparent texOut) := by
  unfold Pass_Transparent
  simp only
  have h0 : Queue r ((r.enter .Pass_Transparent).touch .Renderable_Light) :=
    (queue_enter r _).next (queue_touch _ _)
  split
  · exact h0
  · split
    · exact h0.next (queue_touch _ _)
    · exact ((((h0.next (queue_touch _ .Renderable_ObjectTransparent)).next
        (queue_touch _ .Renderable_Skybox)).next (queue_emits _ _)).next
        (queue_foldl _ queue_Transparent_actorStep _ _)).next (queue_emits _ _)

theorem queue_Pass_Bloom (r : Renderer) (texIn texOut : TexSlot) :
    Queue r (r.Pass_Bloom texIn texOut) := by
  unfold Pass_Bloom
  simp only
  exact ((((((queue_enter r .Pass_Bloom).next (queue_emits _ _)).next
    (queue_SetGlobalBuffer _ _ _ _)).next (queue_emits _ _)).next
    (queue_Pass_BlurGaussian _ .Quarter_Blur1 .Quarter_Blur2 2)).next
    (queue_SetGlobalBuffer _ _ _ _)).next (queue_emits _ _)

theorem queue_singleDrawStage (r : Renderer) (name : String) (sampler : SamplerRef)
    (shader : ShaderRef) (texIn texOut : TexSlot) :
    Queue r (r.singleDrawStage name sampler shader texIn texOut) :=
  queue_emits _ _

theorem queue_Pass_Correction (r : Renderer) (texIn texOut : TexSlot) :
    Queue r (r.Pass_Correction texIn texOut) :=
  (queue_enter r _).next (queue_singleDrawStage _ _ _ _ _ _)

theorem queue_Pass_FXAA (r : Renderer) (texIn texOut : TexSlot) :
    Queue r (r.Pass_FXAA texIn texOut) := by
  unfold Pass_FXAA
  exact (((((queue_enter r _).next (queue_emits _ _)).next
    (queue_SetGlobalBuffer _ _ _ _)).next (queue_emits _ _)).next
    (queue_swapTex _ _ _)).next (queue_emit _ _)

theorem queue_Pass_Sharpening (r : Renderer) (texIn texOut : TexSlot) :
    Queue r (r.Pass_Sharpening texIn texOut) :=
  (queue_enter r _).next (queue_singleDrawStage _ _ _ _ _ _)

theorem queue_Pass_ChromaticAberration (r : Renderer) (texIn texOut : TexSlot) :
    Queue r (r.Pass_ChromaticAberration texIn texOut) :=
  (queue_enter r _).next (queue_singleDrawStage _ _ _ _ _ _)

theorem queue_Pass_GBufferVisualize (r : Renderer) (texOut : TexSlot) :
    Queue r (r.Pass_GBufferVisualize texOut) := by
  unfold Pass_GBufferVisualize
  simp only
  split
  · exact (((queue_enter r _).next (queue_emit _ _)).next
      (queue_SetGlobalBuffer _ _ _ _)).next (queue_emits _ _)
  · exact queue_enter r _

theorem queue_Gizmos_lightStep (texOut : TexSlot) (r : Renderer) (a : Actor) :
    Queue r (Pass_Gizmos.lightStep texOut r a) := by
  unfold Pass_Gizmos.lightStep
  repeat' split
  all_goals exact Queue.hold _

theorem queue_Pass_Gizmos (r : Renderer) (texOut : TexSlot) :
    Queue r (r.Pass_Gizmos texOut) := by
  unfold Pass_Gizmos
  simp only
  split
  · exact queue_enter r _
  · have h0 := ((queue_enter r .Pass_Gizmos).next
      (queue_emit _ (.EventBegin "Pass_Gizmos"))).next
      (queue_touch _ .Renderable_Light)
    split
    · exact (((h0.next (queue_emits _ _)).next
        (queue_foldl _ (queue_Gizmos_lightStep texOut) _ _)).next
        (queue_emit _ _)).next (queue_emit _ _)
    · exact h0.next (queue_emit _ _)

theorem queue_Pass_PerformanceMetrics (r : Renderer) (texOut : TexSlot) :
    Queue r (r.Pass_PerformanceMetrics texOut) := by
  unfold Pass_PerformanceMetrics
  simp only
  split
  · exact queue_enter r _
  · exact (queue_enter r _).next (queue_emits _ _)

theorem queue_Pass_TAA (r : Renderer) (texIn texOut : TexSlot) :
    Queue r (r.Pass_TAA texIn texOut) := by
  unfold Pass_TAA
  exact (((((((queue_enter r _).next (queue_emit _ _)).next
    (queue_SetGlobalBuffer _ _ _ _)).next (queue_emits _ _)).next
    (queue_SetGlobalBuffer _ _ _ _)).next (queue_emits _ _)).next
    (queue_swapTex _ _ _)).next (queue_emit _ _)

theorem queue_stage (q : Renderer) (f : RenderMode) (texIn texOut : TexSlot)
    (pass : Renderer → TexSlot → TexSlot → Renderer)
    (hpass : ∀ q', Queue q' (pass q' texIn texOut)) :
    Queue q (Pass_PostLight.stage q f texIn texOut pass) := by
  unfold Pass_PostLight.stage
  split
  · exact (queue_swapTex q texOut texIn).next (hpass _)
  · exact Queue.hold _

theorem queue_Pass_PostLight (r : Renderer) (texIn texOut : TexSlot) :
    Queue r (r.Pass_PostLight texIn texOut) := by
  unfold Pass_PostLight
  simp only
  have h0 := (((queue_enter r .Pass_PostLight).next (queue_emits _ [.EventBegin "Pass_PostLight",
      .SetPrimitiveTopology .PrimitiveTopology_TriangleList,
      .SetCullMode .Cull_Back,
      .SetVertexBuffer .quad,
      .SetIndexBuffer .quad,
      .SetShader .shaderBloom_Bright])).next
      (queue_SetGlobalBuffer _ (some ((r.tex texIn).width, (r.tex texIn).height)) 0
        ⟨0, 0⟩)).next (queue_swapTex _ texOut texIn)
  have h1 := h0.next (queue_stage _ .Render_TAA texIn texOut Pass_TAA
    (fun q => queue_Pass_TAA q _ _))
  have h2 := h1.next (queue_stage _ .Render_Bloom texIn texOut Pass_Bloom
    (fun q => queue_Pass_Bloom q _ _))
  have h3 := h2.next (queue_stage _ .Render_Correction texIn texOut Pass_Correction
    (fun q => queue_Pass_Correction q _ _))
  have h4 := h3.next (queue_stage _ .Render_FXAA texIn texOut Pass_FXAA
    (fun q => queue_Pass_FXAA q _ _))
  have h5 := h4.next (queue_stage _ .Render_Sharpening texIn texOut Pass_Sharpening
    (fun q => queue_Pass_Sharpening q _ _))
  have h6 := h5.next (queue_stage _ .Render_ChromaticAberration texIn texOut
    Pass_ChromaticAberration (fun q => queue_Pass_ChromaticAberration q _ _))
  exact h6.next (queue_emit _ .EventEnd)

/-- The passes of a frame before `Pass_Lines` leave the queued line vertices alone, and so does
the bookkeeping at the start of the frame. -/
theorem queue_before_Pass_Lines (r : Renderer) :
    Queue r (((((((((Render.beginFrame r).touch .Renderable_Light).Pass_DepthDirectionalLight
      (Render.beginFrame r).GetLightDirectional).Pass_GBuffer.Pass_PreLight .Half_Spare
      .Half_Shadows .Half_SSDO).Pass_Light .Half_Shadows .Half_SSDO .Full_Light).Pass_Transparent
      .Full_Light).Pass_PostLight .Full_Light .Full_FinalFrame).Pass_GBufferVisualize
      .Full_FinalFrame)) := by
  have k0 : Queue r (Render.beginFrame r) := rfl
  have k1 := k0.next (queue_touch _ .Renderable_Light)
  have k2 := k1.next (queue_Pass_DepthDirectionalLight _
    (Render.beginFrame r).GetLightDirectional)
  have k3 := k2.next (queue_Pass_GBuffer _)
  have k4 := k3.next (queue_Pass_PreLight _)
  have k5 := k4.next (queue_Pass_Light _ .Half_Shadows .Half_SSDO .Full_Light)
  have k6 := k5.next (queue_Pass_Transparent _ .Full_Light)
  have k7 := k6.next (queue_Pass_PostLight _ .Full_Light .Full_FinalFrame)
  exact k7.next (queue_Pass_GBufferVisualize _ .Full_FinalFrame)

/-- Shape of a frame that reaches the pass sequence, cut at the call of `Pass_Lines`. -/
theorem Render_around_Pass_Lines (r : Renderer) (device : RHI_Device) (camera : Camera)
    (hd : r.m_rhiDevice = some device) (hi : device.initialized = true)
    (hc : r.m_camera = some camera) (he : r.m_actors.empty = false) :
    ∃ p : Renderer, Queue r p ∧ p.m_flags = r.m_flags ∧
      Queue (p.Pass_Lines .Full_FinalFrame) r.Render := by
  have hR : r.Render =
      { Render.passes (Render.beginFrame r) with m_isRendering := false } := by
    unfold Render
    simp only [hd, hi, hc, he, Bool.not_true, Bool.false_eq_true, if_false]
  have f0 : Frame r (Render.beginFrame r) [] := Frame.of_eq rfl rfl rfl
  have f1 := f0.trans_nil (frame_touch _ .Renderable_Light)
  have f2 := f1.trans_nil (frame_Pass_DepthDirectionalLight _
    (Render.beginFrame r).GetLightDirectional)
  have f3 := f2.trans (frame_Pass_GBuffer _)
  have f4 := f3.trans (frame_Pass_PreLight _ .Half_Spare .Half_Shadows .Half_SSDO)
  have f5 := f4.trans (frame_Pass_Light _ .Half_Shadows .Half_SSDO .Full_Light)
  have f6 := f5.trans (frame_Pass_Transparent _ .Full_Light)
  have f7 := f6.trans (frame_Pass_PostLight _ .Full_Light .Full_FinalFrame)
  have f8 := f7.trans (frame_Pass_GBufferVisualize _ .Full_FinalFrame)
  refine ⟨_, queue_before_Pass_Lines r, f8.2.1, ?_⟩
  rw [hR]
  have k9 := (queue_Pass_Gizmos
    ((((((((((Render.beginFrame r).touch .Renderable_Light).Pass_DepthDirectionalLight
      (Render.beginFrame r).GetLightDirectional).Pass_GBuffer.Pass_PreLight .Half_Spare
      .Half_Shadows .Half_SSDO).Pass_Light .Half_Shadows .Half_SSDO .Full_Light).Pass_Transparent
      .Full_Light).Pass_PostLight .Full_Light .Full_FinalFrame).Pass_GBufferVisualize
      .Full_FinalFrame)).Pass_Lines .Full_FinalFrame) .Full_FinalFrame).next
    (queue_Pass_PerformanceMetrics _ .Full_FinalFrame)
  exact k9.next rfl

/-- The flush block of `Pass_Lines` empties the accumulator unless the number of queued
vertices is a positive multiple of `2 ^ 32`, which the cast to `unsigned int` turns into 0. -/
theorem flush_lineVertices (r : Renderer) :
    (Pass_Lines.flush r).m_lineVertices = [] ∨
      ((Pass_Lines.flush r).m_lineVertices = r.m_lineVertices ∧
        2 ^ 32 ≤ r.m_lineVertices.length ∧ r.m_lineVertices.length % 2 ^ 32 = 0) := by
  unfold Pass_Lines.flush
  simp only
  split
  · exact Or.inl rfl
  · rename_i h
    have h0 : r.m_lineVertices.length % 2 ^ 32 = 0 := not_not.1 h
    by_cases hl : r.m_lineVertices = []
    · exact Or.inl hl
    · right
      refine ⟨rfl, ?_, h0⟩
      have hpos : 0 < r.m_lineVertices.length := List.length_pos.2 hl
      exact Nat.le_of_dvd hpos (Nat.dvd_of_mod_eq_zero h0)

/-- An invocation of `Pass_Lines` under one of its three flags ends with an empty accumulator,
unless the flush block met a positive multiple of `2 ^ 32` vertices. -/
theorem Pass_Lines_lineVertices (r : Renderer) (texOut : TexSlot)
    (hf : (r.Flags_IsSet .Render_PickingRay || r.Flags_IsSet .Render_AABB
      || r.Flags_IsSet .Render_SceneGrid) = true) :
    (r.Pass_Lines texOut).m_lineVertices = [] ∨
      2 ^ 32 ≤ (r.Pass_Lines texOut).m_lineVertices.length := by
  unfold Pass_Lines
  simp only
  have hf' : ((r.enter .Pass_Lines).Flags_IsSet .Render_PickingRay
      || (r.enter .Pass_Lines).Flags_IsSet .Render_AABB
      || (r.enter .Pass_Lines).Flags_IsSet .Render_SceneGrid) = true := hf
  rw [hf']
  simp only [Bool.not_true, Bool.false_eq_true, if_false]
  generalize hq : Pass_Lines.flush _ = q
  have hfl := flush_lineVertices
    (if (r.enter .Pass_Lines).Flags_IsSet .Render_AABB = true then
      Pass_Lines.boundingBoxes
        (if (r.enter .Pass_Lines).Flags_IsSet .Render_PickingRay = true then
          Pass_Lines.pickingRay ((r.enter .Pass_Lines).emits [.EventBegin "Pass_Lines",
            .SetState_pipelineLine,
            .Set_AlphaBlendingEnabled true,
            .SetRenderTarget (.renderTexture ((r.enter .Pass_Lines).tex texOut))
              .ofGBufferDepth false,
            .SetTexture (.gbuffer .GBuffer_Target_Depth)])
        else (r.enter .Pass_Lines).emits [.EventBegin "Pass_Lines",
            .SetState_pipelineLine,
            .Set_AlphaBlendingEnabled true,
            .SetRenderTarget (.renderTexture ((r.enter .Pass_Lines).tex texOut))
              .ofGBufferDepth false,
            .SetTexture (.gbuffer .GBuffer_Target_Depth)])
    else
      (if (r.enter .Pass_Lines).Flags_IsSet .Render_PickingRay = true then
          Pass_Lines.pickingRay ((r.enter .Pass_Lines).emits [.EventBegin "Pass_Lines",
            .SetState_pipelineLine,
            .Set_AlphaBlendingEnabled true,
            .SetRenderTarget (.renderTexture ((r.enter .Pass_Lines).tex texOut))
              .ofGBufferDepth false,
            .SetTexture (.gbuffer .GBuffer_Target_Depth)])
        else (r.enter .Pass_Lines).emits [.EventBegin "Pass_Lines",
            .SetState_pipelineLine,
            .Set_AlphaBlendingEnabled true,
            .SetRenderTarget (.renderTexture ((r.enter .Pass_Lines).tex texOut))
              .ofGBufferDepth false,
            .SetTexture (.gbuffer .GBuffer_Target_Depth)]))
  rw [hq] at hfl
  have hrest : ((if (r.enter .Pass_Lines).Flags_IsSet .Render_SceneGrid = true then
      Pass_Lines.grid q else q).emits [.Set_AlphaBlendingEnabled false, .EventEnd]).m_lineVertices
      = q.m_lineVertices := by
    split <;> rfl
  rw [hrest]
  rcases hfl with h | ⟨h1, h2, -⟩
  · exact Or.inl h
  · right
    rw [h1]
    exact h2

end Renderer


/-- After a frame that runs the pass sequence with the picking-ray, the bounding-box or the
scene-grid flag set, the accumulator is empty, unless the flush block met a positive multiple of
`2 ^ 32` vertices. -/
theorem Render_flushes_lines (r : Renderer) (device : RHI_Device) (camera : Camera)
    (hd : r.m_rhiDevice = some device) (hi : device.initialized = true)
    (hc : r.m_camera = some camera) (he : r.m_actors.empty = false)
    (hf : (r.Flags_IsSet .Render_PickingRay || r.Flags_IsSet .Render_AABB
      || r.Flags_IsSet .Render_SceneGrid) = true) :
    r.Render.m_lineVertices = [] ∨ 2 ^ 32 ≤ r.Render.m_lineVertices.length := by
  obtain ⟨p, -, hflags, hafter⟩ := Renderer.Render_around_Pass_Lines r device camera hd hi hc he
  have hafter' : r.Render.m_lineVertices = (p.Pass_Lines .Full_FinalFrame).m_lineVertices :=
    hafter
  rw [hafter']
  apply Renderer.Pass_Lines_lineVertices
  unfold Renderer.Flags_IsSet at hf ⊢
  rw [hflags]
  exact hf

/-- C26, refuted for the flag sets without a line flag: a frame that runs the pass sequence
while none of the picking-ray, bounding-box and scene-grid flags is set leaves the line vertex
accumulator as it found it, so the vertices queued before the frame are still queued after
it. -/
theorem Render_keeps_queued_lines (r : Renderer) (device : RHI_Device) (camera : Camera)
    (hd : r.m_rhiDevice = some device) (hi : device.initialized = true)
    (hc : r.m_camera = some camera) (he : r.m_actors.empty = false)
    (hp : r.Flags_IsSet .Render_PickingRay = false) (ha : r.Flags_IsSet .Render_AABB = false)
    (hg : r.Flags_IsSet .Render_SceneGrid = false) :
    r.Render.m_lineVertices = r.m_lineVertices := by
  obtain ⟨p, hbefore, hflags, hafter⟩ :=
    Renderer.Render_around_Pass_Lines r device camera hd hi hc he
  have hafter' : r.Render.m_lineVertices = (p.Pass_Lines .Full_FinalFrame).m_lineVertices :=
    hafter
  have hbefore' : p.m_lineVertices = r.m_lineVertices := hbefore
  rw [hafter', ← hbefore']
  unfold Renderer.Flags_IsSet at hp ha hg
  unfold Renderer.Pass_Lines
  have h1 : (p.enter .Pass_Lines).Flags_IsSet .Render_PickingRay = false := by
    unfold Renderer.Flags_IsSet; rw [← hp, ← hflags]; rfl
  have h2 : (p.enter .Pass_Lines).Flags_IsSet .Render_AABB = false := by
    unfold Renderer.Flags_IsSet; rw [← ha, ← hflags]; rfl
  have h3 : (p.enter .Pass_Lines).Flags_IsSet .Render_SceneGrid = false := by
    unfold Renderer.Flags_IsSet; rw [← hg, ← hflags]; rfl
  simp only [h1, h2, h3, Bool.or_self, Bool.not_false, if_true]
  rfl

theorem Render_keeps_queued_lines_witness :
    sampleQueued.m_actors.empty = false ∧
    sampleQueued.Render.calls = framePasses ∧
    sampleQueued.Render.m_lineVertices
      = [⟨⟨0, 0, 0⟩, ⟨1, 0, 0, 1⟩⟩, ⟨⟨1, 1, 1⟩, ⟨1, 0, 0, 1⟩⟩] :=
  ⟨by decide, by decide,
    Render_keeps_queued_lines sampleQueued ⟨true⟩ sampleCamera rfl rfl rfl (by decide)
      (by decide) (by decide) (by decide)⟩

/-! ## Loops that extend the log -/

theorem filter_bind_ite {α β : Type} (l : List α) (p : α → Bool) (f : α → β) :
    l.flatMap (fun a => if p a = true then [f a] else []) = (l.filter p).map f := by
  induction l with
  | nil => rfl
  | cons a l ih =>
    rw [List.flatMap_cons, ih]
    by_cases h : p a = true
    · simp [h]
    · simp [h]

namespace Renderer

/-- A loop whose every iteration appends commands with a known projection appends, in all, the
concatenation of the projections. -/
theorem foldl_log_filter {α β : Type} (step : Renderer × β → α → Renderer × β)
    (P : Cmd → Bool) (f : α → List Cmd)
    (hstep : ∀ st a, ∃ cs, (step st a).1.log = st.1.log ++ cs ∧ cs.filter P = f a)
    (l : List α) :
    ∀ st, ∃ cs, (l.foldl step st).1.log = st.1.log ++ cs ∧ cs.filter P = l.flatMap f := by
  induction l with
  | nil => intro st; exact ⟨[], by simp, rfl⟩
  | cons a l ih =>
    intro st
    obtain ⟨cs₁, h₁, f₁⟩ := hstep st a
    obtain ⟨cs₂, h₂, f₂⟩ := ih (step st a)
    refine ⟨cs₁ ++ cs₂, ?_, ?_⟩
    · rw [List.foldl_cons, h₂, h₁, List.append_assoc]
    · rw [List.filter_append, f₁, f₂, List.flatMap_cons]

theorem isDraw_drawIndexed (a : Actor) : a.drawIndexed.isDraw = true := by
  unfold Actor.drawIndexed
  split <;> rfl

end Renderer

/-! ## G-buffer pass -/

namespace Renderer

/-- A loop whose every iteration extends the log by commands with a known projection extends
it, in all, by commands whose projection is the concatenation. -/
theorem foldl_issued_filter {α β : Type} (step : Renderer × β → α → Renderer × β)
    (P : Cmd → Bool) (f : α → List Cmd)
    (hpre : ∀ (st : Renderer × β) (a : α), st.1.log <+: (step st a).1.log)
    (hstep : ∀ (st : Renderer × β) (a : α), (st.1.issued (step st a).1).filter P = f a)
    (l : List α) (st : Renderer × β) :
    st.1.log <+: (l.foldl step st).1.log ∧
      (st.1.issued (l.foldl step st).1).filter P = l.flatMap f := by
  obtain ⟨cs, h, hf⟩ := foldl_log_filter step P f
    (fun (st : Renderer × β) (a : α) =>
      ⟨_, log_eq_append_issued (hpre st a), hstep st a⟩) l st
  refine ⟨⟨cs, h.symm⟩, ?_⟩
  rw [issued_of_log h, hf]

@[simp] theorem emit_meshes (r : Renderer) (c : Cmd) :
    (r.emit c).rendererMeshesRendered = r.rendererMeshesRendered := rfl

@[simp] theorem emits_meshes (r : Renderer) (cs : List Cmd) :
    (r.emits cs).rendererMeshesRendered = r.rendererMeshesRendered := rfl

theorem bindGeometry_meshes (st : Renderer × GBufferCache) (model : Model) :
    (Pass_GBuffer.bindGeometry st model).1.rendererMeshesRendered
      = st.1.rendererMeshesRendered := by
  unfold Pass_GBuffer.bindGeometry
  split <;> rfl

theorem bindShader_meshes (st : Renderer × GBufferCache) (shader : ShaderVariation) :
    (Pass_GBuffer.bindShader st shader).1.rendererMeshesRendered
      = st.1.rendererMeshesRendered := by
  unfold Pass_GBuffer.bindShader
  simp only
  split
  · split <;> rfl
  · rfl

theorem bindMaterial_meshes (st : Renderer × GBufferCache) (material : Material) :
    (Pass_GBuffer.bindMaterial st material).1.rendererMeshesRendered
      = st.1.rendererMeshesRendered := by
  unfold Pass_GBuffer.bindMaterial
  split <;> rfl

theorem draw_meshes (r : Renderer) (actor : Actor) (renderable : Renderable)
    (shader : ShaderVariation) :
    (Pass_GBuffer.draw r actor renderable shader).rendererMeshesRendered
      = r.rendererMeshesRendered + 1 := rfl

theorem GBuffer_actorStep_issued (st : Renderer × GBufferCache) (a : Actor) :
    (st.1.issued (Pass_GBuffer.actorStep st a).1).filter
        (fun c => c.isDraw || c.isUpdatePerObjectBuffer)
      = (if a.isGBufferDrawn = true then a.objectDraw else []) ∧
    (Pass_GBuffer.actorStep st a).1.rendererMeshesRendered
      = st.1.rendererMeshesRendered + (if a.isGBufferDrawn = true then 1 else 0) := by
  unfold Pass_GBuffer.actorStep
  split
  · rename_i hr
    exact ⟨by simp [issued, Actor.isGBufferDrawn, hr], by simp [Actor.isGBufferDrawn, hr]⟩
  · rename_i renderable hr
    split
    · rename_i hm
      exact ⟨by simp [issued, Actor.isGBufferDrawn, hr, hm],
        by simp [Actor.isGBufferDrawn, hr, hm]⟩
    · rename_i material hm
      split
      · rename_i hs
        exact ⟨by simp [issued, Actor.isGBufferDrawn, hr, hm, hs],
          by simp [Actor.isGBufferDrawn, hr, hm, hs]⟩
      · rename_i shader hs
        split
        · rename_i hb
          have hd : a.isGBufferDrawn = false := by
            unfold Actor.isGBufferDrawn
            rw [hr]; simp only [hm, hs]
            cases renderable.geometryModel <;> simp [hb]
          exact ⟨by simp [issued, hd], by simp [hd]⟩
        · rename_i hb
          have hb' : shader.state = .Shader_Built := not_not.1 hb
          split
          · rename_i hg
            exact ⟨by simp [issued, Actor.isGBufferDrawn, hr, hm, hs, hg],
              by simp [Actor.isGBufferDrawn, hr, hm, hs, hg]⟩
          · rename_i model hg
            split
            · rename_i h1
              have hd : a.isGBufferDrawn = false := by
                unfold Actor.isGBufferDrawn
                rw [hr]; simp only [hm, hs, hg]
                revert h1
                cases model.hasVertexBuffer <;> cases model.hasIndexBuffer <;> simp
              exact ⟨by simp [issued, hd], by simp [hd]⟩
            · rename_i h1
              have h1' : (model.hasVertexBuffer && model.hasIndexBuffer) = true := by
                revert h1; cases model.hasVertexBuffer <;> cases model.hasIndexBuffer <;> simp
              split
              · rename_i h2
                have hf : renderable.inViewFrustrum = false := by
                  revert h2; cases renderable.inViewFrustrum <;> simp
                have hd : a.isGBufferDrawn = false := by
                  unfold Actor.isGBufferDrawn
                  rw [hr]; simp only [hm, hs, hg, hf, Bool.and_false]
                exact ⟨by simp [issued, hd], by simp [hd]⟩
              · rename_i h2
                have h2' : renderable.inViewFrustrum = true := by
                  revert h2; cases renderable.inViewFrustrum <;> simp
                have hd : a.isGBufferDrawn = true := by
                  simp [Actor.isGBufferDrawn, hr, hm, hs, hg, hb', h1', h2']
                have ho : a.objectDraw = [.UpdatePerObjectBuffer shader.Resource_GetID a.id,
                    .DrawIndexed renderable.geometryIndexCount renderable.geometryIndexOffset
                      renderable.geometryVertexOffset] := by
                  simp [Actor.objectDraw, Actor.shaderID, Actor.drawIndexed, hr, hm, hs]
                rw [hd, ho]
                refine ⟨?_, ?_⟩
                · simp only [Pass_GBuffer.bindGeometry, Pass_GBuffer.bindShader,
                    Pass_GBuffer.bindMaterial, Pass_GBuffer.draw, issued]
                  split_ifs <;>
                    simp [emit, emits, materialTextureCmds, Cmd.isDraw,
                      Cmd.isUpdatePerObjectBuffer]
                · simp only [if_true, bindGeometry_meshes, bindShader_meshes,
                    bindMaterial_meshes, emit_meshes, draw_meshes]

end Renderer

namespace Renderer

theorem GBuffer_foldl_meshes (l : List Actor) (st : Renderer × GBufferCache) :
    (l.foldl Pass_GBuffer.actorStep st).1.rendererMeshesRendered
      = st.1.rendererMeshesRendered + (l.filter Actor.isGBufferDrawn).length := by
  induction l generalizing st with
  | nil => rfl
  | cons a l ih =>
    rw [List.foldl_cons, ih, (GBuffer_actorStep_issued st a).2]
    by_cases h : a.isGBufferDrawn = true
    · simp [h]; omega
    · simp [h]

theorem filter_isDraw_of_perObject (cs : List Cmd) :
    cs.filter Cmd.isDraw
      = (cs.filter (fun c => c.isDraw || c.isUpdatePerObjectBuffer)).filter Cmd.isDraw := by
  rw [List.filter_filter]
  congr 1
  funext c
  cases c <;> rfl

theorem filter_isDraw_objectDraw (l : List Actor) :
    (l.flatMap Actor.objectDraw).filter Cmd.isDraw = l.map Actor.drawIndexed := by
  induction l with
  | nil => rfl
  | cons a l ih =>
    have h0 : Cmd.isDraw (.UpdatePerObjectBuffer a.shaderID a.id) = false := rfl
    rw [List.flatMap_cons, List.filter_append, ih]
    simp [Actor.objectDraw, List.filter_cons, h0, isDraw_drawIndexed]

/-- The commands and the counter of `Pass_GBuffer` when the device exists. -/
theorem Pass_GBuffer_log (r : Renderer) (device : RHI_Device) (hd : r.m_rhiDevice = some device) :
    (r.issued r.Pass_GBuffer).filter (fun c => c.isDraw || c.isUpdatePerObjectBuffer)
        = ((r.m_actors.at .Renderable_ObjectOpaque).filter Actor.isGBufferDrawn).flatMap
          Actor.objectDraw ∧
      r.Pass_GBuffer.rendererMeshesRendered = r.rendererMeshesRendered
        + ((r.m_actors.at .Renderable_ObjectOpaque).filter Actor.isGBufferDrawn).length := by
  unfold Pass_GBuffer
  have hd' : (r.enter .Pass_GBuffer).m_rhiDevice = some device := hd
  have ha : (r.enter .Pass_GBuffer).m_actors = r.m_actors := rfl
  simp only [hd', ha]
  cases hb : r.m_actors.at .Renderable_ObjectOpaque with
  | nil =>
    simp only [List.isEmpty_nil, if_true, List.filter_nil, List.flatMap_nil, List.length_nil]
    have h0 : r.issued ((r.enter .Pass_GBuffer).touch .Renderable_ObjectOpaque) = [] :=
      issued_self_of_log rfl
    rw [h0]
    exact ⟨rfl, rfl⟩
  | cons a l =>
    simp only [List.isEmpty_cons, Bool.false_eq_true, if_false]
    generalize hq0 : (((r.enter .Pass_GBuffer).touch .Renderable_ObjectOpaque).emits
        [.EventBegin "Pass_GBuffer",
          .GBuffer_SetAsRenderTarget,
          .SetSampler .samplerAnisotropicWrapAlways,
          .SetFillMode_Solid,
          .SetPrimitiveTopology .PrimitiveTopology_TriangleList]).SetGlobalBuffer none 0 ⟨0, 0⟩
      = q0
    have hq0log : q0.log = r.log ++ [.EventBegin "Pass_GBuffer",
          .GBuffer_SetAsRenderTarget,
          .SetSampler .samplerAnisotropicWrapAlways,
          .SetFillMode_Solid,
          .SetPrimitiveTopology .PrimitiveTopology_TriangleList,
          .UpdateGlobalBuffer none 0 ⟨0, 0⟩,
          .SetConstantBuffer .bufferGlobal 0] := by
      rw [← hq0]; simp [SetGlobalBuffer]
    have hq0m : q0.rendererMeshesRendered = r.rendererMeshesRendered := by
      rw [← hq0]; rfl
    obtain ⟨hpre, hf⟩ := foldl_issued_filter Pass_GBuffer.actorStep
      (fun c => c.isDraw || c.isUpdatePerObjectBuffer)
      (fun a => if a.isGBufferDrawn = true then a.objectDraw else [])
      (fun st a => (keeps_GBuffer_actorStep st a).1)
      (fun st a => (GBuffer_actorStep_issued st a).1) (a :: l) (q0, ⟨false, 0, 0, 0⟩)
    have hlog := log_eq_append_issued hpre
    refine ⟨?_, ?_⟩
    · rw [issued_of_log (show _ = r.log ++ ([.EventBegin "Pass_GBuffer",
          .GBuffer_SetAsRenderTarget,
          .SetSampler .samplerAnisotropicWrapAlways,
          .SetFillMode_Solid,
          .SetPrimitiveTopology .PrimitiveTopology_TriangleList,
          .UpdateGlobalBuffer none 0 ⟨0, 0⟩,
          .SetConstantBuffer .bufferGlobal 0]
            ++ q0.issued (List.foldl Pass_GBuffer.actorStep (q0, ⟨false, 0, 0, 0⟩) (a :: l)).1
            ++ [.EventEnd]) by
        rw [emit_log, hlog]
        show q0.log ++ _ ++ _ = _
        rw [hq0log]
        simp only [List.append_assoc])]
      rw [List.filter_append, List.filter_append, hf]
      have hflat : (a :: l).flatMap (fun a => if a.isGBufferDrawn = true then a.objectDraw else [])
          = ((a :: l).filter Actor.isGBufferDrawn).flatMap Actor.objectDraw := by
        generalize a :: l = xs
        induction xs with
        | nil => rfl
        | cons x xs ih =>
          rw [List.flatMap_cons, ih]
          by_cases h : x.isGBufferDrawn = true
          · simp [h]
          · simp [h]
      rw [hflat]
      simp [Cmd.isDraw, Cmd.isUpdatePerObjectBuffer]
    · show (List.foldl Pass_GBuffer.actorStep (q0, ⟨false, 0, 0, 0⟩)
        (a :: l)).1.rendererMeshesRendered = _
      rw [GBuffer_foldl_meshes, hq0m]

end Renderer

/-- C22: called with a device, `Pass_GBuffer` draws exactly the actors of the opaque bucket
that have a renderable, a material, a shader in the built state, geometry with vertex and index
buffer and lie inside the view frustum, in bucket order: the per-object buffer updates and the
draws it issues are those of these actors, one update (carrying the actor) and one indexed draw
each, every other actor contributes neither, and the rendered-mesh counter of the profiler
grows by the number of draws; for a bucket with a single such actor it grows by one. -/
theorem Pass_GBuffer_draws_valid (r : Renderer) (device : RHI_Device)
    (hd : r.m_rhiDevice = some device) :
    (r.issued r.Pass_GBuffer).filter (fun c => c.isDraw || c.isUpdatePerObjectBuffer)
        = ((r.m_actors.at .Renderable_ObjectOpaque).filter Actor.isGBufferDrawn).flatMap
          Actor.objectDraw ∧
      (r.issued r.Pass_GBuffer).filter Cmd.isDraw
        = ((r.m_actors.at .Renderable_ObjectOpaque).filter Actor.isGBufferDrawn).map
          Actor.drawIndexed ∧
      r.Pass_GBuffer.rendererMeshesRendered
        = r.rendererMeshesRendered + ((r.issued r.Pass_GBuffer).filter Cmd.isDraw).length ∧
      (∀ a : Actor, r.m_actors.at .Renderable_ObjectOpaque = [a] → a.isGBufferDrawn = true →
        r.Pass_GBuffer.rendererMeshesRendered = r.rendererMeshesRendered + 1) := by
  obtain ⟨h1, h2⟩ := Renderer.Pass_GBuffer_log r device hd
  have h3 : (r.issued r.Pass_GBuffer).filter Cmd.isDraw
      = ((r.m_actors.at .Renderable_ObjectOpaque).filter Actor.isGBufferDrawn).map
        Actor.drawIndexed := by
    rw [Renderer.filter_isDraw_of_perObject, h1, Renderer.filter_isDraw_objectDraw]
  refine ⟨h1, h3, ?_, ?_⟩
  · rw [h2, h3, List.length_map]
  · intro a ha hv
    rw [h2, ha]
    simp [hv]

theorem Pass_GBuffer_draws_valid_witness :
    (sampleOpaqueScene.issued sampleOpaqueScene.Pass_GBuffer).filter
        (fun c => c.isDraw || c.isUpdatePerObjectBuffer)
      = [.UpdatePerObjectBuffer 1 1, .DrawIndexed 36 0 0, .UpdatePerObjectBuffer 1 4,
        .DrawIndexed 36 0 0] ∧
      sampleOpaqueScene.Pass_GBuffer.rendererMeshesRendered = 2 :=
  ⟨(Pass_GBuffer_draws_valid sampleOpaqueScene ⟨true⟩ rfl).1.trans (by decide),
    by decide⟩

/-! ## Binding cache of the G-buffer pass -/

namespace Renderer

/-- One iteration of the loop of `Pass_GBuffer`: an actor that is not drawn leaves everything
as it is, an actor that is drawn appends `GBufferCache.cmds` and leaves the cache at
`GBufferCache.next`. -/
theorem GBuffer_actorStep_eq (st : Renderer × GBufferCache) (a : Actor) :
    (a.isGBufferDrawn = false → Pass_GBuffer.actorStep st a = st) ∧
    (a.isGBufferDrawn = true →
      (Pass_GBuffer.actorStep st a).1.log = st.1.log ++ st.2.cmds a ∧
      (Pass_GBuffer.actorStep st a).2 = st.2.next a) := by
  unfold Pass_GBuffer.actorStep
  split
  · rename_i hr
    exact ⟨fun _ => rfl, fun h => by simp [Actor.isGBufferDrawn, hr] at h⟩
  · rename_i renderable hr
    split
    · rename_i hm
      exact ⟨fun _ => rfl, fun h => by simp [Actor.isGBufferDrawn, hr, hm] at h⟩
    · rename_i material hm
      split
      · rename_i hs
        exact ⟨fun _ => rfl, fun h => by simp [Actor.isGBufferDrawn, hr, hm, hs] at h⟩
      · rename_i shader hs
        split
        · rename_i hb
          refine ⟨fun _ => rfl, fun h => ?_⟩
          exfalso
          unfold Actor.isGBufferDrawn at h
          rw [hr] at h; simp only [hm, hs] at h
          cases hg : renderable.geometryModel <;> simp [hg, hb] at h
        · rename_i hb
          have hb' : shader.state = .Shader_Built := not_not.1 hb
          split
          · rename_i hg
            exact ⟨fun _ => rfl,
              fun h => by simp [Actor.isGBufferDrawn, hr, hm, hs, hg] at h⟩
          · rename_i model hg
            split
            · rename_i h1
              refine ⟨fun _ => rfl, fun h => ?_⟩
              exfalso
              unfold Actor.isGBufferDrawn at h
              rw [hr] at h; simp only [hm, hs, hg] at h
              revert h1 h
              cases model.hasVertexBuffer <;> cases model.hasIndexBuffer <;> simp
            · rename_i h1
              split
              · rename_i h2
                refine ⟨fun _ => rfl, fun h => ?_⟩
                exfalso
                unfold Actor.isGBufferDrawn at h
                rw [hr] at h; simp only [hm, hs, hg] at h
                revert h2 h
                cases renderable.inViewFrustrum <;> simp
              · rename_i h2
                have e1 : a.modelID = model.Resource_GetID := by
                  simp [Actor.modelID, hr, hg]
                have e2 : a.shaderID = shader.Resource_GetID := by
                  simp [Actor.shaderID, hr, hm, hs]
                have e3 : a.materialID = material.Resource_GetID := by
                  simp [Actor.materialID, hr, hm]
                have e4 : a.cullMode = material.cullMode := by
                  simp [Actor.cullMode, hr, hm]
                have e5 : a.drawIndexed = .DrawIndexed renderable.geometryIndexCount
                    renderable.geometryIndexOffset renderable.geometryVertexOffset := by
                  simp [Actor.drawIndexed, hr]
                refine ⟨fun h => ?_, fun _ => ?_⟩
                · exfalso
                  unfold Actor.isGBufferDrawn at h
                  rw [hr] at h; simp only [hm, hs, hg] at h
                  revert h1 h2 h
                  cases model.hasVertexBuffer <;> cases model.hasIndexBuffer <;>
                    cases renderable.inViewFrustrum <;> simp [hb']
                · simp only [GBufferCache.cmds, GBufferCache.next, e1, e2, e3, e4, e5,
                    Pass_GBuffer.bindGeometry, Pass_GBuffer.bindShader,
                    Pass_GBuffer.bindMaterial, Pass_GBuffer.draw]
                  obtain ⟨q, ⟨vs, cg, cs, cm⟩⟩ := st
                  simp only
                  by_cases g1 : cg = model.Resource_GetID <;>
                    by_cases g2 : cs = shader.Resource_GetID <;>
                    by_cases g3 : cm = material.Resource_GetID <;>
                    cases vs <;>
                    simp [g1, g2, g3, emit, emits]

end Renderer

namespace Renderer

theorem GBuffer_foldl_eq (l : List Actor) (st : Renderer × GBufferCache) :
    (l.foldl Pass_GBuffer.actorStep st).1.log = st.1.log ++ st.2.run l := by
  induction l generalizing st with
  | nil => simp [GBufferCache.run]
  | cons a l ih =>
    rw [List.foldl_cons, ih]
    cases h : a.isGBufferDrawn with
    | false =>
      rw [(GBuffer_actorStep_eq st a).1 h]
      simp [GBufferCache.run, h]
    | true =>
      obtain ⟨h1, h2⟩ := (GBuffer_actorStep_eq st a).2 h
      rw [h1, h2]
      simp [GBufferCache.run, h]

/-- The commands of `Pass_GBuffer` when the device exists. -/
theorem Pass_GBuffer_issued (r : Renderer) (device : RHI_Device)
    (hd : r.m_rhiDevice = some device) :
    r.issued r.Pass_GBuffer =
      if (r.m_actors.at .Renderable_ObjectOpaque).isEmpty = true then []
      else [.EventBegin "Pass_GBuffer",
          .GBuffer_SetAsRenderTarget,
          .SetSampler .samplerAnisotropicWrapAlways,
          .SetFillMode_Solid,
          .SetPrimitiveTopology .PrimitiveTopology_TriangleList,
          .UpdateGlobalBuffer none 0 ⟨0, 0⟩,
          .SetConstantBuffer .bufferGlobal 0]
        ++ (⟨false, 0, 0, 0⟩ : GBufferCache).run (r.m_actors.at .Renderable_ObjectOpaque)
        ++ [.EventEnd] := by
  unfold Pass_GBuffer
  have hd' : (r.enter .Pass_GBuffer).m_rhiDevice = some device := hd
  have ha : (r.enter .Pass_GBuffer).m_actors = r.m_actors := rfl
  simp only [hd', ha]
  split
  · exact issued_self_of_log rfl
  · apply issued_of_log
    rw [emit_log, GBuffer_foldl_eq]
    simp [SetGlobalBuffer]

end Renderer

theorem Bindings.run_append (b : Bindings) (xs ys : List Cmd) :
    b.run (xs ++ ys) = (b.run xs).run ys := by
  unfold Bindings.run
  rw [List.foldl_append]

theorem boundAtDraws_append (b : Bindings) (xs ys : List Cmd) :
    boundAtDraws b (xs ++ ys) = boundAtDraws b xs ++ boundAtDraws (b.run xs) ys := by
  induction xs generalizing b with
  | nil => rfl
  | cons c xs ih =>
    cases hc : c.isDraw with
    | true =>
      have hs : b.step c = b := by cases c <;> first | rfl | simp [Cmd.isDraw] at hc
      simp [boundAtDraws, hc, ih, Bindings.run, hs]
    | false => simp [boundAtDraws, hc, ih, Bindings.run]

theorem boundAtDraws_of_no_draw (b : Bindings) (xs : List Cmd)
    (h : ∀ c ∈ xs, c.isDraw = false) : boundAtDraws b xs = [] := by
  induction xs generalizing b with
  | nil => rfl
  | cons c xs ih =>
    have hc : c.isDraw = false := h c (List.mem_cons_self _ _)
    simp only [boundAtDraws, hc, Bool.false_eq_true, if_false]
    exact ih _ (fun d hd => h d (List.mem_cons_of_mem _ hd))

theorem Actor.drawIndexed_eq (a : Actor) : ∃ i o v, a.drawIndexed = .DrawIndexed i o v := by
  unfold Actor.drawIndexed
  split
  · exact ⟨_, _, _, rfl⟩
  · exact ⟨_, _, _, rfl⟩

theorem Bindings.run_materialTextureCmds (b : Bindings) (id : Nat) :
    b.run (Renderer.materialTextureCmds id)
      = { b with materialTexture := fun type => some (.materialSlot id type) } := by
  obtain ⟨i, v, p, m⟩ := b
  simp only [Bindings.run, Renderer.materialTextureCmds, List.foldl_cons, List.foldl_nil,
    Bindings.step, Bindings.mk.injEq, true_and]
  funext type
  cases type <;> simp [Function.update]

theorem Bindings.run_geometry (b : Bindings) (c id : Nat)
    (h : c ≠ 0 → b.indexBuffer = some (.model c) ∧ b.vertexBuffer = some (.model c))
    (hid : id ≠ 0) :
    b.run (if c ≠ id then [.SetIndexBuffer (.model id), .SetVertexBuffer (.model id)] else [])
      = { b with indexBuffer := some (.model id), vertexBuffer := some (.model id) } := by
  obtain ⟨i, v, p, m⟩ := b
  by_cases hc : c = id
  · subst hc
    obtain ⟨h1, h2⟩ := h hid
    simp only at h1 h2
    simp [Bindings.run, h1, h2]
  · simp [Bindings.run, Bindings.step, hc]

theorem Bindings.run_shader (b : Bindings) (c id : Nat) (vs : Bool)
    (h : c ≠ 0 → b.pixelShader = some (.variation c)) (hid : id ≠ 0) :
    b.run (if c ≠ id then
        (if vs = false then [.SetVertexShader (.variation id)] else [])
          ++ [.SetPixelShader (.variation id)] else [])
      = { b with pixelShader := some (.variation id) } := by
  obtain ⟨i, v, p, m⟩ := b
  by_cases hc : c = id
  · subst hc
    have h1 := h hid
    simp only at h1
    simp [Bindings.run, h1]
  · cases vs <;> simp [Bindings.run, Bindings.step, hc]

theorem Bindings.run_material (b : Bindings) (c id : Nat)
    (h : c ≠ 0 → b.materialTexture = fun type => some (.materialSlot c type)) (hid : id ≠ 0) :
    b.run (if c ≠ id then Renderer.materialTextureCmds id else [])
      = { b with materialTexture := fun type => some (.materialSlot id type) } := by
  by_cases hc : c = id
  · subst hc
    have h1 := h hid
    obtain ⟨i, v, p, m⟩ := b
    simp only at h1
    simp [Bindings.run, h1]
  · simp only [hc, ne_eq, not_false_eq_true, if_true]
    exact Bindings.run_materialTextureCmds b id

/-- A command sequence without a draw, followed by the draw of an actor. -/
theorem bound_before_draw (b b' : Bindings) (a : Actor) (P : List Cmd)
    (hrun : b.run P = b') (hno : ∀ d ∈ P, d.isDraw = false) :
    boundAtDraws b (P ++ [a.drawIndexed]) = [b'] ∧ b.run (P ++ [a.drawIndexed]) = b' := by
  obtain ⟨i, o, v, hdraw⟩ := a.drawIndexed_eq
  rw [boundAtDraws_append b P, Bindings.run_append b P, hrun, boundAtDraws_of_no_draw b P hno,
    hdraw]
  exact ⟨rfl, rfl⟩

/-- One drawn iteration from bindings that agree with the cache: the draw happens under the
bindings of the actor, which are also the bindings afterwards. -/
theorem GBufferCache_cmds_bound (c : Renderer.GBufferCache) (a : Actor) (b : Bindings)
    (hb : b.Agrees c) (h1 : a.modelID ≠ 0) (h2 : a.shaderID ≠ 0) (h3 : a.materialID ≠ 0) :
    boundAtDraws b (c.cmds a) = [a.bindings] ∧ b.run (c.cmds a) = a.bindings := by
  have hrun : b.run ([.SetCullMode a.cullMode]
      ++ (if c.currentlyBoundGeometry ≠ a.modelID then
          [.SetIndexBuffer (.model a.modelID), .SetVertexBuffer (.model a.modelID)] else [])
      ++ (if c.currentlyBoundShader ≠ a.shaderID then
          (if c.vertexShaderBound = false then [.SetVertexShader (.variation a.shaderID)]
            else [])
            ++ [.SetPixelShader (.variation a.shaderID)] else [])
      ++ (if c.currentlyBoundMaterial ≠ a.materialID then
          Renderer.materialTextureCmds a.materialID else [])
      ++ [.UpdatePerObjectBuffer a.shaderID a.id,
        .SetConstantBuffer (.perObject a.shaderID) 1, .Bind]) = a.bindings := by
    rw [Bindings.run_append, Bindings.run_append, Bindings.run_append, Bindings.run_append]
    have e0 : b.run [.SetCullMode a.cullMode] = b := rfl
    rw [e0, Bindings.run_geometry b _ _ hb.1 h1,
      Bindings.run_shader
        { b with indexBuffer := some (.model a.modelID), vertexBuffer := some (.model a.modelID) }
        c.currentlyBoundShader a.shaderID c.vertexShaderBound hb.2.1 h2,
      Bindings.run_material
        { b with indexBuffer := some (.model a.modelID), vertexBuffer := some (.model a.modelID),
                 pixelShader := some (.variation a.shaderID) }
        c.currentlyBoundMaterial a.materialID hb.2.2 h3]
    rfl
  have hsplit : c.cmds a = ([.SetCullMode a.cullMode]
      ++ (if c.currentlyBoundGeometry ≠ a.modelID then
          [.SetIndexBuffer (.model a.modelID), .SetVertexBuffer (.model a.modelID)] else [])
      ++ (if c.currentlyBoundShader ≠ a.shaderID then
          (if c.vertexShaderBound = false then [.SetVertexShader (.variation a.shaderID)]
            else [])
            ++ [.SetPixelShader (.variation a.shaderID)] else [])
      ++ (if c.currentlyBoundMaterial ≠ a.materialID then
          Renderer.materialTextureCmds a.materialID else [])
      ++ [.UpdatePerObjectBuffer a.shaderID a.id,
        .SetConstantBuffer (.perObject a.shaderID) 1, .Bind]) ++ [a.drawIndexed] := by
    simp [Renderer.GBufferCache.cmds]
  rw [hsplit]
  apply bound_before_draw b a.bindings a _ hrun
  intro d hd
  simp only [List.mem_append, List.mem_cons, List.mem_singleton, List.not_mem_nil,
    or_false] at hd
  rcases hd with (((hd | hd) | hd) | hd) | hd
  · subst hd; rfl
  · split at hd
    · simp only [List.mem_cons, List.mem_singleton, List.not_mem_nil, or_false] at hd
      rcases hd with hd | hd <;> subst hd <;> rfl
    · exact absurd hd (List.not_mem_nil _)
  · split at hd
    · simp only [List.mem_append, List.mem_singleton] at hd
      rcases hd with hd | hd
      · split at hd
        · simp only [List.mem_singleton] at hd; subst hd; rfl
        · exact absurd hd (List.not_mem_nil _)
      · subst hd; rfl
    · exact absurd hd (List.not_mem_nil _)
  · split at hd
    · simp only [Renderer.materialTextureCmds, List.mem_cons, List.mem_singleton,
        List.not_mem_nil, or_false] at hd
      rcases hd with hd | hd | hd | hd | hd | hd | hd | hd <;> subst hd <;> rfl
    · exact absurd hd (List.not_mem_nil _)
  · rcases hd with hd | hd | hd <;> subst hd <;> rfl

theorem Actor.bindings_agrees (c : Renderer.GBufferCache) (a : Actor) :
    a.bindings.Agrees (c.next a) :=
  ⟨fun _ => ⟨rfl, rfl⟩, fun _ => rfl, fun _ => rfl⟩

/-- The cached loop draws every actor under the actor's own bindings, when the bindings it
starts from agree with the cache and no drawn actor has an identifier 0. -/
theorem GBufferCache_run_bound (l : List Actor) (c : Renderer.GBufferCache) (b : Bindings)
    (hb : b.Agrees c)
    (hnz : ∀ a ∈ l, a.isGBufferDrawn = true →
      a.modelID ≠ 0 ∧ a.shaderID ≠ 0 ∧ a.materialID ≠ 0) :
    boundAtDraws b (c.run l) = (l.filter Actor.isGBufferDrawn).map Actor.bindings := by
  induction l generalizing c b with
  | nil => rfl
  | cons a l ih =>
    cases h : a.isGBufferDrawn with
    | false =>
      simp only [Renderer.GBufferCache.run, h, Bool.false_eq_true, if_false, List.filter_cons]
      exact ih c b hb (fun x hx => hnz x (List.mem_cons_of_mem _ hx))
    | true =>
      obtain ⟨n1, n2, n3⟩ := hnz a (List.mem_cons_self _ _) h
      obtain ⟨e1, e2⟩ := GBufferCache_cmds_bound c a b hb n1 n2 n3
      simp only [Renderer.GBufferCache.run, h, if_true, List.filter_cons, List.map_cons]
      rw [boundAtDraws_append, e1, e2,
        ih (c.next a) a.bindings (a.bindings_agrees c)
          (fun x hx => hnz x (List.mem_cons_of_mem _ hx))]
      rfl

/-- The loop that rebinds before every draw draws every actor under the actor's own
bindings. -/
theorem rebindingPass_bound (l : List Actor) (b : Bindings) :
    boundAtDraws b (rebindingPass l) = (l.filter Actor.isGBufferDrawn).map Actor.bindings := by
  unfold rebindingPass
  generalize l.filter Actor.isGBufferDrawn = xs
  induction xs generalizing b with
  | nil => rfl
  | cons a xs ih =>
    have hsplit : a.rebindCmds = ([.SetCullMode a.cullMode, .SetIndexBuffer (.model a.modelID),
        .SetVertexBuffer (.model a.modelID), .SetPixelShader (.variation a.shaderID)]
        ++ Renderer.materialTextureCmds a.materialID
        ++ [.UpdatePerObjectBuffer a.shaderID a.id,
          .SetConstantBuffer (.perObject a.shaderID) 1, .Bind]) ++ [a.drawIndexed] := by
      simp [Actor.rebindCmds]
    have hrun : b.run ([.SetCullMode a.cullMode, .SetIndexBuffer (.model a.modelID),
        .SetVertexBuffer (.model a.modelID), .SetPixelShader (.variation a.shaderID)]
        ++ Renderer.materialTextureCmds a.materialID
        ++ [.UpdatePerObjectBuffer a.shaderID a.id,
          .SetConstantBuffer (.perObject a.shaderID) 1, .Bind]) = a.bindings := by
      rw [Bindings.run_append, Bindings.run_append]
      have e0 : b.run [.SetCullMode a.cullMode, .SetIndexBuffer (.model a.modelID),
          .SetVertexBuffer (.model a.modelID), .SetPixelShader (.variation a.shaderID)]
          = { b with indexBuffer := some (.model a.modelID),
                     vertexBuffer := some (.model a.modelID),
                     pixelShader := some (.variation a.shaderID) } := rfl
      rw [e0, Bindings.run_materialTextureCmds]
      rfl
    obtain ⟨e1, e2⟩ := bound_before_draw b a.bindings a _ hrun (by
      intro d hd
      simp only [Renderer.materialTextureCmds, List.mem_append, List.mem_cons,
        List.mem_singleton, List.not_mem_nil, or_false] at hd
      rcases hd with ((hd | hd | hd | hd) | (hd | hd | hd | hd | hd | hd | hd | hd)) |
        (hd | hd | hd) <;> subst hd <;> rfl)
    rw [List.flatMap_cons, boundAtDraws_append, hsplit, e1, e2, ih, List.map_cons]
    rfl

theorem GBufferCache_cmds_filter (c : Renderer.GBufferCache) (a : Actor) :
    (c.cmds a).filter Cmd.isGeometryBinding
        = (if c.currentlyBoundGeometry ≠ a.modelID then
          [.SetIndexBuffer (.model a.modelID), .SetVertexBuffer (.model a.modelID)] else []) ∧
      (c.cmds a).filter Cmd.isSetPixelShader
        = (if c.currentlyBoundShader ≠ a.shaderID then
          [.SetPixelShader (.variation a.shaderID)] else []) ∧
      (c.cmds a).filter Cmd.isSetTexture
        = (if c.currentlyBoundMaterial ≠ a.materialID then
          Renderer.materialTextureCmds a.materialID else []) := by
  obtain ⟨i, o, v, hdraw⟩ := a.drawIndexed_eq
  unfold Renderer.GBufferCache.cmds
  rw [hdraw]
  refine ⟨?_, ?_, ?_⟩
  · by_cases h1 : c.currentlyBoundGeometry = a.modelID <;>
      by_cases h2 : c.currentlyBoundShader = a.shaderID <;>
      by_cases h3 : c.currentlyBoundMaterial = a.materialID <;>
      cases c.vertexShaderBound <;>
      simp [h1, h2, h3, Renderer.materialTextureCmds, Cmd.isGeometryBinding]
  · by_cases h1 : c.currentlyBoundGeometry = a.modelID <;>
      by_cases h2 : c.currentlyBoundShader = a.shaderID <;>
      by_cases h3 : c.currentlyBoundMaterial = a.materialID <;>
      cases c.vertexShaderBound <;>
      simp [h1, h2, h3, Renderer.materialTextureCmds, Cmd.isSetPixelShader]
  · by_cases h1 : c.currentlyBoundGeometry = a.modelID <;>
      by_cases h2 : c.currentlyBoundShader = a.shaderID <;>
      by_cases h3 : c.currentlyBoundMaterial = a.materialID <;>
      cases c.vertexShaderBound <;>
      simp [h1, h2, h3, Renderer.materialTextureCmds, Cmd.isSetTexture]

/-- The bindings the cached loop issues: for each kind, one binding for every drawn actor whose
identifier differs from the identifier cached before it. -/
theorem GBufferCache_run_reissued (l : List Actor) (c : Renderer.GBufferCache) :
    (c.run l).filter Cmd.isGeometryBinding
        = (reissuedFrom c.currentlyBoundGeometry
            ((l.filter Actor.isGBufferDrawn).map Actor.modelID)).flatMap
          (fun id => [.SetIndexBuffer (.model id), .SetVertexBuffer (.model id)]) ∧
      (c.run l).filter Cmd.isSetPixelShader
        = (reissuedFrom c.currentlyBoundShader
            ((l.filter Actor.isGBufferDrawn).map Actor.shaderID)).map
          (fun id => .SetPixelShader (.variation id)) ∧
      (c.run l).filter Cmd.isSetTexture
        = (reissuedFrom c.currentlyBoundMaterial
            ((l.filter Actor.isGBufferDrawn).map Actor.materialID)).flatMap
          Renderer.materialTextureCmds := by
  induction l generalizing c with
  | nil => exact ⟨rfl, rfl, rfl⟩
  | cons a l ih =>
    cases h : a.isGBufferDrawn with
    | false =>
      simp only [Renderer.GBufferCache.run, h, Bool.false_eq_true, if_false, List.filter_cons]
      exact ih c
    | true =>
      obtain ⟨f1, f2, f3⟩ := GBufferCache_cmds_filter c a
      obtain ⟨i1, i2, i3⟩ := ih (c.next a)
      simp only [Renderer.GBufferCache.run, h, if_true, List.filter_cons, List.map_cons,
        List.filter_append, f1, f2, f3, i1, i2, i3, reissuedFrom]
      have n1 : (c.next a).currentlyBoundGeometry = a.modelID := rfl
      have n2 : (c.next a).currentlyBoundShader = a.shaderID := rfl
      have n3 : (c.next a).currentlyBoundMaterial = a.materialID := rfl
      rw [n1, n2, n3]
      refine ⟨?_, ?_, ?_⟩
      · by_cases e : c.currentlyBoundGeometry = a.modelID
        · simp [e]
        · simp [e]
      · by_cases e : c.currentlyBoundShader = a.shaderID
        · simp [e]
        · simp [e]
      · by_cases e : c.currentlyBoundMaterial = a.materialID
        · simp [e]
        · simp [e]

theorem Bindings.run_geometry_kept (b : Bindings) (cs : List Cmd)
    (h : ∀ c ∈ cs, c.isGeometryBinding = false) :
    (b.run cs).indexBuffer = b.indexBuffer ∧ (b.run cs).vertexBuffer = b.vertexBuffer := by
  induction cs generalizing b with
  | nil => exact ⟨rfl, rfl⟩
  | cons c cs ih =>
    have hc := h c (List.mem_cons_self _ _)
    have hstep : (b.step c).indexBuffer = b.indexBuffer ∧
        (b.step c).vertexBuffer = b.vertexBuffer := by
      cases c with
      | SetIndexBuffer g => exact absurd hc (by simp [Cmd.isGeometryBinding])
      | SetVertexBuffer g => exact absurd hc (by simp [Cmd.isGeometryBinding])
      | SetTexture t => cases t <;> exact ⟨rfl, rfl⟩
      | _ => exact ⟨rfl, rfl⟩
    obtain ⟨i1, i2⟩ := ih (b.step c) (fun d hd => h d (List.mem_cons_of_mem _ hd))
    exact ⟨i1.trans hstep.1, i2.trans hstep.2⟩

/-- One drawn iteration of the loop of `Pass_GBuffer` holds exactly one draw, its last
command. -/
theorem GBufferCache_cmds_single (c : Renderer.GBufferCache) (a : Actor) (b : Bindings) :
    boundAtDraws b (c.cmds a) = [b.run (c.cmds a)] := by
  have hsplit : c.cmds a = ([.SetCullMode a.cullMode]
      ++ (if c.currentlyBoundGeometry ≠ a.modelID then
          [.SetIndexBuffer (.model a.modelID), .SetVertexBuffer (.model a.modelID)] else [])
      ++ (if c.currentlyBoundShader ≠ a.shaderID then
          (if c.vertexShaderBound = false then [.SetVertexShader (.variation a.shaderID)]
            else [])
            ++ [.SetPixelShader (.variation a.shaderID)] else [])
      ++ (if c.currentlyBoundMaterial ≠ a.materialID then
          Renderer.materialTextureCmds a.materialID else [])
      ++ [.UpdatePerObjectBuffer a.shaderID a.id,
        .SetConstantBuffer (.perObject a.shaderID) 1, .Bind]) ++ [a.drawIndexed] := by
    simp [Renderer.GBufferCache.cmds]
  rw [hsplit]
  obtain ⟨e1, e2⟩ := bound_before_draw b
    (b.run ([.SetCullMode a.cullMode]
      ++ (if c.currentlyBoundGeometry ≠ a.modelID then
          [.SetIndexBuffer (.model a.modelID), .SetVertexBuffer (.model a.modelID)] else [])
      ++ (if c.currentlyBoundShader ≠ a.shaderID then
          (if c.vertexShaderBound = false then [.SetVertexShader (.variation a.shaderID)]
            else [])
            ++ [.SetPixelShader (.variation a.shaderID)] else [])
      ++ (if c.currentlyBoundMaterial ≠ a.materialID then
          Renderer.materialTextureCmds a.materialID else [])
      ++ [.UpdatePerObjectBuffer a.shaderID a.id,
        .SetConstantBuffer (.perObject a.shaderID) 1, .Bind])) a _ rfl (by
    intro d hd
    simp only [List.mem_append, List.mem_cons, List.mem_singleton, List.not_mem_nil,
      or_false] at hd
    rcases hd with (((hd | hd) | hd) | hd) | hd
    · subst hd; rfl
    · split at hd
      · simp only [List.mem_cons, List.mem_singleton, List.not_mem_nil, or_false] at hd
        rcases hd with hd | hd <;> subst hd <;> rfl
      · exact absurd hd (List.not_mem_nil _)
    · split at hd
      · simp only [List.mem_append, List.mem_singleton] at hd
        rcases hd with hd | hd
        · split at hd
          · simp only [List.mem_singleton] at hd; subst hd; rfl
          · exact absurd hd (List.not_mem_nil _)
        · subst hd; rfl
      · exact absurd hd (List.not_mem_nil _)
    · split at hd
      · simp only [Renderer.materialTextureCmds, List.mem_cons, List.mem_singleton,
          List.not_mem_nil, or_false] at hd
        rcases hd with hd | hd | hd | hd | hd | hd | hd | hd <;> subst hd <;> rfl
      · exact absurd hd (List.not_mem_nil _)
    · rcases hd with hd | hd | hd <;> subst hd <;> rfl)
  rw [e1, e2]

theorem GBufferCache_run_skip (c : Renderer.GBufferCache) (pre l : List Actor)
    (h : ∀ x ∈ pre, x.isGBufferDrawn = false) : c.run (pre ++ l) = c.run l := by
  induction pre with
  | nil => rfl
  | cons x pre ih =>
    have hx := h x (List.mem_cons_self _ _)
    simp only [List.cons_append, Renderer.GBufferCache.run, hx, Bool.false_eq_true, if_false]
    exact ih (fun y hy => h y (List.mem_cons_of_mem _ hy))

/-- C23, the failing input in general: when the first actor `Pass_GBuffer` draws has a geometry
model with the resource identifier 0, the pass issues no binding of an index or vertex buffer
for it (`currentlyBoundGeometry` starts at 0 and the model passes for bound), so its draw, the
first of the pass, happens with the index and vertex buffer that were in force before the pass,
whatever they are; a pass that rebinds before every draw has the buffers of the model in
force. -/
theorem Pass_GBuffer_skips_identifier_zero (r : Renderer) (device : RHI_Device)
    (hd : r.m_rhiDevice = some device) (skipped : List Actor) (a : Actor) (rest : List Actor)
    (hb : r.m_actors.at .Renderable_ObjectOpaque = skipped ++ a :: rest)
    (hs : ∀ x ∈ skipped, x.isGBufferDrawn = false) (ha : a.isGBufferDrawn = true)
    (h0 : a.modelID = 0) (b : Bindings) :
    (∃ first others, boundAtDraws b (r.issued r.Pass_GBuffer) = first :: others ∧
      first.indexBuffer = b.indexBuffer ∧ first.vertexBuffer = b.vertexBuffer) ∧
    ∃ first others,
      boundAtDraws b (rebindingPass (r.m_actors.at .Renderable_ObjectOpaque)) = first :: others ∧
      first.indexBuffer = some (.model 0) ∧ first.vertexBuffer = some (.model 0) := by
  have hiss := Renderer.Pass_GBuffer_issued r device hd
  have hne : (r.m_actors.at .Renderable_ObjectOpaque).isEmpty = false := by
    rw [hb]; cases skipped <;> rfl
  rw [hne] at hiss
  simp only [Bool.false_eq_true, if_false] at hiss
  have hrun : (⟨false, 0, 0, 0⟩ : Renderer.GBufferCache).run
      (r.m_actors.at .Renderable_ObjectOpaque)
      = (⟨false, 0, 0, 0⟩ : Renderer.GBufferCache).cmds a
        ++ ((⟨false, 0, 0, 0⟩ : Renderer.GBufferCache).next a).run rest := by
    rw [hb, GBufferCache_run_skip _ _ _ hs]
    simp [Renderer.GBufferCache.run, ha]
  rw [hrun] at hiss
  have hgeo : ((⟨false, 0, 0, 0⟩ : Renderer.GBufferCache).cmds a).filter Cmd.isGeometryBinding
      = [] := by
    rw [(GBufferCache_cmds_filter _ a).1]
    simp [h0]
  refine ⟨?_, ?_⟩
  · have e0 : boundAtDraws b [.EventBegin "Pass_GBuffer",
        .GBuffer_SetAsRenderTarget,
        .SetSampler .samplerAnisotropicWrapAlways,
        .SetFillMode_Solid,
        .SetPrimitiveTopology .PrimitiveTopology_TriangleList,
        .UpdateGlobalBuffer none 0 ⟨0, 0⟩,
        .SetConstantBuffer .bufferGlobal 0] = [] := rfl
    have e1 : b.run [.EventBegin "Pass_GBuffer",
        .GBuffer_SetAsRenderTarget,
        .SetSampler .samplerAnisotropicWrapAlways,
        .SetFillMode_Solid,
        .SetPrimitiveTopology .PrimitiveTopology_TriangleList,
        .UpdateGlobalBuffer none 0 ⟨0, 0⟩,
        .SetConstantBuffer .bufferGlobal 0] = b := rfl
    have hkept := Bindings.run_geometry_kept b
      ((⟨false, 0, 0, 0⟩ : Renderer.GBufferCache).cmds a)
      (fun c hc => by
        have := List.filter_eq_nil_iff.1 hgeo c hc
        simpa using this)
    rw [hiss, boundAtDraws_append, boundAtDraws_append, boundAtDraws_append, e0, e1,
      GBufferCache_cmds_single, List.nil_append, List.singleton_append, List.cons_append]
    exact ⟨_, _, rfl, hkept.1, hkept.2⟩
  · rw [rebindingPass_bound, hb]
    have hf : (skipped ++ a :: rest).filter Actor.isGBufferDrawn
        = a :: rest.filter Actor.isGBufferDrawn := by
      rw [List.filter_append, List.filter_eq_nil_iff.2 (fun x hx => by simp [hs x hx])]
      simp [List.filter_cons, ha]
    rw [hf]
    exact ⟨_, _, rfl, by simp [Actor.bindings, h0], by simp [Actor.bindings, h0]⟩

theorem Pass_GBuffer_skips_identifier_zero_witness :
    (Renderables_Acquire insertionSort sampleRenderer sampleZeroModelSnapshot).map
        (fun r => (r.m_actors, r.m_camera))
      = some (sampleZeroModel.m_actors, sampleZeroModel.m_camera) ∧
      (sampleZeroModel.m_actors.at .Renderable_ObjectOpaque).map
          (fun a => (a.isGBufferDrawn, a.modelID)) = [(true, 0)] ∧
      (∃ first others,
        boundAtDraws Bindings.unbound (sampleZeroModel.issued sampleZeroModel.Pass_GBuffer)
          = first :: others ∧
        first.indexBuffer = none ∧ first.vertexBuffer = none) ∧
      (sampleZeroModel.issued sampleZeroModel.Pass_GBuffer).filter Cmd.isDraw
        = [.DrawIndexed 36 0 0] ∧
      (sampleZeroModel.issued sampleZeroModel.Pass_GBuffer).filter Cmd.isGeometryBinding
        = [] ∧
      (boundAtDraws Bindings.unbound
          (rebindingPass (sampleZeroModel.m_actors.at .Renderable_ObjectOpaque))).map
        (fun b => (b.indexBuffer, b.vertexBuffer)) = [(some (.model 0), some (.model 0))] ∧
      (boundAtDraws Bindings.unbound (sampleZeroModel.issued sampleZeroModel.Render)).head?.map
        (fun b => (b.indexBuffer, b.vertexBuffer)) = some (none, none) :=
  ⟨by decide, by decide,
    (Pass_GBuffer_skips_identifier_zero sampleZeroModel ⟨true⟩ rfl [] (sampleObject 1 0 1 1 1)
      [] rfl (fun _ hx => absurd hx (List.not_mem_nil _)) (by decide) (by decide)
      Bindings.unbound).1,
    by decide, by decide, by decide, by decide⟩

/-- Where the binding cache of `Pass_GBuffer` does work: for every opaque bucket whose drawn
actors have non-zero model, shader and material identifiers, and whatever is bound when the pass
starts, at each draw the bound index and vertex buffer, pixel shader and material textures are
those the identifiers of the drawn actor designate, as in a pass that rebinds all of them before
every draw.  The pass issues a binding of a kind exactly for the drawn actors whose identifier
of that kind differs from the one of the draw before (from 0 at the first draw). -/
theorem Pass_GBuffer_cache_transparent (r : Renderer) (device : RHI_Device)
    (hd : r.m_rhiDevice = some device)
    (hnz : ∀ a ∈ r.m_actors.at .Renderable_ObjectOpaque, a.isGBufferDrawn = true →
      a.modelID ≠ 0 ∧ a.shaderID ≠ 0 ∧ a.materialID ≠ 0)
    (b : Bindings) :
    boundAtDraws b (r.issued r.Pass_GBuffer)
        = ((r.m_actors.at .Renderable_ObjectOpaque).filter Actor.isGBufferDrawn).map
          Actor.bindings ∧
      boundAtDraws b (r.issued r.Pass_GBuffer)
        = boundAtDraws b (rebindingPass (r.m_actors.at .Renderable_ObjectOpaque)) ∧
      (r.issued r.Pass_GBuffer).filter Cmd.isGeometryBinding
        = (reissuedFrom 0 (((r.m_actors.at .Renderable_ObjectOpaque).filter
            Actor.isGBufferDrawn).map Actor.modelID)).flatMap
          (fun id => [.SetIndexBuffer (.model id), .SetVertexBuffer (.model id)]) ∧
      (r.issued r.Pass_GBuffer).filter Cmd.isSetPixelShader
        = (reissuedFrom 0 (((r.m_actors.at .Renderable_ObjectOpaque).filter
            Actor.isGBufferDrawn).map Actor.shaderID)).map
          (fun id => .SetPixelShader (.variation id)) ∧
      (r.issued r.Pass_GBuffer).filter Cmd.isSetTexture
        = (reissuedFrom 0 (((r.m_actors.at .Renderable_ObjectOpaque).filter
            Actor.isGBufferDrawn).map Actor.materialID)).flatMap
          Renderer.materialTextureCmds := by
  have hiss := Renderer.Pass_GBuffer_issued r device hd
  have hagree : b.Agrees ⟨false, 0, 0, 0⟩ :=
    ⟨fun h => absurd rfl h, fun h => absurd rfl h, fun h => absurd rfl h⟩
  have hbound := GBufferCache_run_bound (r.m_actors.at .Renderable_ObjectOpaque)
    ⟨false, 0, 0, 0⟩ b hagree hnz
  obtain ⟨g1, g2, g3⟩ := GBufferCache_run_reissued (r.m_actors.at .Renderable_ObjectOpaque)
    ⟨false, 0, 0, 0⟩
  have hmain : boundAtDraws b (r.issued r.Pass_GBuffer)
      = ((r.m_actors.at .Renderable_ObjectOpaque).filter Actor.isGBufferDrawn).map
        Actor.bindings := by
    rw [hiss]
    split
    · rename_i he
      rw [List.isEmpty_iff.1 he]
      rfl
    · rw [boundAtDraws_append, boundAtDraws_append]
      have e0 : b.run [.EventBegin "Pass_GBuffer",
          .GBuffer_SetAsRenderTarget,
          .SetSampler .samplerAnisotropicWrapAlways,
          .SetFillMode_Solid,
          .SetPrimitiveTopology .PrimitiveTopology_TriangleList,
          .UpdateGlobalBuffer none 0 ⟨0, 0⟩,
          .SetConstantBuffer .bufferGlobal 0] = b := rfl
      rw [e0, hbound]
      simp [boundAtDraws, Cmd.isDraw]
  refine ⟨hmain, ?_, ?_, ?_, ?_⟩
  · rw [hmain, rebindingPass_bound]
  · rw [hiss]
    split
    · rename_i he
      rw [List.isEmpty_iff.1 he]
      rfl
    · rw [List.filter_append, List.filter_append, g1]
      simp [Cmd.isGeometryBinding]
  · rw [hiss]
    split
    · rename_i he
      rw [List.isEmpty_iff.1 he]
      rfl
    · rw [List.filter_append, List.filter_append, g2]
      simp [Cmd.isSetPixelShader]
  · rw [hiss]
    split
    · rename_i he
      rw [List.isEmpty_iff.1 he]
      rfl
    · rw [List.filter_append, List.filter_append, g3]
      simp [Cmd.isSetTexture]

theorem Pass_GBuffer_cache_transparent_witness :
    (boundAtDraws Bindings.unbound
        (sampleSortedScene.issued sampleSortedScene.Pass_GBuffer)).map Bindings.vertexBuffer
      = [some (.model 7), some (.model 7), some (.model 8), some (.model 8)] ∧
    (sampleSortedScene.issued sampleSortedScene.Pass_GBuffer).filter Cmd.isGeometryBinding
      = [.SetIndexBuffer (.model 7), .SetVertexBuffer (.model 7), .SetIndexBuffer (.model 8),
        .SetVertexBuffer (.model 8)] ∧
    (sampleSortedScene.issued sampleSortedScene.Pass_GBuffer).filter Cmd.isSetPixelShader
      = [.SetPixelShader (.variation 1), .SetPixelShader (.variation 2)] :=
  ⟨(congrArg (List.map Bindings.vertexBuffer)
      (Pass_GBuffer_cache_transparent sampleSortedScene ⟨true⟩ rfl (by decide)
        Bindings.unbound).1).trans (by decide),
    (Pass_GBuffer_cache_transparent sampleSortedScene ⟨true⟩ rfl (by decide)
      Bindings.unbound).2.2.1.trans (by decide),
    (Pass_GBuffer_cache_transparent sampleSortedScene ⟨true⟩ rfl (by decide)
      Bindings.unbound).2.2.2.1.trans (by decide)⟩

/-! ## Shadow depth pass -/

namespace Renderer

end Renderer

namespace Renderer

end Renderer

theorem PipelineView.run_concat (v : PipelineView) (xs ys : List Cmd) :
    v.run (xs ++ ys) = (v.run xs).run ys := by
  unfold PipelineView.run
  rw [List.foldl_append]

theorem AllAdmit.concat {P : PipelineView → Cmd → Prop} {v : PipelineView} {xs ys : List Cmd}
    (hx : AllAdmit P v xs) (hy : AllAdmit P (v.run xs) ys) : AllAdmit P v (xs ++ ys) := by
  induction xs generalizing v with
  | nil => exact hy
  | cons c xs ih => exact ⟨hx.1, ih hx.2 hy⟩

theorem AllAdmit.split {P : PipelineView → Cmd → Prop} {v : PipelineView} {xs : List Cmd}
    {c : Cmd} {ys : List Cmd} (h : AllAdmit P v (xs ++ c :: ys)) : P (v.run xs) c := by
  induction xs generalizing v with
  | nil => exact h.1
  | cons d xs ih => exact ih h.2

theorem blendAfter_append (b : Bool) (xs ys : List Cmd) :
    blendAfter b (xs ++ ys) = blendAfter (blendAfter b xs) ys := by
  unfold blendAfter
  rw [List.foldl_append]

theorem eventsAfter_append (es : List String) (xs ys : List Cmd) :
    eventsAfter es (xs ++ ys) = eventsAfter (eventsAfter es xs) ys := by
  unfold eventsAfter
  rw [List.foldl_append]

theorem PipelineView.run_blend (v : PipelineView) (cs : List Cmd) :
    (v.run cs).blend = blendAfter v.blend cs := by
  induction cs generalizing v with
  | nil => rfl
  | cons c cs ih =>
    have h := ih (v.step c)
    unfold PipelineView.run blendAfter at h ⊢
    rw [List.foldl_cons, List.foldl_cons, h]
    cases c <;> rfl

theorem PipelineView.run_events (v : PipelineView) (cs : List Cmd) :
    (v.run cs).events = eventsAfter v.events cs := by
  induction cs generalizing v with
  | nil => rfl
  | cons c cs ih =>
    have h := ih (v.step c)
    unfold PipelineView.run eventsAfter at h ⊢
    rw [List.foldl_cons, List.foldl_cons, h]
    cases c <;> rfl

theorem targetAfter_append (tg : Option RenderTargetRef) (xs ys : List Cmd) :
    targetAfter tg (xs ++ ys) = targetAfter (targetAfter tg xs) ys := by
  unfold targetAfter
  rw [List.foldl_append]

theorem pendingAfter_append (tx : List TextureRef) (xs ys : List Cmd) :
    pendingAfter tx (xs ++ ys) = pendingAfter (pendingAfter tx xs) ys := by
  unfold pendingAfter
  rw [List.foldl_append]

theorem blendOk_append (b : Bool) (es : List String) (xs ys : List Cmd) :
    blendOk b es (xs ++ ys)
      = (blendOk b es xs && blendOk (blendAfter b xs) (eventsAfter es xs) ys) := by
  induction xs generalizing b es with
  | nil => simp [blendOk, blendAfter, eventsAfter]
  | cons c xs ih =>
    cases c <;> simp [blendOk, blendAfter, eventsAfter, ih, Bool.and_assoc]

theorem targetOk_append (tg : Option RenderTargetRef) (tx : List TextureRef)
    (xs ys : List Cmd) :
    targetOk tg tx (xs ++ ys)
      ↔ targetOk tg tx xs ∧ targetOk (targetAfter tg xs) (pendingAfter tx xs) ys := by
  induction xs generalizing tg tx with
  | nil => simp [targetOk, targetAfter, pendingAfter]
  | cons c xs ih =>
    cases c <;> simp [targetOk, targetAfter, pendingAfter, ih, and_assoc]

theorem PipelineView.run_target (v : PipelineView) (cs : List Cmd) :
    (v.run cs).target = targetAfter v.target cs := by
  induction cs generalizing v with
  | nil => rfl
  | cons c cs ih =>
    have h := ih (v.step c)
    unfold PipelineView.run targetAfter at h ⊢
    rw [List.foldl_cons, List.foldl_cons, h]
    cases c <;> rfl

theorem PipelineView.run_textures (v : PipelineView) (cs : List Cmd) :
    (v.run cs).textures = pendingAfter v.textures cs := by
  induction cs generalizing v with
  | nil => rfl
  | cons c cs ih =>
    have h := ih (v.step c)
    unfold PipelineView.run pendingAfter at h ⊢
    rw [List.foldl_cons, List.foldl_cons, h]
    cases c <;> rfl

/-- The evaluated blending discipline is the discipline of every command in its view. -/
theorem AllAdmit.of_blendOk (v : PipelineView) (cs : List Cmd)
    (h : blendOk v.blend v.events cs = true) : AllAdmit PipelineView.BlendAdmits v cs := by
  induction cs generalizing v with
  | nil => trivial
  | cons c cs ih =>
    cases c with
    | Set_AlphaBlendingEnabled enable =>
      simp only [blendOk, Bool.and_eq_true, Bool.or_eq_true, Bool.not_eq_true'] at h
      refine ⟨⟨fun he => ?_, fun hd => by simp [Cmd.isDraw] at hd⟩, ih _ h.2⟩
      have : enable = true := by injection he
      rcases h.1 with h1 | h1
      · rw [this] at h1; exact absurd h1 (by decide)
      · exact h1
    | DrawIndexed i o vo =>
      simp only [blendOk, Bool.and_eq_true, Bool.or_eq_true, Bool.not_eq_true'] at h
      refine ⟨⟨fun he => by simp at he, fun _ hb => ?_⟩, ih _ h.2⟩
      rcases h.1 with h1 | h1
      · rw [hb] at h1; exact absurd h1 (by decide)
      · exact h1
    | Draw n =>
      simp only [blendOk, Bool.and_eq_true, Bool.or_eq_true, Bool.not_eq_true'] at h
      refine ⟨⟨fun he => by simp at he, fun _ hb => ?_⟩, ih _ h.2⟩
      rcases h.1 with h1 | h1
      · rw [hb] at h1; exact absurd h1 (by decide)
      · exact h1
    | EventBegin name =>
      exact ⟨⟨fun he => by simp at he, fun hd => by simp [Cmd.isDraw] at hd⟩, ih _ h⟩
    | EventEnd =>
      exact ⟨⟨fun he => by simp at he, fun hd => by simp [Cmd.isDraw] at hd⟩, ih _ h⟩
    | _ =>
      exact ⟨⟨fun he => by simp at he, fun hd => by simp [Cmd.isDraw] at hd⟩, ih _ h⟩

/-- The target discipline of a sequence is the discipline of every command in its view. -/
theorem AllAdmit.of_targetOk (v : PipelineView) (cs : List Cmd)
    (h : targetOk v.target v.textures cs) : AllAdmit PipelineView.TargetAdmits v cs := by
  induction cs generalizing v with
  | nil => trivial
  | cons c cs ih =>
    cases c with
    | DrawIndexed i o vo => exact ⟨fun _ => h.1, ih _ h.2⟩
    | Draw n => exact ⟨fun _ => h.1, ih _ h.2⟩
    | SetRenderTarget t d cl => exact ⟨fun hd => by simp [Cmd.isDraw] at hd, ih _ h⟩
    | GBuffer_SetAsRenderTarget => exact ⟨fun hd => by simp [Cmd.isDraw] at hd, ih _ h⟩
    | SetTexture t => exact ⟨fun hd => by simp [Cmd.isDraw] at hd, ih _ h⟩
    | _ => exact ⟨fun hd => by simp [Cmd.isDraw] at hd, ih _ h⟩

namespace Renderer

theorem PoolPerm.identity (r : Renderer) : r.PoolPerm r := ⟨Equiv.refl _, fun _ => rfl⟩

theorem PoolPerm.chain {r₁ r₂ r₃ : Renderer} (h₁ : r₁.PoolPerm r₂) (h₂ : r₂.PoolPerm r₃) :
    r₁.PoolPerm r₃ := by
  obtain ⟨σ, hσ⟩ := h₁
  obtain ⟨τ, hτ⟩ := h₂
  exact ⟨τ.trans σ, fun s => by rw [hτ, hσ]; rfl⟩

theorem PoolPerm.of_tex {r r' : Renderer} (h : ∀ s, r'.tex s = r.tex s) : r.PoolPerm r' :=
  ⟨Equiv.refl _, h⟩

theorem PoolPerm.distinct {r r' : Renderer} (h : r.PoolPerm r') (hd : r.PoolDistinct) :
    r'.PoolDistinct := by
  obtain ⟨σ, hσ⟩ := h
  intro a b hab
  rw [hσ, hσ] at hab
  exact σ.injective (hd hab)

theorem PoolPerm.swap (r : Renderer) (a b : TexSlot) : r.PoolPerm (r.swapTex a b) := by
  refine ⟨Equiv.swap a b, fun s => ?_⟩
  rw [tex_swapTex, Equiv.swap_apply_def]
  by_cases hb : s = b
  · subst hb
    by_cases ha : s = a
    · subst ha; simp
    · simp [ha]
  · by_cases ha : s = a
    · subst ha; simp [hb]
    · simp [ha, hb]

theorem Sound.idle (r : Renderer) (b : Bool) (es : List String) : Sound r r b es b es := by
  have h : r.issued r = [] := issued_self_of_log rfl
  rw [Sound, h]
  exact ⟨List.prefix_refl _, PoolPerm.identity r, rfl, rfl, rfl, fun _ _ _ hc => ⟨trivial, hc⟩⟩

theorem Sound.seq {r₁ r₂ r₃ : Renderer} {b b' b'' : Bool} {es es' es'' : List String}
    (h₁ : Sound r₁ r₂ b es b' es') (h₂ : Sound r₂ r₃ b' es' b'' es'') :
    Sound r₁ r₃ b es b'' es'' := by
  obtain ⟨p₁, q₁, hb₁, he₁, k₁, t₁⟩ := h₁
  obtain ⟨p₂, q₂, hb₂, he₂, k₂, t₂⟩ := h₂
  have hiss := issued_append p₁ p₂
  refine ⟨p₁.trans p₂, q₁.chain q₂, ?_, ?_, ?_, fun hd tg tx hc => ?_⟩
  · rw [hiss, blendAfter_append, ← hb₁, ← hb₂]
  · rw [hiss, eventsAfter_append, ← he₁, ← he₂]
  · rw [hiss, blendOk_append, ← hb₁, ← he₁, k₁, k₂]
    rfl
  · obtain ⟨u₁, c₁⟩ := t₁ hd tg tx hc
    obtain ⟨u₂, c₂⟩ := t₂ (q₁.distinct hd) (targetAfter tg (r₁.issued r₂)) _ c₁
    rw [hiss, targetOk_append, pendingAfter_append]
    exact ⟨⟨u₁, u₂⟩, c₂⟩

/-- Composition in which the indices at the junction are equated by proof. -/
theorem Sound.via {r₁ r₂ r₃ : Renderer} {b b' c b'' : Bool} {es es' fs es'' : List String}
    (h₁ : Sound r₁ r₂ b es b' es') (hb : b' = c) (he : es' = fs)
    (h₂ : Sound r₂ r₃ c fs b'' es'') : Sound r₁ r₃ b es b'' es'' := by
  subst hb he
  exact h₁.seq h₂

/-- Replaces the indices at the exit by equal ones. -/
theorem Sound.exit {r r' : Renderer} {b b' b'' : Bool} {es es' es'' : List String}
    (h : Sound r r' b es b' es') (hb : b' = b'') (he : es' = es'') :
    Sound r r' b es b'' es'' := by
  subst hb he
  exact h

/-- A step that appends nothing to the log and leaves the pooled members alone. -/
theorem Sound.of_same_log {r r' : Renderer} (hl : r'.log = r.log) (ht : ∀ s, r'.tex s = r.tex s)
    (b : Bool) (es : List String) : Sound r r' b es b es := by
  have h : r.issued r' = [] := issued_self_of_log hl
  rw [Sound, h]
  exact ⟨by rw [hl], PoolPerm.of_tex ht, rfl, rfl, rfl, fun _ _ _ hc => ⟨trivial, hc⟩⟩

theorem sound_enter (r : Renderer) (p : PassName) (b : Bool) (es : List String) :
    Sound r (r.enter p) b es b es :=
  Sound.of_same_log rfl (fun s => enter_tex r p s) b es

theorem sound_touch (r : Renderer) (k : RenderableType) (b : Bool) (es : List String) :
    Sound r (r.touch k) b es b es :=
  Sound.of_same_log rfl (fun s => touch_tex r k s) b es

theorem sound_swapTex (r : Renderer) (x y : TexSlot) (b : Bool) (es : List String) :
    Sound r (r.swapTex x y) b es b es := by
  have h : r.issued (r.swapTex x y) = [] := issued_self_of_log (swapTex_log r x y)
  rw [Sound, h]
  exact ⟨by rw [swapTex_log], PoolPerm.swap r x y, rfl, rfl, rfl,
    fun _ _ _ hc => ⟨trivial, hc⟩⟩

/-- Commands appended in one piece: the obligations are those of the piece. -/
theorem sound_emits (r : Renderer) (cs : List Cmd) (b : Bool) (es : List String)
    (hb : blendOk b es cs = true)
    (ht : (∀ x y : TexSlot, r.tex x = r.tex y ↔ x = y) →
      ∀ (target : Option RenderTargetRef) (textures : List TextureRef),
        (∀ t, TextureRef.renderTexture t ∉ textures) →
          targetOk target textures cs ∧
          ∀ t, TextureRef.renderTexture t ∉ pendingAfter textures cs) :
    Sound r (r.emits cs) b es (blendAfter b cs) (eventsAfter es cs) := by
  have hi : r.issued (r.emits cs) = cs := issued_of_log rfl
  rw [Sound, hi]
  exact ⟨List.prefix_append _ _, PoolPerm.of_tex (fun s => emits_tex r cs s), rfl, rfl, hb,
    fun hd => ht (fun x y => hd.eq_iff)⟩

theorem sound_emit (r : Renderer) (c : Cmd) (b : Bool) (es : List String)
    (hb : blendOk b es [c] = true)
    (ht : (∀ x y : TexSlot, r.tex x = r.tex y ↔ x = y) →
      ∀ (target : Option RenderTargetRef) (textures : List TextureRef),
        (∀ t, TextureRef.renderTexture t ∉ textures) →
          targetOk target textures [c] ∧
          ∀ t, TextureRef.renderTexture t ∉ pendingAfter textures [c]) :
    Sound r (r.emit c) b es (blendAfter b [c]) (eventsAfter es [c]) :=
  sound_emits r [c] b es hb ht

theorem sound_SetGlobalBuffer (r : Renderer) (res : Option (Nat × Nat)) (sigma : ℚ)
    (dir : Vector2) (b : Bool) (es : List String) :
    Sound r (r.SetGlobalBuffer res sigma dir) b es b es :=
  sound_emits r _ b es rfl (fun _ _ _ hc => ⟨trivial, hc⟩)

end Renderer

namespace Renderer

theorem sound_update {r r' : Renderer} (hl : r'.log = r.log) (ht : ∀ s, r'.tex s = r.tex s)
    (b : Bool) (es : List String) : Sound r r' b es b es :=
  Sound.of_same_log hl ht b es

theorem sound_foldl {α : Type} (step : Renderer → α → Renderer) (b : Bool) (es : List String)
    (hstep : ∀ r a, Sound r (step r a) b es b es) (l : List α) :
    ∀ r, Sound r (l.foldl step r) b es b es := by
  induction l with
  | nil => intro r; exact Sound.idle r b es
  | cons a l ih =>
    intro r
    exact (hstep r a).seq (ih (step r a))

theorem sound_foldl_pair {α β : Type} (step : Renderer × β → α → Renderer × β) (b : Bool)
    (es : List String) (hstep : ∀ st a, Sound st.1 (step st a).1 b es b es) (l : List α) :
    ∀ st, Sound st.1 (l.foldl step st).1 b es b es := by
  induction l with
  | nil => intro st; exact Sound.idle st.1 b es
  | cons a l ih =>
    intro st
    exact (hstep st a).seq (ih (step st a))

theorem sound_ite {r r' : Renderer} {b : Bool} {es : List String} (c : Bool)
    (h : Sound r r' b es b es) : Sound r (if c = true then r' else r) b es b es := by
  split
  · exact h
  · exact Sound.idle _ _ _

theorem renderTexture_ne_shadowMapRef (t : RHI_RenderTexture) (light : Light) (i : Nat) :
    (TextureRef.renderTexture t = shadowMapRef light i) ↔ False := by
  unfold shadowMapRef
  split <;> simp

theorem renderTexture_ne_skyboxTextureRef (t : RHI_RenderTexture) (s : Skybox) :
    (TextureRef.renderTexture t = skyboxTextureRef s) ↔ False := by
  unfold skyboxTextureRef
  split <;> simp

theorem sound_Pass_ShadowMapping (r : Renderer) (texOut : TexSlot) (light : Option Light)
    (es : List String) : Sound r (r.Pass_ShadowMapping texOut light) false es false es := by
  unfold Pass_ShadowMapping
  cases light
  · exact sound_enter _ _ _ _
  · exact (sound_enter _ _ _ _).seq (sound_emits _ _ _ _ (by rfl) (fun hd tg tx hc => by
      simp [targetOk, pendingAfter, hc, renderTexture_ne_shadowMapRef]))

theorem sound_Pass_SSDO (r : Renderer) (texOut : TexSlot) (hne : texOut ≠ .Full_FinalFrame)
    (es : List String) : Sound r (r.Pass_SSDO texOut) false es false es := by
  unfold Pass_SSDO
  exact (sound_enter r _ false es).seq (sound_emits _ _ false es (by rfl) (fun hd tg tx hc => by
    simp only [enter_tex] at hd
    simp [targetOk, pendingAfter, field_FinalFrame, hd, hne, hc]))

theorem sound_Pass_BlurGaussian (r : Renderer) (texIn texOut : TexSlot) (sigma : ℚ)
    (hne : texIn ≠ texOut) (es : List String) :
    Sound r (r.Pass_BlurGaussian texIn texOut sigma) false es false es := by
  unfold Pass_BlurGaussian
  simp only
  split
  · exact sound_enter _ _ _ _
  · exact (((((((sound_enter r _ _ _).seq
      (sound_emits _ _ _ _ (by rfl) (fun hd tg tx hc => by simp [targetOk, pendingAfter, hc]))).seq
      (sound_SetGlobalBuffer _ _ _ _ _ _)).seq
      (sound_emits _ _ _ _ (by rfl) (fun hd tg tx hc => by
        have hd' : ∀ x y : TexSlot, r.tex x = r.tex y ↔ x = y :=
          fun x y => by simpa using hd x y
        simp [targetOk, pendingAfter, hc, hd', hne, Ne.symm hne]))).seq
      (sound_SetGlobalBuffer _ _ _ _ _ _)).seq
      (sound_emits _ _ _ _ (by rfl) (fun hd tg tx hc => by
        have hd' : ∀ x y : TexSlot, r.tex x = r.tex y ↔ x = y :=
          fun x y => by simpa using hd x y
        simp [targetOk, pendingAfter, hc, hd', hne, Ne.symm hne]))).seq
      (sound_swapTex _ _ _ _ _)).seq
      (sound_emit _ _ _ _ (by rfl) (fun hd tg tx hc => by simp [targetOk, pendingAfter, hc]))

end Renderer

namespace Renderer

theorem sound_Pass_BlurBilateralGaussian (r : Renderer) (texIn texOut : TexSlot)
    (sigma pixelStride : ℚ) (hne : texIn ≠ texOut) (es : List String) :
    Sound r (r.Pass_BlurBilateralGaussian texIn texOut sigma pixelStride) false es false es := by
  unfold Pass_BlurBilateralGaussian
  simp only
  split
  · exact sound_enter _ _ _ _
  · exact (((((((sound_enter r _ _ _).seq
      (sound_emits _ _ _ _ (by rfl) (fun hd tg tx hc => by
        simp [targetOk, pendingAfter, hc]))).seq
      (sound_SetGlobalBuffer _ _ _ _ _ _)).seq
      (sound_emits _ _ _ _ (by rfl) (fun hd tg tx hc => by
        have hd' : ∀ x y : TexSlot, r.tex x = r.tex y ↔ x = y :=
          fun x y => by simpa using hd x y
        simp [targetOk, pendingAfter, hc, hd', hne, Ne.symm hne]))).seq
      (sound_SetGlobalBuffer _ _ _ _ _ _)).seq
      (sound_emits _ _ _ _ (by rfl) (fun hd tg tx hc => by
        have hd' : ∀ x y : TexSlot, r.tex x = r.tex y ↔ x = y :=
          fun x y => by simpa using hd x y
        simp [targetOk, pendingAfter, hc, hd', hne, Ne.symm hne]))).seq
      (sound_swapTex _ _ _ _ _)).seq
      (sound_emit _ _ _ _ (by rfl) (fun hd tg tx hc => by simp [targetOk, pendingAfter, hc]))

theorem sound_DepthDirectionalLight_actorStep (i : Nat) (es : List String)
    (st : Renderer × Nat) (a : Actor) :
    Sound st.1 (Pass_DepthDirectionalLight.actorStep i st a).1 false es false es := by
  unfold Pass_DepthDirectionalLight.actorStep
  repeat' split
  all_goals first
    | exact Sound.idle _ _ _
    | exact sound_emits _ _ _ _ (by rfl) (fun hd tg tx hc => by
        simp [targetOk, pendingAfter, hc])
    | exact (sound_emits _ _ _ _ (by rfl) (fun hd tg tx hc => by
        simp [targetOk, pendingAfter, hc])).seq
        (sound_emits _ _ _ _ (by rfl) (fun hd tg tx hc => by
          simp [targetOk, pendingAfter, hc]))

theorem sound_DepthDirectionalLight_cascadeStep (light : Light) (actors : List Actor)
    (es : List String) (st : Renderer × Nat) (i : Nat) :
    Sound st.1 (Pass_DepthDirectionalLight.cascadeStep light actors st i).1
      false es false es := by
  unfold Pass_DepthDirectionalLight.cascadeStep
  simp only
  split
  · exact (sound_emits st.1 _ _ _ (by rfl) (fun hd tg tx hc => by
        simp [targetOk, pendingAfter, hc])).seq
      (sound_foldl_pair _ _ _ (sound_DepthDirectionalLight_actorStep i es) actors
        (st.1.emits _, st.2))
  · exact sound_foldl_pair _ _ _ (sound_DepthDirectionalLight_actorStep i es) actors _

theorem sound_Pass_DepthDirectionalLight (r : Renderer) (light : Option Light)
    (es : List String) : Sound r (r.Pass_DepthDirectionalLight light) false es false es := by
  unfold Pass_DepthDirectionalLight
  simp only
  split
  · exact sound_enter r _ _ _
  · split
    · exact sound_enter r _ _ _
    · split
      · exact (sound_enter r .Pass_DepthDirectionalLight _ _).seq (sound_touch _ _ _ _)
      · rename_i light _ _
        have h1 := (sound_enter r .Pass_DepthDirectionalLight false es).seq (sound_touch _
          .Renderable_ObjectOpaque false es)
        have h2 := h1.seq (sound_emits _ [.EventBegin "Pass_DepthDirectionalLight",
          .SetShader .shaderLightDepth,
          .SetPrimitiveTopology .PrimitiveTopology_TriangleList] false es (by rfl)
          (fun hd tg tx hc => by simp [targetOk, pendingAfter, hc]))
        have h3 := h2.seq (sound_foldl_pair _ _ _
          (sound_DepthDirectionalLight_cascadeStep light
            ((r.enter .Pass_DepthDirectionalLight).m_actors.at .Renderable_ObjectOpaque)
            ("Pass_DepthDirectionalLight" :: es))
          (List.range light.shadowMapCount) (_, 0))
        exact h3.seq (sound_emit _ .EventEnd _ _ (by rfl)
          (fun hd tg tx hc => by simp [targetOk, pendingAfter, hc]))

theorem sound_GBuffer_bindGeometry (es : List String) (st : Renderer × GBufferCache)
    (model : Model) : Sound st.1 (Pass_GBuffer.bindGeometry st model).1 false es false es := by
  unfold Pass_GBuffer.bindGeometry
  split
  · exact sound_emits _ _ _ _ (by rfl) (fun hd tg tx hc => by
      simp [targetOk, pendingAfter, hc])
  · exact Sound.idle _ _ _

theorem sound_GBuffer_bindShader (es : List String) (st : Renderer × GBufferCache)
    (shader : ShaderVariation) :
    Sound st.1 (Pass_GBuffer.bindShader st shader).1 false es false es := by
  unfold Pass_GBuffer.bindShader
  simp only
  split
  · split
    · exact (sound_emit st.1 _ _ _ (by rfl) (fun hd tg tx hc => by
          simp [targetOk, pendingAfter, hc])).seq
        (sound_emit _ _ _ _ (by rfl) (fun hd tg tx hc => by
          simp [targetOk, pendingAfter, hc]))
    · exact sound_emit _ _ _ _ (by rfl) (fun hd tg tx hc => by
        simp [targetOk, pendingAfter, hc])
  · exact Sound.idle _ _ _

theorem sound_GBuffer_bindMaterial (es : List String) (st : Renderer × GBufferCache)
    (material : Material) :
    Sound st.1 (Pass_GBuffer.bindMaterial st material).1 false es false es := by
  unfold Pass_GBuffer.bindMaterial
  split
  · exact sound_emits _ _ _ _ (by rfl) (fun hd tg tx hc => by
      simp [targetOk, pendingAfter, hc, materialTextureCmds])
  · exact Sound.idle _ _ _

theorem sound_GBuffer_draw (es : List String) (r : Renderer) (actor : Actor)
    (renderable : Renderable) (shader : ShaderVariation) :
    Sound r (Pass_GBuffer.draw r actor renderable shader) false es false es := by
  unfold Pass_GBuffer.draw
  exact (sound_emits r _ _ _ (by rfl) (fun hd tg tx hc => by
      simp [targetOk, pendingAfter, hc])).seq
    (sound_update rfl (fun s => by cases s <;> rfl) _ _)

theorem sound_GBuffer_actorStep (es : List String) (st : Renderer × GBufferCache) (a : Actor) :
    Sound st.1 (Pass_GBuffer.actorStep st a).1 false es false es := by
  unfold Pass_GBuffer.actorStep
  repeat' split
  all_goals first
    | exact Sound.idle _ _ _
    | exact (((sound_emit st.1 _ _ _ (by rfl) (fun hd tg tx hc => by
          simp [targetOk, pendingAfter, hc])).seq
        (sound_GBuffer_bindGeometry es (_, st.2) _)).seq
        ((sound_GBuffer_bindShader es _ _).seq (sound_GBuffer_bindMaterial es _ _))).seq
        (sound_GBuffer_draw es _ _ _ _)

theorem sound_Pass_GBuffer (r : Renderer) (es : List String) :
    Sound r r.Pass_GBuffer false es false es := by
  unfold Pass_GBuffer
  simp only
  split
  · exact sound_enter r _ _ _
  · split
    · exact (sound_enter r .Pass_GBuffer _ _).seq (sound_touch _ _ _ _)
    · have h1 := (sound_enter r .Pass_GBuffer false es).seq
        (sound_touch _ .Renderable_ObjectOpaque false es)
      have h2 := h1.seq (sound_emits _ [.EventBegin "Pass_GBuffer",
        .GBuffer_SetAsRenderTarget,
        .SetSampler .samplerAnisotropicWrapAlways,
        .SetFillMode_Solid,
        .SetPrimitiveTopology .PrimitiveTopology_TriangleList] false es (by rfl)
        (fun hd tg tx hc => by simp [targetOk, pendingAfter, hc]))
      have h3 := h2.seq (sound_SetGlobalBuffer _ none 0 ⟨0, 0⟩ _ _)
      have h4 := h3.seq (sound_foldl_pair _ _ _ (sound_GBuffer_actorStep ("Pass_GBuffer" :: es))
        ((r.enter .Pass_GBuffer).m_actors.at .Renderable_ObjectOpaque) (_, ⟨false, 0, 0, 0⟩))
      exact h4.seq (sound_emit _ .EventEnd _ _ (by rfl)
        (fun hd tg tx hc => by simp [targetOk, pendingAfter, hc]))

end Renderer

namespace Renderer

theorem sound_Pass_PreLight (r : Renderer) (es : List String) :
    Sound r (r.Pass_PreLight .Half_Spare .Half_Shadows .Half_SSDO) false es false es := by
  unfold Pass_PreLight
  simp only
  have h0 : Sound r (((r.enter .Pass_PreLight).emits [.EventBegin "Pass_PreLight",
      .SetIndexBuffer .quad, .SetVertexBuffer .quad,
      .SetPrimitiveTopology .PrimitiveTopology_TriangleList,
      .SetCullMode .Cull_Back]).touch .Renderable_Light) false es false
      ("Pass_PreLight" :: es) :=
    ((sound_enter r .Pass_PreLight _ _).seq (sound_emits _ _ _ _ (by rfl)
      (fun hd tg tx hc => by simp [targetOk, pendingAfter, hc]))).seq (sound_touch _ _ _ _)
  have hs : ∀ q : Renderer, Sound q (q.Pass_BlurBilateralGaussian .Half_Spare .Half_Shadows 1 1)
      false ("Pass_PreLight" :: es) false ("Pass_PreLight" :: es) :=
    fun q => sound_Pass_BlurBilateralGaussian q .Half_Spare .Half_Shadows 1 1 (by decide) _
  have ho : ∀ q : Renderer, Sound q (q.Pass_BlurBilateralGaussian .Half_Spare .Half_SSDO 3 2)
      false ("Pass_PreLight" :: es) false ("Pass_PreLight" :: es) :=
    fun q => sound_Pass_BlurBilateralGaussian q .Half_Spare .Half_SSDO 3 2 (by decide) _
  have hssdo : ∀ q : Renderer, Sound q (q.Pass_SSDO .Half_Spare)
      false ("Pass_PreLight" :: es) false ("Pass_PreLight" :: es) :=
    fun q => sound_Pass_SSDO q .Half_Spare (by decide) _
  have hend : ∀ q : Renderer, Sound q (q.emit .EventEnd) false ("Pass_PreLight" :: es) false
      es :=
    fun q => sound_emit q .EventEnd _ _ (by rfl)
      (fun hd tg tx hc => by simp [targetOk, pendingAfter, hc])
  have hl : ((r.enter .Pass_PreLight).emits [.EventBegin "Pass_PreLight",
      .SetIndexBuffer .quad, .SetVertexBuffer .quad,
      .SetPrimitiveTopology .PrimitiveTopology_TriangleList,
      .SetCullMode .Cull_Back]).GetLightDirectional = r.GetLightDirectional := rfl
  rw [hl]
  cases r.GetLightDirectional with
  | none =>
    simp only
    split
    · exact (h0.seq ((hssdo _).seq (ho _))).seq (hend _)
    · exact h0.seq (hend _)
  | some light =>
    simp only
    have h1 := (h0.seq (sound_Pass_ShadowMapping _ .Half_Spare
      (((r.enter .Pass_PreLight).emits [.EventBegin "Pass_PreLight",
        .SetIndexBuffer .quad, .SetVertexBuffer .quad,
        .SetPrimitiveTopology .PrimitiveTopology_TriangleList,
        .SetCullMode .Cull_Back]).touch .Renderable_Light).GetLightDirectional
      ("Pass_PreLight" :: es))).seq (hs _)
    split
    · exact (h1.seq ((hssdo _).seq (ho _))).seq (hend _)
    · exact h1.seq (hend _)

theorem renderTexture_ne_skyboxOr (t : RHI_RenderTexture) (o : Option Skybox) (d : TextureRef)
    (h : ∀ u, TextureRef.renderTexture u ≠ d) :
    ¬ TextureRef.renderTexture t = (match o with
      | some s => skyboxTextureRef s
      | none => d) := by
  cases o with
  | none => exact h t
  | some s => exact (renderTexture_ne_skyboxTextureRef t s).1

theorem renderTexture_ne_ite (t u : RHI_RenderTexture) (c : Prop) [Decidable c]
    (d : TextureRef) (h : ∀ u, TextureRef.renderTexture u ≠ d) (hne : t ≠ u) :
    ¬ TextureRef.renderTexture t = (if c then TextureRef.renderTexture u else d) := by
  split
  · intro h'
    injection h' with h'
    exact hne h'
  · exact h t

theorem sound_Pass_Light (r : Renderer) (es : List String) :
    Sound r (r.Pass_Light .Half_Shadows .Half_SSDO .Full_Light) false es false es := by
  unfold Pass_Light
  simp only
  split
  · exact sound_enter r _ _ _
  · exact ((((sound_enter r _ _ _).seq (sound_emit _ _ _ _ (by rfl)
      (fun hd tg tx hc => by simp [targetOk, pendingAfter, hc]))).seq
      (sound_emit _ _ _ _ (by rfl)
        (fun hd tg tx hc => by simp [targetOk, pendingAfter, hc]))).seq
      ((sound_touch _ _ _ _).seq (sound_touch _ _ _ _))).seq
      (sound_emits _ _ _ _ (by rfl) (fun hd tg tx hc => by
        have hd' : ∀ x y : TexSlot, r.tex x = r.tex y ↔ x = y :=
          fun x y => by simpa using hd x y
        simp only [targetOk, pendingAfter, List.foldl_cons, List.foldl_nil]
        refine ⟨⟨?_, trivial⟩, by simp⟩
        intro t ht
        simp only [Option.some.injEq, RenderTargetRef.renderTexture.injEq] at ht
        subst ht
        simp only [List.mem_append, List.mem_cons, List.mem_singleton, List.not_mem_nil,
          or_false, not_or]
        refine ⟨⟨⟨⟨⟨⟨⟨⟨hc _, by simp⟩, by simp⟩, by simp⟩, by simp⟩,
          by simp [hd']⟩, ?_⟩, by simp [field_FinalFrame, hd']⟩, ?_⟩
        · exact renderTexture_ne_ite _ _ _ _ (by simp) (by simp [hd'])
        · exact renderTexture_ne_skyboxOr _ _ _ (by simp)))

end Renderer

namespace Renderer

theorem sound_Transparent_actorStep (r : Renderer) (a : Actor) :
    Sound r (Pass_Transparent.actorStep r a) true ["Pass_Transparent"] true
      ["Pass_Transparent"] := by
  unfold Pass_Transparent.actorStep
  repeat' split
  all_goals first
    | exact Sound.idle _ _ _
    | exact (sound_emits r _ _ _ (by rfl) (fun hd tg tx hc => by
          simp [targetOk, pendingAfter, hc])).seq
        (sound_update rfl (fun s => by cases s <;> rfl) _ _)

theorem sound_Pass_Transparent (r : Renderer) (texOut : TexSlot) :
    Sound r (r.Pass_Transparent texOut) false [] false [] := by
  unfold Pass_Transparent
  simp only
  have h0 : Sound r ((r.enter .Pass_Transparent).touch .Renderable_Light) false [] false [] :=
    (sound_enter r _ _ _).seq (sound_touch _ _ _ _)
  split
  · exact h0
  · split
    · exact h0.seq (sound_touch _ _ _ _)
    · exact ((((h0.seq (sound_touch _ .Renderable_ObjectTransparent _ _)).seq
        (sound_touch _ .Renderable_Skybox _ _)).seq
        (sound_emits _ _ _ _ (by rfl) (fun hd tg tx hc => by
          simp only [targetOk, pendingAfter, List.foldl_cons, List.foldl_nil, true_and]
          intro t
          simp only [List.mem_append, List.mem_cons, List.mem_singleton, List.not_mem_nil,
            or_false, not_or]
          exact ⟨⟨hc t, by simp⟩, renderTexture_ne_skyboxOr _ _ _ (by simp)⟩))).via
        (by rfl) (by rfl)
        (sound_foldl _ _ _ sound_Transparent_actorStep _ _)).seq
        (sound_emits _ _ _ _ (by rfl) (fun hd tg tx hc => by
          simp [targetOk, pendingAfter, hc]))

theorem sound_Pass_TAA (r : Renderer) (es : List String) :
    Sound r (r.Pass_TAA .Full_Light .Full_FinalFrame) false es false es := by
  unfold Pass_TAA
  exact (((((((sound_enter r _ _ _).seq (sound_emit _ _ _ _ (by rfl)
    (fun hd tg tx hc => by simp [targetOk, pendingAfter, hc]))).seq
    (sound_SetGlobalBuffer _ _ _ _ _ _)).seq
    (sound_emits _ _ _ _ (by rfl) (fun hd tg tx hc => by
      have hd' : ∀ x y : TexSlot, r.tex x = r.tex y ↔ x = y :=
        fun x y => by simpa using hd x y
      simp [targetOk, pendingAfter, hc, hd', field_TAA_Current, field_TAA_History]))).seq
    (sound_SetGlobalBuffer _ _ _ _ _ _)).seq
    (sound_emits _ _ _ _ (by rfl) (fun hd tg tx hc => by
      have hd' : ∀ x y : TexSlot, r.tex x = r.tex y ↔ x = y :=
        fun x y => by simpa using hd x y
      simp [targetOk, pendingAfter, hc, hd', field_TAA_Current, field_TAA_History]))).seq
    (sound_swapTex _ _ _ _ _)).seq
    (sound_emit _ _ _ _ (by rfl) (fun hd tg tx hc => by simp [targetOk, pendingAfter, hc]))

theorem sound_Pass_Bloom (r : Renderer) (es : List String) :
    Sound r (r.Pass_Bloom .Full_Light .Full_FinalFrame) false es false es := by
  unfold Pass_Bloom
  simp only
  exact ((((((sound_enter r .Pass_Bloom _ _).seq
    (sound_emits _ _ _ _ (by rfl) (fun hd tg tx hc => by
      simp [targetOk, pendingAfter, hc]))).seq
    (sound_SetGlobalBuffer _ _ _ _ _ _)).seq
    (sound_emits _ _ _ _ (by rfl) (fun hd tg tx hc => by
      have hd' : ∀ x y : TexSlot, r.tex x = r.tex y ↔ x = y :=
        fun x y => by simpa using hd x y
      simp [targetOk, pendingAfter, hc, hd', field_Quarter_Blur1]))).via (by rfl) (by rfl)
    (sound_Pass_BlurGaussian _ .Quarter_Blur1 .Quarter_Blur2 2 (by decide)
      ("Pass_Bloom" :: es))).seq
    (sound_SetGlobalBuffer _ _ _ _ _ _)).seq
    (sound_emits _ _ _ _ (by rfl) (fun hd tg tx hc => by
      simp only [targetOk, pendingAfter, List.foldl_cons, List.foldl_nil]
      refine ⟨⟨?_, trivial⟩, by simp⟩
      intro t ht
      simp only [Option.some.injEq, RenderTargetRef.renderTexture.injEq] at ht
      subst ht
      simp only [List.mem_append, List.mem_cons, List.mem_singleton, List.not_mem_nil,
        or_false, not_or]
      exact ⟨⟨hc _, fun h => by
          injection h with h
          exact absurd ((hd _ _).1 h) (by decide)⟩,
        fun h => by
          injection h with h
          exact absurd ((hd .Full_FinalFrame .Quarter_Blur2).1 h) (by decide)⟩))

theorem sound_singleDrawStage (r : Renderer) (name : String) (sampler : SamplerRef)
    (shader : ShaderRef) (texIn texOut : TexSlot) (hne : texIn ≠ texOut) (es : List String) :
    Sound r (r.singleDrawStage name sampler shader texIn texOut) false es false es :=
  sound_emits _ _ _ _ (by rfl) (fun hd tg tx hc => by
    simp [targetOk, pendingAfter, hc, hd, hne, Ne.symm hne])

theorem sound_Pass_Correction (r : Renderer) (texIn texOut : TexSlot) (hne : texIn ≠ texOut)
    (es : List String) : Sound r (r.Pass_Correction texIn texOut) false es false es :=
  (sound_enter r _ _ _).seq (sound_singleDrawStage _ _ _ _ _ _ hne _)

theorem sound_Pass_FXAA (r : Renderer) (texIn texOut : TexSlot) (hne : texIn ≠ texOut)
    (es : List String) : Sound r (r.Pass_FXAA texIn texOut) false es false es := by
  unfold Pass_FXAA
  exact (((((sound_enter r _ _ _).seq (sound_emits _ _ _ _ (by rfl)
    (fun hd tg tx hc => by simp [targetOk, pendingAfter, hc]))).seq
    (sound_SetGlobalBuffer _ _ _ _ _ _)).seq
    (sound_emits _ _ _ _ (by rfl) (fun hd tg tx hc => by
      have hd' : ∀ x y : TexSlot, r.tex x = r.tex y ↔ x = y :=
        fun x y => by simpa using hd x y
      simp [targetOk, pendingAfter, hc, hd', hne, Ne.symm hne]))).seq
    (sound_swapTex _ _ _ _ _)).seq
    (sound_emit _ _ _ _ (by rfl) (fun hd tg tx hc => by simp [targetOk, pendingAfter, hc]))

theorem sound_Pass_Sharpening (r : Renderer) (texIn texOut : TexSlot) (hne : texIn ≠ texOut)
    (es : List String) : Sound r (r.Pass_Sharpening texIn texOut) false es false es :=
  (sound_enter r _ _ _).seq (sound_singleDrawStage _ _ _ _ _ _ hne _)

theorem sound_Pass_ChromaticAberration (r : Renderer) (texIn texOut : TexSlot)
    (hne : texIn ≠ texOut) (es : List String) :
    Sound r (r.Pass_ChromaticAberration texIn texOut) false es false es :=
  (sound_enter r _ _ _).seq (sound_singleDrawStage _ _ _ _ _ _ hne _)

theorem sound_stage (q : Renderer) (f : RenderMode) (texIn texOut : TexSlot)
    (pass : Renderer → TexSlot → TexSlot → Renderer) (es : List String)
    (hpass : ∀ q', Sound q' (pass q' texIn texOut) false es false es) :
    Sound q (Pass_PostLight.stage q f texIn texOut pass) false es false es := by
  unfold Pass_PostLight.stage
  split
  · exact (sound_swapTex q texOut texIn _ _).seq (hpass _)
  · exact Sound.idle _ _ _

theorem sound_Pass_PostLight (r : Renderer) (es : List String) :
    Sound r (r.Pass_PostLight .Full_Light .Full_FinalFrame) false es false es := by
  unfold Pass_PostLight
  simp only
  have h0 := (((sound_enter r .Pass_PostLight false es).seq
      (sound_emits _ [.EventBegin "Pass_PostLight",
        .SetPrimitiveTopology .PrimitiveTopology_TriangleList,
        .SetCullMode .Cull_Back,
        .SetVertexBuffer .quad,
        .SetIndexBuffer .quad,
        .SetShader .shaderBloom_Bright] false es (by rfl)
        (fun hd tg tx hc => by simp [targetOk, pendingAfter, hc]))).seq
      (sound_SetGlobalBuffer _ (some ((r.tex .Full_Light).width, (r.tex .Full_Light).height)) 0
        ⟨0, 0⟩ _ _)).seq (sound_swapTex _ .Full_FinalFrame .Full_Light _ _)
  have h1 := h0.seq (sound_stage _ .Render_TAA .Full_Light .Full_FinalFrame Pass_TAA
    ("Pass_PostLight" :: es) (fun q => sound_Pass_TAA q _))
  have h2 := h1.seq (sound_stage _ .Render_Bloom .Full_Light .Full_FinalFrame Pass_Bloom
    ("Pass_PostLight" :: es) (fun q => sound_Pass_Bloom q _))
  have h3 := h2.seq (sound_stage _ .Render_Correction .Full_Light .Full_FinalFrame
    Pass_Correction ("Pass_PostLight" :: es)
    (fun q => sound_Pass_Correction q _ _ (by decide) _))
  have h4 := h3.seq (sound_stage _ .Render_FXAA .Full_Light .Full_FinalFrame Pass_FXAA
    ("Pass_PostLight" :: es) (fun q => sound_Pass_FXAA q _ _ (by decide) _))
  have h5 := h4.seq (sound_stage _ .Render_Sharpening .Full_Light .Full_FinalFrame
    Pass_Sharpening ("Pass_PostLight" :: es)
    (fun q => sound_Pass_Sharpening q _ _ (by decide) _))
  have h6 := h5.seq (sound_stage _ .Render_ChromaticAberration .Full_Light .Full_FinalFrame
    Pass_ChromaticAberration ("Pass_PostLight" :: es)
    (fun q => sound_Pass_ChromaticAberration q _ _ (by decide) _))
  exact h6.seq (sound_emit _ .EventEnd _ _ (by rfl)
    (fun hd tg tx hc => by simp [targetOk, pendingAfter, hc]))

theorem sound_Pass_GBufferVisualize (r : Renderer) (texOut : TexSlot) (es : List String) :
    Sound r (r.Pass_GBufferVisualize texOut) false es false es := by
  unfold Pass_GBufferVisualize
  simp only
  split
  · exact (((sound_enter r _ _ _).seq (sound_emit _ _ _ _ (by rfl)
      (fun hd tg tx hc => by simp [targetOk, pendingAfter, hc]))).seq
      (sound_SetGlobalBuffer _ _ _ _ _ _)).seq
      (sound_emits _ _ _ _ (by rfl) (fun hd tg tx hc => by
        simp [targetOk, pendingAfter, hc]))
  · exact sound_enter r _ _ _

end Renderer

namespace Renderer

@[simp] theorem AddBoundigBox_tex (r : Renderer) (box : BoundingBox) (color : Vector4)
    (s : TexSlot) : (r.AddBoundigBox box color).tex s = r.tex s := by
  unfold AddBoundigBox
  simp only [AddLine3_tex]

theorem sound_Lines_boxStep (b : Bool) (es : List String) (r : Renderer) (a : Actor) :
    Sound r (Pass_Lines.boxStep r a) b es b es := by
  unfold Pass_Lines.boxStep
  split
  · exact sound_update (AddBoundigBox_log _ _ _) (fun s => AddBoundigBox_tex _ _ _ s) _ _
  · exact Sound.idle _ _ _

theorem sound_Lines_pickingRay (b : Bool) (es : List String) (r : Renderer) :
    Sound r (Pass_Lines.pickingRay r) b es b es := by
  unfold Pass_Lines.pickingRay
  split
  · exact sound_update rfl (fun s => AddLine3_tex _ _ _ _ s) _ _
  · exact Sound.idle _ _ _

theorem sound_Lines_boundingBoxes (b : Bool) (es : List String) (r : Renderer) :
    Sound r (Pass_Lines.boundingBoxes r) b es b es := by
  unfold Pass_Lines.boundingBoxes
  simp only
  exact (((sound_touch r .Renderable_ObjectOpaque _ _).seq
    (sound_foldl _ _ _ (sound_Lines_boxStep b es) _ _)).seq (sound_touch _ _ _ _)).seq
    (sound_foldl _ _ _ (sound_Lines_boxStep b es) _ _)

theorem sound_Lines_flush (r : Renderer) :
    Sound r (Pass_Lines.flush r) true ["Pass_Lines"] true ["Pass_Lines"] := by
  unfold Pass_Lines.flush
  simp only
  split
  · split
    · exact (((sound_emit r _ _ _ (by rfl) (fun hd tg tx hc => by
          simp [targetOk, pendingAfter, hc])).seq
        (sound_update rfl (fun s => by cases s <;> rfl) _ _)).seq
        (sound_emits _ _ _ _ (by rfl) (fun hd tg tx hc => by
          simp [targetOk, pendingAfter, hc]))).seq
        (sound_update rfl (fun s => by cases s <;> rfl) _ _)
    · exact (sound_emits r _ _ _ (by rfl) (fun hd tg tx hc => by
          simp [targetOk, pendingAfter, hc])).seq
        (sound_update rfl (fun s => by cases s <;> rfl) _ _)
  · exact Sound.idle _ _ _

theorem sound_Lines_grid (r : Renderer) :
    Sound r (Pass_Lines.grid r) true ["Pass_Lines"] true ["Pass_Lines"] :=
  sound_emits _ _ _ _ (by rfl) (fun hd tg tx hc => by simp [targetOk, pendingAfter, hc])

theorem sound_Pass_Lines (r : Renderer) (texOut : TexSlot) :
    Sound r (r.Pass_Lines texOut) false [] false [] := by
  unfold Pass_Lines
  simp only
  split
  · exact sound_enter r _ _ _
  · exact ((((((sound_enter r _ _ _).seq (sound_emits _ _ _ _ (by rfl)
        (fun hd tg tx hc => by simp [targetOk, pendingAfter, hc]))).via (by rfl) (by rfl)
      (sound_ite _ (sound_Lines_pickingRay true ["Pass_Lines"] _))).seq
      (sound_ite _ (sound_Lines_boundingBoxes true ["Pass_Lines"] _))).seq
      (sound_Lines_flush _)).seq
      (sound_ite _ (sound_Lines_grid _))).seq
      (sound_emits _ _ _ _ (by rfl) (fun hd tg tx hc => by
        simp [targetOk, pendingAfter, hc]))

theorem sound_Gizmos_lightStep (texOut : TexSlot) (r : Renderer) (a : Actor) :
    Sound r (Pass_Gizmos.lightStep texOut r a) false ["Lights", "Pass_Gizmos"] false
      ["Lights", "Pass_Gizmos"] := by
  unfold Pass_Gizmos.lightStep
  repeat' split
  all_goals first
    | exact Sound.idle _ _ _
    | exact ((sound_emit r _ _ _ (by rfl) (fun hd tg tx hc => by
          simp [targetOk, pendingAfter, hc])).seq
        (sound_SetGlobalBuffer _ _ _ _ _ _)).seq
        (sound_emits _ _ _ _ (by rfl) (fun hd tg tx hc => by
          simp [targetOk, pendingAfter, hc]))

theorem sound_Pass_Gizmos (r : Renderer) (texOut : TexSlot) :
    Sound r (r.Pass_Gizmos texOut) false [] false [] := by
  unfold Pass_Gizmos
  simp only
  split
  · exact sound_enter r _ _ _
  · have h0 : Sound r (((r.enter .Pass_Gizmos).emit (.EventBegin "Pass_Gizmos")).touch
        .Renderable_Light) false [] false ["Pass_Gizmos"] :=
      ((sound_enter r .Pass_Gizmos _ _).seq
        (sound_emit _ (.EventBegin "Pass_Gizmos") _ _ (by rfl)
          (fun hd tg tx hc => by simp [targetOk, pendingAfter, hc]))).seq
        (sound_touch _ .Renderable_Light _ _)
    have hend : ∀ q : Renderer, Sound q (q.emit .EventEnd) false ["Pass_Gizmos"] false [] :=
      fun q => sound_emit q .EventEnd _ _ (by rfl)
        (fun hd tg tx hc => by simp [targetOk, pendingAfter, hc])
    split
    · exact (((h0.seq (sound_emits _ _ _ _ (by rfl)
          (fun hd tg tx hc => by simp [targetOk, pendingAfter, hc]))).via (by rfl) (by rfl)
        (sound_foldl _ _ _ (sound_Gizmos_lightStep texOut) _ _)).seq
        (sound_emit _ _ _ _ (by rfl)
          (fun hd tg tx hc => by simp [targetOk, pendingAfter, hc]))).via (by rfl) (by rfl)
        (hend _)
    · exact h0.seq (hend _)

theorem sound_Pass_PerformanceMetrics (r : Renderer) (texOut : TexSlot) :
    Sound r (r.Pass_PerformanceMetrics texOut) false [] false [] := by
  unfold Pass_PerformanceMetrics
  simp only
  split
  · exact sound_enter r _ _ _
  · exact (sound_enter r _ _ _).seq (sound_emits _ _ _ _ (by rfl)
      (fun hd tg tx hc => by simp [targetOk, pendingAfter, hc]))

theorem sound_passes (r : Renderer) : Sound r (Render.passes r) false [] false [] := by
  unfold Render.passes
  have k1 := sound_touch r .Renderable_Light false []
  have k2 := k1.seq (sound_Pass_DepthDirectionalLight _ r.GetLightDirectional [])
  have k3 := k2.seq (sound_Pass_GBuffer _ [])
  have k4 := k3.seq (sound_Pass_PreLight _ [])
  have k5 := k4.seq (sound_Pass_Light _ [])
  have k6 := k5.seq (sound_Pass_Transparent _ .Full_Light)
  have k7 := k6.seq (sound_Pass_PostLight _ [])
  have k8 := k7.seq (sound_Pass_GBufferVisualize _ .Full_FinalFrame [])
  have k9 := k8.seq (sound_Pass_Lines _ .Full_FinalFrame)
  have k10 := k9.seq (sound_Pass_Gizmos _ .Full_FinalFrame)
  exact k10.seq (sound_Pass_PerformanceMetrics _ .Full_FinalFrame)

/-- Every call of `Render`, whichever exit it takes, respects both disciplines. -/
theorem sound_Render (r : Renderer) : Sound r r.Render false [] false [] := by
  unfold Render
  split
  · exact Sound.idle _ _ _
  · split
    · exact Sound.idle _ _ _
    · split
      · exact sound_emit r _ _ _ (by rfl)
          (fun hd tg tx hc => by simp [targetOk, pendingAfter, hc])
      · split
        · exact ((sound_emit r _ _ _ (by rfl)
              (fun hd tg tx hc => by simp [targetOk, pendingAfter, hc])).seq
            (sound_emit _ _ _ _ (by rfl)
              (fun hd tg tx hc => by simp [targetOk, pendingAfter, hc]))).seq
            (sound_update rfl (fun s => by cases s <;> rfl) _ _)
        · exact ((sound_update (show (Render.beginFrame r).log = r.log from rfl)
              (fun s => by cases s <;> rfl) false []).seq
            (sound_passes _)).seq
            (sound_update rfl (fun s => by cases s <;> rfl) _ _)

end Renderer

namespace Renderer

theorem Sound.blend_after {r r' : Renderer} {b b' : Bool} {es es' : List String}
    (h : Sound r r' b es b' es') (v : PipelineView) (hv : v.blend = b) :
    (v.run (r.issued r')).blend = b' := by
  rw [PipelineView.run_blend, hv, h.2.2.1]

theorem Sound.events_after {r r' : Renderer} {b b' : Bool} {es es' : List String}
    (h : Sound r r' b es b' es') (v : PipelineView) (hv : v.events = es) :
    (v.run (r.issued r')).events = es' := by
  rw [PipelineView.run_events, hv, h.2.2.2.1]

theorem Sound.blend_admits {r r' : Renderer} {b b' : Bool} {es es' : List String}
    (h : Sound r r' b es b' es') (v : PipelineView) (hb : v.blend = b) (he : v.events = es) :
    AllAdmit PipelineView.BlendAdmits v (r.issued r') := by
  apply AllAdmit.of_blendOk
  rw [hb, he]
  exact h.2.2.2.2.1

theorem Sound.target_admits {r r' : Renderer} {b b' : Bool} {es es' : List String}
    (h : Sound r r' b es b' es') (hd : r.PoolDistinct) (v : PipelineView) (hc : v.Clean) :
    AllAdmit PipelineView.TargetAdmits v (r.issued r') :=
  AllAdmit.of_targetOk v _ (h.2.2.2.2.2 hd v.target v.textures hc).1

end Renderer

/-- The draws listed by `draws.go` satisfy the target discipline of the sequence. -/
theorem draws_of_targetOk (cs : List Cmd) (tg : Option RenderTargetRef) (tx : List TextureRef)
    (h : targetOk tg tx cs) :
    ∀ d ∈ draws.go tg tx cs, ∀ t, d.target = some (.renderTexture t) →
      TextureRef.renderTexture t ∉ d.textures := by
  induction cs generalizing tg tx with
  | nil => intro d hd; simp [draws.go] at hd
  | cons c cs ih =>
    cases c with
    | DrawIndexed i o vo =>
      intro d hd
      simp only [draws.go, List.mem_cons] at hd
      rcases hd with hd | hd
      · subst hd; exact h.1
      · exact ih _ _ h.2 d hd
    | Draw n =>
      intro d hd
      simp only [draws.go, List.mem_cons] at hd
      rcases hd with hd | hd
      · subst hd; exact h.1
      · exact ih _ _ h.2 d hd
    | SetRenderTarget t ds cl => exact ih _ _ h
    | GBuffer_SetAsRenderTarget => exact ih _ _ h
    | SetTexture t => exact ih _ _ h
    | _ => exact ih _ _ h

/-- C24: if alpha blending is disabled and no event is open when `Render` starts, then on
every path through `Render` blending is disabled (and no event open) when it returns; blending
is enabled only while the outermost open event is that of `Pass_Transparent`, `Pass_Lines`,
`Pass_Gizmos` or `Pass_PerformanceMetrics`, and every draw issued under enabled blending lies
inside one of these four, so the draws of every other pass happen with blending disabled.
Each of the four passes, entered with blending disabled, returns with blending disabled on
every path. -/
theorem Render_blending_discipline (r : Renderer) (v : PipelineView)
    (hb : v.blend = false) (he : v.events = []) :
    (v.run (r.issued r.Render)).blend = false ∧
      (v.run (r.issued r.Render)).events = [] ∧
      AllAdmit PipelineView.BlendAdmits v (r.issued r.Render) ∧
      (∀ pre post, r.issued r.Render = pre ++ Cmd.Set_AlphaBlendingEnabled true :: post →
        insideBlendingPass (v.run pre).events = true) ∧
      (∀ pre c post, r.issued r.Render = pre ++ c :: post → c.isDraw = true →
        (v.run pre).blend = true → insideBlendingPass (v.run pre).events = true) ∧
      (∀ (q : Renderer) (texOut : TexSlot),
        (v.run (q.issued (q.Pass_Transparent texOut))).blend = false ∧
        (v.run (q.issued (q.Pass_Lines texOut))).blend = false ∧
        (v.run (q.issued (q.Pass_Gizmos texOut))).blend = false ∧
        (v.run (q.issued (q.Pass_PerformanceMetrics texOut))).blend = false) := by
  have h := Renderer.sound_Render r
  have ha := h.blend_admits v hb he
  refine ⟨h.blend_after v hb, h.events_after v he, ha, ?_, ?_, ?_⟩
  · intro pre post hsplit
    rw [hsplit] at ha
    exact ha.split.1 rfl
  · intro pre c post hsplit hdraw hblend
    rw [hsplit] at ha
    exact ha.split.2 hdraw hblend
  · intro q texOut
    exact ⟨(Renderer.sound_Pass_Transparent q texOut).blend_after v hb,
      (Renderer.sound_Pass_Lines q texOut).blend_after v hb,
      (Renderer.sound_Pass_Gizmos q texOut).blend_after v hb,
      (Renderer.sound_Pass_PerformanceMetrics q texOut).blend_after v hb⟩

theorem Render_blending_discipline_witness :
    Cmd.Set_AlphaBlendingEnabled true ∈ sampleFrame.issued sampleFrame.Render ∧
      (PipelineView.run ⟨false, [], none, []⟩ (sampleFrame.issued sampleFrame.Render)).blend
        = false :=
  ⟨by decide, (Render_blending_discipline sampleFrame ⟨false, [], none, []⟩ rfl rfl).1⟩

/-- C28: if the nine pooled members designate pairwise distinct render textures when `Render`
starts, they designate pairwise distinct render textures when it returns, the same ones up to
a permutation of the members, and no draw issued during `Render` renders into a render texture
that is among the textures set as its inputs. -/
theorem Render_target_discipline (r : Renderer) (hd : r.PoolDistinct) :
    r.Render.PoolDistinct ∧ r.PoolPerm r.Render ∧
      (∀ d ∈ draws (r.issued r.Render), ∀ t, d.target = some (.renderTexture t) →
        TextureRef.renderTexture t ∉ d.textures) ∧
      (∀ v : PipelineView, v.Clean →
        AllAdmit PipelineView.TargetAdmits v (r.issued r.Render) ∧
        ∀ pre c post, r.issued r.Render = pre ++ c :: post → c.isDraw = true →
          ∀ t, (v.run pre).target = some (.renderTexture t) →
            TextureRef.renderTexture t ∉ (v.run pre).textures) := by
  have h := Renderer.sound_Render r
  refine ⟨h.2.1.distinct hd, h.2.1, ?_, ?_⟩
  · exact draws_of_targetOk _ none []
      (h.2.2.2.2.2 hd none [] (fun t => List.not_mem_nil _)).1
  · intro v hc
    have ha := h.target_admits hd v hc
    refine ⟨ha, ?_⟩
    intro pre c post hsplit hdraw
    rw [hsplit] at ha
    exact ha.split hdraw

theorem sampleFrame_poolDistinct : sampleFrame.PoolDistinct := by
  intro a b h
  cases a <;> cases b <;> first | rfl | exact absurd h (by decide)

theorem Render_target_discipline_witness :
    sampleFrame.Render.PoolDistinct ∧
      (draws (sampleFrame.issued sampleFrame.Render)).length = 13 ∧
      ∀ d ∈ draws (sampleFrame.issued sampleFrame.Render), ∀ t,
        d.target = some (.renderTexture t) → TextureRef.renderTexture t ∉ d.textures :=
  ⟨(Render_target_discipline sampleFrame sampleFrame_poolDistinct).1, by decide,
    (Render_target_discipline sampleFrame sampleFrame_poolDistinct).2.2.1⟩

/-! ## A collected scene always reaches the pass sequence -/

/-- The filter of the passes `Render` calls directly out of the passes a frame enters. -/
theorem frame_calls_filter (b₀ b₁ b₂ b₃ b₄ b₅ b₆ b₇ : Bool) :
    (([.Pass_DepthDirectionalLight, .Pass_GBuffer, .Pass_PreLight]
        ++ (if b₀ then [.Pass_ShadowMapping, .Pass_BlurBilateralGaussian] else [])
        ++ (if b₁ then [.Pass_SSDO, .Pass_BlurBilateralGaussian] else [])
        ++ [.Pass_Light, .Pass_Transparent, .Pass_PostLight]
        ++ (if b₂ then [.Pass_TAA] else [])
        ++ (if b₃ then [.Pass_Bloom, .Pass_BlurGaussian] else [])
        ++ (if b₄ then [.Pass_Correction] else [])
        ++ (if b₅ then [.Pass_FXAA] else [])
        ++ (if b₆ then [.Pass_Sharpening] else [])
        ++ (if b₇ then [.Pass_ChromaticAberration] else [])
        ++ [.Pass_GBufferVisualize, .Pass_Lines, .Pass_Gizmos, .Pass_PerformanceMetrics]
        : List PassName).filter (fun p => decide (p ∈ framePasses))) = framePasses := by
  cases b₀ <;> cases b₁ <;> cases b₂ <;> cases b₃ <;> cases b₄ <;> cases b₅ <;> cases b₆ <;>
    cases b₇ <;> rfl

/-- The two object keys are in the map after `Renderables_Acquire`, whatever the sort does. -/
theorem Renderables_Acquire_keys {stdSort : StdSort} {r r' : Renderer}
    {actorsVec : List (Option Actor)} (h : Renderables_Acquire stdSort r actorsVec = some r') :
    (r'.m_actors.find .Renderable_ObjectOpaque).isSome = true ∧
      (r'.m_actors.find .Renderable_ObjectTransparent).isSome = true := by
  unfold Renderables_Acquire at h
  simp only at h
  cases h1 : Renderables_Sort stdSort
      ((actorsVec.foldl Renderables_Acquire.step (ActorMap.clear, none)).1.at
        .Renderable_ObjectOpaque) with
  | none => simp [h1] at h
  | some l1 =>
    simp only [h1] at h
    cases h2 : Renderables_Sort stdSort
        (((actorsVec.foldl Renderables_Acquire.step (ActorMap.clear, none)).1.insert
          .Renderable_ObjectOpaque l1).at .Renderable_ObjectTransparent) with
    | none => simp [h2] at h
    | some l2 =>
      simp only [h2, Option.some.injEq] at h
      subst h
      exact ⟨rfl, rfl⟩

theorem ActorMap.empty_of_key {m : ActorMap}
    (h : (m.find .Renderable_ObjectOpaque).isSome = true) : m.empty = false := by
  unfold ActorMap.empty
  have k : m.objectOpaque.isSome = true := h
  cases hx : m.objectOpaque with
  | none => rw [hx] at k; exact absurd k (by decide)
  | some l => rfl

/-- C29: after a call of `Renderables_Acquire`, for any snapshot, any previous state and
whatever `std::sort` does, the bucket map holds the keys of the opaque and of the transparent
kind (possibly with empty vectors), so `m_actors.empty()` is false; the call completes whenever
each object bucket collects at most two actors, the empty snapshot included, since `std::sort`
is then not called.  Hence in every state with these buckets, an initialized device and an
active camera, `Render` does not take the exit that clears and presents: it is the branch that
runs the frame bookkeeping and the pass sequence, and it enters the ten passes in the fixed
order. -/
theorem Renderables_Acquire_enables_Render (stdSort : StdSort) (r : Renderer)
    (actorsVec : List (Option Actor)) :
    ((collected actorsVec .Renderable_ObjectOpaque).length ≤ 2 →
      (collected actorsVec .Renderable_ObjectTransparent).length ≤ 2 →
        (Renderables_Acquire stdSort r actorsVec).isSome = true) ∧
      ∀ r', Renderables_Acquire stdSort r actorsVec = some r' →
        (r'.m_actors.find .Renderable_ObjectOpaque).isSome = true ∧
        (r'.m_actors.find .Renderable_ObjectTransparent).isSome = true ∧
        r'.m_actors.empty = false ∧
        ∀ (q : Renderer) (device : RHI_Device) (camera : Camera),
          q.m_actors = r'.m_actors → q.m_rhiDevice = some device →
          device.initialized = true → q.m_camera = some camera →
            q.Render = { Renderer.Render.passes (Renderer.Render.beginFrame q) with
              m_isRendering := false } ∧
            (q.Render.calls.drop q.calls.length).filter (fun p => decide (p ∈ framePasses))
              = framePasses := by
  refine ⟨fun hO hT => Renderables_Acquire_isSome_of_small stdSort r hO hT, ?_⟩
  intro r' h
  obtain ⟨k1, k2⟩ := Renderables_Acquire_keys h
  have hne : r'.m_actors.empty = false := ActorMap.empty_of_key k1
  refine ⟨k1, k2, hne, ?_⟩
  intro q device camera hq hd hi hc
  have he : q.m_actors.empty = false := by rw [hq]; exact hne
  refine ⟨?_, ?_⟩
  · unfold Renderer.Render
    simp only [hd, hi, hc, he, Bool.not_true, Bool.false_eq_true, if_false]
  · rw [(Renderer.frame_Render q device camera hd hi hc he).1, List.drop_left]
    exact frame_calls_filter _ _ _ _ _ _ _ _

theorem Renderables_Acquire_enables_Render_witness :
    (Renderables_Acquire reverseInsertionSort sampleRenderer []).isSome = true ∧
      Renderables_Acquire reverseInsertionSort sampleRenderer sampleCameraOnly
        = some sampleCameraOnlyAcquired ∧
      sampleCameraOnlyAcquired.m_actors.empty = false ∧
      sampleCameraOnlyAcquired.Render
        = { Renderer.Render.passes (Renderer.Render.beginFrame sampleCameraOnlyAcquired) with
            m_isRendering := false } ∧
      sampleCameraOnlyAcquired.Render.calls = framePasses :=
  ⟨(Renderables_Acquire_enables_Render reverseInsertionSort sampleRenderer []).1
      (by decide) (by decide),
    by decide,
    ((Renderables_Acquire_enables_Render reverseInsertionSort sampleRenderer
      sampleCameraOnly).2 sampleCameraOnlyAcquired (by decide)).2.2.1,
    ((((Renderables_Acquire_enables_Render reverseInsertionSort sampleRenderer
      sampleCameraOnly).2 sampleCameraOnlyAcquired (by decide)).2.2.2)
        sampleCameraOnlyAcquired ⟨true⟩ sampleCamera rfl rfl rfl rfl).1,
    by decide⟩

/-! ## A frame that runs the passes neither clears the back buffer nor presents it -/

namespace Renderer

end Renderer

end Directus
